import Mathlib

/-!
Verification of `add_widget_target.py`: a one-shot text patcher that registers
the EhDownloadWidget app-extension target in an Xcode `project.pbxproj` file.

The script reads the file, applies seventeen `str.replace` substitutions in a
fixed order (insertions of new record blocks in front of section-end anchors,
plus whole-block replacements that extend existing records), writes the result
back to the same path, and prints a fixed success message.

The document is modelled as `List Char`; `pyReplace` is Python's
`str.replace` (replace every non-overlapping occurrence, scanning left to
right); the whole transformation is `patch`, a left fold of the seventeen
(old, new) substitution pairs in source order.
-/

set_option maxRecDepth 40000

/-- One pass of Python `str.replace`.  `skip` counts characters that are still
part of an already-matched span and must be dropped without being re-tested. -/
def repAux (old new : List Char) : List Char → Nat → List Char
  | [], _ => []
  | _ :: cs, skip + 1 => repAux old new cs skip
  | c :: cs, 0 =>
    if old.isPrefixOf (c :: cs) then
      new ++ repAux old new cs (old.length - 1)
    else
      c :: repAux old new cs 0

/-- Python `content.replace(old, new)`: every non-overlapping occurrence of
`old`, found scanning left to right, is replaced by `new`. -/
def pyReplace (s old new : List Char) : List Char :=
  repAux old new s 0

/-- Number of positions of `s` at which `pat` starts an occurrence. -/
def countOcc (pat : List Char) : List Char → Nat
  | [] => 0
  | c :: cs => (if pat.isPrefixOf (c :: cs) then 1 else 0) + countOcc pat cs

/-- `pat` occurs somewhere in `s` as a contiguous substring. -/
def Occ (pat s : List Char) : Prop :=
  ∃ a b, s = a ++ pat ++ b

/-- Concatenation of a list of document pieces. -/
def cat : List (List Char) → List Char
  | [] => []
  | p :: ps => p ++ cat ps

/-- `compat u v`: one of the two lists is a prefix of the other, i.e. they can
agree on a common region when laid over the same text. -/
def compat (u v : List Char) : Bool :=
  u.isPrefixOf v || v.isPrefixOf u

/-- `clashAux x o = true` iff some nonempty suffix of `o` is prefix-compatible
with `x`. -/
def clashAux (x : List Char) : List Char → Bool
  | [] => false
  | c :: cs => compat (c :: cs) x || clashAux x cs

/-- `clash x o = false` certifies that no occurrence of `o` in any text can
overlap an occurrence of `x` (they cannot share any character position). -/
def clash (x o : List Char) : Bool :=
  clashAux x o || clashAux o x

/- ## The seventeen substitutions as a fold -/

/-- One substitution step: `content = content.replace(old, new)`. -/
def applyStep (t : List Char) (p : List Char × List Char) : List Char :=
  pyReplace t p.1 p.2

/- ## A surviving pattern after a whole pass -/

/-- `Chainable x L` certifies, pair by pair, that a current surviving pattern
`x` cannot be destroyed by the remaining substitutions: each pair either
cannot overlap any occurrence of the survivor (`clash = false`), or its own
pattern occurs inside its replacement (so if it fires, its pattern becomes the
new survivor). -/
def Chainable (x : List Char) : List (List Char × List Char) → Prop
  | [] => True
  | q :: L =>
      (q.1 ≠ [] ∧ clash x q.1 = false ∧ Chainable x L) ∨
      (q.1 ≠ [] ∧ Occ q.1 q.2 ∧ Chainable x L ∧ Chainable q.1 L)

/- ## Literal text blocks of add_widget_target.py (verbatim) -/

def anchor_build_file : List Char := ("/* End PBXBuildFile section */").data

def anchor_proxy : List Char := ("/* End PBXContainerItemProxy section */").data

def anchor_begin_file_ref : List Char := ("/* Begin PBXFileReference section */").data

def anchor_file_ref : List Char := ("/* End PBXFileReference section */").data

def anchor_sync_group : List Char := ("/* End PBXFileSystemSynchronizedRootGroup section */").data

def anchor_frameworks : List Char := ("/* End PBXFrameworksBuildPhase section */").data

def anchor_native_target : List Char := ("/* End PBXNativeTarget section */").data

def anchor_resources : List Char := ("/* End PBXResourcesBuildPhase section */").data

def anchor_sources : List Char := ("/* End PBXSourcesBuildPhase section */").data

def anchor_dependency : List Char := ("/* End PBXTargetDependency section */").data

def anchor_xcbuild_config : List Char := ("/* End XCBuildConfiguration section */").data

def anchor_config_list : List Char := ("/* End XCConfigurationList section */").data

def build_file_entry : List Char := ("\t\tDC9A300D2F40A10100AABB0D /* EhDownloadWidget.appex in Embed Foundation Extensions */ = \x7bisa = PBXBuildFile; fileRef = DC9A30022F40A10100AABB02 /* EhDownloadWidget.appex */; settings = \x7bATTRIBUTES = (RemoveHeadersOnCopy, ); \x7d; \x7d;\n").data

def proxy_entry_p1 : List Char := ("\t\tDC9A30082F40A10100AABB08 /* PBXContainerItemProxy */ = \x7b\n").data

def proxy_entry_p2 : List Char := ("\t\t\tisa = PBXContainerItemProxy;\n\t\t\tcontainerPortal = DC4A07602F3DA21800717C38 /* Project object */;\n\t\t\tproxyType = 1;\n\t\t\tremoteGlobalIDString = DC9A30012F40A10100AABB01;\n\t\t\tremoteInfo = EhDownloadWidget;\n\t\t\x7d;\n").data

def proxy_entry : List Char := proxy_entry_p1 ++ proxy_entry_p2

def copy_phase_p1 : List Char := ("/* Begin PBXCopyFilesBuildPhase section */\n").data

def copy_phase_p2 : List Char := ("\t\tDC9A30072F40A10100AABB07 /* Embed Foundation Extensions */ = \x7b\n\t\t\tisa = PBXCopyFilesBuildPhase;\n\t\t\tbuildActionMask = 2147483647;\n\t\t\tdstPath = \"\";\n\t\t\tdstSubfolderSpec = 13;\n\t\t\tfiles = (\n\t\t\t\tDC9A300D2F40A10100AABB0D /* EhDownloadWidget.appex in Embed Foundation Extensions */,\n\t\t\t);\n\t\t\tname = \"Embed Foundation Extensions\";\n").data

def copy_phase_p3 : List Char := ("\t\t\trunOnlyForDeploymentPostprocessing = 0;\n\t\t\x7d;\n/* End PBXCopyFilesBuildPhase section */\n\n").data

def copy_phase : List Char := copy_phase_p1 ++ copy_phase_p2 ++ copy_phase_p3

def file_ref : List Char := ("\t\tDC9A30022F40A10100AABB02 /* EhDownloadWidget.appex */ = \x7bisa = PBXFileReference; explicitFileType = \"wrapper.app-extension\"; includeInIndex = 0; path = EhDownloadWidget.appex; sourceTree = BUILT_PRODUCTS_DIR; \x7d;\n").data

def sync_group_p1 : List Char := ("\t\tDC9A30032F40A10100AABB03 /* EhDownloadWidget */ = \x7b\n").data

def sync_group_p2 : List Char := ("\t\t\tisa = PBXFileSystemSynchronizedRootGroup;\n\t\t\texceptions = (\n\t\t\t);\n\t\t\tpath = EhDownloadWidget;\n\t\t\tsourceTree = \"<group>\";\n\t\t\x7d;\n").data

def sync_group : List Char := sync_group_p1 ++ sync_group_p2

def fw_phase_p1 : List Char := ("\t\tDC9A30042F40A10100AABB04 /* Frameworks */ = \x7b\n").data

def fw_phase_p2 : List Char := ("\t\t\tisa = PBXFrameworksBuildPhase;\n\t\t\tbuildActionMask = 2147483647;\n\t\t\tfiles = (\n\t\t\t);\n\t\t\trunOnlyForDeploymentPostprocessing = 0;\n\t\t\x7d;\n").data

def fw_phase : List Char := fw_phase_p1 ++ fw_phase_p2

def old_products : List Char := ("\t\tDC4A07692F3DA21800717C38 /* Products */ = \x7b\n\t\t\tisa = PBXGroup;\n\t\t\tchildren = (\n\t\t\t\tDC4A07682F3DA21800717C38 /* ehviewer apple.app */,\n\t\t\t\tDC4A07792F3DA21800717C38 /* ehviewer appleTests.xctest */,\n\t\t\t\tDC4A07832F3DA21800717C38 /* ehviewer appleUITests.xctest */,\n\t\t\t);").data

def new_products_p1 : List Char := ("\t\tDC4A07692F3DA21800717C38 /* Products */ = \x7b\n").data

def new_products_p2 : List Char := ("\t\t\tisa = PBXGroup;\n\t\t\tchildren = (\n\t\t\t\tDC4A07682F3DA21800717C38 /* ehviewer apple.app */,\n\t\t\t\tDC4A07792F3DA21800717C38 /* ehviewer appleTests.xctest */,\n\t\t\t\tDC4A07832F3DA21800717C38 /* ehviewer appleUITests.xctest */,\n\t\t\t\tDC9A30022F40A10100AABB02 /* EhDownloadWidget.appex */,\n\t\t\t);").data

def new_products : List Char := new_products_p1 ++ new_products_p2

def old_root : List Char := ("\t\tDC4A075F2F3DA21800717C38 = \x7b\n\t\t\tisa = PBXGroup;\n\t\t\tchildren = (\n\t\t\t\tDC4A076A2F3DA21800717C38 /* ehviewer apple */,\n\t\t\t\tDC4A07862F3DA21800717C38 /* ehviewer appleUITests */,\n\t\t\t\tDC4A07692F3DA21800717C38 /* Products */,\n\t\t\t);").data

def new_root_p1 : List Char := ("\t\tDC4A075F2F3DA21800717C38 = \x7b\n").data

def new_root_p2 : List Char := ("\t\t\tisa = PBXGroup;\n\t\t\tchildren = (\n\t\t\t\tDC4A076A2F3DA21800717C38 /* ehviewer apple */,\n\t\t\t\tDC9A30032F40A10100AABB03 /* EhDownloadWidget */,\n\t\t\t\tDC4A07862F3DA21800717C38 /* ehviewer appleUITests */,\n\t\t\t\tDC4A07692F3DA21800717C38 /* Products */,\n\t\t\t);").data

def new_root : List Char := new_root_p1 ++ new_root_p2

def native_target_p1 : List Char := ("\t\tDC9A30012F40A10100AABB01 /* EhDownloadWidget */ = \x7b\n").data

def native_target_p2 : List Char := ("\t\t\tisa = PBXNativeTarget;\n\t\t\tbuildConfigurationList = DC9A300C2F40A10100AABB0C /* Build configuration list for PBXNativeTarget \"EhDownloadWidget\" */;\n\t\t\tbuildPhases = (\n\t\t\t\tDC9A30052F40A10100AABB05 /* Sources */,\n\t\t\t\tDC9A30042F40A10100AABB04 /* Frameworks */,\n\t\t\t\tDC9A30062F40A10100AABB06 /* Resources */,\n\t\t\t);\n\t\t\tbuildRules = (\n").data

def native_target_p3 : List Char := ("\t\t\t);\n\t\t\tdependencies = (\n\t\t\t);\n\t\t\tfileSystemSynchronizedGroups = (\n\t\t\t\tDC9A30032F40A10100AABB03 /* EhDownloadWidget */,\n\t\t\t);\n\t\t\tname = EhDownloadWidget;\n\t\t\tpackageProductDependencies = (\n\t\t\t);\n\t\t\tproductName = EhDownloadWidget;\n\t\t\tproductReference = DC9A30022F40A10100AABB02 /* EhDownloadWidget.appex */;\n").data

def native_target_p4 : List Char := ("\t\t\tproductType = \"com.apple.product-type.app-extension\";\n\t\t\x7d;\n").data

def native_target : List Char := native_target_p1 ++ native_target_p2 ++ native_target_p3 ++ native_target_p4

def targets_old : List Char := ("\t\t\ttargets = (\n\t\t\t\tDC4A07672F3DA21800717C38 /* ehviewer apple */,\n\t\t\t\tDC4A07782F3DA21800717C38 /* ehviewer appleTests */,\n\t\t\t\tDC4A07822F3DA21800717C38 /* ehviewer appleUITests */,\n\t\t\t);").data

def targets_new_p1 : List Char := ("\t\t\ttargets = (\n").data

def targets_new_p2 : List Char := ("\t\t\t\tDC4A07672F3DA21800717C38 /* ehviewer apple */,\n\t\t\t\tDC4A07782F3DA21800717C38 /* ehviewer appleTests */,\n\t\t\t\tDC4A07822F3DA21800717C38 /* ehviewer appleUITests */,\n\t\t\t\tDC9A30012F40A10100AABB01 /* EhDownloadWidget */,\n\t\t\t);").data

def targets_new : List Char := targets_new_p1 ++ targets_new_p2

def attrs_old : List Char := ("\t\t\t\t\tDC4A07672F3DA21800717C38 = \x7b\n\t\t\t\t\t\tCreatedOnToolsVersion = 26.2;\n\t\t\t\t\t\x7d;").data

def attrs_new_p1 : List Char := ("\t\t\t\t\tDC4A07672F3DA21800717C38 = \x7b\n").data

def attrs_new_p2 : List Char := ("\t\t\t\t\t\tCreatedOnToolsVersion = 26.2;\n\t\t\t\t\t\x7d;\n\t\t\t\t\tDC9A30012F40A10100AABB01 = \x7b\n\t\t\t\t\t\tCreatedOnToolsVersion = 26.2;\n\t\t\t\t\t\x7d;").data

def attrs_new : List Char := attrs_new_p1 ++ attrs_new_p2

def old_app_phases_p1 : List Char := ("\t\tDC4A07672F3DA21800717C38 /* ehviewer apple */ = \x7b\n\t\t\tisa = PBXNativeTarget;\n\t\t\tbuildConfigurationList = DC4A078C2F3DA21800717C38 /* Build configuration list for PBXNativeTarget \"ehviewer apple\" */;\n\t\t\tbuildPhases = (\n\t\t\t\tDC4A07642F3DA21800717C38 /* Sources */,\n\t\t\t\tDC4A07652F3DA21800717C38 /* Frameworks */,\n").data

def old_app_phases_p2 : List Char := ("\t\t\t\tDC4A07662F3DA21800717C38 /* Resources */,\n\t\t\t);\n\t\t\tbuildRules = (\n\t\t\t);\n\t\t\tdependencies = (\n\t\t\t);").data

def old_app_phases : List Char := old_app_phases_p1 ++ old_app_phases_p2

def new_app_phases_p1 : List Char := ("\t\tDC4A07672F3DA21800717C38 /* ehviewer apple */ = \x7b\n").data

def new_app_phases_p2 : List Char := ("\t\t\tisa = PBXNativeTarget;\n\t\t\tbuildConfigurationList = DC4A078C2F3DA21800717C38 /* Build configuration list for PBXNativeTarget \"ehviewer apple\" */;\n\t\t\tbuildPhases = (\n\t\t\t\tDC4A07642F3DA21800717C38 /* Sources */,\n\t\t\t\tDC4A07652F3DA21800717C38 /* Frameworks */,\n\t\t\t\tDC4A07662F3DA21800717C38 /* Resources */,\n").data

def new_app_phases_p3 : List Char := ("\t\t\t\tDC9A30072F40A10100AABB07 /* Embed Foundation Extensions */,\n\t\t\t);\n\t\t\tbuildRules = (\n\t\t\t);\n\t\t\tdependencies = (\n\t\t\t\tDC9A30092F40A10100AABB09 /* PBXTargetDependency */,\n\t\t\t);").data

def new_app_phases : List Char := new_app_phases_p1 ++ new_app_phases_p2 ++ new_app_phases_p3

def res_phase_p1 : List Char := ("\t\tDC9A30062F40A10100AABB06 /* Resources */ = \x7b\n").data

def res_phase_p2 : List Char := ("\t\t\tisa = PBXResourcesBuildPhase;\n\t\t\tbuildActionMask = 2147483647;\n\t\t\tfiles = (\n\t\t\t);\n\t\t\trunOnlyForDeploymentPostprocessing = 0;\n\t\t\x7d;\n").data

def res_phase : List Char := res_phase_p1 ++ res_phase_p2

def src_phase_p1 : List Char := ("\t\tDC9A30052F40A10100AABB05 /* Sources */ = \x7b\n").data

def src_phase_p2 : List Char := ("\t\t\tisa = PBXSourcesBuildPhase;\n\t\t\tbuildActionMask = 2147483647;\n\t\t\tfiles = (\n\t\t\t);\n\t\t\trunOnlyForDeploymentPostprocessing = 0;\n\t\t\x7d;\n").data

def src_phase : List Char := src_phase_p1 ++ src_phase_p2

def dep_entry_p1 : List Char := ("\t\tDC9A30092F40A10100AABB09 /* PBXTargetDependency */ = \x7b\n").data

def dep_entry_p2 : List Char := ("\t\t\tisa = PBXTargetDependency;\n\t\t\ttarget = DC9A30012F40A10100AABB01 /* EhDownloadWidget */;\n\t\t\ttargetProxy = DC9A30082F40A10100AABB08 /* PBXContainerItemProxy */;\n\t\t\x7d;\n").data

def dep_entry : List Char := dep_entry_p1 ++ dep_entry_p2

def cfg_debug_p1 : List Char := ("\t\tDC9A300A2F40A10100AABB0A /* Debug */ = \x7b\n").data

def cfg_debug_p2 : List Char := ("\t\t\tisa = XCBuildConfiguration;\n\t\t\tbuildSettings = \x7b\n\t\t\t\tASSTCALOG_COMPILER_GLOBAL_ACCENT_COLOR_NAME = AccentColor;\n\t\t\t\tCODE_SIGN_STYLE = Automatic;\n\t\t\t\tCURRENT_PROJECT_VERSION = 1;\n\t\t\t\tDEVELOPMENT_TEAM = HWZEUNLCY6;\n\t\t\t\tGENERATE_INFOPLIST_FILE = YES;\n\t\t\t\tINFOPLIST_FILE = EhDownloadWidget/Info.plist;\n").data

def cfg_debug_p3 : List Char := ("\t\t\t\tINFOPLIST_KEY_CFBundleDisplayName = EhDownloadWidget;\n\t\t\t\tINFOPLIST_KEY_NSHumanReadableCopyright = \"\";\n\t\t\t\tIPHONEOS_DEPLOYMENT_TARGET = 18.0;\n\t\t\t\tLD_RUNPATH_SEARCH_PATHS = (\n\t\t\t\t\t\"$(inherited)\",\n\t\t\t\t\t\"@executable_path/Frameworks\",\n\t\t\t\t\t\"@executable_path/../../Frameworks\",\n\t\t\t\t);\n\t\t\t\tMARKETING_VERSION = 1.2.0;\n").data

def cfg_debug_p4 : List Char := ("\t\t\t\tPRODUCT_BUNDLE_IDENTIFIER = \"Stellatrix.ehviewer-apple.EhDownloadWidget\";\n\t\t\t\tPRODUCT_NAME = \"$(TARGET_NAME)\";\n\t\t\t\tSDKROOT = iphoneos;\n\t\t\t\tSKIP_INSTALL = YES;\n\t\t\t\tSTRING_CATALOG_GENERATE_SYMBOLS = YES;\n\t\t\t\tSUPPORTED_PLATFORMS = \"iphoneos iphonesimulator\";\n\t\t\t\tSWIFT_APPROACHABLE_CONCURRENCY = YES;\n").data

def cfg_debug_p5 : List Char := ("\t\t\t\tSWIFT_EMIT_LOC_STRINGS = YES;\n\t\t\t\tSWIFT_VERSION = 5.0;\n\t\t\t\tTARGETED_DEVICE_FAMILY = \"1,2\";\n\t\t\t\x7d;\n\t\t\tname = Debug;\n\t\t\x7d;\n").data

def cfg_debug : List Char := cfg_debug_p1 ++ cfg_debug_p2 ++ cfg_debug_p3 ++ cfg_debug_p4 ++ cfg_debug_p5

def cfg_release_p1 : List Char := ("\t\tDC9A300B2F40A10100AABB0B /* Release */ = \x7b\n").data

def cfg_release_p2 : List Char := ("\t\t\tisa = XCBuildConfiguration;\n\t\t\tbuildSettings = \x7b\n\t\t\t\tASSTCALOG_COMPILER_GLOBAL_ACCENT_COLOR_NAME = AccentColor;\n\t\t\t\tCODE_SIGN_STYLE = Automatic;\n\t\t\t\tCURRENT_PROJECT_VERSION = 1;\n\t\t\t\tDEVELOPMENT_TEAM = HWZEUNLCY6;\n\t\t\t\tGENERATE_INFOPLIST_FILE = YES;\n\t\t\t\tINFOPLIST_FILE = EhDownloadWidget/Info.plist;\n").data

def cfg_release_p3 : List Char := ("\t\t\t\tINFOPLIST_KEY_CFBundleDisplayName = EhDownloadWidget;\n\t\t\t\tINFOPLIST_KEY_NSHumanReadableCopyright = \"\";\n\t\t\t\tIPHONEOS_DEPLOYMENT_TARGET = 18.0;\n\t\t\t\tLD_RUNPATH_SEARCH_PATHS = (\n\t\t\t\t\t\"$(inherited)\",\n\t\t\t\t\t\"@executable_path/Frameworks\",\n\t\t\t\t\t\"@executable_path/../../Frameworks\",\n\t\t\t\t);\n\t\t\t\tMARKETING_VERSION = 1.2.0;\n").data

def cfg_release_p4 : List Char := ("\t\t\t\tPRODUCT_BUNDLE_IDENTIFIER = \"Stellatrix.ehviewer-apple.EhDownloadWidget\";\n\t\t\t\tPRODUCT_NAME = \"$(TARGET_NAME)\";\n\t\t\t\tSDKROOT = iphoneos;\n\t\t\t\tSKIP_INSTALL = YES;\n\t\t\t\tSTRING_CATALOG_GENERATE_SYMBOLS = YES;\n\t\t\t\tSUPPORTED_PLATFORMS = \"iphoneos iphonesimulator\";\n\t\t\t\tSWIFT_APPROACHABLE_CONCURRENCY = YES;\n").data

def cfg_release_p5 : List Char := ("\t\t\t\tSWIFT_EMIT_LOC_STRINGS = YES;\n\t\t\t\tSWIFT_VERSION = 5.0;\n\t\t\t\tTARGETED_DEVICE_FAMILY = \"1,2\";\n\t\t\t\x7d;\n\t\t\tname = Release;\n\t\t\x7d;\n").data

def cfg_release : List Char := cfg_release_p1 ++ cfg_release_p2 ++ cfg_release_p3 ++ cfg_release_p4 ++ cfg_release_p5

def cfg_list_p1 : List Char := ("\t\tDC9A300C2F40A10100AABB0C /* Build configuration list for PBXNativeTarget \"EhDownloadWidget\" */ = \x7b\n").data

def cfg_list_p2 : List Char := ("\t\t\tisa = XCConfigurationList;\n\t\t\tbuildConfigurations = (\n\t\t\t\tDC9A300A2F40A10100AABB0A /* Debug */,\n\t\t\t\tDC9A300B2F40A10100AABB0B /* Release */,\n\t\t\t);\n\t\t\tdefaultConfigurationIsVisible = 0;\n\t\t\tdefaultConfigurationName = Release;\n\t\t\x7d;\n").data

def cfg_list : List Char := cfg_list_p1 ++ cfg_list_p2

/- ## Fixture chunks (inert filler around the anchors) -/

def chunkA : List Char := ("// minimal project fixture\n\n/* Begin PBXBuildFile section */\n").data

def chunkB : List Char := ("\n\n/* Begin PBXContainerItemProxy section */\n").data

def chunkC : List Char := ("\n\n").data

def chunkD : List Char := ("\n").data

def chunkE : List Char := ("\n\n/* Begin PBXFileSystemSynchronizedRootGroup section */\n").data

def chunkF : List Char := ("\n\n/* Begin PBXFrameworksBuildPhase section */\n").data

def chunkG : List Char := ("\n\n/* Begin PBXGroup section */\n").data

def chunkH : List Char := ("\n").data

def chunkI : List Char := ("\n/* End PBXGroup section */\n\n/* Begin PBXNativeTarget section */\n").data

def chunkJ : List Char := ("\n\t\t\x7d;\n").data

def chunkK : List Char := ("\n\n/* Begin PBXProject section */\n").data

def chunkL : List Char := ("\n").data

def chunkM : List Char := ("\n/* End PBXProject section */\n\n/* Begin PBXResourcesBuildPhase section */\n").data

def chunkN : List Char := ("\n\n/* Begin PBXSourcesBuildPhase section */\n").data

def chunkO : List Char := ("\n\n/* Begin PBXTargetDependency section */\n").data

def chunkP : List Char := ("\n\n/* Begin XCBuildConfiguration section */\n").data

def chunkQ : List Char := ("\n\n/* Begin XCConfigurationList section */\n").data

def chunkR : List Char := ("\n").data

def chunkS : List Char := ("\n\n").data

/-- The seventeen (old, new) substitution pairs, in source order. -/
def steps : List (List Char × List Char) := [
  (anchor_build_file, build_file_entry ++ anchor_build_file),
  (anchor_proxy, proxy_entry ++ anchor_proxy),
  (anchor_begin_file_ref, copy_phase ++ anchor_begin_file_ref),
  (anchor_file_ref, file_ref ++ anchor_file_ref),
  (anchor_sync_group, sync_group ++ anchor_sync_group),
  (anchor_frameworks, fw_phase ++ anchor_frameworks),
  (old_products, new_products),
  (old_root, new_root),
  (anchor_native_target, native_target ++ anchor_native_target),
  (targets_old, targets_new),
  (attrs_old, attrs_new),
  (old_app_phases, new_app_phases),
  (anchor_resources, res_phase ++ anchor_resources),
  (anchor_sources, src_phase ++ anchor_sources),
  (anchor_dependency, dep_entry ++ anchor_dependency),
  (anchor_xcbuild_config, cfg_debug ++ cfg_release ++ anchor_xcbuild_config),
  (anchor_config_list, cfg_list ++ anchor_config_list)]

/-- The whole transformation applied by the script to the file text. -/
def patch (t : List Char) : List Char := steps.foldl applyStep t

/-- Minimal well-formed fixture: every anchor and every old block exactly once. -/
def fixture : List Char := cat [chunkA, anchor_build_file, chunkB, anchor_proxy, chunkC, anchor_begin_file_ref, chunkD, anchor_file_ref, chunkE, anchor_sync_group, chunkF, anchor_frameworks, chunkG, old_products, chunkH, old_root, chunkI, old_app_phases_p1, old_app_phases_p2, chunkJ, anchor_native_target, chunkK, attrs_old, chunkL, targets_old, chunkM, anchor_resources, chunkN, anchor_sources, chunkO, anchor_dependency, chunkP, anchor_xcbuild_config, chunkQ, anchor_config_list, chunkR]

/-- The same fixture with a pre-existing verbatim copy of the build-file entry. -/
def fixtureC : List Char := cat [build_file_entry, chunkS, chunkA, anchor_build_file, chunkB, anchor_proxy, chunkC, anchor_begin_file_ref, chunkD, anchor_file_ref, chunkE, anchor_sync_group, chunkF, anchor_frameworks, chunkG, old_products, chunkH, old_root, chunkI, old_app_phases_p1, old_app_phases_p2, chunkJ, anchor_native_target, chunkK, attrs_old, chunkL, targets_old, chunkM, anchor_resources, chunkN, anchor_sources, chunkO, anchor_dependency, chunkP, anchor_xcbuild_config, chunkQ, anchor_config_list, chunkR]

/- ## Fixture pieces grouped into counting segments -/

def seg1 : List Char := chunkA ++ anchor_build_file ++ chunkB ++ anchor_proxy ++ chunkC ++ anchor_begin_file_ref ++ chunkD ++ anchor_file_ref ++ chunkE ++ anchor_sync_group ++ chunkF ++ anchor_frameworks ++ chunkG

def seg2 : List Char := old_products ++ chunkH ++ old_root

def seg3 : List Char := chunkI ++ old_app_phases_p1 ++ old_app_phases_p2 ++ chunkJ

def seg4 : List Char := anchor_native_target ++ chunkK ++ attrs_old ++ chunkL ++ targets_old ++ chunkM ++ anchor_resources ++ chunkN

def seg5 : List Char := anchor_sources ++ chunkO ++ anchor_dependency ++ chunkP ++ anchor_xcbuild_config ++ chunkQ ++ anchor_config_list ++ chunkR

def seg6 : List Char := chunkA ++ build_file_entry ++ anchor_build_file ++ chunkB ++ anchor_proxy ++ chunkC ++ anchor_begin_file_ref ++ chunkD ++ anchor_file_ref

def seg7 : List Char := chunkE ++ anchor_sync_group ++ chunkF ++ anchor_frameworks ++ chunkG ++ old_products ++ chunkH

def seg8 : List Char := old_root ++ chunkI

def seg9 : List Char := old_app_phases_p1 ++ old_app_phases_p2 ++ chunkJ ++ anchor_native_target ++ chunkK

def seg10 : List Char := attrs_old ++ chunkL ++ targets_old ++ chunkM ++ anchor_resources ++ chunkN ++ anchor_sources ++ chunkO

def seg11 : List Char := anchor_dependency ++ chunkP ++ anchor_xcbuild_config ++ chunkQ ++ anchor_config_list ++ chunkR

def seg12 : List Char := chunkA ++ build_file_entry ++ anchor_build_file ++ chunkB ++ proxy_entry_p1

def seg13 : List Char := proxy_entry_p2 ++ anchor_proxy ++ chunkC ++ anchor_begin_file_ref ++ chunkD ++ anchor_file_ref ++ chunkE ++ anchor_sync_group ++ chunkF

def seg14 : List Char := anchor_frameworks ++ chunkG ++ old_products ++ chunkH

def seg15 : List Char := proxy_entry_p2 ++ anchor_proxy ++ chunkC ++ copy_phase_p1

def seg16 : List Char := copy_phase_p2 ++ copy_phase_p3 ++ anchor_begin_file_ref ++ chunkD ++ anchor_file_ref

def seg17 : List Char := copy_phase_p2 ++ copy_phase_p3 ++ anchor_begin_file_ref ++ chunkD

def seg18 : List Char := file_ref ++ anchor_file_ref ++ chunkE ++ anchor_sync_group ++ chunkF ++ anchor_frameworks ++ chunkG

def seg19 : List Char := file_ref ++ anchor_file_ref ++ chunkE ++ sync_group_p1 ++ sync_group_p2

def seg20 : List Char := anchor_sync_group ++ chunkF ++ anchor_frameworks ++ chunkG ++ old_products ++ chunkH

def seg21 : List Char := anchor_sync_group ++ chunkF ++ fw_phase_p1 ++ fw_phase_p2 ++ anchor_frameworks ++ chunkG

def seg22 : List Char := anchor_sync_group ++ chunkF ++ fw_phase_p1 ++ fw_phase_p2 ++ anchor_frameworks ++ chunkG ++ new_products_p1

def seg23 : List Char := new_products_p2 ++ chunkH

def seg24 : List Char := new_products_p2 ++ chunkH ++ new_root_p1

def seg25 : List Char := new_root_p2 ++ chunkI

def seg26 : List Char := old_app_phases_p1 ++ old_app_phases_p2 ++ chunkJ ++ native_target_p1

def seg27 : List Char := native_target_p3 ++ native_target_p4 ++ anchor_native_target ++ chunkK

def seg28 : List Char := attrs_old ++ chunkL ++ targets_new_p1 ++ targets_new_p2 ++ chunkM ++ anchor_resources ++ chunkN

def seg29 : List Char := native_target_p3 ++ native_target_p4 ++ anchor_native_target ++ chunkK ++ attrs_new_p1

def seg30 : List Char := attrs_new_p2 ++ chunkL ++ targets_new_p1 ++ targets_new_p2 ++ chunkM ++ anchor_resources

def seg31 : List Char := chunkN ++ anchor_sources ++ chunkO ++ anchor_dependency ++ chunkP ++ anchor_xcbuild_config ++ chunkQ ++ anchor_config_list ++ chunkR

def seg32 : List Char := new_root_p2 ++ chunkI ++ new_app_phases_p1

def seg33 : List Char := new_app_phases_p2 ++ new_app_phases_p3 ++ chunkJ

def seg34 : List Char := native_target_p1 ++ native_target_p2

def seg35 : List Char := attrs_new_p2 ++ chunkL ++ targets_new_p1 ++ targets_new_p2 ++ chunkM ++ res_phase_p1

def seg36 : List Char := res_phase_p2 ++ anchor_resources ++ chunkN ++ anchor_sources ++ chunkO ++ anchor_dependency ++ chunkP ++ anchor_xcbuild_config ++ chunkQ ++ anchor_config_list ++ chunkR

def seg37 : List Char := res_phase_p2 ++ anchor_resources ++ chunkN ++ src_phase_p1 ++ src_phase_p2 ++ anchor_sources ++ chunkO

def seg38 : List Char := dep_entry_p1 ++ dep_entry_p2 ++ anchor_dependency ++ chunkP ++ anchor_xcbuild_config ++ chunkQ ++ anchor_config_list ++ chunkR

def seg39 : List Char := dep_entry_p1 ++ dep_entry_p2 ++ anchor_dependency ++ chunkP ++ cfg_debug_p1

def seg40 : List Char := cfg_debug_p4 ++ cfg_debug_p5 ++ cfg_release_p1

def seg41 : List Char := cfg_release_p4 ++ cfg_release_p5 ++ anchor_xcbuild_config

def seg42 : List Char := chunkQ ++ anchor_config_list ++ chunkR

def seg43 : List Char := chunkQ ++ cfg_list_p1 ++ cfg_list_p2 ++ anchor_config_list ++ chunkR


/- ## Model of the script's input/output behaviour -/

/-- Default value of `PBXPROJ_PATH` when no command-line argument is given. -/
def defaultPath : String := "ehviewer apple.xcodeproj/project.pbxproj"

/-- `sys.argv[1] if len(sys.argv) > 1 else default` — `args` are the
command-line arguments after the program name. -/
def pbxprojPath (args : List String) : String :=
  match args with
  | [] => defaultPath
  | p :: _ => p

/-- The fixed message printed after writing (the source file literally contains
these three characters before the text, a mojibake of a check-mark emoji). -/
def successMessage : String :=
  "âœ… Successfully added EhDownloadWidget extension target to project.pbxproj"

/-- One whole run of the script.  `fs` maps paths to file contents.  The file
at the chosen path is read; on failure the exception propagates and nothing is
written (`none`).  Otherwise the patched text is written back to the very same
path and the fixed message is printed: `some (path written, text written,
message printed)`. -/
def runScript (args : List String) (fs : String → Option (List Char)) :
    Option (String × List Char × String) :=
  match fs (pbxprojPath args) with
  | none => none
  | some content => some (pbxprojPath args, patch content, successMessage)

/-- Split a text into its lines (separators removed). -/
def splitLines : List Char → List (List Char)
  | [] => [[]]
  | c :: cs =>
    match splitLines cs with
    | [] => [[c]]
    | l :: ls => if c = '\n' then [] :: l :: ls else (c :: l) :: ls

/-- The single line that the Products-group replacement adds to the children
list (the EhDownloadWidget.appex child reference). -/
def appex_child_line : List Char :=
  ("\t\t\t\tDC9A30022F40A10100AABB02 /* EhDownloadWidget.appex */,").data

/-- The thirteen block texts inserted by the anchor-insertion steps. -/
def insertedBlocks : List (List Char) :=
  [build_file_entry, proxy_entry, copy_phase, file_ref, sync_group, fw_phase,
   native_target, res_phase, src_phase, dep_entry, cfg_debug, cfg_release,
   cfg_list]
/-- The new target's name, as it appears in the registration entries. -/
def widget_name : List Char := ("EhDownloadWidget").data

/- ## Basic bridging lemmas -/

theorem pfx_iff (p s : List Char) : p.isPrefixOf s = true ↔ ∃ r, p ++ r = s := by
  rw [List.isPrefixOf_iff_prefix]
  rfl

theorem pfx_length_le {p s : List Char} (h : p.isPrefixOf s = true) :
    p.length ≤ s.length := by
  rcases (pfx_iff p s).mp h with ⟨r, hr⟩
  subst hr
  simp

theorem pfx_self_append (p r : List Char) : p.isPrefixOf (p ++ r) = true := by
  exact (pfx_iff p (p ++ r)).mpr ⟨r, rfl⟩

theorem pfx_fork {p u v : List Char} (h : p.isPrefixOf (u ++ v) = true) :
    p.isPrefixOf u = true ∨ u.isPrefixOf p = true := by
  rcases (pfx_iff p (u ++ v)).mp h with ⟨r, hr⟩
  rcases (List.append_eq_append_iff.mp hr) with ⟨w, hw, _⟩ | ⟨w, hw, _⟩
  · exact Or.inl ((pfx_iff p u).mpr ⟨w, hw.symm⟩)
  · exact Or.inr ((pfx_iff u p).mpr ⟨w, hw.symm⟩)

theorem pfx_congr {p s t : List Char}
    (h : s.take p.length = t.take p.length) :
    p.isPrefixOf s = p.isPrefixOf t := by
  induction p generalizing s t with
  | nil => cases s <;> cases t <;> rfl
  | cons a as ih =>
    cases s with
    | nil =>
      cases t with
      | nil => rfl
      | cons b ts => simp [List.take_succ_cons] at h
    | cons c ss =>
      cases t with
      | nil => simp [List.take_succ_cons] at h
      | cons b ts =>
        simp only [List.length_cons, List.take_succ_cons, List.cons.injEq] at h
        simp only [List.isPrefixOf]
        rw [h.1, ih h.2]

/- ## countOcc facts -/

theorem countOcc_nil (pat : List Char) : countOcc pat [] = 0 := rfl

theorem countOcc_cons (pat : List Char) (c : Char) (cs : List Char) :
    countOcc pat (c :: cs) =
      (if pat.isPrefixOf (c :: cs) then 1 else 0) + countOcc pat cs := rfl

theorem countOcc_short {pat s : List Char} (h : s.length < pat.length) :
    countOcc pat s = 0 := by
  induction s with
  | nil => rfl
  | cons c cs ih =>
    rw [countOcc_cons]
    have hnp : pat.isPrefixOf (c :: cs) = false := by
      cases hp : pat.isPrefixOf (c :: cs) with
      | false => rfl
      | true =>
        have := pfx_length_le hp
        omega
    rw [hnp]
    have : cs.length < pat.length := by
      simp only [List.length_cons] at h
      omega
    simp [ih this]

theorem occ_of_countOcc_ne_zero {pat s : List Char}
    (h : countOcc pat s ≠ 0) : Occ pat s := by
  induction s with
  | nil => exact absurd rfl h
  | cons c cs ih =>
    rw [countOcc_cons] at h
    by_cases hp : pat.isPrefixOf (c :: cs) = true
    · rcases (pfx_iff pat (c :: cs)).mp hp with ⟨r, hr⟩
      exact ⟨[], r, by simp [hr]⟩
    · have : countOcc pat cs ≠ 0 := by
        simp only [Bool.not_eq_true] at hp
        simpa [hp] using h
      rcases ih this with ⟨a, b, hab⟩
      exact ⟨c :: a, b, by simp [hab]⟩

theorem countOcc_ne_zero_of_occ {pat s : List Char}
    (hp : pat ≠ []) (h : Occ pat s) : countOcc pat s ≠ 0 := by
  rcases h with ⟨a, b, hab⟩
  subst hab
  induction a with
  | nil =>
    cases pat with
    | nil => exact absurd rfl hp
    | cons c cs =>
      rw [List.nil_append, List.cons_append, countOcc_cons]
      rw [← List.cons_append]
      rw [pfx_self_append (c :: cs) b]
      simp
  | cons c a' ih =>
    simp only [List.cons_append, List.append_assoc] at ih ⊢
    rw [countOcc_cons]
    intro hz
    exact ih (Nat.add_eq_zero.mp hz).2

theorem occ_iff_countOcc {pat s : List Char} (hp : pat ≠ []) :
    Occ pat s ↔ countOcc pat s ≠ 0 :=
  ⟨countOcc_ne_zero_of_occ hp, occ_of_countOcc_ne_zero⟩

/- ## Occ structural lemmas -/

theorem occ_append_left {p u : List Char} (v : List Char) (h : Occ p u) :
    Occ p (u ++ v) := by
  rcases h with ⟨a, b, hab⟩
  exact ⟨a, b ++ v, by simp [hab]⟩

theorem occ_append_right (u : List Char) {p v : List Char} (h : Occ p v) :
    Occ p (u ++ v) := by
  rcases h with ⟨a, b, hab⟩
  exact ⟨u ++ a, b, by simp [hab]⟩

theorem occ_cons_tail {p cs : List Char} (c : Char) (h : Occ p cs) :
    Occ p (c :: cs) := by
  rcases h with ⟨a, b, hab⟩
  exact ⟨c :: a, b, by simp [hab]⟩

theorem occ_head (p s : List Char) (hp : p.isPrefixOf s = true) : Occ p s := by
  rcases (pfx_iff p s).mp hp with ⟨r, hr⟩
  exact ⟨[], r, by simp [hr.symm]⟩

theorem occ_cases {p : List Char} {c : Char} {cs : List Char}
    (h : Occ p (c :: cs)) :
    p.isPrefixOf (c :: cs) = true ∨ Occ p cs := by
  rcases h with ⟨a, b, hab⟩
  cases a with
  | nil =>
    left
    simp only [List.nil_append] at hab
    exact (pfx_iff p (c :: cs)).mpr ⟨b, hab.symm⟩
  | cons d a' =>
    right
    simp only [List.cons_append, List.cons.injEq] at hab
    exact ⟨a', b, hab.2⟩

theorem occ_self (p b : List Char) : Occ p (p ++ b) := ⟨[], b, by simp⟩

/- ## Window decomposition for countOcc -/

theorem take_append_take {x y : List Char} {n m : Nat}
    (h : n ≤ x.length + m) :
    (x ++ y.take m).take n = (x ++ y).take n := by
  rw [List.take_append_eq_append_take, List.take_append_eq_append_take]
  rw [List.take_take]
  congr 1
  have : min (n - x.length) m = n - x.length := by omega
  rw [this]

theorem countOcc_win {pat : List Char} (hp : pat ≠ []) :
    ∀ x y : List Char,
      countOcc pat (x ++ y) =
        countOcc pat (x ++ y.take (pat.length - 1)) + countOcc pat y := by
  intro x y
  induction x with
  | nil =>
    have hlen : (y.take (pat.length - 1)).length < pat.length := by
      have h1 : pat.length ≠ 0 := by
        intro h0
        exact hp (List.eq_nil_of_length_eq_zero h0)
      have := List.length_take (pat.length - 1) y
      omega
    simp [countOcc_short hlen]
  | cons c x' ih =>
    rw [List.cons_append, List.cons_append, countOcc_cons, countOcc_cons]
    have heq : pat.isPrefixOf (c :: (x' ++ y.take (pat.length - 1))) =
        pat.isPrefixOf (c :: (x' ++ y)) := by
      apply pfx_congr
      have h : pat.length ≤ (c :: x').length + (pat.length - 1) := by
        simp only [List.length_cons]
        omega
      have := take_append_take (x := c :: x') (y := y) h
      simpa using this
    rw [heq, ih]
    omega

/- ## repAux / pyReplace structural lemmas -/

theorem repAux_skip (o n : List Char) :
    ∀ t k, repAux o n t k = repAux o n (t.drop k) 0 := by
  intro t
  induction t with
  | nil => intro k; cases k <;> rfl
  | cons c cs ih =>
    intro k
    cases k with
    | zero => rfl
    | succ k' => rw [List.drop_succ_cons]; exact ih k'

theorem noop_of_countOcc_zero {pat s : List Char} (new : List Char)
    (h : countOcc pat s = 0) : pyReplace s pat new = s := by
  induction s with
  | nil => rfl
  | cons c cs ih =>
    rw [countOcc_cons] at h
    cases hq : pat.isPrefixOf (c :: cs) with
    | true => rw [hq] at h; simp at h
    | false =>
      rw [hq] at h
      simp only [Bool.false_eq_true, if_false, Nat.zero_add] at h
      show repAux pat new (c :: cs) 0 = c :: cs
      simp only [repAux, hq, Bool.false_eq_true, if_false]
      exact congrArg (c :: ·) (ih h)

/- ## The splice lemma: replacing a uniquely placed pattern -/

theorem splice {pat : List Char} (new : List Char) (hp : pat ≠ []) :
    ∀ a b : List Char,
      countOcc pat (a ++ (pat ++ b).take (pat.length - 1)) = 0 →
      pyReplace (a ++ pat ++ b) pat new = a ++ new ++ pyReplace b pat new := by
  intro a
  induction a with
  | nil =>
    intro b _
    cases pat with
    | nil => exact absurd rfl hp
    | cons p ps =>
      simp only [List.nil_append]
      show repAux (p :: ps) new ((p :: ps) ++ b) 0 = new ++ pyReplace b (p :: ps) new
      rw [show (p :: ps) ++ b = p :: (ps ++ b) from rfl]
      rw [repAux]
      rw [show p :: (ps ++ b) = (p :: ps) ++ b from rfl]
      rw [pfx_self_append (p :: ps) b]
      simp only [if_true]
      rw [repAux_skip]
      have hd : (ps ++ b).drop ((p :: ps).length - 1) = b := by
        simp only [List.length_cons, Nat.add_sub_cancel]
        exact List.drop_left ps b
      rw [hd]
      rfl
  | cons c a' ih =>
    intro b hA
    have hw : pat.isPrefixOf
        (c :: (a' ++ (pat ++ b).take (pat.length - 1))) = false := by
      have h0 := hA
      rw [List.cons_append, countOcc_cons] at h0
      cases hq : pat.isPrefixOf (c :: (a' ++ (pat ++ b).take (pat.length - 1))) with
      | false => rfl
      | true => rw [hq] at h0; simp at h0
    have hm : pat.isPrefixOf (c :: (a' ++ (pat ++ b))) = false := by
      rw [← hw]
      apply pfx_congr
      have hle : pat.length ≤ (c :: a').length + (pat.length - 1) := by
        have : 0 < pat.length := List.length_pos.mpr hp
        simp only [List.length_cons]
        omega
      have := take_append_take (x := c :: a') (y := pat ++ b)
        (n := pat.length) (m := pat.length - 1) hle
      simpa using this.symm
    have hA' : countOcc pat (a' ++ (pat ++ b).take (pat.length - 1)) = 0 := by
      rw [List.cons_append, countOcc_cons, hw] at hA
      simpa using hA
    show repAux pat new ((c :: a') ++ pat ++ b) 0 = (c :: a') ++ new ++ pyReplace b pat new
    rw [show (c :: a') ++ pat ++ b = c :: (a' ++ (pat ++ b)) by simp]
    rw [repAux, hm]
    simp only [Bool.false_eq_true, if_false]
    have := ih b hA'
    rw [show a' ++ (pat ++ b) = a' ++ pat ++ b by simp]
    show c :: pyReplace (a' ++ pat ++ b) pat new = _
    rw [this]
    simp

/- ## Overlap-freedom: occurrences of a non-clashing pattern survive -/

theorem clashAux_false_drop {x o : List Char} (h : clashAux x o = false) :
    ∀ i, i < o.length → compat (o.drop i) x = false := by
  induction o with
  | nil => intro i hi; simp at hi
  | cons c cs ih =>
    rw [clashAux, Bool.or_eq_false_iff] at h
    intro i hi
    cases i with
    | zero => exact h.1
    | succ i' =>
      rw [List.drop_succ_cons]
      exact ih h.2 i' (by simpa using Nat.lt_of_succ_lt_succ hi)

theorem compat_true_left {u v : List Char} (h : u.isPrefixOf v = true) :
    compat u v = true := by
  rw [compat, h]
  rfl

theorem compat_true_right {u v : List Char} (h : v.isPrefixOf u = true) :
    compat u v = true := by
  rw [compat, h]
  simp

theorem repAux_zone {x o : List Char} (n : List Char)
    (hcl : clashAux o x = false) :
    ∀ fuel j b, x.length - j ≤ fuel →
      repAux o n (x.drop j ++ b) 0 = x.drop j ++ repAux o n b 0 := by
  intro fuel
  induction fuel with
  | zero =>
    intro j b hf
    have hj : x.length ≤ j := by omega
    rw [List.drop_eq_nil_of_le hj]
    rfl
  | succ f ih =>
    intro j b hf
    by_cases hj : x.length ≤ j
    · rw [List.drop_eq_nil_of_le hj]
      rfl
    · have hjlt : j < x.length := by omega
      have hd : x.drop j = x[j] :: x.drop (j + 1) := List.drop_eq_getElem_cons hjlt
      have hnm : o.isPrefixOf (x.drop j ++ b) = false := by
        cases ho : o.isPrefixOf (x.drop j ++ b) with
        | false => rfl
        | true =>
          have hcpt : compat (x.drop j) o = true := by
            rcases pfx_fork ho with h1 | h1
            · exact compat_true_right h1
            · exact compat_true_left h1
          have := clashAux_false_drop hcl j hjlt
          rw [this] at hcpt
          exact absurd hcpt (by simp)
      have hnm2 : o.isPrefixOf (x[j] :: (x.drop (j + 1) ++ b)) = false := by
        rw [← List.cons_append, ← hd]
        exact hnm
      rw [hd, List.cons_append, repAux, hnm2]
      simp only [Bool.false_eq_true, if_false]
      have := ih (j + 1) b (by omega)
      rw [this, List.cons_append]

theorem occ_preserved_aux {x o : List Char} (n : List Char) (ho : o ≠ [])
    (hcl : clash x o = false) :
    ∀ fuel a b, a.length ≤ fuel →
      ∃ a' b', repAux o n (a ++ x ++ b) 0 = a' ++ x ++ b' := by
  have hcl1 : clashAux x o = false := by
    rw [clash, Bool.or_eq_false_iff] at hcl
    exact hcl.1
  have hcl2 : clashAux o x = false := by
    rw [clash, Bool.or_eq_false_iff] at hcl
    exact hcl.2
  intro fuel
  induction fuel with
  | zero =>
    intro a b hf
    have : a = [] := List.eq_nil_of_length_eq_zero (by omega)
    subst this
    rw [List.nil_append]
    have := repAux_zone (x := x) (o := o) n hcl2 x.length 0 b (by omega)
    rw [List.drop_zero] at this
    exact ⟨[], repAux o n b 0, by rw [this]; simp⟩
  | succ f ih =>
    intro a b hf
    cases a with
    | nil =>
      rw [List.nil_append]
      have := repAux_zone (x := x) (o := o) n hcl2 x.length 0 b (by omega)
      rw [List.drop_zero] at this
      exact ⟨[], repAux o n b 0, by rw [this]; simp⟩
    | cons c a2 =>
      by_cases hm : o.isPrefixOf (c :: (a2 ++ x ++ b)) = true
      · -- the match starts before x, so it must end before x starts
        have holen : o.length ≤ (c :: a2).length := by
          by_contra hlt
          push_neg at hlt
          rcases pfx_fork (p := o) (u := c :: a2) (v := x ++ b)
              (by rw [show (c :: a2) ++ (x ++ b) = c :: (a2 ++ x ++ b) by simp]
                  exact hm) with h1 | h1
          · have := pfx_length_le h1
            omega
          · rcases (pfx_iff (c :: a2) o).mp h1 with ⟨w, hwo⟩
            have hwdrop : o.drop (c :: a2).length = w := by
              rw [← hwo]
              exact List.drop_left (c :: a2) w
            rcases (pfx_iff o (c :: (a2 ++ x ++ b))).mp hm with ⟨r, hr⟩
            rw [← hwo] at hr
            rw [show (c :: a2) ++ w ++ r = (c :: a2) ++ (w ++ r) by simp,
              show c :: (a2 ++ x ++ b) = (c :: a2) ++ (x ++ b) by simp] at hr
            have hwr : w ++ r = x ++ b := List.append_cancel_left hr
            have hcpt : compat (o.drop (c :: a2).length) x = true := by
              rw [hwdrop]
              rcases pfx_fork (p := w) (u := x) (v := b)
                  ((pfx_iff w (x ++ b)).mpr ⟨r, hwr⟩) with h2 | h2
              · exact compat_true_left h2
              · exact compat_true_right h2
            have := clashAux_false_drop hcl1 (c :: a2).length (by omega)
            rw [this] at hcpt
            exact absurd hcpt (by simp)
        rw [show (c :: a2) ++ x ++ b = c :: (a2 ++ x ++ b) by simp]
        rw [repAux, hm]
        simp only [if_true]
        rw [repAux_skip]
        have hosucc : 0 < o.length := List.length_pos.mpr ho
        have hdrop : (a2 ++ x ++ b).drop (o.length - 1) =
            (a2.drop (o.length - 1)) ++ x ++ b := by
          rw [show a2 ++ x ++ b = a2 ++ (x ++ b) by simp]
          rw [List.drop_append_eq_append_drop]
          have : o.length - 1 - a2.length = 0 := by
            simp only [List.length_cons] at holen
            omega
          rw [this, List.drop_zero]
          simp
        rw [hdrop]
        have hlen2 : (a2.drop (o.length - 1)).length ≤ f := by
          have := List.length_drop (o.length - 1) a2
          simp only [List.length_cons] at hf
          omega
        rcases ih (a2.drop (o.length - 1)) b hlen2 with ⟨a3, b3, h3⟩
        exact ⟨n ++ a3, b3, by rw [h3]; simp⟩
      · rw [show (c :: a2) ++ x ++ b = c :: (a2 ++ x ++ b) by simp]
        rw [repAux]
        have hm' : o.isPrefixOf (c :: (a2 ++ x ++ b)) = false := by
          cases hq : o.isPrefixOf (c :: (a2 ++ x ++ b)) with
          | false => rfl
          | true => exact absurd hq hm
        rw [hm']
        simp only [Bool.false_eq_true, if_false]
        have hlen2 : a2.length ≤ f := by
          simp only [List.length_cons] at hf
          omega
        rcases ih a2 b hlen2 with ⟨a3, b3, h3⟩
        exact ⟨c :: a3, b3, by rw [h3]; simp⟩

theorem occ_preserved {x o : List Char} (n : List Char) (ho : o ≠ [])
    (hcl : clash x o = false) {t : List Char} (ht : Occ x t) :
    Occ x (pyReplace t o n) := by
  rcases ht with ⟨a, b, hab⟩
  subst hab
  rcases occ_preserved_aux (x := x) n ho hcl a.length a b (by omega) with ⟨a', b', h⟩
  exact ⟨a', b', h⟩

/- ## Patterns kept or introduced by a replacement -/

theorem occ_kept {o t : List Char} (n : List Char) (hn : Occ o n)
    (ht : Occ o t) : Occ o (pyReplace t o n) := by
  induction t with
  | nil =>
    rcases ht with ⟨a, b, hab⟩
    have : o = [] := by
      rcases List.append_eq_nil.mp hab.symm with ⟨h1, h2⟩
      rcases List.append_eq_nil.mp h1 with ⟨_, h3⟩
      exact h3
    subst this
    exact ⟨[], [], rfl⟩
  | cons c cs ih =>
    show Occ o (repAux o n (c :: cs) 0)
    cases hm : o.isPrefixOf (c :: cs) with
    | true =>
      rw [repAux, hm]
      simp only [if_true]
      exact occ_append_left _ hn
    | false =>
      rw [repAux, hm]
      simp only [Bool.false_eq_true, if_false]
      rcases occ_cases ht with h1 | h1
      · rw [h1] at hm; exact absurd hm (by simp)
      · exact occ_cons_tail c (ih h1)

theorem occ_introduced {o t : List Char} (n : List Char) (ho : o ≠ [])
    (ht : Occ o t) : Occ n (pyReplace t o n) := by
  induction t with
  | nil =>
    rcases ht with ⟨a, b, hab⟩
    rcases List.append_eq_nil.mp hab.symm with ⟨h1, _⟩
    rcases List.append_eq_nil.mp h1 with ⟨_, h3⟩
    exact absurd h3 ho
  | cons c cs ih =>
    show Occ n (repAux o n (c :: cs) 0)
    cases hm : o.isPrefixOf (c :: cs) with
    | true =>
      rw [repAux, hm]
      simp only [if_true]
      exact occ_self n _
    | false =>
      rw [repAux, hm]
      simp only [Bool.false_eq_true, if_false]
      rcases occ_cases ht with h1 | h1
      · rw [h1] at hm; exact absurd hm (by simp)
      · exact occ_cons_tail c (ih h1)

/- ## Length monotonicity -/

theorem repAux_length_ge {o n : List Char} (ho : o ≠ [])
    (hl : o.length ≤ n.length) :
    ∀ t k, t.length - k ≤ (repAux o n t k).length := by
  intro t
  induction t with
  | nil => intro k; simp [repAux]
  | cons c cs ih =>
    intro k
    cases k with
    | succ k' =>
      have := ih k'
      show cs.length + 1 - (k' + 1) ≤ (repAux o n cs k').length
      omega
    | zero =>
      cases hm : o.isPrefixOf (c :: cs) with
      | true =>
        rw [repAux, hm]
        simp only [if_true, List.length_append]
        have h1 := ih (o.length - 1)
        have h2 := pfx_length_le hm
        have h3 : 0 < o.length := List.length_pos.mpr ho
        simp only [List.length_cons] at h2 ⊢
        omega
      | false =>
        rw [repAux, hm]
        simp only [Bool.false_eq_true, if_false, List.length_cons]
        have := ih 0
        omega

theorem pyReplace_length_ge {o n : List Char} (ho : o ≠ [])
    (hl : o.length ≤ n.length) (t : List Char) :
    t.length ≤ (pyReplace t o n).length := by
  have := repAux_length_ge ho hl t 0
  simpa using this

theorem pyReplace_length_gt {o n : List Char} (ho : o ≠ [])
    (hl : o.length < n.length) {t : List Char} (ht : Occ o t) :
    t.length < (pyReplace t o n).length := by
  induction t with
  | nil =>
    rcases ht with ⟨a, b, hab⟩
    rcases List.append_eq_nil.mp hab.symm with ⟨h1, _⟩
    rcases List.append_eq_nil.mp h1 with ⟨_, h3⟩
    exact absurd h3 ho
  | cons c cs ih =>
    show (c :: cs).length < (repAux o n (c :: cs) 0).length
    cases hm : o.isPrefixOf (c :: cs) with
    | true =>
      rw [repAux, hm]
      simp only [if_true, List.length_append]
      have h1 := repAux_length_ge (o := o) (n := n) ho (Nat.le_of_lt hl) cs (o.length - 1)
      have h2 := pfx_length_le hm
      have h3 : 0 < o.length := List.length_pos.mpr ho
      simp only [List.length_cons] at h2 ⊢
      omega
    | false =>
      rw [repAux, hm]
      rcases occ_cases ht with h1 | h1
      · rw [h1] at hm; exact absurd hm (by simp)
      · have := ih h1
        simp only [Bool.false_eq_true, if_false, List.length_cons]
        show cs.length + 1 < (repAux o n cs 0).length + 1
        have h2 : cs.length < (pyReplace cs o n).length := this
        exact Nat.succ_lt_succ h2

theorem foldl_length_ge :
    ∀ (L : List (List Char × List Char)) (t : List Char),
      (∀ p ∈ L, p.1 ≠ [] ∧ p.1.length ≤ p.2.length) →
      t.length ≤ (L.foldl applyStep t).length := by
  intro L
  induction L with
  | nil => intro t _; simp
  | cons q L' ih =>
    intro t h
    have hq := h q (List.mem_cons_self q L')
    have h1 : t.length ≤ (applyStep t q).length :=
      pyReplace_length_ge hq.1 hq.2 t
    have h2 := ih (applyStep t q) (fun p hp => h p (List.mem_cons_of_mem q hp))
    calc t.length ≤ (applyStep t q).length := h1
      _ ≤ _ := h2

theorem foldl_length_gt :
    ∀ (L : List (List Char × List Char)) (t : List Char),
      (∀ p ∈ L, p.1 ≠ [] ∧ p.1.length < p.2.length) →
      (∃ p ∈ L, Occ p.1 t) →
      t.length < (L.foldl applyStep t).length := by
  intro L
  induction L with
  | nil =>
    intro t _ hex
    rcases hex with ⟨p, hp, _⟩
    exact absurd hp (List.not_mem_nil p)
  | cons q L' ih =>
    intro t hall hex
    have hq := hall q (List.mem_cons_self q L')
    by_cases hc : countOcc q.1 t = 0
    · have hnoop : applyStep t q = t := noop_of_countOcc_zero q.2 hc
      rcases hex with ⟨p, hp, hocc⟩
      rcases List.mem_cons.mp hp with rfl | hp'
      · exact absurd (countOcc_ne_zero_of_occ hq.1 hocc) (by simpa using hc)
      · have := ih t (fun r hr => hall r (List.mem_cons_of_mem q hr)) ⟨p, hp', hocc⟩
        show t.length < (List.foldl applyStep (applyStep t q) L').length
        rw [hnoop]
        exact this
    · have hocc : Occ q.1 t := occ_of_countOcc_ne_zero hc
      have h1 : t.length < (applyStep t q).length :=
        pyReplace_length_gt hq.1 hq.2 hocc
      have h2 := foldl_length_ge L' (applyStep t q)
        (fun p hp => ⟨(hall p (List.mem_cons_of_mem q hp)).1,
          Nat.le_of_lt (hall p (List.mem_cons_of_mem q hp)).2⟩)
      calc t.length < (applyStep t q).length := h1
        _ ≤ _ := h2

/- ## cat facts -/

theorem cat_nil : cat [] = [] := rfl

theorem cat_cons (p : List Char) (ps : List (List Char)) :
    cat (p :: ps) = p ++ cat ps := rfl

theorem cat_append : ∀ xs ys : List (List Char),
    cat (xs ++ ys) = cat xs ++ cat ys := by
  intro xs ys
  induction xs with
  | nil => rfl
  | cons p xs' ih => simp [cat_cons, ih]

/- ## Counting with a unique occurrence -/

theorem countOcc_take_short (pat s : List Char) (hp : pat ≠ []) :
    countOcc pat (s.take (pat.length - 1)) = 0 := by
  apply countOcc_short
  have h1 : 0 < pat.length := List.length_pos.mpr hp
  have := List.length_take (pat.length - 1) s
  omega

theorem countOcc_append_le (p q : List Char) :
    ∀ s, countOcc (p ++ q) s ≤ countOcc p s := by
  intro s
  induction s with
  | nil => simp [countOcc_nil]
  | cons c cs ih =>
    rw [countOcc_cons, countOcc_cons]
    have hstep : (if (p ++ q).isPrefixOf (c :: cs) then 1 else 0) ≤
        (if p.isPrefixOf (c :: cs) then 1 else 0) := by
      cases hq : (p ++ q).isPrefixOf (c :: cs) with
      | false => simp
      | true =>
        rcases (pfx_iff (p ++ q) (c :: cs)).mp hq with ⟨r, hr⟩
        have hp : p.isPrefixOf (c :: cs) = true :=
          (pfx_iff p (c :: cs)).mpr ⟨q ++ r, by rw [← hr]; simp⟩
        rw [hp]
      
    omega

theorem countOcc_win_ge {pat : List Char} (hp : pat ≠ []) (x y : List Char) :
    countOcc pat y ≤ countOcc pat (x ++ y) := by
  rw [countOcc_win hp x y]
  omega

/-- If the pattern occurs exactly once in `a ++ pat ++ b` (namely the visible
occurrence), then the replacement rewrites exactly that occurrence. -/
theorem splice_unique {pat : List Char} (new : List Char) (hp : pat ≠ [])
    (a b : List Char) (h1 : countOcc pat (a ++ pat ++ b) = 1) :
    pyReplace (a ++ pat ++ b) pat new = a ++ new ++ b := by
  have hself : countOcc pat (pat ++ b.take (pat.length - 1)) ≠ 0 := by
    apply countOcc_ne_zero_of_occ hp
    exact occ_self pat _
  have hw1 : countOcc pat (a ++ (pat ++ b)) =
      countOcc pat (a ++ (pat ++ b).take (pat.length - 1)) +
        countOcc pat (pat ++ b) := countOcc_win hp a (pat ++ b)
  have hw2 : countOcc pat (pat ++ b) =
      countOcc pat (pat ++ b.take (pat.length - 1)) + countOcc pat b :=
    countOcc_win hp pat b
  rw [List.append_assoc] at h1
  have hA : countOcc pat (a ++ (pat ++ b).take (pat.length - 1)) = 0 := by
    omega
  have hB : countOcc pat b = 0 := by omega
  rw [splice new hp a b hA]
  rw [noop_of_countOcc_zero new hB]

/-- Piece-level version of `splice_unique`, phrased on `cat` decompositions. -/
theorem splice_cat {pat new : List Char} (hp : pat ≠ [])
    (pre mid post npc : List (List Char))
    (hmid : cat mid = pat) (hnew : cat npc = new)
    (h1 : countOcc pat (cat (pre ++ mid ++ post)) = 1) :
    pyReplace (cat (pre ++ mid ++ post)) pat new = cat (pre ++ npc ++ post) := by
  rw [cat_append, cat_append, hmid] at h1 ⊢
  rw [splice_unique new hp (cat pre) (cat post) h1]
  rw [cat_append, cat_append, hnew]

/-- Zero-window step: if the pattern cannot start inside `x` (checked on the
window formed by `x` and the next `pat.length - 1` characters), counting
continues after `x`. -/
theorem countOcc_zero_win {pat : List Char} (hp : pat ≠ []) {x y : List Char}
    (h : countOcc pat (x ++ y.take (pat.length - 1)) = 0) :
    countOcc pat (x ++ y) = countOcc pat y := by
  rw [countOcc_win hp x y, h]
  simp

/-- One-window step: exactly one occurrence starts inside `x`. -/
theorem countOcc_one_win {pat : List Char} (hp : pat ≠ []) {x y : List Char}
    (h : countOcc pat (x ++ y.take (pat.length - 1)) = 1) :
    countOcc pat (x ++ y) = 1 + countOcc pat y := by
  rw [countOcc_win hp x y, h]

/- ## A prefix in which no pattern can start is carried through unchanged -/

theorem pyReplace_prefix_skip {o : List Char} (n x t : List Char)
    (h : clashAux o x = false) :
    pyReplace (x ++ t) o n = x ++ pyReplace t o n := by
  have hz := repAux_zone (x := x) (o := o) n h x.length 0 t (by omega)
  rw [List.drop_zero] at hz
  exact hz

theorem foldl_prefix_skip :
    ∀ (L : List (List Char × List Char)) (x t : List Char),
      (∀ p ∈ L, clashAux p.1 x = false) →
      L.foldl applyStep (x ++ t) = x ++ L.foldl applyStep t := by
  intro L
  induction L with
  | nil => intro x t _; rfl
  | cons q L' ih =>
    intro x t h
    show List.foldl applyStep (applyStep (x ++ t) q) L' = _
    rw [show applyStep (x ++ t) q = x ++ applyStep t q from
      pyReplace_prefix_skip q.2 x t (h q (List.mem_cons_self q L'))]
    exact ih x (applyStep t q) (fun p hp => h p (List.mem_cons_of_mem q hp))

theorem foldl_survivor :
    ∀ (L : List (List Char × List Char)) (x t : List Char),
      x ≠ [] → Occ x t → Chainable x L →
      ∃ y, (y = x ∨ ∃ p ∈ L, y = p.1) ∧ Occ y (L.foldl applyStep t) := by
  intro L
  induction L with
  | nil =>
    intro x t hx hocc _
    exact ⟨x, Or.inl rfl, hocc⟩
  | cons q L' ih =>
    intro x t hx hocc hch
    show ∃ y, _ ∧ Occ y (L'.foldl applyStep (applyStep t q))
    rcases hch with ⟨hq1, hcl, hch'⟩ | ⟨hq1, hkq, hchx, hchq⟩
    · have hocc' : Occ x (applyStep t q) := occ_preserved q.2 hq1 hcl hocc
      rcases ih x (applyStep t q) hx hocc' hch' with ⟨y, hy, hyo⟩
      refine ⟨y, ?_, hyo⟩
      rcases hy with h | ⟨p, hp, hyp⟩
      · exact Or.inl h
      · exact Or.inr ⟨p, List.mem_cons_of_mem q hp, hyp⟩
    · by_cases hf : countOcc q.1 t = 0
      · have hnoop : applyStep t q = t := noop_of_countOcc_zero q.2 hf
        rcases ih x (applyStep t q) hx (by rw [hnoop]; exact hocc) hchx with
          ⟨y, hy, hyo⟩
        refine ⟨y, ?_, hyo⟩
        rcases hy with h | ⟨p, hp, hyp⟩
        · exact Or.inl h
        · exact Or.inr ⟨p, List.mem_cons_of_mem q hp, hyp⟩
      · have hofq : Occ q.1 t := occ_of_countOcc_ne_zero hf
        have hkeep : Occ q.1 (applyStep t q) := occ_kept q.2 hkq hofq
        rcases ih q.1 (applyStep t q) hq1 hkeep hchq with ⟨y, hy, hyo⟩
        refine ⟨y, ?_, hyo⟩
        rcases hy with h | ⟨p, hp, hyp⟩
        · exact Or.inr ⟨q, List.mem_cons_self q L', h⟩
        · exact Or.inr ⟨p, List.mem_cons_of_mem q hp, hyp⟩

theorem occ_suffix (a p : List Char) : Occ p (a ++ p) := ⟨a, [], by simp⟩

theorem chainable_nil (x : List Char) : Chainable x [] := trivial

theorem chainable_cons_left {x : List Char} {q : List Char × List Char}
    {L : List (List Char × List Char)} (h1 : q.1 ≠ [])
    (h2 : clash x q.1 = false) (h3 : Chainable x L) :
    Chainable x (q :: L) := Or.inl ⟨h1, h2, h3⟩

theorem chainable_cons_right {x : List Char} {q : List Char × List Char}
    {L : List (List Char × List Char)} (h1 : q.1 ≠ []) (h2 : Occ q.1 q.2)
    (h3 : Chainable x L) (h4 : Chainable q.1 L) :
    Chainable x (q :: L) := Or.inr ⟨h1, h2, h3, h4⟩

set_option maxHeartbeats 1000000 in
theorem patch_eq (t : List Char) : patch t =
    pyReplace (pyReplace (pyReplace (pyReplace (pyReplace (pyReplace (pyReplace (pyReplace (pyReplace (pyReplace (pyReplace (pyReplace (pyReplace (pyReplace (pyReplace (pyReplace (pyReplace (t) anchor_build_file (build_file_entry ++ anchor_build_file)) anchor_proxy (proxy_entry ++ anchor_proxy)) anchor_begin_file_ref (copy_phase ++ anchor_begin_file_ref)) anchor_file_ref (file_ref ++ anchor_file_ref)) anchor_sync_group (sync_group ++ anchor_sync_group)) anchor_frameworks (fw_phase ++ anchor_frameworks)) old_products (new_products)) old_root (new_root)) anchor_native_target (native_target ++ anchor_native_target)) targets_old (targets_new)) attrs_old (attrs_new)) old_app_phases (new_app_phases)) anchor_resources (res_phase ++ anchor_resources)) anchor_sources (src_phase ++ anchor_sources)) anchor_dependency (dep_entry ++ anchor_dependency)) anchor_xcbuild_config (cfg_debug ++ cfg_release ++ anchor_xcbuild_config)) anchor_config_list (cfg_list ++ anchor_config_list) := by
  dsimp only [patch, steps, List.foldl, applyStep]

theorem regroup1 : cat [chunkA, anchor_build_file, chunkB, anchor_proxy, chunkC, anchor_begin_file_ref, chunkD, anchor_file_ref, chunkE, anchor_sync_group, chunkF, anchor_frameworks, chunkG, old_products, chunkH, old_root, chunkI, old_app_phases_p1, old_app_phases_p2, chunkJ, anchor_native_target, chunkK, attrs_old, chunkL, targets_old, chunkM, anchor_resources, chunkN, anchor_sources, chunkO, anchor_dependency, chunkP, anchor_xcbuild_config, chunkQ, anchor_config_list, chunkR] = cat [seg1, seg2, seg3, seg4, seg5] := by
  simp [cat_cons, cat_nil, List.append_nil, List.append_assoc, seg1, seg2, seg3, seg4, seg5]

theorem regroup2 : cat [chunkA, build_file_entry, anchor_build_file, chunkB, anchor_proxy, chunkC, anchor_begin_file_ref, chunkD, anchor_file_ref, chunkE, anchor_sync_group, chunkF, anchor_frameworks, chunkG, old_products, chunkH, old_root, chunkI, old_app_phases_p1, old_app_phases_p2, chunkJ, anchor_native_target, chunkK, attrs_old, chunkL, targets_old, chunkM, anchor_resources, chunkN, anchor_sources, chunkO, anchor_dependency, chunkP, anchor_xcbuild_config, chunkQ, anchor_config_list, chunkR] = cat [seg6, seg7, seg8, seg9, seg10, seg11] := by
  simp [cat_cons, cat_nil, List.append_nil, List.append_assoc, seg10, seg11, seg6, seg7, seg8, seg9]

theorem regroup3 : cat [chunkA, build_file_entry, anchor_build_file, chunkB, proxy_entry_p1, proxy_entry_p2, anchor_proxy, chunkC, anchor_begin_file_ref, chunkD, anchor_file_ref, chunkE, anchor_sync_group, chunkF, anchor_frameworks, chunkG, old_products, chunkH, old_root, chunkI, old_app_phases_p1, old_app_phases_p2, chunkJ, anchor_native_target, chunkK, attrs_old, chunkL, targets_old, chunkM, anchor_resources, chunkN, anchor_sources, chunkO, anchor_dependency, chunkP, anchor_xcbuild_config, chunkQ, anchor_config_list, chunkR] = cat [seg12, seg13, seg14, seg8, seg9, seg10, seg11] := by
  simp [cat_cons, cat_nil, List.append_nil, List.append_assoc, seg10, seg11, seg12, seg13, seg14, seg8, seg9]

theorem regroup4 : cat [chunkA, build_file_entry, anchor_build_file, chunkB, proxy_entry_p1, proxy_entry_p2, anchor_proxy, chunkC, copy_phase_p1, copy_phase_p2, copy_phase_p3, anchor_begin_file_ref, chunkD, anchor_file_ref, chunkE, anchor_sync_group, chunkF, anchor_frameworks, chunkG, old_products, chunkH, old_root, chunkI, old_app_phases_p1, old_app_phases_p2, chunkJ, anchor_native_target, chunkK, attrs_old, chunkL, targets_old, chunkM, anchor_resources, chunkN, anchor_sources, chunkO, anchor_dependency, chunkP, anchor_xcbuild_config, chunkQ, anchor_config_list, chunkR] = cat [seg12, seg15, seg16, seg7, seg8, seg9, seg10, seg11] := by
  simp [cat_cons, cat_nil, List.append_nil, List.append_assoc, seg10, seg11, seg12, seg15, seg16, seg7, seg8, seg9]

theorem regroup5 : cat [chunkA, build_file_entry, anchor_build_file, chunkB, proxy_entry_p1, proxy_entry_p2, anchor_proxy, chunkC, copy_phase_p1, copy_phase_p2, copy_phase_p3, anchor_begin_file_ref, chunkD, file_ref, anchor_file_ref, chunkE, anchor_sync_group, chunkF, anchor_frameworks, chunkG, old_products, chunkH, old_root, chunkI, old_app_phases_p1, old_app_phases_p2, chunkJ, anchor_native_target, chunkK, attrs_old, chunkL, targets_old, chunkM, anchor_resources, chunkN, anchor_sources, chunkO, anchor_dependency, chunkP, anchor_xcbuild_config, chunkQ, anchor_config_list, chunkR] = cat [seg12, seg15, seg17, seg18, seg2, seg3, seg4, seg5] := by
  simp [cat_cons, cat_nil, List.append_nil, List.append_assoc, seg12, seg15, seg17, seg18, seg2, seg3, seg4, seg5]

theorem regroup6 : cat [chunkA, build_file_entry, anchor_build_file, chunkB, proxy_entry_p1, proxy_entry_p2, anchor_proxy, chunkC, copy_phase_p1, copy_phase_p2, copy_phase_p3, anchor_begin_file_ref, chunkD, file_ref, anchor_file_ref, chunkE, sync_group_p1, sync_group_p2, anchor_sync_group, chunkF, anchor_frameworks, chunkG, old_products, chunkH, old_root, chunkI, old_app_phases_p1, old_app_phases_p2, chunkJ, anchor_native_target, chunkK, attrs_old, chunkL, targets_old, chunkM, anchor_resources, chunkN, anchor_sources, chunkO, anchor_dependency, chunkP, anchor_xcbuild_config, chunkQ, anchor_config_list, chunkR] = cat [seg12, seg15, seg17, seg19, seg20, seg8, seg9, seg10, seg11] := by
  simp [cat_cons, cat_nil, List.append_nil, List.append_assoc, seg10, seg11, seg12, seg15, seg17, seg19, seg20, seg8, seg9]

theorem regroup7 : cat [chunkA, build_file_entry, anchor_build_file, chunkB, proxy_entry_p1, proxy_entry_p2, anchor_proxy, chunkC, copy_phase_p1, copy_phase_p2, copy_phase_p3, anchor_begin_file_ref, chunkD, file_ref, anchor_file_ref, chunkE, sync_group_p1, sync_group_p2, anchor_sync_group, chunkF, fw_phase_p1, fw_phase_p2, anchor_frameworks, chunkG, old_products, chunkH, old_root, chunkI, old_app_phases_p1, old_app_phases_p2, chunkJ, anchor_native_target, chunkK, attrs_old, chunkL, targets_old, chunkM, anchor_resources, chunkN, anchor_sources, chunkO, anchor_dependency, chunkP, anchor_xcbuild_config, chunkQ, anchor_config_list, chunkR] = cat [seg12, seg15, seg17, seg19, seg21, seg2, seg3, seg4, seg5] := by
  simp [cat_cons, cat_nil, List.append_nil, List.append_assoc, seg12, seg15, seg17, seg19, seg2, seg21, seg3, seg4, seg5]

theorem regroup8 : cat [chunkA, build_file_entry, anchor_build_file, chunkB, proxy_entry_p1, proxy_entry_p2, anchor_proxy, chunkC, copy_phase_p1, copy_phase_p2, copy_phase_p3, anchor_begin_file_ref, chunkD, file_ref, anchor_file_ref, chunkE, sync_group_p1, sync_group_p2, anchor_sync_group, chunkF, fw_phase_p1, fw_phase_p2, anchor_frameworks, chunkG, new_products_p1, new_products_p2, chunkH, old_root, chunkI, old_app_phases_p1, old_app_phases_p2, chunkJ, anchor_native_target, chunkK, attrs_old, chunkL, targets_old, chunkM, anchor_resources, chunkN, anchor_sources, chunkO, anchor_dependency, chunkP, anchor_xcbuild_config, chunkQ, anchor_config_list, chunkR] = cat [seg12, seg15, seg17, seg19, seg22, seg23, seg8, seg9, seg10, seg11] := by
  simp [cat_cons, cat_nil, List.append_nil, List.append_assoc, seg10, seg11, seg12, seg15, seg17, seg19, seg22, seg23, seg8, seg9]

theorem regroup9 : cat [chunkA, build_file_entry, anchor_build_file, chunkB, proxy_entry_p1, proxy_entry_p2, anchor_proxy, chunkC, copy_phase_p1, copy_phase_p2, copy_phase_p3, anchor_begin_file_ref, chunkD, file_ref, anchor_file_ref, chunkE, sync_group_p1, sync_group_p2, anchor_sync_group, chunkF, fw_phase_p1, fw_phase_p2, anchor_frameworks, chunkG, new_products_p1, new_products_p2, chunkH, new_root_p1, new_root_p2, chunkI, old_app_phases_p1, old_app_phases_p2, chunkJ, anchor_native_target, chunkK, attrs_old, chunkL, targets_old, chunkM, anchor_resources, chunkN, anchor_sources, chunkO, anchor_dependency, chunkP, anchor_xcbuild_config, chunkQ, anchor_config_list, chunkR] = cat [seg12, seg15, seg17, seg19, seg22, seg24, seg25, seg9, seg10, seg11] := by
  simp [cat_cons, cat_nil, List.append_nil, List.append_assoc, seg10, seg11, seg12, seg15, seg17, seg19, seg22, seg24, seg25, seg9]

theorem regroup10 : cat [chunkA, build_file_entry, anchor_build_file, chunkB, proxy_entry_p1, proxy_entry_p2, anchor_proxy, chunkC, copy_phase_p1, copy_phase_p2, copy_phase_p3, anchor_begin_file_ref, chunkD, file_ref, anchor_file_ref, chunkE, sync_group_p1, sync_group_p2, anchor_sync_group, chunkF, fw_phase_p1, fw_phase_p2, anchor_frameworks, chunkG, new_products_p1, new_products_p2, chunkH, new_root_p1, new_root_p2, chunkI, old_app_phases_p1, old_app_phases_p2, chunkJ, native_target_p1, native_target_p2, native_target_p3, native_target_p4, anchor_native_target, chunkK, attrs_old, chunkL, targets_old, chunkM, anchor_resources, chunkN, anchor_sources, chunkO, anchor_dependency, chunkP, anchor_xcbuild_config, chunkQ, anchor_config_list, chunkR] = cat [seg12, seg15, seg17, seg19, seg22, seg24, seg25, seg26, native_target_p2, seg27, seg10, seg11] := by
  simp [cat_cons, cat_nil, List.append_nil, List.append_assoc, seg10, seg11, seg12, seg15, seg17, seg19, seg22, seg24, seg25, seg26, seg27]

theorem regroup11 : cat [chunkA, build_file_entry, anchor_build_file, chunkB, proxy_entry_p1, proxy_entry_p2, anchor_proxy, chunkC, copy_phase_p1, copy_phase_p2, copy_phase_p3, anchor_begin_file_ref, chunkD, file_ref, anchor_file_ref, chunkE, sync_group_p1, sync_group_p2, anchor_sync_group, chunkF, fw_phase_p1, fw_phase_p2, anchor_frameworks, chunkG, new_products_p1, new_products_p2, chunkH, new_root_p1, new_root_p2, chunkI, old_app_phases_p1, old_app_phases_p2, chunkJ, native_target_p1, native_target_p2, native_target_p3, native_target_p4, anchor_native_target, chunkK, attrs_old, chunkL, targets_new_p1, targets_new_p2, chunkM, anchor_resources, chunkN, anchor_sources, chunkO, anchor_dependency, chunkP, anchor_xcbuild_config, chunkQ, anchor_config_list, chunkR] = cat [seg12, seg15, seg17, seg19, seg22, seg24, seg25, seg26, native_target_p2, seg27, seg28, seg5] := by
  simp [cat_cons, cat_nil, List.append_nil, List.append_assoc, seg12, seg15, seg17, seg19, seg22, seg24, seg25, seg26, seg27, seg28, seg5]

theorem regroup12 : cat [chunkA, build_file_entry, anchor_build_file, chunkB, proxy_entry_p1, proxy_entry_p2, anchor_proxy, chunkC, copy_phase_p1, copy_phase_p2, copy_phase_p3, anchor_begin_file_ref, chunkD, file_ref, anchor_file_ref, chunkE, sync_group_p1, sync_group_p2, anchor_sync_group, chunkF, fw_phase_p1, fw_phase_p2, anchor_frameworks, chunkG, new_products_p1, new_products_p2, chunkH, new_root_p1, new_root_p2, chunkI, old_app_phases_p1, old_app_phases_p2, chunkJ, native_target_p1, native_target_p2, native_target_p3, native_target_p4, anchor_native_target, chunkK, attrs_new_p1, attrs_new_p2, chunkL, targets_new_p1, targets_new_p2, chunkM, anchor_resources, chunkN, anchor_sources, chunkO, anchor_dependency, chunkP, anchor_xcbuild_config, chunkQ, anchor_config_list, chunkR] = cat [seg12, seg15, seg17, seg19, seg22, seg24, seg25, seg26, native_target_p2, seg29, seg30, seg31] := by
  simp [cat_cons, cat_nil, List.append_nil, List.append_assoc, seg12, seg15, seg17, seg19, seg22, seg24, seg25, seg26, seg29, seg30, seg31]

theorem regroup13 : cat [chunkA, build_file_entry, anchor_build_file, chunkB, proxy_entry_p1, proxy_entry_p2, anchor_proxy, chunkC, copy_phase_p1, copy_phase_p2, copy_phase_p3, anchor_begin_file_ref, chunkD, file_ref, anchor_file_ref, chunkE, sync_group_p1, sync_group_p2, anchor_sync_group, chunkF, fw_phase_p1, fw_phase_p2, anchor_frameworks, chunkG, new_products_p1, new_products_p2, chunkH, new_root_p1, new_root_p2, chunkI, new_app_phases_p1, new_app_phases_p2, new_app_phases_p3, chunkJ, native_target_p1, native_target_p2, native_target_p3, native_target_p4, anchor_native_target, chunkK, attrs_new_p1, attrs_new_p2, chunkL, targets_new_p1, targets_new_p2, chunkM, anchor_resources, chunkN, anchor_sources, chunkO, anchor_dependency, chunkP, anchor_xcbuild_config, chunkQ, anchor_config_list, chunkR] = cat [seg12, seg15, seg17, seg19, seg22, seg24, seg32, seg33, seg34, seg29, seg30, seg31] := by
  simp [cat_cons, cat_nil, List.append_nil, List.append_assoc, seg12, seg15, seg17, seg19, seg22, seg24, seg29, seg30, seg31, seg32, seg33, seg34]

theorem regroup14 : cat [chunkA, build_file_entry, anchor_build_file, chunkB, proxy_entry_p1, proxy_entry_p2, anchor_proxy, chunkC, copy_phase_p1, copy_phase_p2, copy_phase_p3, anchor_begin_file_ref, chunkD, file_ref, anchor_file_ref, chunkE, sync_group_p1, sync_group_p2, anchor_sync_group, chunkF, fw_phase_p1, fw_phase_p2, anchor_frameworks, chunkG, new_products_p1, new_products_p2, chunkH, new_root_p1, new_root_p2, chunkI, new_app_phases_p1, new_app_phases_p2, new_app_phases_p3, chunkJ, native_target_p1, native_target_p2, native_target_p3, native_target_p4, anchor_native_target, chunkK, attrs_new_p1, attrs_new_p2, chunkL, targets_new_p1, targets_new_p2, chunkM, res_phase_p1, res_phase_p2, anchor_resources, chunkN, anchor_sources, chunkO, anchor_dependency, chunkP, anchor_xcbuild_config, chunkQ, anchor_config_list, chunkR] = cat [seg12, seg15, seg17, seg19, seg22, seg24, seg32, seg33, seg34, seg29, seg35, seg36] := by
  simp [cat_cons, cat_nil, List.append_nil, List.append_assoc, seg12, seg15, seg17, seg19, seg22, seg24, seg29, seg32, seg33, seg34, seg35, seg36]

theorem regroup15 : cat [chunkA, build_file_entry, anchor_build_file, chunkB, proxy_entry_p1, proxy_entry_p2, anchor_proxy, chunkC, copy_phase_p1, copy_phase_p2, copy_phase_p3, anchor_begin_file_ref, chunkD, file_ref, anchor_file_ref, chunkE, sync_group_p1, sync_group_p2, anchor_sync_group, chunkF, fw_phase_p1, fw_phase_p2, anchor_frameworks, chunkG, new_products_p1, new_products_p2, chunkH, new_root_p1, new_root_p2, chunkI, new_app_phases_p1, new_app_phases_p2, new_app_phases_p3, chunkJ, native_target_p1, native_target_p2, native_target_p3, native_target_p4, anchor_native_target, chunkK, attrs_new_p1, attrs_new_p2, chunkL, targets_new_p1, targets_new_p2, chunkM, res_phase_p1, res_phase_p2, anchor_resources, chunkN, src_phase_p1, src_phase_p2, anchor_sources, chunkO, anchor_dependency, chunkP, anchor_xcbuild_config, chunkQ, anchor_config_list, chunkR] = cat [seg12, seg15, seg17, seg19, seg22, seg24, seg32, seg33, seg34, seg29, seg35, seg37, seg11] := by
  simp [cat_cons, cat_nil, List.append_nil, List.append_assoc, seg11, seg12, seg15, seg17, seg19, seg22, seg24, seg29, seg32, seg33, seg34, seg35, seg37]

theorem regroup16 : cat [chunkA, build_file_entry, anchor_build_file, chunkB, proxy_entry_p1, proxy_entry_p2, anchor_proxy, chunkC, copy_phase_p1, copy_phase_p2, copy_phase_p3, anchor_begin_file_ref, chunkD, file_ref, anchor_file_ref, chunkE, sync_group_p1, sync_group_p2, anchor_sync_group, chunkF, fw_phase_p1, fw_phase_p2, anchor_frameworks, chunkG, new_products_p1, new_products_p2, chunkH, new_root_p1, new_root_p2, chunkI, new_app_phases_p1, new_app_phases_p2, new_app_phases_p3, chunkJ, native_target_p1, native_target_p2, native_target_p3, native_target_p4, anchor_native_target, chunkK, attrs_new_p1, attrs_new_p2, chunkL, targets_new_p1, targets_new_p2, chunkM, res_phase_p1, res_phase_p2, anchor_resources, chunkN, src_phase_p1, src_phase_p2, anchor_sources, chunkO, dep_entry_p1, dep_entry_p2, anchor_dependency, chunkP, anchor_xcbuild_config, chunkQ, anchor_config_list, chunkR] = cat [seg12, seg15, seg17, seg19, seg22, seg24, seg32, seg33, seg34, seg29, seg35, seg37, seg38] := by
  simp [cat_cons, cat_nil, List.append_nil, List.append_assoc, seg12, seg15, seg17, seg19, seg22, seg24, seg29, seg32, seg33, seg34, seg35, seg37, seg38]

theorem regroup17 : cat [chunkA, build_file_entry, anchor_build_file, chunkB, proxy_entry_p1, proxy_entry_p2, anchor_proxy, chunkC, copy_phase_p1, copy_phase_p2, copy_phase_p3, anchor_begin_file_ref, chunkD, file_ref, anchor_file_ref, chunkE, sync_group_p1, sync_group_p2, anchor_sync_group, chunkF, fw_phase_p1, fw_phase_p2, anchor_frameworks, chunkG, new_products_p1, new_products_p2, chunkH, new_root_p1, new_root_p2, chunkI, new_app_phases_p1, new_app_phases_p2, new_app_phases_p3, chunkJ, native_target_p1, native_target_p2, native_target_p3, native_target_p4, anchor_native_target, chunkK, attrs_new_p1, attrs_new_p2, chunkL, targets_new_p1, targets_new_p2, chunkM, res_phase_p1, res_phase_p2, anchor_resources, chunkN, src_phase_p1, src_phase_p2, anchor_sources, chunkO, dep_entry_p1, dep_entry_p2, anchor_dependency, chunkP, cfg_debug_p1, cfg_debug_p2, cfg_debug_p3, cfg_debug_p4, cfg_debug_p5, cfg_release_p1, cfg_release_p2, cfg_release_p3, cfg_release_p4, cfg_release_p5, anchor_xcbuild_config, chunkQ, anchor_config_list, chunkR] = cat [seg12, seg15, seg17, seg19, seg22, seg24, seg32, seg33, seg34, seg29, seg35, seg37, seg39, cfg_debug_p2, cfg_debug_p3, seg40, cfg_release_p2, cfg_release_p3, seg41, seg42] := by
  simp [cat_cons, cat_nil, List.append_nil, List.append_assoc, seg12, seg15, seg17, seg19, seg22, seg24, seg29, seg32, seg33, seg34, seg35, seg37, seg39, seg40, seg41, seg42]

theorem regroup18 : cat [chunkA, build_file_entry, anchor_build_file, chunkB, proxy_entry_p1, proxy_entry_p2, anchor_proxy, chunkC, copy_phase_p1, copy_phase_p2, copy_phase_p3, anchor_begin_file_ref, chunkD, file_ref, anchor_file_ref, chunkE, sync_group_p1, sync_group_p2, anchor_sync_group, chunkF, fw_phase_p1, fw_phase_p2, anchor_frameworks, chunkG, new_products_p1, new_products_p2, chunkH, new_root_p1, new_root_p2, chunkI, new_app_phases_p1, new_app_phases_p2, new_app_phases_p3, chunkJ, native_target_p1, native_target_p2, native_target_p3, native_target_p4, anchor_native_target, chunkK, attrs_new_p1, attrs_new_p2, chunkL, targets_new_p1, targets_new_p2, chunkM, res_phase_p1, res_phase_p2, anchor_resources, chunkN, src_phase_p1, src_phase_p2, anchor_sources, chunkO, dep_entry_p1, dep_entry_p2, anchor_dependency, chunkP, cfg_debug_p1, cfg_debug_p2, cfg_debug_p3, cfg_debug_p4, cfg_debug_p5, cfg_release_p1, cfg_release_p2, cfg_release_p3, cfg_release_p4, cfg_release_p5, anchor_xcbuild_config, chunkQ, cfg_list_p1, cfg_list_p2, anchor_config_list, chunkR] = cat [seg12, seg15, seg17, seg19, seg22, seg24, seg32, seg33, seg34, seg29, seg35, seg37, seg39, cfg_debug_p2, cfg_debug_p3, seg40, cfg_release_p2, cfg_release_p3, seg41, seg43] := by
  simp [cat_cons, cat_nil, List.append_nil, List.append_assoc, seg12, seg15, seg17, seg19, seg22, seg24, seg29, seg32, seg33, seg34, seg35, seg37, seg39, seg40, seg41, seg43]

theorem anchor_build_file_ne : anchor_build_file ≠ [] := by decide
theorem anchor_proxy_ne : anchor_proxy ≠ [] := by decide
theorem anchor_begin_file_ref_ne : anchor_begin_file_ref ≠ [] := by decide
theorem anchor_file_ref_ne : anchor_file_ref ≠ [] := by decide
theorem anchor_sync_group_ne : anchor_sync_group ≠ [] := by decide
theorem anchor_frameworks_ne : anchor_frameworks ≠ [] := by decide
theorem old_products_ne : old_products ≠ [] := by decide
theorem old_root_ne : old_root ≠ [] := by decide
theorem anchor_native_target_ne : anchor_native_target ≠ [] := by decide
theorem targets_old_ne : targets_old ≠ [] := by decide
theorem attrs_old_ne : attrs_old ≠ [] := by decide
theorem old_app_phases_ne : old_app_phases ≠ [] := by decide
theorem anchor_resources_ne : anchor_resources ≠ [] := by decide
theorem anchor_sources_ne : anchor_sources ≠ [] := by decide
theorem anchor_dependency_ne : anchor_dependency ≠ [] := by decide
theorem anchor_xcbuild_config_ne : anchor_xcbuild_config ≠ [] := by decide
theorem anchor_config_list_ne : anchor_config_list ≠ [] := by decide
theorem build_file_entry_ne : build_file_entry ≠ [] := by decide
theorem proxy_entry_ne : proxy_entry ≠ [] := by decide
theorem copy_phase_ne : copy_phase ≠ [] := by decide
theorem file_ref_ne : file_ref ≠ [] := by decide
theorem sync_group_ne : sync_group ≠ [] := by decide
theorem fw_phase_ne : fw_phase ≠ [] := by decide
theorem native_target_ne : native_target ≠ [] := by decide
theorem res_phase_ne : res_phase ≠ [] := by decide
theorem src_phase_ne : src_phase ≠ [] := by decide
theorem dep_entry_ne : dep_entry ≠ [] := by decide
theorem cfg_debug_ne : cfg_debug ≠ [] := by decide
theorem cfg_release_ne : cfg_release ≠ [] := by decide
theorem cfg_list_ne : cfg_list ≠ [] := by decide
theorem proxy_entry_p1_ne : proxy_entry_p1 ≠ [] := by decide
theorem copy_phase_p1_ne : copy_phase_p1 ≠ [] := by decide
theorem sync_group_p1_ne : sync_group_p1 ≠ [] := by decide
theorem fw_phase_p1_ne : fw_phase_p1 ≠ [] := by decide
theorem native_target_p1_ne : native_target_p1 ≠ [] := by decide
theorem res_phase_p1_ne : res_phase_p1 ≠ [] := by decide
theorem src_phase_p1_ne : src_phase_p1 ≠ [] := by decide
theorem dep_entry_p1_ne : dep_entry_p1 ≠ [] := by decide
theorem cfg_debug_p1_ne : cfg_debug_p1 ≠ [] := by decide
theorem cfg_release_p1_ne : cfg_release_p1 ≠ [] := by decide
theorem cfg_list_p1_ne : cfg_list_p1 ≠ [] := by decide

theorem cnt_fix0_anchor_build_file : countOcc anchor_build_file fixture = 1 := by
  rw [show fixture = cat [chunkA, anchor_build_file, chunkB, anchor_proxy, chunkC, anchor_begin_file_ref, chunkD, anchor_file_ref, chunkE, anchor_sync_group, chunkF, anchor_frameworks, chunkG, old_products, chunkH, old_root, chunkI, old_app_phases_p1, old_app_phases_p2, chunkJ, anchor_native_target, chunkK, attrs_old, chunkL, targets_old, chunkM, anchor_resources, chunkN, anchor_sources, chunkO, anchor_dependency, chunkP, anchor_xcbuild_config, chunkQ, anchor_config_list, chunkR] from rfl]
  rw [regroup1]
  rw [cat_cons, countOcc_win anchor_build_file_ne]
  rw [(by decide : countOcc anchor_build_file (seg1 ++ (cat [seg2, seg3, seg4, seg5]).take (anchor_build_file.length - 1)) = 1)]
  rw [cat_cons, countOcc_win anchor_build_file_ne]
  rw [(by decide : countOcc anchor_build_file (seg2 ++ (cat [seg3, seg4, seg5]).take (anchor_build_file.length - 1)) = 0), Nat.zero_add]
  rw [cat_cons, countOcc_win anchor_build_file_ne]
  rw [(by decide : countOcc anchor_build_file (seg3 ++ (cat [seg4, seg5]).take (anchor_build_file.length - 1)) = 0), Nat.zero_add]
  rw [cat_cons, countOcc_win anchor_build_file_ne]
  rw [(by decide : countOcc anchor_build_file (seg4 ++ (cat [seg5]).take (anchor_build_file.length - 1)) = 0), Nat.zero_add]
  rw [cat_cons, countOcc_win anchor_build_file_ne]
  rw [(by decide : countOcc anchor_build_file (seg5 ++ (cat []).take (anchor_build_file.length - 1)) = 0), Nat.zero_add]
  rfl

theorem cnt_fix0_anchor_proxy : countOcc anchor_proxy fixture = 1 := by
  rw [show fixture = cat [chunkA, anchor_build_file, chunkB, anchor_proxy, chunkC, anchor_begin_file_ref, chunkD, anchor_file_ref, chunkE, anchor_sync_group, chunkF, anchor_frameworks, chunkG, old_products, chunkH, old_root, chunkI, old_app_phases_p1, old_app_phases_p2, chunkJ, anchor_native_target, chunkK, attrs_old, chunkL, targets_old, chunkM, anchor_resources, chunkN, anchor_sources, chunkO, anchor_dependency, chunkP, anchor_xcbuild_config, chunkQ, anchor_config_list, chunkR] from rfl]
  rw [regroup1]
  rw [cat_cons, countOcc_win anchor_proxy_ne]
  rw [(by decide : countOcc anchor_proxy (seg1 ++ (cat [seg2, seg3, seg4, seg5]).take (anchor_proxy.length - 1)) = 1)]
  rw [cat_cons, countOcc_win anchor_proxy_ne]
  rw [(by decide : countOcc anchor_proxy (seg2 ++ (cat [seg3, seg4, seg5]).take (anchor_proxy.length - 1)) = 0), Nat.zero_add]
  rw [cat_cons, countOcc_win anchor_proxy_ne]
  rw [(by decide : countOcc anchor_proxy (seg3 ++ (cat [seg4, seg5]).take (anchor_proxy.length - 1)) = 0), Nat.zero_add]
  rw [cat_cons, countOcc_win anchor_proxy_ne]
  rw [(by decide : countOcc anchor_proxy (seg4 ++ (cat [seg5]).take (anchor_proxy.length - 1)) = 0), Nat.zero_add]
  rw [cat_cons, countOcc_win anchor_proxy_ne]
  rw [(by decide : countOcc anchor_proxy (seg5 ++ (cat []).take (anchor_proxy.length - 1)) = 0), Nat.zero_add]
  rfl

theorem cnt_fix0_anchor_begin_file_ref : countOcc anchor_begin_file_ref fixture = 1 := by
  rw [show fixture = cat [chunkA, anchor_build_file, chunkB, anchor_proxy, chunkC, anchor_begin_file_ref, chunkD, anchor_file_ref, chunkE, anchor_sync_group, chunkF, anchor_frameworks, chunkG, old_products, chunkH, old_root, chunkI, old_app_phases_p1, old_app_phases_p2, chunkJ, anchor_native_target, chunkK, attrs_old, chunkL, targets_old, chunkM, anchor_resources, chunkN, anchor_sources, chunkO, anchor_dependency, chunkP, anchor_xcbuild_config, chunkQ, anchor_config_list, chunkR] from rfl]
  rw [regroup1]
  rw [cat_cons, countOcc_win anchor_begin_file_ref_ne]
  rw [(by decide : countOcc anchor_begin_file_ref (seg1 ++ (cat [seg2, seg3, seg4, seg5]).take (anchor_begin_file_ref.length - 1)) = 1)]
  rw [cat_cons, countOcc_win anchor_begin_file_ref_ne]
  rw [(by decide : countOcc anchor_begin_file_ref (seg2 ++ (cat [seg3, seg4, seg5]).take (anchor_begin_file_ref.length - 1)) = 0), Nat.zero_add]
  rw [cat_cons, countOcc_win anchor_begin_file_ref_ne]
  rw [(by decide : countOcc anchor_begin_file_ref (seg3 ++ (cat [seg4, seg5]).take (anchor_begin_file_ref.length - 1)) = 0), Nat.zero_add]
  rw [cat_cons, countOcc_win anchor_begin_file_ref_ne]
  rw [(by decide : countOcc anchor_begin_file_ref (seg4 ++ (cat [seg5]).take (anchor_begin_file_ref.length - 1)) = 0), Nat.zero_add]
  rw [cat_cons, countOcc_win anchor_begin_file_ref_ne]
  rw [(by decide : countOcc anchor_begin_file_ref (seg5 ++ (cat []).take (anchor_begin_file_ref.length - 1)) = 0), Nat.zero_add]
  rfl

theorem cnt_fix0_anchor_file_ref : countOcc anchor_file_ref fixture = 1 := by
  rw [show fixture = cat [chunkA, anchor_build_file, chunkB, anchor_proxy, chunkC, anchor_begin_file_ref, chunkD, anchor_file_ref, chunkE, anchor_sync_group, chunkF, anchor_frameworks, chunkG, old_products, chunkH, old_root, chunkI, old_app_phases_p1, old_app_phases_p2, chunkJ, anchor_native_target, chunkK, attrs_old, chunkL, targets_old, chunkM, anchor_resources, chunkN, anchor_sources, chunkO, anchor_dependency, chunkP, anchor_xcbuild_config, chunkQ, anchor_config_list, chunkR] from rfl]
  rw [regroup1]
  rw [cat_cons, countOcc_win anchor_file_ref_ne]
  rw [(by decide : countOcc anchor_file_ref (seg1 ++ (cat [seg2, seg3, seg4, seg5]).take (anchor_file_ref.length - 1)) = 1)]
  rw [cat_cons, countOcc_win anchor_file_ref_ne]
  rw [(by decide : countOcc anchor_file_ref (seg2 ++ (cat [seg3, seg4, seg5]).take (anchor_file_ref.length - 1)) = 0), Nat.zero_add]
  rw [cat_cons, countOcc_win anchor_file_ref_ne]
  rw [(by decide : countOcc anchor_file_ref (seg3 ++ (cat [seg4, seg5]).take (anchor_file_ref.length - 1)) = 0), Nat.zero_add]
  rw [cat_cons, countOcc_win anchor_file_ref_ne]
  rw [(by decide : countOcc anchor_file_ref (seg4 ++ (cat [seg5]).take (anchor_file_ref.length - 1)) = 0), Nat.zero_add]
  rw [cat_cons, countOcc_win anchor_file_ref_ne]
  rw [(by decide : countOcc anchor_file_ref (seg5 ++ (cat []).take (anchor_file_ref.length - 1)) = 0), Nat.zero_add]
  rfl

theorem cnt_fix0_anchor_sync_group : countOcc anchor_sync_group fixture = 1 := by
  rw [show fixture = cat [chunkA, anchor_build_file, chunkB, anchor_proxy, chunkC, anchor_begin_file_ref, chunkD, anchor_file_ref, chunkE, anchor_sync_group, chunkF, anchor_frameworks, chunkG, old_products, chunkH, old_root, chunkI, old_app_phases_p1, old_app_phases_p2, chunkJ, anchor_native_target, chunkK, attrs_old, chunkL, targets_old, chunkM, anchor_resources, chunkN, anchor_sources, chunkO, anchor_dependency, chunkP, anchor_xcbuild_config, chunkQ, anchor_config_list, chunkR] from rfl]
  rw [regroup1]
  rw [cat_cons, countOcc_win anchor_sync_group_ne]
  rw [(by decide : countOcc anchor_sync_group (seg1 ++ (cat [seg2, seg3, seg4, seg5]).take (anchor_sync_group.length - 1)) = 1)]
  rw [cat_cons, countOcc_win anchor_sync_group_ne]
  rw [(by decide : countOcc anchor_sync_group (seg2 ++ (cat [seg3, seg4, seg5]).take (anchor_sync_group.length - 1)) = 0), Nat.zero_add]
  rw [cat_cons, countOcc_win anchor_sync_group_ne]
  rw [(by decide : countOcc anchor_sync_group (seg3 ++ (cat [seg4, seg5]).take (anchor_sync_group.length - 1)) = 0), Nat.zero_add]
  rw [cat_cons, countOcc_win anchor_sync_group_ne]
  rw [(by decide : countOcc anchor_sync_group (seg4 ++ (cat [seg5]).take (anchor_sync_group.length - 1)) = 0), Nat.zero_add]
  rw [cat_cons, countOcc_win anchor_sync_group_ne]
  rw [(by decide : countOcc anchor_sync_group (seg5 ++ (cat []).take (anchor_sync_group.length - 1)) = 0), Nat.zero_add]
  rfl

theorem cnt_fix0_anchor_frameworks : countOcc anchor_frameworks fixture = 1 := by
  rw [show fixture = cat [chunkA, anchor_build_file, chunkB, anchor_proxy, chunkC, anchor_begin_file_ref, chunkD, anchor_file_ref, chunkE, anchor_sync_group, chunkF, anchor_frameworks, chunkG, old_products, chunkH, old_root, chunkI, old_app_phases_p1, old_app_phases_p2, chunkJ, anchor_native_target, chunkK, attrs_old, chunkL, targets_old, chunkM, anchor_resources, chunkN, anchor_sources, chunkO, anchor_dependency, chunkP, anchor_xcbuild_config, chunkQ, anchor_config_list, chunkR] from rfl]
  rw [regroup1]
  rw [cat_cons, countOcc_win anchor_frameworks_ne]
  rw [(by decide : countOcc anchor_frameworks (seg1 ++ (cat [seg2, seg3, seg4, seg5]).take (anchor_frameworks.length - 1)) = 1)]
  rw [cat_cons, countOcc_win anchor_frameworks_ne]
  rw [(by decide : countOcc anchor_frameworks (seg2 ++ (cat [seg3, seg4, seg5]).take (anchor_frameworks.length - 1)) = 0), Nat.zero_add]
  rw [cat_cons, countOcc_win anchor_frameworks_ne]
  rw [(by decide : countOcc anchor_frameworks (seg3 ++ (cat [seg4, seg5]).take (anchor_frameworks.length - 1)) = 0), Nat.zero_add]
  rw [cat_cons, countOcc_win anchor_frameworks_ne]
  rw [(by decide : countOcc anchor_frameworks (seg4 ++ (cat [seg5]).take (anchor_frameworks.length - 1)) = 0), Nat.zero_add]
  rw [cat_cons, countOcc_win anchor_frameworks_ne]
  rw [(by decide : countOcc anchor_frameworks (seg5 ++ (cat []).take (anchor_frameworks.length - 1)) = 0), Nat.zero_add]
  rfl

theorem cnt_fix0_old_products : countOcc old_products fixture = 1 := by
  rw [show fixture = cat [chunkA, anchor_build_file, chunkB, anchor_proxy, chunkC, anchor_begin_file_ref, chunkD, anchor_file_ref, chunkE, anchor_sync_group, chunkF, anchor_frameworks, chunkG, old_products, chunkH, old_root, chunkI, old_app_phases_p1, old_app_phases_p2, chunkJ, anchor_native_target, chunkK, attrs_old, chunkL, targets_old, chunkM, anchor_resources, chunkN, anchor_sources, chunkO, anchor_dependency, chunkP, anchor_xcbuild_config, chunkQ, anchor_config_list, chunkR] from rfl]
  rw [regroup1]
  rw [cat_cons, countOcc_win old_products_ne]
  rw [(by decide : countOcc old_products (seg1 ++ (cat [seg2, seg3, seg4, seg5]).take (old_products.length - 1)) = 0), Nat.zero_add]
  rw [cat_cons, countOcc_win old_products_ne]
  rw [(by decide : countOcc old_products (seg2 ++ (cat [seg3, seg4, seg5]).take (old_products.length - 1)) = 1)]
  rw [cat_cons, countOcc_win old_products_ne]
  rw [(by decide : countOcc old_products (seg3 ++ (cat [seg4, seg5]).take (old_products.length - 1)) = 0), Nat.zero_add]
  rw [cat_cons, countOcc_win old_products_ne]
  rw [(by decide : countOcc old_products (seg4 ++ (cat [seg5]).take (old_products.length - 1)) = 0), Nat.zero_add]
  rw [cat_cons, countOcc_win old_products_ne]
  rw [(by decide : countOcc old_products (seg5 ++ (cat []).take (old_products.length - 1)) = 0), Nat.zero_add]
  rfl

theorem cnt_fix0_old_root : countOcc old_root fixture = 1 := by
  rw [show fixture = cat [chunkA, anchor_build_file, chunkB, anchor_proxy, chunkC, anchor_begin_file_ref, chunkD, anchor_file_ref, chunkE, anchor_sync_group, chunkF, anchor_frameworks, chunkG, old_products, chunkH, old_root, chunkI, old_app_phases_p1, old_app_phases_p2, chunkJ, anchor_native_target, chunkK, attrs_old, chunkL, targets_old, chunkM, anchor_resources, chunkN, anchor_sources, chunkO, anchor_dependency, chunkP, anchor_xcbuild_config, chunkQ, anchor_config_list, chunkR] from rfl]
  rw [regroup1]
  rw [cat_cons, countOcc_win old_root_ne]
  rw [(by decide : countOcc old_root (seg1 ++ (cat [seg2, seg3, seg4, seg5]).take (old_root.length - 1)) = 0), Nat.zero_add]
  rw [cat_cons, countOcc_win old_root_ne]
  rw [(by decide : countOcc old_root (seg2 ++ (cat [seg3, seg4, seg5]).take (old_root.length - 1)) = 1)]
  rw [cat_cons, countOcc_win old_root_ne]
  rw [(by decide : countOcc old_root (seg3 ++ (cat [seg4, seg5]).take (old_root.length - 1)) = 0), Nat.zero_add]
  rw [cat_cons, countOcc_win old_root_ne]
  rw [(by decide : countOcc old_root (seg4 ++ (cat [seg5]).take (old_root.length - 1)) = 0), Nat.zero_add]
  rw [cat_cons, countOcc_win old_root_ne]
  rw [(by decide : countOcc old_root (seg5 ++ (cat []).take (old_root.length - 1)) = 0), Nat.zero_add]
  rfl

theorem cnt_fix0_anchor_native_target : countOcc anchor_native_target fixture = 1 := by
  rw [show fixture = cat [chunkA, anchor_build_file, chunkB, anchor_proxy, chunkC, anchor_begin_file_ref, chunkD, anchor_file_ref, chunkE, anchor_sync_group, chunkF, anchor_frameworks, chunkG, old_products, chunkH, old_root, chunkI, old_app_phases_p1, old_app_phases_p2, chunkJ, anchor_native_target, chunkK, attrs_old, chunkL, targets_old, chunkM, anchor_resources, chunkN, anchor_sources, chunkO, anchor_dependency, chunkP, anchor_xcbuild_config, chunkQ, anchor_config_list, chunkR] from rfl]
  rw [regroup1]
  rw [cat_cons, countOcc_win anchor_native_target_ne]
  rw [(by decide : countOcc anchor_native_target (seg1 ++ (cat [seg2, seg3, seg4, seg5]).take (anchor_native_target.length - 1)) = 0), Nat.zero_add]
  rw [cat_cons, countOcc_win anchor_native_target_ne]
  rw [(by decide : countOcc anchor_native_target (seg2 ++ (cat [seg3, seg4, seg5]).take (anchor_native_target.length - 1)) = 0), Nat.zero_add]
  rw [cat_cons, countOcc_win anchor_native_target_ne]
  rw [(by decide : countOcc anchor_native_target (seg3 ++ (cat [seg4, seg5]).take (anchor_native_target.length - 1)) = 0), Nat.zero_add]
  rw [cat_cons, countOcc_win anchor_native_target_ne]
  rw [(by decide : countOcc anchor_native_target (seg4 ++ (cat [seg5]).take (anchor_native_target.length - 1)) = 1)]
  rw [cat_cons, countOcc_win anchor_native_target_ne]
  rw [(by decide : countOcc anchor_native_target (seg5 ++ (cat []).take (anchor_native_target.length - 1)) = 0), Nat.zero_add]
  rfl

theorem cnt_fix0_targets_old : countOcc targets_old fixture = 1 := by
  rw [show fixture = cat [chunkA, anchor_build_file, chunkB, anchor_proxy, chunkC, anchor_begin_file_ref, chunkD, anchor_file_ref, chunkE, anchor_sync_group, chunkF, anchor_frameworks, chunkG, old_products, chunkH, old_root, chunkI, old_app_phases_p1, old_app_phases_p2, chunkJ, anchor_native_target, chunkK, attrs_old, chunkL, targets_old, chunkM, anchor_resources, chunkN, anchor_sources, chunkO, anchor_dependency, chunkP, anchor_xcbuild_config, chunkQ, anchor_config_list, chunkR] from rfl]
  rw [regroup1]
  rw [cat_cons, countOcc_win targets_old_ne]
  rw [(by decide : countOcc targets_old (seg1 ++ (cat [seg2, seg3, seg4, seg5]).take (targets_old.length - 1)) = 0), Nat.zero_add]
  rw [cat_cons, countOcc_win targets_old_ne]
  rw [(by decide : countOcc targets_old (seg2 ++ (cat [seg3, seg4, seg5]).take (targets_old.length - 1)) = 0), Nat.zero_add]
  rw [cat_cons, countOcc_win targets_old_ne]
  rw [(by decide : countOcc targets_old (seg3 ++ (cat [seg4, seg5]).take (targets_old.length - 1)) = 0), Nat.zero_add]
  rw [cat_cons, countOcc_win targets_old_ne]
  rw [(by decide : countOcc targets_old (seg4 ++ (cat [seg5]).take (targets_old.length - 1)) = 1)]
  rw [cat_cons, countOcc_win targets_old_ne]
  rw [(by decide : countOcc targets_old (seg5 ++ (cat []).take (targets_old.length - 1)) = 0), Nat.zero_add]
  rfl

theorem cnt_fix0_attrs_old : countOcc attrs_old fixture = 1 := by
  rw [show fixture = cat [chunkA, anchor_build_file, chunkB, anchor_proxy, chunkC, anchor_begin_file_ref, chunkD, anchor_file_ref, chunkE, anchor_sync_group, chunkF, anchor_frameworks, chunkG, old_products, chunkH, old_root, chunkI, old_app_phases_p1, old_app_phases_p2, chunkJ, anchor_native_target, chunkK, attrs_old, chunkL, targets_old, chunkM, anchor_resources, chunkN, anchor_sources, chunkO, anchor_dependency, chunkP, anchor_xcbuild_config, chunkQ, anchor_config_list, chunkR] from rfl]
  rw [regroup1]
  rw [cat_cons, countOcc_win attrs_old_ne]
  rw [(by decide : countOcc attrs_old (seg1 ++ (cat [seg2, seg3, seg4, seg5]).take (attrs_old.length - 1)) = 0), Nat.zero_add]
  rw [cat_cons, countOcc_win attrs_old_ne]
  rw [(by decide : countOcc attrs_old (seg2 ++ (cat [seg3, seg4, seg5]).take (attrs_old.length - 1)) = 0), Nat.zero_add]
  rw [cat_cons, countOcc_win attrs_old_ne]
  rw [(by decide : countOcc attrs_old (seg3 ++ (cat [seg4, seg5]).take (attrs_old.length - 1)) = 0), Nat.zero_add]
  rw [cat_cons, countOcc_win attrs_old_ne]
  rw [(by decide : countOcc attrs_old (seg4 ++ (cat [seg5]).take (attrs_old.length - 1)) = 1)]
  rw [cat_cons, countOcc_win attrs_old_ne]
  rw [(by decide : countOcc attrs_old (seg5 ++ (cat []).take (attrs_old.length - 1)) = 0), Nat.zero_add]
  rfl

theorem cnt_fix0_old_app_phases : countOcc old_app_phases fixture = 1 := by
  rw [show fixture = cat [chunkA, anchor_build_file, chunkB, anchor_proxy, chunkC, anchor_begin_file_ref, chunkD, anchor_file_ref, chunkE, anchor_sync_group, chunkF, anchor_frameworks, chunkG, old_products, chunkH, old_root, chunkI, old_app_phases_p1, old_app_phases_p2, chunkJ, anchor_native_target, chunkK, attrs_old, chunkL, targets_old, chunkM, anchor_resources, chunkN, anchor_sources, chunkO, anchor_dependency, chunkP, anchor_xcbuild_config, chunkQ, anchor_config_list, chunkR] from rfl]
  rw [regroup1]
  rw [cat_cons, countOcc_win old_app_phases_ne]
  rw [(by decide : countOcc old_app_phases (seg1 ++ (cat [seg2, seg3, seg4, seg5]).take (old_app_phases.length - 1)) = 0), Nat.zero_add]
  rw [cat_cons, countOcc_win old_app_phases_ne]
  rw [(by decide : countOcc old_app_phases (seg2 ++ (cat [seg3, seg4, seg5]).take (old_app_phases.length - 1)) = 0), Nat.zero_add]
  rw [cat_cons, countOcc_win old_app_phases_ne]
  rw [(by decide : countOcc old_app_phases (seg3 ++ (cat [seg4, seg5]).take (old_app_phases.length - 1)) = 1)]
  rw [cat_cons, countOcc_win old_app_phases_ne]
  rw [(by decide : countOcc old_app_phases (seg4 ++ (cat [seg5]).take (old_app_phases.length - 1)) = 0), Nat.zero_add]
  rw [cat_cons, countOcc_win old_app_phases_ne]
  rw [(by decide : countOcc old_app_phases (seg5 ++ (cat []).take (old_app_phases.length - 1)) = 0), Nat.zero_add]
  rfl

theorem cnt_fix0_anchor_resources : countOcc anchor_resources fixture = 1 := by
  rw [show fixture = cat [chunkA, anchor_build_file, chunkB, anchor_proxy, chunkC, anchor_begin_file_ref, chunkD, anchor_file_ref, chunkE, anchor_sync_group, chunkF, anchor_frameworks, chunkG, old_products, chunkH, old_root, chunkI, old_app_phases_p1, old_app_phases_p2, chunkJ, anchor_native_target, chunkK, attrs_old, chunkL, targets_old, chunkM, anchor_resources, chunkN, anchor_sources, chunkO, anchor_dependency, chunkP, anchor_xcbuild_config, chunkQ, anchor_config_list, chunkR] from rfl]
  rw [regroup1]
  rw [cat_cons, countOcc_win anchor_resources_ne]
  rw [(by decide : countOcc anchor_resources (seg1 ++ (cat [seg2, seg3, seg4, seg5]).take (anchor_resources.length - 1)) = 0), Nat.zero_add]
  rw [cat_cons, countOcc_win anchor_resources_ne]
  rw [(by decide : countOcc anchor_resources (seg2 ++ (cat [seg3, seg4, seg5]).take (anchor_resources.length - 1)) = 0), Nat.zero_add]
  rw [cat_cons, countOcc_win anchor_resources_ne]
  rw [(by decide : countOcc anchor_resources (seg3 ++ (cat [seg4, seg5]).take (anchor_resources.length - 1)) = 0), Nat.zero_add]
  rw [cat_cons, countOcc_win anchor_resources_ne]
  rw [(by decide : countOcc anchor_resources (seg4 ++ (cat [seg5]).take (anchor_resources.length - 1)) = 1)]
  rw [cat_cons, countOcc_win anchor_resources_ne]
  rw [(by decide : countOcc anchor_resources (seg5 ++ (cat []).take (anchor_resources.length - 1)) = 0), Nat.zero_add]
  rfl

theorem cnt_fix0_anchor_sources : countOcc anchor_sources fixture = 1 := by
  rw [show fixture = cat [chunkA, anchor_build_file, chunkB, anchor_proxy, chunkC, anchor_begin_file_ref, chunkD, anchor_file_ref, chunkE, anchor_sync_group, chunkF, anchor_frameworks, chunkG, old_products, chunkH, old_root, chunkI, old_app_phases_p1, old_app_phases_p2, chunkJ, anchor_native_target, chunkK, attrs_old, chunkL, targets_old, chunkM, anchor_resources, chunkN, anchor_sources, chunkO, anchor_dependency, chunkP, anchor_xcbuild_config, chunkQ, anchor_config_list, chunkR] from rfl]
  rw [regroup1]
  rw [cat_cons, countOcc_win anchor_sources_ne]
  rw [(by decide : countOcc anchor_sources (seg1 ++ (cat [seg2, seg3, seg4, seg5]).take (anchor_sources.length - 1)) = 0), Nat.zero_add]
  rw [cat_cons, countOcc_win anchor_sources_ne]
  rw [(by decide : countOcc anchor_sources (seg2 ++ (cat [seg3, seg4, seg5]).take (anchor_sources.length - 1)) = 0), Nat.zero_add]
  rw [cat_cons, countOcc_win anchor_sources_ne]
  rw [(by decide : countOcc anchor_sources (seg3 ++ (cat [seg4, seg5]).take (anchor_sources.length - 1)) = 0), Nat.zero_add]
  rw [cat_cons, countOcc_win anchor_sources_ne]
  rw [(by decide : countOcc anchor_sources (seg4 ++ (cat [seg5]).take (anchor_sources.length - 1)) = 0), Nat.zero_add]
  rw [cat_cons, countOcc_win anchor_sources_ne]
  rw [(by decide : countOcc anchor_sources (seg5 ++ (cat []).take (anchor_sources.length - 1)) = 1)]
  rfl

theorem cnt_fix0_anchor_dependency : countOcc anchor_dependency fixture = 1 := by
  rw [show fixture = cat [chunkA, anchor_build_file, chunkB, anchor_proxy, chunkC, anchor_begin_file_ref, chunkD, anchor_file_ref, chunkE, anchor_sync_group, chunkF, anchor_frameworks, chunkG, old_products, chunkH, old_root, chunkI, old_app_phases_p1, old_app_phases_p2, chunkJ, anchor_native_target, chunkK, attrs_old, chunkL, targets_old, chunkM, anchor_resources, chunkN, anchor_sources, chunkO, anchor_dependency, chunkP, anchor_xcbuild_config, chunkQ, anchor_config_list, chunkR] from rfl]
  rw [regroup1]
  rw [cat_cons, countOcc_win anchor_dependency_ne]
  rw [(by decide : countOcc anchor_dependency (seg1 ++ (cat [seg2, seg3, seg4, seg5]).take (anchor_dependency.length - 1)) = 0), Nat.zero_add]
  rw [cat_cons, countOcc_win anchor_dependency_ne]
  rw [(by decide : countOcc anchor_dependency (seg2 ++ (cat [seg3, seg4, seg5]).take (anchor_dependency.length - 1)) = 0), Nat.zero_add]
  rw [cat_cons, countOcc_win anchor_dependency_ne]
  rw [(by decide : countOcc anchor_dependency (seg3 ++ (cat [seg4, seg5]).take (anchor_dependency.length - 1)) = 0), Nat.zero_add]
  rw [cat_cons, countOcc_win anchor_dependency_ne]
  rw [(by decide : countOcc anchor_dependency (seg4 ++ (cat [seg5]).take (anchor_dependency.length - 1)) = 0), Nat.zero_add]
  rw [cat_cons, countOcc_win anchor_dependency_ne]
  rw [(by decide : countOcc anchor_dependency (seg5 ++ (cat []).take (anchor_dependency.length - 1)) = 1)]
  rfl

theorem cnt_fix0_anchor_xcbuild_config : countOcc anchor_xcbuild_config fixture = 1 := by
  rw [show fixture = cat [chunkA, anchor_build_file, chunkB, anchor_proxy, chunkC, anchor_begin_file_ref, chunkD, anchor_file_ref, chunkE, anchor_sync_group, chunkF, anchor_frameworks, chunkG, old_products, chunkH, old_root, chunkI, old_app_phases_p1, old_app_phases_p2, chunkJ, anchor_native_target, chunkK, attrs_old, chunkL, targets_old, chunkM, anchor_resources, chunkN, anchor_sources, chunkO, anchor_dependency, chunkP, anchor_xcbuild_config, chunkQ, anchor_config_list, chunkR] from rfl]
  rw [regroup1]
  rw [cat_cons, countOcc_win anchor_xcbuild_config_ne]
  rw [(by decide : countOcc anchor_xcbuild_config (seg1 ++ (cat [seg2, seg3, seg4, seg5]).take (anchor_xcbuild_config.length - 1)) = 0), Nat.zero_add]
  rw [cat_cons, countOcc_win anchor_xcbuild_config_ne]
  rw [(by decide : countOcc anchor_xcbuild_config (seg2 ++ (cat [seg3, seg4, seg5]).take (anchor_xcbuild_config.length - 1)) = 0), Nat.zero_add]
  rw [cat_cons, countOcc_win anchor_xcbuild_config_ne]
  rw [(by decide : countOcc anchor_xcbuild_config (seg3 ++ (cat [seg4, seg5]).take (anchor_xcbuild_config.length - 1)) = 0), Nat.zero_add]
  rw [cat_cons, countOcc_win anchor_xcbuild_config_ne]
  rw [(by decide : countOcc anchor_xcbuild_config (seg4 ++ (cat [seg5]).take (anchor_xcbuild_config.length - 1)) = 0), Nat.zero_add]
  rw [cat_cons, countOcc_win anchor_xcbuild_config_ne]
  rw [(by decide : countOcc anchor_xcbuild_config (seg5 ++ (cat []).take (anchor_xcbuild_config.length - 1)) = 1)]
  rfl

theorem cnt_fix0_anchor_config_list : countOcc anchor_config_list fixture = 1 := by
  rw [show fixture = cat [chunkA, anchor_build_file, chunkB, anchor_proxy, chunkC, anchor_begin_file_ref, chunkD, anchor_file_ref, chunkE, anchor_sync_group, chunkF, anchor_frameworks, chunkG, old_products, chunkH, old_root, chunkI, old_app_phases_p1, old_app_phases_p2, chunkJ, anchor_native_target, chunkK, attrs_old, chunkL, targets_old, chunkM, anchor_resources, chunkN, anchor_sources, chunkO, anchor_dependency, chunkP, anchor_xcbuild_config, chunkQ, anchor_config_list, chunkR] from rfl]
  rw [regroup1]
  rw [cat_cons, countOcc_win anchor_config_list_ne]
  rw [(by decide : countOcc anchor_config_list (seg1 ++ (cat [seg2, seg3, seg4, seg5]).take (anchor_config_list.length - 1)) = 0), Nat.zero_add]
  rw [cat_cons, countOcc_win anchor_config_list_ne]
  rw [(by decide : countOcc anchor_config_list (seg2 ++ (cat [seg3, seg4, seg5]).take (anchor_config_list.length - 1)) = 0), Nat.zero_add]
  rw [cat_cons, countOcc_win anchor_config_list_ne]
  rw [(by decide : countOcc anchor_config_list (seg3 ++ (cat [seg4, seg5]).take (anchor_config_list.length - 1)) = 0), Nat.zero_add]
  rw [cat_cons, countOcc_win anchor_config_list_ne]
  rw [(by decide : countOcc anchor_config_list (seg4 ++ (cat [seg5]).take (anchor_config_list.length - 1)) = 0), Nat.zero_add]
  rw [cat_cons, countOcc_win anchor_config_list_ne]
  rw [(by decide : countOcc anchor_config_list (seg5 ++ (cat []).take (anchor_config_list.length - 1)) = 1)]
  rfl

theorem cnt_fix1_anchor_proxy : countOcc anchor_proxy (cat [chunkA, build_file_entry, anchor_build_file, chunkB, anchor_proxy, chunkC, anchor_begin_file_ref, chunkD, anchor_file_ref, chunkE, anchor_sync_group, chunkF, anchor_frameworks, chunkG, old_products, chunkH, old_root, chunkI, old_app_phases_p1, old_app_phases_p2, chunkJ, anchor_native_target, chunkK, attrs_old, chunkL, targets_old, chunkM, anchor_resources, chunkN, anchor_sources, chunkO, anchor_dependency, chunkP, anchor_xcbuild_config, chunkQ, anchor_config_list, chunkR]) = 1 := by
  rw [regroup2]
  rw [cat_cons, countOcc_win anchor_proxy_ne]
  rw [(by decide : countOcc anchor_proxy (seg6 ++ (cat [seg7, seg8, seg9, seg10, seg11]).take (anchor_proxy.length - 1)) = 1)]
  rw [cat_cons, countOcc_win anchor_proxy_ne]
  rw [(by decide : countOcc anchor_proxy (seg7 ++ (cat [seg8, seg9, seg10, seg11]).take (anchor_proxy.length - 1)) = 0), Nat.zero_add]
  rw [cat_cons, countOcc_win anchor_proxy_ne]
  rw [(by decide : countOcc anchor_proxy (seg8 ++ (cat [seg9, seg10, seg11]).take (anchor_proxy.length - 1)) = 0), Nat.zero_add]
  rw [cat_cons, countOcc_win anchor_proxy_ne]
  rw [(by decide : countOcc anchor_proxy (seg9 ++ (cat [seg10, seg11]).take (anchor_proxy.length - 1)) = 0), Nat.zero_add]
  rw [cat_cons, countOcc_win anchor_proxy_ne]
  rw [(by decide : countOcc anchor_proxy (seg10 ++ (cat [seg11]).take (anchor_proxy.length - 1)) = 0), Nat.zero_add]
  rw [cat_cons, countOcc_win anchor_proxy_ne]
  rw [(by decide : countOcc anchor_proxy (seg11 ++ (cat []).take (anchor_proxy.length - 1)) = 0), Nat.zero_add]
  rfl

theorem cnt_fix2_anchor_begin_file_ref : countOcc anchor_begin_file_ref (cat [chunkA, build_file_entry, anchor_build_file, chunkB, proxy_entry_p1, proxy_entry_p2, anchor_proxy, chunkC, anchor_begin_file_ref, chunkD, anchor_file_ref, chunkE, anchor_sync_group, chunkF, anchor_frameworks, chunkG, old_products, chunkH, old_root, chunkI, old_app_phases_p1, old_app_phases_p2, chunkJ, anchor_native_target, chunkK, attrs_old, chunkL, targets_old, chunkM, anchor_resources, chunkN, anchor_sources, chunkO, anchor_dependency, chunkP, anchor_xcbuild_config, chunkQ, anchor_config_list, chunkR]) = 1 := by
  rw [regroup3]
  rw [cat_cons, countOcc_win anchor_begin_file_ref_ne]
  rw [(by decide : countOcc anchor_begin_file_ref (seg12 ++ (cat [seg13, seg14, seg8, seg9, seg10, seg11]).take (anchor_begin_file_ref.length - 1)) = 0), Nat.zero_add]
  rw [cat_cons, countOcc_win anchor_begin_file_ref_ne]
  rw [(by decide : countOcc anchor_begin_file_ref (seg13 ++ (cat [seg14, seg8, seg9, seg10, seg11]).take (anchor_begin_file_ref.length - 1)) = 1)]
  rw [cat_cons, countOcc_win anchor_begin_file_ref_ne]
  rw [(by decide : countOcc anchor_begin_file_ref (seg14 ++ (cat [seg8, seg9, seg10, seg11]).take (anchor_begin_file_ref.length - 1)) = 0), Nat.zero_add]
  rw [cat_cons, countOcc_win anchor_begin_file_ref_ne]
  rw [(by decide : countOcc anchor_begin_file_ref (seg8 ++ (cat [seg9, seg10, seg11]).take (anchor_begin_file_ref.length - 1)) = 0), Nat.zero_add]
  rw [cat_cons, countOcc_win anchor_begin_file_ref_ne]
  rw [(by decide : countOcc anchor_begin_file_ref (seg9 ++ (cat [seg10, seg11]).take (anchor_begin_file_ref.length - 1)) = 0), Nat.zero_add]
  rw [cat_cons, countOcc_win anchor_begin_file_ref_ne]
  rw [(by decide : countOcc anchor_begin_file_ref (seg10 ++ (cat [seg11]).take (anchor_begin_file_ref.length - 1)) = 0), Nat.zero_add]
  rw [cat_cons, countOcc_win anchor_begin_file_ref_ne]
  rw [(by decide : countOcc anchor_begin_file_ref (seg11 ++ (cat []).take (anchor_begin_file_ref.length - 1)) = 0), Nat.zero_add]
  rfl

theorem cnt_fix3_anchor_file_ref : countOcc anchor_file_ref (cat [chunkA, build_file_entry, anchor_build_file, chunkB, proxy_entry_p1, proxy_entry_p2, anchor_proxy, chunkC, copy_phase_p1, copy_phase_p2, copy_phase_p3, anchor_begin_file_ref, chunkD, anchor_file_ref, chunkE, anchor_sync_group, chunkF, anchor_frameworks, chunkG, old_products, chunkH, old_root, chunkI, old_app_phases_p1, old_app_phases_p2, chunkJ, anchor_native_target, chunkK, attrs_old, chunkL, targets_old, chunkM, anchor_resources, chunkN, anchor_sources, chunkO, anchor_dependency, chunkP, anchor_xcbuild_config, chunkQ, anchor_config_list, chunkR]) = 1 := by
  rw [regroup4]
  rw [cat_cons, countOcc_win anchor_file_ref_ne]
  rw [(by decide : countOcc anchor_file_ref (seg12 ++ (cat [seg15, seg16, seg7, seg8, seg9, seg10, seg11]).take (anchor_file_ref.length - 1)) = 0), Nat.zero_add]
  rw [cat_cons, countOcc_win anchor_file_ref_ne]
  rw [(by decide : countOcc anchor_file_ref (seg15 ++ (cat [seg16, seg7, seg8, seg9, seg10, seg11]).take (anchor_file_ref.length - 1)) = 0), Nat.zero_add]
  rw [cat_cons, countOcc_win anchor_file_ref_ne]
  rw [(by decide : countOcc anchor_file_ref (seg16 ++ (cat [seg7, seg8, seg9, seg10, seg11]).take (anchor_file_ref.length - 1)) = 1)]
  rw [cat_cons, countOcc_win anchor_file_ref_ne]
  rw [(by decide : countOcc anchor_file_ref (seg7 ++ (cat [seg8, seg9, seg10, seg11]).take (anchor_file_ref.length - 1)) = 0), Nat.zero_add]
  rw [cat_cons, countOcc_win anchor_file_ref_ne]
  rw [(by decide : countOcc anchor_file_ref (seg8 ++ (cat [seg9, seg10, seg11]).take (anchor_file_ref.length - 1)) = 0), Nat.zero_add]
  rw [cat_cons, countOcc_win anchor_file_ref_ne]
  rw [(by decide : countOcc anchor_file_ref (seg9 ++ (cat [seg10, seg11]).take (anchor_file_ref.length - 1)) = 0), Nat.zero_add]
  rw [cat_cons, countOcc_win anchor_file_ref_ne]
  rw [(by decide : countOcc anchor_file_ref (seg10 ++ (cat [seg11]).take (anchor_file_ref.length - 1)) = 0), Nat.zero_add]
  rw [cat_cons, countOcc_win anchor_file_ref_ne]
  rw [(by decide : countOcc anchor_file_ref (seg11 ++ (cat []).take (anchor_file_ref.length - 1)) = 0), Nat.zero_add]
  rfl

theorem cnt_fix4_anchor_sync_group : countOcc anchor_sync_group (cat [chunkA, build_file_entry, anchor_build_file, chunkB, proxy_entry_p1, proxy_entry_p2, anchor_proxy, chunkC, copy_phase_p1, copy_phase_p2, copy_phase_p3, anchor_begin_file_ref, chunkD, file_ref, anchor_file_ref, chunkE, anchor_sync_group, chunkF, anchor_frameworks, chunkG, old_products, chunkH, old_root, chunkI, old_app_phases_p1, old_app_phases_p2, chunkJ, anchor_native_target, chunkK, attrs_old, chunkL, targets_old, chunkM, anchor_resources, chunkN, anchor_sources, chunkO, anchor_dependency, chunkP, anchor_xcbuild_config, chunkQ, anchor_config_list, chunkR]) = 1 := by
  rw [regroup5]
  rw [cat_cons, countOcc_win anchor_sync_group_ne]
  rw [(by decide : countOcc anchor_sync_group (seg12 ++ (cat [seg15, seg17, seg18, seg2, seg3, seg4, seg5]).take (anchor_sync_group.length - 1)) = 0), Nat.zero_add]
  rw [cat_cons, countOcc_win anchor_sync_group_ne]
  rw [(by decide : countOcc anchor_sync_group (seg15 ++ (cat [seg17, seg18, seg2, seg3, seg4, seg5]).take (anchor_sync_group.length - 1)) = 0), Nat.zero_add]
  rw [cat_cons, countOcc_win anchor_sync_group_ne]
  rw [(by decide : countOcc anchor_sync_group (seg17 ++ (cat [seg18, seg2, seg3, seg4, seg5]).take (anchor_sync_group.length - 1)) = 0), Nat.zero_add]
  rw [cat_cons, countOcc_win anchor_sync_group_ne]
  rw [(by decide : countOcc anchor_sync_group (seg18 ++ (cat [seg2, seg3, seg4, seg5]).take (anchor_sync_group.length - 1)) = 1)]
  rw [cat_cons, countOcc_win anchor_sync_group_ne]
  rw [(by decide : countOcc anchor_sync_group (seg2 ++ (cat [seg3, seg4, seg5]).take (anchor_sync_group.length - 1)) = 0), Nat.zero_add]
  rw [cat_cons, countOcc_win anchor_sync_group_ne]
  rw [(by decide : countOcc anchor_sync_group (seg3 ++ (cat [seg4, seg5]).take (anchor_sync_group.length - 1)) = 0), Nat.zero_add]
  rw [cat_cons, countOcc_win anchor_sync_group_ne]
  rw [(by decide : countOcc anchor_sync_group (seg4 ++ (cat [seg5]).take (anchor_sync_group.length - 1)) = 0), Nat.zero_add]
  rw [cat_cons, countOcc_win anchor_sync_group_ne]
  rw [(by decide : countOcc anchor_sync_group (seg5 ++ (cat []).take (anchor_sync_group.length - 1)) = 0), Nat.zero_add]
  rfl

theorem cnt_fix5_anchor_frameworks : countOcc anchor_frameworks (cat [chunkA, build_file_entry, anchor_build_file, chunkB, proxy_entry_p1, proxy_entry_p2, anchor_proxy, chunkC, copy_phase_p1, copy_phase_p2, copy_phase_p3, anchor_begin_file_ref, chunkD, file_ref, anchor_file_ref, chunkE, sync_group_p1, sync_group_p2, anchor_sync_group, chunkF, anchor_frameworks, chunkG, old_products, chunkH, old_root, chunkI, old_app_phases_p1, old_app_phases_p2, chunkJ, anchor_native_target, chunkK, attrs_old, chunkL, targets_old, chunkM, anchor_resources, chunkN, anchor_sources, chunkO, anchor_dependency, chunkP, anchor_xcbuild_config, chunkQ, anchor_config_list, chunkR]) = 1 := by
  rw [regroup6]
  rw [cat_cons, countOcc_win anchor_frameworks_ne]
  rw [(by decide : countOcc anchor_frameworks (seg12 ++ (cat [seg15, seg17, seg19, seg20, seg8, seg9, seg10, seg11]).take (anchor_frameworks.length - 1)) = 0), Nat.zero_add]
  rw [cat_cons, countOcc_win anchor_frameworks_ne]
  rw [(by decide : countOcc anchor_frameworks (seg15 ++ (cat [seg17, seg19, seg20, seg8, seg9, seg10, seg11]).take (anchor_frameworks.length - 1)) = 0), Nat.zero_add]
  rw [cat_cons, countOcc_win anchor_frameworks_ne]
  rw [(by decide : countOcc anchor_frameworks (seg17 ++ (cat [seg19, seg20, seg8, seg9, seg10, seg11]).take (anchor_frameworks.length - 1)) = 0), Nat.zero_add]
  rw [cat_cons, countOcc_win anchor_frameworks_ne]
  rw [(by decide : countOcc anchor_frameworks (seg19 ++ (cat [seg20, seg8, seg9, seg10, seg11]).take (anchor_frameworks.length - 1)) = 0), Nat.zero_add]
  rw [cat_cons, countOcc_win anchor_frameworks_ne]
  rw [(by decide : countOcc anchor_frameworks (seg20 ++ (cat [seg8, seg9, seg10, seg11]).take (anchor_frameworks.length - 1)) = 1)]
  rw [cat_cons, countOcc_win anchor_frameworks_ne]
  rw [(by decide : countOcc anchor_frameworks (seg8 ++ (cat [seg9, seg10, seg11]).take (anchor_frameworks.length - 1)) = 0), Nat.zero_add]
  rw [cat_cons, countOcc_win anchor_frameworks_ne]
  rw [(by decide : countOcc anchor_frameworks (seg9 ++ (cat [seg10, seg11]).take (anchor_frameworks.length - 1)) = 0), Nat.zero_add]
  rw [cat_cons, countOcc_win anchor_frameworks_ne]
  rw [(by decide : countOcc anchor_frameworks (seg10 ++ (cat [seg11]).take (anchor_frameworks.length - 1)) = 0), Nat.zero_add]
  rw [cat_cons, countOcc_win anchor_frameworks_ne]
  rw [(by decide : countOcc anchor_frameworks (seg11 ++ (cat []).take (anchor_frameworks.length - 1)) = 0), Nat.zero_add]
  rfl

theorem cnt_fix6_old_products : countOcc old_products (cat [chunkA, build_file_entry, anchor_build_file, chunkB, proxy_entry_p1, proxy_entry_p2, anchor_proxy, chunkC, copy_phase_p1, copy_phase_p2, copy_phase_p3, anchor_begin_file_ref, chunkD, file_ref, anchor_file_ref, chunkE, sync_group_p1, sync_group_p2, anchor_sync_group, chunkF, fw_phase_p1, fw_phase_p2, anchor_frameworks, chunkG, old_products, chunkH, old_root, chunkI, old_app_phases_p1, old_app_phases_p2, chunkJ, anchor_native_target, chunkK, attrs_old, chunkL, targets_old, chunkM, anchor_resources, chunkN, anchor_sources, chunkO, anchor_dependency, chunkP, anchor_xcbuild_config, chunkQ, anchor_config_list, chunkR]) = 1 := by
  rw [regroup7]
  rw [cat_cons, countOcc_win old_products_ne]
  rw [(by decide : countOcc old_products (seg12 ++ (cat [seg15, seg17, seg19, seg21, seg2, seg3, seg4, seg5]).take (old_products.length - 1)) = 0), Nat.zero_add]
  rw [cat_cons, countOcc_win old_products_ne]
  rw [(by decide : countOcc old_products (seg15 ++ (cat [seg17, seg19, seg21, seg2, seg3, seg4, seg5]).take (old_products.length - 1)) = 0), Nat.zero_add]
  rw [cat_cons, countOcc_win old_products_ne]
  rw [(by decide : countOcc old_products (seg17 ++ (cat [seg19, seg21, seg2, seg3, seg4, seg5]).take (old_products.length - 1)) = 0), Nat.zero_add]
  rw [cat_cons, countOcc_win old_products_ne]
  rw [(by decide : countOcc old_products (seg19 ++ (cat [seg21, seg2, seg3, seg4, seg5]).take (old_products.length - 1)) = 0), Nat.zero_add]
  rw [cat_cons, countOcc_win old_products_ne]
  rw [(by decide : countOcc old_products (seg21 ++ (cat [seg2, seg3, seg4, seg5]).take (old_products.length - 1)) = 0), Nat.zero_add]
  rw [cat_cons, countOcc_win old_products_ne]
  rw [(by decide : countOcc old_products (seg2 ++ (cat [seg3, seg4, seg5]).take (old_products.length - 1)) = 1)]
  rw [cat_cons, countOcc_win old_products_ne]
  rw [(by decide : countOcc old_products (seg3 ++ (cat [seg4, seg5]).take (old_products.length - 1)) = 0), Nat.zero_add]
  rw [cat_cons, countOcc_win old_products_ne]
  rw [(by decide : countOcc old_products (seg4 ++ (cat [seg5]).take (old_products.length - 1)) = 0), Nat.zero_add]
  rw [cat_cons, countOcc_win old_products_ne]
  rw [(by decide : countOcc old_products (seg5 ++ (cat []).take (old_products.length - 1)) = 0), Nat.zero_add]
  rfl

theorem cnt_fix7_old_root : countOcc old_root (cat [chunkA, build_file_entry, anchor_build_file, chunkB, proxy_entry_p1, proxy_entry_p2, anchor_proxy, chunkC, copy_phase_p1, copy_phase_p2, copy_phase_p3, anchor_begin_file_ref, chunkD, file_ref, anchor_file_ref, chunkE, sync_group_p1, sync_group_p2, anchor_sync_group, chunkF, fw_phase_p1, fw_phase_p2, anchor_frameworks, chunkG, new_products_p1, new_products_p2, chunkH, old_root, chunkI, old_app_phases_p1, old_app_phases_p2, chunkJ, anchor_native_target, chunkK, attrs_old, chunkL, targets_old, chunkM, anchor_resources, chunkN, anchor_sources, chunkO, anchor_dependency, chunkP, anchor_xcbuild_config, chunkQ, anchor_config_list, chunkR]) = 1 := by
  rw [regroup8]
  rw [cat_cons, countOcc_win old_root_ne]
  rw [(by decide : countOcc old_root (seg12 ++ (cat [seg15, seg17, seg19, seg22, seg23, seg8, seg9, seg10, seg11]).take (old_root.length - 1)) = 0), Nat.zero_add]
  rw [cat_cons, countOcc_win old_root_ne]
  rw [(by decide : countOcc old_root (seg15 ++ (cat [seg17, seg19, seg22, seg23, seg8, seg9, seg10, seg11]).take (old_root.length - 1)) = 0), Nat.zero_add]
  rw [cat_cons, countOcc_win old_root_ne]
  rw [(by decide : countOcc old_root (seg17 ++ (cat [seg19, seg22, seg23, seg8, seg9, seg10, seg11]).take (old_root.length - 1)) = 0), Nat.zero_add]
  rw [cat_cons, countOcc_win old_root_ne]
  rw [(by decide : countOcc old_root (seg19 ++ (cat [seg22, seg23, seg8, seg9, seg10, seg11]).take (old_root.length - 1)) = 0), Nat.zero_add]
  rw [cat_cons, countOcc_win old_root_ne]
  rw [(by decide : countOcc old_root (seg22 ++ (cat [seg23, seg8, seg9, seg10, seg11]).take (old_root.length - 1)) = 0), Nat.zero_add]
  rw [cat_cons, countOcc_win old_root_ne]
  rw [(by decide : countOcc old_root (seg23 ++ (cat [seg8, seg9, seg10, seg11]).take (old_root.length - 1)) = 0), Nat.zero_add]
  rw [cat_cons, countOcc_win old_root_ne]
  rw [(by decide : countOcc old_root (seg8 ++ (cat [seg9, seg10, seg11]).take (old_root.length - 1)) = 1)]
  rw [cat_cons, countOcc_win old_root_ne]
  rw [(by decide : countOcc old_root (seg9 ++ (cat [seg10, seg11]).take (old_root.length - 1)) = 0), Nat.zero_add]
  rw [cat_cons, countOcc_win old_root_ne]
  rw [(by decide : countOcc old_root (seg10 ++ (cat [seg11]).take (old_root.length - 1)) = 0), Nat.zero_add]
  rw [cat_cons, countOcc_win old_root_ne]
  rw [(by decide : countOcc old_root (seg11 ++ (cat []).take (old_root.length - 1)) = 0), Nat.zero_add]
  rfl

theorem cnt_fix8_anchor_native_target : countOcc anchor_native_target (cat [chunkA, build_file_entry, anchor_build_file, chunkB, proxy_entry_p1, proxy_entry_p2, anchor_proxy, chunkC, copy_phase_p1, copy_phase_p2, copy_phase_p3, anchor_begin_file_ref, chunkD, file_ref, anchor_file_ref, chunkE, sync_group_p1, sync_group_p2, anchor_sync_group, chunkF, fw_phase_p1, fw_phase_p2, anchor_frameworks, chunkG, new_products_p1, new_products_p2, chunkH, new_root_p1, new_root_p2, chunkI, old_app_phases_p1, old_app_phases_p2, chunkJ, anchor_native_target, chunkK, attrs_old, chunkL, targets_old, chunkM, anchor_resources, chunkN, anchor_sources, chunkO, anchor_dependency, chunkP, anchor_xcbuild_config, chunkQ, anchor_config_list, chunkR]) = 1 := by
  rw [regroup9]
  rw [cat_cons, countOcc_win anchor_native_target_ne]
  rw [(by decide : countOcc anchor_native_target (seg12 ++ (cat [seg15, seg17, seg19, seg22, seg24, seg25, seg9, seg10, seg11]).take (anchor_native_target.length - 1)) = 0), Nat.zero_add]
  rw [cat_cons, countOcc_win anchor_native_target_ne]
  rw [(by decide : countOcc anchor_native_target (seg15 ++ (cat [seg17, seg19, seg22, seg24, seg25, seg9, seg10, seg11]).take (anchor_native_target.length - 1)) = 0), Nat.zero_add]
  rw [cat_cons, countOcc_win anchor_native_target_ne]
  rw [(by decide : countOcc anchor_native_target (seg17 ++ (cat [seg19, seg22, seg24, seg25, seg9, seg10, seg11]).take (anchor_native_target.length - 1)) = 0), Nat.zero_add]
  rw [cat_cons, countOcc_win anchor_native_target_ne]
  rw [(by decide : countOcc anchor_native_target (seg19 ++ (cat [seg22, seg24, seg25, seg9, seg10, seg11]).take (anchor_native_target.length - 1)) = 0), Nat.zero_add]
  rw [cat_cons, countOcc_win anchor_native_target_ne]
  rw [(by decide : countOcc anchor_native_target (seg22 ++ (cat [seg24, seg25, seg9, seg10, seg11]).take (anchor_native_target.length - 1)) = 0), Nat.zero_add]
  rw [cat_cons, countOcc_win anchor_native_target_ne]
  rw [(by decide : countOcc anchor_native_target (seg24 ++ (cat [seg25, seg9, seg10, seg11]).take (anchor_native_target.length - 1)) = 0), Nat.zero_add]
  rw [cat_cons, countOcc_win anchor_native_target_ne]
  rw [(by decide : countOcc anchor_native_target (seg25 ++ (cat [seg9, seg10, seg11]).take (anchor_native_target.length - 1)) = 0), Nat.zero_add]
  rw [cat_cons, countOcc_win anchor_native_target_ne]
  rw [(by decide : countOcc anchor_native_target (seg9 ++ (cat [seg10, seg11]).take (anchor_native_target.length - 1)) = 1)]
  rw [cat_cons, countOcc_win anchor_native_target_ne]
  rw [(by decide : countOcc anchor_native_target (seg10 ++ (cat [seg11]).take (anchor_native_target.length - 1)) = 0), Nat.zero_add]
  rw [cat_cons, countOcc_win anchor_native_target_ne]
  rw [(by decide : countOcc anchor_native_target (seg11 ++ (cat []).take (anchor_native_target.length - 1)) = 0), Nat.zero_add]
  rfl

theorem cnt_fix9_targets_old : countOcc targets_old (cat [chunkA, build_file_entry, anchor_build_file, chunkB, proxy_entry_p1, proxy_entry_p2, anchor_proxy, chunkC, copy_phase_p1, copy_phase_p2, copy_phase_p3, anchor_begin_file_ref, chunkD, file_ref, anchor_file_ref, chunkE, sync_group_p1, sync_group_p2, anchor_sync_group, chunkF, fw_phase_p1, fw_phase_p2, anchor_frameworks, chunkG, new_products_p1, new_products_p2, chunkH, new_root_p1, new_root_p2, chunkI, old_app_phases_p1, old_app_phases_p2, chunkJ, native_target_p1, native_target_p2, native_target_p3, native_target_p4, anchor_native_target, chunkK, attrs_old, chunkL, targets_old, chunkM, anchor_resources, chunkN, anchor_sources, chunkO, anchor_dependency, chunkP, anchor_xcbuild_config, chunkQ, anchor_config_list, chunkR]) = 1 := by
  rw [regroup10]
  rw [cat_cons, countOcc_win targets_old_ne]
  rw [(by decide : countOcc targets_old (seg12 ++ (cat [seg15, seg17, seg19, seg22, seg24, seg25, seg26, native_target_p2, seg27, seg10, seg11]).take (targets_old.length - 1)) = 0), Nat.zero_add]
  rw [cat_cons, countOcc_win targets_old_ne]
  rw [(by decide : countOcc targets_old (seg15 ++ (cat [seg17, seg19, seg22, seg24, seg25, seg26, native_target_p2, seg27, seg10, seg11]).take (targets_old.length - 1)) = 0), Nat.zero_add]
  rw [cat_cons, countOcc_win targets_old_ne]
  rw [(by decide : countOcc targets_old (seg17 ++ (cat [seg19, seg22, seg24, seg25, seg26, native_target_p2, seg27, seg10, seg11]).take (targets_old.length - 1)) = 0), Nat.zero_add]
  rw [cat_cons, countOcc_win targets_old_ne]
  rw [(by decide : countOcc targets_old (seg19 ++ (cat [seg22, seg24, seg25, seg26, native_target_p2, seg27, seg10, seg11]).take (targets_old.length - 1)) = 0), Nat.zero_add]
  rw [cat_cons, countOcc_win targets_old_ne]
  rw [(by decide : countOcc targets_old (seg22 ++ (cat [seg24, seg25, seg26, native_target_p2, seg27, seg10, seg11]).take (targets_old.length - 1)) = 0), Nat.zero_add]
  rw [cat_cons, countOcc_win targets_old_ne]
  rw [(by decide : countOcc targets_old (seg24 ++ (cat [seg25, seg26, native_target_p2, seg27, seg10, seg11]).take (targets_old.length - 1)) = 0), Nat.zero_add]
  rw [cat_cons, countOcc_win targets_old_ne]
  rw [(by decide : countOcc targets_old (seg25 ++ (cat [seg26, native_target_p2, seg27, seg10, seg11]).take (targets_old.length - 1)) = 0), Nat.zero_add]
  rw [cat_cons, countOcc_win targets_old_ne]
  rw [(by decide : countOcc targets_old (seg26 ++ (cat [native_target_p2, seg27, seg10, seg11]).take (targets_old.length - 1)) = 0), Nat.zero_add]
  rw [cat_cons, countOcc_win targets_old_ne]
  rw [(by decide : countOcc targets_old (native_target_p2 ++ (cat [seg27, seg10, seg11]).take (targets_old.length - 1)) = 0), Nat.zero_add]
  rw [cat_cons, countOcc_win targets_old_ne]
  rw [(by decide : countOcc targets_old (seg27 ++ (cat [seg10, seg11]).take (targets_old.length - 1)) = 0), Nat.zero_add]
  rw [cat_cons, countOcc_win targets_old_ne]
  rw [(by decide : countOcc targets_old (seg10 ++ (cat [seg11]).take (targets_old.length - 1)) = 1)]
  rw [cat_cons, countOcc_win targets_old_ne]
  rw [(by decide : countOcc targets_old (seg11 ++ (cat []).take (targets_old.length - 1)) = 0), Nat.zero_add]
  rfl

theorem cnt_fix10_attrs_old : countOcc attrs_old (cat [chunkA, build_file_entry, anchor_build_file, chunkB, proxy_entry_p1, proxy_entry_p2, anchor_proxy, chunkC, copy_phase_p1, copy_phase_p2, copy_phase_p3, anchor_begin_file_ref, chunkD, file_ref, anchor_file_ref, chunkE, sync_group_p1, sync_group_p2, anchor_sync_group, chunkF, fw_phase_p1, fw_phase_p2, anchor_frameworks, chunkG, new_products_p1, new_products_p2, chunkH, new_root_p1, new_root_p2, chunkI, old_app_phases_p1, old_app_phases_p2, chunkJ, native_target_p1, native_target_p2, native_target_p3, native_target_p4, anchor_native_target, chunkK, attrs_old, chunkL, targets_new_p1, targets_new_p2, chunkM, anchor_resources, chunkN, anchor_sources, chunkO, anchor_dependency, chunkP, anchor_xcbuild_config, chunkQ, anchor_config_list, chunkR]) = 1 := by
  rw [regroup11]
  rw [cat_cons, countOcc_win attrs_old_ne]
  rw [(by decide : countOcc attrs_old (seg12 ++ (cat [seg15, seg17, seg19, seg22, seg24, seg25, seg26, native_target_p2, seg27, seg28, seg5]).take (attrs_old.length - 1)) = 0), Nat.zero_add]
  rw [cat_cons, countOcc_win attrs_old_ne]
  rw [(by decide : countOcc attrs_old (seg15 ++ (cat [seg17, seg19, seg22, seg24, seg25, seg26, native_target_p2, seg27, seg28, seg5]).take (attrs_old.length - 1)) = 0), Nat.zero_add]
  rw [cat_cons, countOcc_win attrs_old_ne]
  rw [(by decide : countOcc attrs_old (seg17 ++ (cat [seg19, seg22, seg24, seg25, seg26, native_target_p2, seg27, seg28, seg5]).take (attrs_old.length - 1)) = 0), Nat.zero_add]
  rw [cat_cons, countOcc_win attrs_old_ne]
  rw [(by decide : countOcc attrs_old (seg19 ++ (cat [seg22, seg24, seg25, seg26, native_target_p2, seg27, seg28, seg5]).take (attrs_old.length - 1)) = 0), Nat.zero_add]
  rw [cat_cons, countOcc_win attrs_old_ne]
  rw [(by decide : countOcc attrs_old (seg22 ++ (cat [seg24, seg25, seg26, native_target_p2, seg27, seg28, seg5]).take (attrs_old.length - 1)) = 0), Nat.zero_add]
  rw [cat_cons, countOcc_win attrs_old_ne]
  rw [(by decide : countOcc attrs_old (seg24 ++ (cat [seg25, seg26, native_target_p2, seg27, seg28, seg5]).take (attrs_old.length - 1)) = 0), Nat.zero_add]
  rw [cat_cons, countOcc_win attrs_old_ne]
  rw [(by decide : countOcc attrs_old (seg25 ++ (cat [seg26, native_target_p2, seg27, seg28, seg5]).take (attrs_old.length - 1)) = 0), Nat.zero_add]
  rw [cat_cons, countOcc_win attrs_old_ne]
  rw [(by decide : countOcc attrs_old (seg26 ++ (cat [native_target_p2, seg27, seg28, seg5]).take (attrs_old.length - 1)) = 0), Nat.zero_add]
  rw [cat_cons, countOcc_win attrs_old_ne]
  rw [(by decide : countOcc attrs_old (native_target_p2 ++ (cat [seg27, seg28, seg5]).take (attrs_old.length - 1)) = 0), Nat.zero_add]
  rw [cat_cons, countOcc_win attrs_old_ne]
  rw [(by decide : countOcc attrs_old (seg27 ++ (cat [seg28, seg5]).take (attrs_old.length - 1)) = 0), Nat.zero_add]
  rw [cat_cons, countOcc_win attrs_old_ne]
  rw [(by decide : countOcc attrs_old (seg28 ++ (cat [seg5]).take (attrs_old.length - 1)) = 1)]
  rw [cat_cons, countOcc_win attrs_old_ne]
  rw [(by decide : countOcc attrs_old (seg5 ++ (cat []).take (attrs_old.length - 1)) = 0), Nat.zero_add]
  rfl

theorem cnt_fix11_old_app_phases : countOcc old_app_phases (cat [chunkA, build_file_entry, anchor_build_file, chunkB, proxy_entry_p1, proxy_entry_p2, anchor_proxy, chunkC, copy_phase_p1, copy_phase_p2, copy_phase_p3, anchor_begin_file_ref, chunkD, file_ref, anchor_file_ref, chunkE, sync_group_p1, sync_group_p2, anchor_sync_group, chunkF, fw_phase_p1, fw_phase_p2, anchor_frameworks, chunkG, new_products_p1, new_products_p2, chunkH, new_root_p1, new_root_p2, chunkI, old_app_phases_p1, old_app_phases_p2, chunkJ, native_target_p1, native_target_p2, native_target_p3, native_target_p4, anchor_native_target, chunkK, attrs_new_p1, attrs_new_p2, chunkL, targets_new_p1, targets_new_p2, chunkM, anchor_resources, chunkN, anchor_sources, chunkO, anchor_dependency, chunkP, anchor_xcbuild_config, chunkQ, anchor_config_list, chunkR]) = 1 := by
  rw [regroup12]
  rw [cat_cons, countOcc_win old_app_phases_ne]
  rw [(by decide : countOcc old_app_phases (seg12 ++ (cat [seg15, seg17, seg19, seg22, seg24, seg25, seg26, native_target_p2, seg29, seg30, seg31]).take (old_app_phases.length - 1)) = 0), Nat.zero_add]
  rw [cat_cons, countOcc_win old_app_phases_ne]
  rw [(by decide : countOcc old_app_phases (seg15 ++ (cat [seg17, seg19, seg22, seg24, seg25, seg26, native_target_p2, seg29, seg30, seg31]).take (old_app_phases.length - 1)) = 0), Nat.zero_add]
  rw [cat_cons, countOcc_win old_app_phases_ne]
  rw [(by decide : countOcc old_app_phases (seg17 ++ (cat [seg19, seg22, seg24, seg25, seg26, native_target_p2, seg29, seg30, seg31]).take (old_app_phases.length - 1)) = 0), Nat.zero_add]
  rw [cat_cons, countOcc_win old_app_phases_ne]
  rw [(by decide : countOcc old_app_phases (seg19 ++ (cat [seg22, seg24, seg25, seg26, native_target_p2, seg29, seg30, seg31]).take (old_app_phases.length - 1)) = 0), Nat.zero_add]
  rw [cat_cons, countOcc_win old_app_phases_ne]
  rw [(by decide : countOcc old_app_phases (seg22 ++ (cat [seg24, seg25, seg26, native_target_p2, seg29, seg30, seg31]).take (old_app_phases.length - 1)) = 0), Nat.zero_add]
  rw [cat_cons, countOcc_win old_app_phases_ne]
  rw [(by decide : countOcc old_app_phases (seg24 ++ (cat [seg25, seg26, native_target_p2, seg29, seg30, seg31]).take (old_app_phases.length - 1)) = 0), Nat.zero_add]
  rw [cat_cons, countOcc_win old_app_phases_ne]
  rw [(by decide : countOcc old_app_phases (seg25 ++ (cat [seg26, native_target_p2, seg29, seg30, seg31]).take (old_app_phases.length - 1)) = 0), Nat.zero_add]
  rw [cat_cons, countOcc_win old_app_phases_ne]
  rw [(by decide : countOcc old_app_phases (seg26 ++ (cat [native_target_p2, seg29, seg30, seg31]).take (old_app_phases.length - 1)) = 1)]
  rw [cat_cons, countOcc_win old_app_phases_ne]
  rw [(by decide : countOcc old_app_phases (native_target_p2 ++ (cat [seg29, seg30, seg31]).take (old_app_phases.length - 1)) = 0), Nat.zero_add]
  rw [cat_cons, countOcc_win old_app_phases_ne]
  rw [(by decide : countOcc old_app_phases (seg29 ++ (cat [seg30, seg31]).take (old_app_phases.length - 1)) = 0), Nat.zero_add]
  rw [cat_cons, countOcc_win old_app_phases_ne]
  rw [(by decide : countOcc old_app_phases (seg30 ++ (cat [seg31]).take (old_app_phases.length - 1)) = 0), Nat.zero_add]
  rw [cat_cons, countOcc_win old_app_phases_ne]
  rw [(by decide : countOcc old_app_phases (seg31 ++ (cat []).take (old_app_phases.length - 1)) = 0), Nat.zero_add]
  rfl

theorem cnt_fix12_anchor_resources : countOcc anchor_resources (cat [chunkA, build_file_entry, anchor_build_file, chunkB, proxy_entry_p1, proxy_entry_p2, anchor_proxy, chunkC, copy_phase_p1, copy_phase_p2, copy_phase_p3, anchor_begin_file_ref, chunkD, file_ref, anchor_file_ref, chunkE, sync_group_p1, sync_group_p2, anchor_sync_group, chunkF, fw_phase_p1, fw_phase_p2, anchor_frameworks, chunkG, new_products_p1, new_products_p2, chunkH, new_root_p1, new_root_p2, chunkI, new_app_phases_p1, new_app_phases_p2, new_app_phases_p3, chunkJ, native_target_p1, native_target_p2, native_target_p3, native_target_p4, anchor_native_target, chunkK, attrs_new_p1, attrs_new_p2, chunkL, targets_new_p1, targets_new_p2, chunkM, anchor_resources, chunkN, anchor_sources, chunkO, anchor_dependency, chunkP, anchor_xcbuild_config, chunkQ, anchor_config_list, chunkR]) = 1 := by
  rw [regroup13]
  rw [cat_cons, countOcc_win anchor_resources_ne]
  rw [(by decide : countOcc anchor_resources (seg12 ++ (cat [seg15, seg17, seg19, seg22, seg24, seg32, seg33, seg34, seg29, seg30, seg31]).take (anchor_resources.length - 1)) = 0), Nat.zero_add]
  rw [cat_cons, countOcc_win anchor_resources_ne]
  rw [(by decide : countOcc anchor_resources (seg15 ++ (cat [seg17, seg19, seg22, seg24, seg32, seg33, seg34, seg29, seg30, seg31]).take (anchor_resources.length - 1)) = 0), Nat.zero_add]
  rw [cat_cons, countOcc_win anchor_resources_ne]
  rw [(by decide : countOcc anchor_resources (seg17 ++ (cat [seg19, seg22, seg24, seg32, seg33, seg34, seg29, seg30, seg31]).take (anchor_resources.length - 1)) = 0), Nat.zero_add]
  rw [cat_cons, countOcc_win anchor_resources_ne]
  rw [(by decide : countOcc anchor_resources (seg19 ++ (cat [seg22, seg24, seg32, seg33, seg34, seg29, seg30, seg31]).take (anchor_resources.length - 1)) = 0), Nat.zero_add]
  rw [cat_cons, countOcc_win anchor_resources_ne]
  rw [(by decide : countOcc anchor_resources (seg22 ++ (cat [seg24, seg32, seg33, seg34, seg29, seg30, seg31]).take (anchor_resources.length - 1)) = 0), Nat.zero_add]
  rw [cat_cons, countOcc_win anchor_resources_ne]
  rw [(by decide : countOcc anchor_resources (seg24 ++ (cat [seg32, seg33, seg34, seg29, seg30, seg31]).take (anchor_resources.length - 1)) = 0), Nat.zero_add]
  rw [cat_cons, countOcc_win anchor_resources_ne]
  rw [(by decide : countOcc anchor_resources (seg32 ++ (cat [seg33, seg34, seg29, seg30, seg31]).take (anchor_resources.length - 1)) = 0), Nat.zero_add]
  rw [cat_cons, countOcc_win anchor_resources_ne]
  rw [(by decide : countOcc anchor_resources (seg33 ++ (cat [seg34, seg29, seg30, seg31]).take (anchor_resources.length - 1)) = 0), Nat.zero_add]
  rw [cat_cons, countOcc_win anchor_resources_ne]
  rw [(by decide : countOcc anchor_resources (seg34 ++ (cat [seg29, seg30, seg31]).take (anchor_resources.length - 1)) = 0), Nat.zero_add]
  rw [cat_cons, countOcc_win anchor_resources_ne]
  rw [(by decide : countOcc anchor_resources (seg29 ++ (cat [seg30, seg31]).take (anchor_resources.length - 1)) = 0), Nat.zero_add]
  rw [cat_cons, countOcc_win anchor_resources_ne]
  rw [(by decide : countOcc anchor_resources (seg30 ++ (cat [seg31]).take (anchor_resources.length - 1)) = 1)]
  rw [cat_cons, countOcc_win anchor_resources_ne]
  rw [(by decide : countOcc anchor_resources (seg31 ++ (cat []).take (anchor_resources.length - 1)) = 0), Nat.zero_add]
  rfl

theorem cnt_fix13_anchor_sources : countOcc anchor_sources (cat [chunkA, build_file_entry, anchor_build_file, chunkB, proxy_entry_p1, proxy_entry_p2, anchor_proxy, chunkC, copy_phase_p1, copy_phase_p2, copy_phase_p3, anchor_begin_file_ref, chunkD, file_ref, anchor_file_ref, chunkE, sync_group_p1, sync_group_p2, anchor_sync_group, chunkF, fw_phase_p1, fw_phase_p2, anchor_frameworks, chunkG, new_products_p1, new_products_p2, chunkH, new_root_p1, new_root_p2, chunkI, new_app_phases_p1, new_app_phases_p2, new_app_phases_p3, chunkJ, native_target_p1, native_target_p2, native_target_p3, native_target_p4, anchor_native_target, chunkK, attrs_new_p1, attrs_new_p2, chunkL, targets_new_p1, targets_new_p2, chunkM, res_phase_p1, res_phase_p2, anchor_resources, chunkN, anchor_sources, chunkO, anchor_dependency, chunkP, anchor_xcbuild_config, chunkQ, anchor_config_list, chunkR]) = 1 := by
  rw [regroup14]
  rw [cat_cons, countOcc_win anchor_sources_ne]
  rw [(by decide : countOcc anchor_sources (seg12 ++ (cat [seg15, seg17, seg19, seg22, seg24, seg32, seg33, seg34, seg29, seg35, seg36]).take (anchor_sources.length - 1)) = 0), Nat.zero_add]
  rw [cat_cons, countOcc_win anchor_sources_ne]
  rw [(by decide : countOcc anchor_sources (seg15 ++ (cat [seg17, seg19, seg22, seg24, seg32, seg33, seg34, seg29, seg35, seg36]).take (anchor_sources.length - 1)) = 0), Nat.zero_add]
  rw [cat_cons, countOcc_win anchor_sources_ne]
  rw [(by decide : countOcc anchor_sources (seg17 ++ (cat [seg19, seg22, seg24, seg32, seg33, seg34, seg29, seg35, seg36]).take (anchor_sources.length - 1)) = 0), Nat.zero_add]
  rw [cat_cons, countOcc_win anchor_sources_ne]
  rw [(by decide : countOcc anchor_sources (seg19 ++ (cat [seg22, seg24, seg32, seg33, seg34, seg29, seg35, seg36]).take (anchor_sources.length - 1)) = 0), Nat.zero_add]
  rw [cat_cons, countOcc_win anchor_sources_ne]
  rw [(by decide : countOcc anchor_sources (seg22 ++ (cat [seg24, seg32, seg33, seg34, seg29, seg35, seg36]).take (anchor_sources.length - 1)) = 0), Nat.zero_add]
  rw [cat_cons, countOcc_win anchor_sources_ne]
  rw [(by decide : countOcc anchor_sources (seg24 ++ (cat [seg32, seg33, seg34, seg29, seg35, seg36]).take (anchor_sources.length - 1)) = 0), Nat.zero_add]
  rw [cat_cons, countOcc_win anchor_sources_ne]
  rw [(by decide : countOcc anchor_sources (seg32 ++ (cat [seg33, seg34, seg29, seg35, seg36]).take (anchor_sources.length - 1)) = 0), Nat.zero_add]
  rw [cat_cons, countOcc_win anchor_sources_ne]
  rw [(by decide : countOcc anchor_sources (seg33 ++ (cat [seg34, seg29, seg35, seg36]).take (anchor_sources.length - 1)) = 0), Nat.zero_add]
  rw [cat_cons, countOcc_win anchor_sources_ne]
  rw [(by decide : countOcc anchor_sources (seg34 ++ (cat [seg29, seg35, seg36]).take (anchor_sources.length - 1)) = 0), Nat.zero_add]
  rw [cat_cons, countOcc_win anchor_sources_ne]
  rw [(by decide : countOcc anchor_sources (seg29 ++ (cat [seg35, seg36]).take (anchor_sources.length - 1)) = 0), Nat.zero_add]
  rw [cat_cons, countOcc_win anchor_sources_ne]
  rw [(by decide : countOcc anchor_sources (seg35 ++ (cat [seg36]).take (anchor_sources.length - 1)) = 0), Nat.zero_add]
  rw [cat_cons, countOcc_win anchor_sources_ne]
  rw [(by decide : countOcc anchor_sources (seg36 ++ (cat []).take (anchor_sources.length - 1)) = 1)]
  rfl

theorem cnt_fix14_anchor_dependency : countOcc anchor_dependency (cat [chunkA, build_file_entry, anchor_build_file, chunkB, proxy_entry_p1, proxy_entry_p2, anchor_proxy, chunkC, copy_phase_p1, copy_phase_p2, copy_phase_p3, anchor_begin_file_ref, chunkD, file_ref, anchor_file_ref, chunkE, sync_group_p1, sync_group_p2, anchor_sync_group, chunkF, fw_phase_p1, fw_phase_p2, anchor_frameworks, chunkG, new_products_p1, new_products_p2, chunkH, new_root_p1, new_root_p2, chunkI, new_app_phases_p1, new_app_phases_p2, new_app_phases_p3, chunkJ, native_target_p1, native_target_p2, native_target_p3, native_target_p4, anchor_native_target, chunkK, attrs_new_p1, attrs_new_p2, chunkL, targets_new_p1, targets_new_p2, chunkM, res_phase_p1, res_phase_p2, anchor_resources, chunkN, src_phase_p1, src_phase_p2, anchor_sources, chunkO, anchor_dependency, chunkP, anchor_xcbuild_config, chunkQ, anchor_config_list, chunkR]) = 1 := by
  rw [regroup15]
  rw [cat_cons, countOcc_win anchor_dependency_ne]
  rw [(by decide : countOcc anchor_dependency (seg12 ++ (cat [seg15, seg17, seg19, seg22, seg24, seg32, seg33, seg34, seg29, seg35, seg37, seg11]).take (anchor_dependency.length - 1)) = 0), Nat.zero_add]
  rw [cat_cons, countOcc_win anchor_dependency_ne]
  rw [(by decide : countOcc anchor_dependency (seg15 ++ (cat [seg17, seg19, seg22, seg24, seg32, seg33, seg34, seg29, seg35, seg37, seg11]).take (anchor_dependency.length - 1)) = 0), Nat.zero_add]
  rw [cat_cons, countOcc_win anchor_dependency_ne]
  rw [(by decide : countOcc anchor_dependency (seg17 ++ (cat [seg19, seg22, seg24, seg32, seg33, seg34, seg29, seg35, seg37, seg11]).take (anchor_dependency.length - 1)) = 0), Nat.zero_add]
  rw [cat_cons, countOcc_win anchor_dependency_ne]
  rw [(by decide : countOcc anchor_dependency (seg19 ++ (cat [seg22, seg24, seg32, seg33, seg34, seg29, seg35, seg37, seg11]).take (anchor_dependency.length - 1)) = 0), Nat.zero_add]
  rw [cat_cons, countOcc_win anchor_dependency_ne]
  rw [(by decide : countOcc anchor_dependency (seg22 ++ (cat [seg24, seg32, seg33, seg34, seg29, seg35, seg37, seg11]).take (anchor_dependency.length - 1)) = 0), Nat.zero_add]
  rw [cat_cons, countOcc_win anchor_dependency_ne]
  rw [(by decide : countOcc anchor_dependency (seg24 ++ (cat [seg32, seg33, seg34, seg29, seg35, seg37, seg11]).take (anchor_dependency.length - 1)) = 0), Nat.zero_add]
  rw [cat_cons, countOcc_win anchor_dependency_ne]
  rw [(by decide : countOcc anchor_dependency (seg32 ++ (cat [seg33, seg34, seg29, seg35, seg37, seg11]).take (anchor_dependency.length - 1)) = 0), Nat.zero_add]
  rw [cat_cons, countOcc_win anchor_dependency_ne]
  rw [(by decide : countOcc anchor_dependency (seg33 ++ (cat [seg34, seg29, seg35, seg37, seg11]).take (anchor_dependency.length - 1)) = 0), Nat.zero_add]
  rw [cat_cons, countOcc_win anchor_dependency_ne]
  rw [(by decide : countOcc anchor_dependency (seg34 ++ (cat [seg29, seg35, seg37, seg11]).take (anchor_dependency.length - 1)) = 0), Nat.zero_add]
  rw [cat_cons, countOcc_win anchor_dependency_ne]
  rw [(by decide : countOcc anchor_dependency (seg29 ++ (cat [seg35, seg37, seg11]).take (anchor_dependency.length - 1)) = 0), Nat.zero_add]
  rw [cat_cons, countOcc_win anchor_dependency_ne]
  rw [(by decide : countOcc anchor_dependency (seg35 ++ (cat [seg37, seg11]).take (anchor_dependency.length - 1)) = 0), Nat.zero_add]
  rw [cat_cons, countOcc_win anchor_dependency_ne]
  rw [(by decide : countOcc anchor_dependency (seg37 ++ (cat [seg11]).take (anchor_dependency.length - 1)) = 0), Nat.zero_add]
  rw [cat_cons, countOcc_win anchor_dependency_ne]
  rw [(by decide : countOcc anchor_dependency (seg11 ++ (cat []).take (anchor_dependency.length - 1)) = 1)]
  rfl

theorem cnt_fix15_anchor_xcbuild_config : countOcc anchor_xcbuild_config (cat [chunkA, build_file_entry, anchor_build_file, chunkB, proxy_entry_p1, proxy_entry_p2, anchor_proxy, chunkC, copy_phase_p1, copy_phase_p2, copy_phase_p3, anchor_begin_file_ref, chunkD, file_ref, anchor_file_ref, chunkE, sync_group_p1, sync_group_p2, anchor_sync_group, chunkF, fw_phase_p1, fw_phase_p2, anchor_frameworks, chunkG, new_products_p1, new_products_p2, chunkH, new_root_p1, new_root_p2, chunkI, new_app_phases_p1, new_app_phases_p2, new_app_phases_p3, chunkJ, native_target_p1, native_target_p2, native_target_p3, native_target_p4, anchor_native_target, chunkK, attrs_new_p1, attrs_new_p2, chunkL, targets_new_p1, targets_new_p2, chunkM, res_phase_p1, res_phase_p2, anchor_resources, chunkN, src_phase_p1, src_phase_p2, anchor_sources, chunkO, dep_entry_p1, dep_entry_p2, anchor_dependency, chunkP, anchor_xcbuild_config, chunkQ, anchor_config_list, chunkR]) = 1 := by
  rw [regroup16]
  rw [cat_cons, countOcc_win anchor_xcbuild_config_ne]
  rw [(by decide : countOcc anchor_xcbuild_config (seg12 ++ (cat [seg15, seg17, seg19, seg22, seg24, seg32, seg33, seg34, seg29, seg35, seg37, seg38]).take (anchor_xcbuild_config.length - 1)) = 0), Nat.zero_add]
  rw [cat_cons, countOcc_win anchor_xcbuild_config_ne]
  rw [(by decide : countOcc anchor_xcbuild_config (seg15 ++ (cat [seg17, seg19, seg22, seg24, seg32, seg33, seg34, seg29, seg35, seg37, seg38]).take (anchor_xcbuild_config.length - 1)) = 0), Nat.zero_add]
  rw [cat_cons, countOcc_win anchor_xcbuild_config_ne]
  rw [(by decide : countOcc anchor_xcbuild_config (seg17 ++ (cat [seg19, seg22, seg24, seg32, seg33, seg34, seg29, seg35, seg37, seg38]).take (anchor_xcbuild_config.length - 1)) = 0), Nat.zero_add]
  rw [cat_cons, countOcc_win anchor_xcbuild_config_ne]
  rw [(by decide : countOcc anchor_xcbuild_config (seg19 ++ (cat [seg22, seg24, seg32, seg33, seg34, seg29, seg35, seg37, seg38]).take (anchor_xcbuild_config.length - 1)) = 0), Nat.zero_add]
  rw [cat_cons, countOcc_win anchor_xcbuild_config_ne]
  rw [(by decide : countOcc anchor_xcbuild_config (seg22 ++ (cat [seg24, seg32, seg33, seg34, seg29, seg35, seg37, seg38]).take (anchor_xcbuild_config.length - 1)) = 0), Nat.zero_add]
  rw [cat_cons, countOcc_win anchor_xcbuild_config_ne]
  rw [(by decide : countOcc anchor_xcbuild_config (seg24 ++ (cat [seg32, seg33, seg34, seg29, seg35, seg37, seg38]).take (anchor_xcbuild_config.length - 1)) = 0), Nat.zero_add]
  rw [cat_cons, countOcc_win anchor_xcbuild_config_ne]
  rw [(by decide : countOcc anchor_xcbuild_config (seg32 ++ (cat [seg33, seg34, seg29, seg35, seg37, seg38]).take (anchor_xcbuild_config.length - 1)) = 0), Nat.zero_add]
  rw [cat_cons, countOcc_win anchor_xcbuild_config_ne]
  rw [(by decide : countOcc anchor_xcbuild_config (seg33 ++ (cat [seg34, seg29, seg35, seg37, seg38]).take (anchor_xcbuild_config.length - 1)) = 0), Nat.zero_add]
  rw [cat_cons, countOcc_win anchor_xcbuild_config_ne]
  rw [(by decide : countOcc anchor_xcbuild_config (seg34 ++ (cat [seg29, seg35, seg37, seg38]).take (anchor_xcbuild_config.length - 1)) = 0), Nat.zero_add]
  rw [cat_cons, countOcc_win anchor_xcbuild_config_ne]
  rw [(by decide : countOcc anchor_xcbuild_config (seg29 ++ (cat [seg35, seg37, seg38]).take (anchor_xcbuild_config.length - 1)) = 0), Nat.zero_add]
  rw [cat_cons, countOcc_win anchor_xcbuild_config_ne]
  rw [(by decide : countOcc anchor_xcbuild_config (seg35 ++ (cat [seg37, seg38]).take (anchor_xcbuild_config.length - 1)) = 0), Nat.zero_add]
  rw [cat_cons, countOcc_win anchor_xcbuild_config_ne]
  rw [(by decide : countOcc anchor_xcbuild_config (seg37 ++ (cat [seg38]).take (anchor_xcbuild_config.length - 1)) = 0), Nat.zero_add]
  rw [cat_cons, countOcc_win anchor_xcbuild_config_ne]
  rw [(by decide : countOcc anchor_xcbuild_config (seg38 ++ (cat []).take (anchor_xcbuild_config.length - 1)) = 1)]
  rfl

theorem cnt_fix16_anchor_config_list : countOcc anchor_config_list (cat [chunkA, build_file_entry, anchor_build_file, chunkB, proxy_entry_p1, proxy_entry_p2, anchor_proxy, chunkC, copy_phase_p1, copy_phase_p2, copy_phase_p3, anchor_begin_file_ref, chunkD, file_ref, anchor_file_ref, chunkE, sync_group_p1, sync_group_p2, anchor_sync_group, chunkF, fw_phase_p1, fw_phase_p2, anchor_frameworks, chunkG, new_products_p1, new_products_p2, chunkH, new_root_p1, new_root_p2, chunkI, new_app_phases_p1, new_app_phases_p2, new_app_phases_p3, chunkJ, native_target_p1, native_target_p2, native_target_p3, native_target_p4, anchor_native_target, chunkK, attrs_new_p1, attrs_new_p2, chunkL, targets_new_p1, targets_new_p2, chunkM, res_phase_p1, res_phase_p2, anchor_resources, chunkN, src_phase_p1, src_phase_p2, anchor_sources, chunkO, dep_entry_p1, dep_entry_p2, anchor_dependency, chunkP, cfg_debug_p1, cfg_debug_p2, cfg_debug_p3, cfg_debug_p4, cfg_debug_p5, cfg_release_p1, cfg_release_p2, cfg_release_p3, cfg_release_p4, cfg_release_p5, anchor_xcbuild_config, chunkQ, anchor_config_list, chunkR]) = 1 := by
  rw [regroup17]
  rw [cat_cons, countOcc_win anchor_config_list_ne]
  rw [(by decide : countOcc anchor_config_list (seg12 ++ (cat [seg15, seg17, seg19, seg22, seg24, seg32, seg33, seg34, seg29, seg35, seg37, seg39, cfg_debug_p2, cfg_debug_p3, seg40, cfg_release_p2, cfg_release_p3, seg41, seg42]).take (anchor_config_list.length - 1)) = 0), Nat.zero_add]
  rw [cat_cons, countOcc_win anchor_config_list_ne]
  rw [(by decide : countOcc anchor_config_list (seg15 ++ (cat [seg17, seg19, seg22, seg24, seg32, seg33, seg34, seg29, seg35, seg37, seg39, cfg_debug_p2, cfg_debug_p3, seg40, cfg_release_p2, cfg_release_p3, seg41, seg42]).take (anchor_config_list.length - 1)) = 0), Nat.zero_add]
  rw [cat_cons, countOcc_win anchor_config_list_ne]
  rw [(by decide : countOcc anchor_config_list (seg17 ++ (cat [seg19, seg22, seg24, seg32, seg33, seg34, seg29, seg35, seg37, seg39, cfg_debug_p2, cfg_debug_p3, seg40, cfg_release_p2, cfg_release_p3, seg41, seg42]).take (anchor_config_list.length - 1)) = 0), Nat.zero_add]
  rw [cat_cons, countOcc_win anchor_config_list_ne]
  rw [(by decide : countOcc anchor_config_list (seg19 ++ (cat [seg22, seg24, seg32, seg33, seg34, seg29, seg35, seg37, seg39, cfg_debug_p2, cfg_debug_p3, seg40, cfg_release_p2, cfg_release_p3, seg41, seg42]).take (anchor_config_list.length - 1)) = 0), Nat.zero_add]
  rw [cat_cons, countOcc_win anchor_config_list_ne]
  rw [(by decide : countOcc anchor_config_list (seg22 ++ (cat [seg24, seg32, seg33, seg34, seg29, seg35, seg37, seg39, cfg_debug_p2, cfg_debug_p3, seg40, cfg_release_p2, cfg_release_p3, seg41, seg42]).take (anchor_config_list.length - 1)) = 0), Nat.zero_add]
  rw [cat_cons, countOcc_win anchor_config_list_ne]
  rw [(by decide : countOcc anchor_config_list (seg24 ++ (cat [seg32, seg33, seg34, seg29, seg35, seg37, seg39, cfg_debug_p2, cfg_debug_p3, seg40, cfg_release_p2, cfg_release_p3, seg41, seg42]).take (anchor_config_list.length - 1)) = 0), Nat.zero_add]
  rw [cat_cons, countOcc_win anchor_config_list_ne]
  rw [(by decide : countOcc anchor_config_list (seg32 ++ (cat [seg33, seg34, seg29, seg35, seg37, seg39, cfg_debug_p2, cfg_debug_p3, seg40, cfg_release_p2, cfg_release_p3, seg41, seg42]).take (anchor_config_list.length - 1)) = 0), Nat.zero_add]
  rw [cat_cons, countOcc_win anchor_config_list_ne]
  rw [(by decide : countOcc anchor_config_list (seg33 ++ (cat [seg34, seg29, seg35, seg37, seg39, cfg_debug_p2, cfg_debug_p3, seg40, cfg_release_p2, cfg_release_p3, seg41, seg42]).take (anchor_config_list.length - 1)) = 0), Nat.zero_add]
  rw [cat_cons, countOcc_win anchor_config_list_ne]
  rw [(by decide : countOcc anchor_config_list (seg34 ++ (cat [seg29, seg35, seg37, seg39, cfg_debug_p2, cfg_debug_p3, seg40, cfg_release_p2, cfg_release_p3, seg41, seg42]).take (anchor_config_list.length - 1)) = 0), Nat.zero_add]
  rw [cat_cons, countOcc_win anchor_config_list_ne]
  rw [(by decide : countOcc anchor_config_list (seg29 ++ (cat [seg35, seg37, seg39, cfg_debug_p2, cfg_debug_p3, seg40, cfg_release_p2, cfg_release_p3, seg41, seg42]).take (anchor_config_list.length - 1)) = 0), Nat.zero_add]
  rw [cat_cons, countOcc_win anchor_config_list_ne]
  rw [(by decide : countOcc anchor_config_list (seg35 ++ (cat [seg37, seg39, cfg_debug_p2, cfg_debug_p3, seg40, cfg_release_p2, cfg_release_p3, seg41, seg42]).take (anchor_config_list.length - 1)) = 0), Nat.zero_add]
  rw [cat_cons, countOcc_win anchor_config_list_ne]
  rw [(by decide : countOcc anchor_config_list (seg37 ++ (cat [seg39, cfg_debug_p2, cfg_debug_p3, seg40, cfg_release_p2, cfg_release_p3, seg41, seg42]).take (anchor_config_list.length - 1)) = 0), Nat.zero_add]
  rw [cat_cons, countOcc_win anchor_config_list_ne]
  rw [(by decide : countOcc anchor_config_list (seg39 ++ (cat [cfg_debug_p2, cfg_debug_p3, seg40, cfg_release_p2, cfg_release_p3, seg41, seg42]).take (anchor_config_list.length - 1)) = 0), Nat.zero_add]
  rw [cat_cons, countOcc_win anchor_config_list_ne]
  rw [(by decide : countOcc anchor_config_list (cfg_debug_p2 ++ (cat [cfg_debug_p3, seg40, cfg_release_p2, cfg_release_p3, seg41, seg42]).take (anchor_config_list.length - 1)) = 0), Nat.zero_add]
  rw [cat_cons, countOcc_win anchor_config_list_ne]
  rw [(by decide : countOcc anchor_config_list (cfg_debug_p3 ++ (cat [seg40, cfg_release_p2, cfg_release_p3, seg41, seg42]).take (anchor_config_list.length - 1)) = 0), Nat.zero_add]
  rw [cat_cons, countOcc_win anchor_config_list_ne]
  rw [(by decide : countOcc anchor_config_list (seg40 ++ (cat [cfg_release_p2, cfg_release_p3, seg41, seg42]).take (anchor_config_list.length - 1)) = 0), Nat.zero_add]
  rw [cat_cons, countOcc_win anchor_config_list_ne]
  rw [(by decide : countOcc anchor_config_list (cfg_release_p2 ++ (cat [cfg_release_p3, seg41, seg42]).take (anchor_config_list.length - 1)) = 0), Nat.zero_add]
  rw [cat_cons, countOcc_win anchor_config_list_ne]
  rw [(by decide : countOcc anchor_config_list (cfg_release_p3 ++ (cat [seg41, seg42]).take (anchor_config_list.length - 1)) = 0), Nat.zero_add]
  rw [cat_cons, countOcc_win anchor_config_list_ne]
  rw [(by decide : countOcc anchor_config_list (seg41 ++ (cat [seg42]).take (anchor_config_list.length - 1)) = 0), Nat.zero_add]
  rw [cat_cons, countOcc_win anchor_config_list_ne]
  rw [(by decide : countOcc anchor_config_list (seg42 ++ (cat []).take (anchor_config_list.length - 1)) = 1)]
  rfl

theorem cnt_fin_build_file_entry : countOcc build_file_entry (cat [chunkA, build_file_entry, anchor_build_file, chunkB, proxy_entry_p1, proxy_entry_p2, anchor_proxy, chunkC, copy_phase_p1, copy_phase_p2, copy_phase_p3, anchor_begin_file_ref, chunkD, file_ref, anchor_file_ref, chunkE, sync_group_p1, sync_group_p2, anchor_sync_group, chunkF, fw_phase_p1, fw_phase_p2, anchor_frameworks, chunkG, new_products_p1, new_products_p2, chunkH, new_root_p1, new_root_p2, chunkI, new_app_phases_p1, new_app_phases_p2, new_app_phases_p3, chunkJ, native_target_p1, native_target_p2, native_target_p3, native_target_p4, anchor_native_target, chunkK, attrs_new_p1, attrs_new_p2, chunkL, targets_new_p1, targets_new_p2, chunkM, res_phase_p1, res_phase_p2, anchor_resources, chunkN, src_phase_p1, src_phase_p2, anchor_sources, chunkO, dep_entry_p1, dep_entry_p2, anchor_dependency, chunkP, cfg_debug_p1, cfg_debug_p2, cfg_debug_p3, cfg_debug_p4, cfg_debug_p5, cfg_release_p1, cfg_release_p2, cfg_release_p3, cfg_release_p4, cfg_release_p5, anchor_xcbuild_config, chunkQ, cfg_list_p1, cfg_list_p2, anchor_config_list, chunkR]) = 1 := by
  rw [regroup18]
  rw [cat_cons, countOcc_win build_file_entry_ne]
  rw [(by decide : countOcc build_file_entry (seg12 ++ (cat [seg15, seg17, seg19, seg22, seg24, seg32, seg33, seg34, seg29, seg35, seg37, seg39, cfg_debug_p2, cfg_debug_p3, seg40, cfg_release_p2, cfg_release_p3, seg41, seg43]).take (build_file_entry.length - 1)) = 1)]
  rw [cat_cons, countOcc_win build_file_entry_ne]
  rw [(by decide : countOcc build_file_entry (seg15 ++ (cat [seg17, seg19, seg22, seg24, seg32, seg33, seg34, seg29, seg35, seg37, seg39, cfg_debug_p2, cfg_debug_p3, seg40, cfg_release_p2, cfg_release_p3, seg41, seg43]).take (build_file_entry.length - 1)) = 0), Nat.zero_add]
  rw [cat_cons, countOcc_win build_file_entry_ne]
  rw [(by decide : countOcc build_file_entry (seg17 ++ (cat [seg19, seg22, seg24, seg32, seg33, seg34, seg29, seg35, seg37, seg39, cfg_debug_p2, cfg_debug_p3, seg40, cfg_release_p2, cfg_release_p3, seg41, seg43]).take (build_file_entry.length - 1)) = 0), Nat.zero_add]
  rw [cat_cons, countOcc_win build_file_entry_ne]
  rw [(by decide : countOcc build_file_entry (seg19 ++ (cat [seg22, seg24, seg32, seg33, seg34, seg29, seg35, seg37, seg39, cfg_debug_p2, cfg_debug_p3, seg40, cfg_release_p2, cfg_release_p3, seg41, seg43]).take (build_file_entry.length - 1)) = 0), Nat.zero_add]
  rw [cat_cons, countOcc_win build_file_entry_ne]
  rw [(by decide : countOcc build_file_entry (seg22 ++ (cat [seg24, seg32, seg33, seg34, seg29, seg35, seg37, seg39, cfg_debug_p2, cfg_debug_p3, seg40, cfg_release_p2, cfg_release_p3, seg41, seg43]).take (build_file_entry.length - 1)) = 0), Nat.zero_add]
  rw [cat_cons, countOcc_win build_file_entry_ne]
  rw [(by decide : countOcc build_file_entry (seg24 ++ (cat [seg32, seg33, seg34, seg29, seg35, seg37, seg39, cfg_debug_p2, cfg_debug_p3, seg40, cfg_release_p2, cfg_release_p3, seg41, seg43]).take (build_file_entry.length - 1)) = 0), Nat.zero_add]
  rw [cat_cons, countOcc_win build_file_entry_ne]
  rw [(by decide : countOcc build_file_entry (seg32 ++ (cat [seg33, seg34, seg29, seg35, seg37, seg39, cfg_debug_p2, cfg_debug_p3, seg40, cfg_release_p2, cfg_release_p3, seg41, seg43]).take (build_file_entry.length - 1)) = 0), Nat.zero_add]
  rw [cat_cons, countOcc_win build_file_entry_ne]
  rw [(by decide : countOcc build_file_entry (seg33 ++ (cat [seg34, seg29, seg35, seg37, seg39, cfg_debug_p2, cfg_debug_p3, seg40, cfg_release_p2, cfg_release_p3, seg41, seg43]).take (build_file_entry.length - 1)) = 0), Nat.zero_add]
  rw [cat_cons, countOcc_win build_file_entry_ne]
  rw [(by decide : countOcc build_file_entry (seg34 ++ (cat [seg29, seg35, seg37, seg39, cfg_debug_p2, cfg_debug_p3, seg40, cfg_release_p2, cfg_release_p3, seg41, seg43]).take (build_file_entry.length - 1)) = 0), Nat.zero_add]
  rw [cat_cons, countOcc_win build_file_entry_ne]
  rw [(by decide : countOcc build_file_entry (seg29 ++ (cat [seg35, seg37, seg39, cfg_debug_p2, cfg_debug_p3, seg40, cfg_release_p2, cfg_release_p3, seg41, seg43]).take (build_file_entry.length - 1)) = 0), Nat.zero_add]
  rw [cat_cons, countOcc_win build_file_entry_ne]
  rw [(by decide : countOcc build_file_entry (seg35 ++ (cat [seg37, seg39, cfg_debug_p2, cfg_debug_p3, seg40, cfg_release_p2, cfg_release_p3, seg41, seg43]).take (build_file_entry.length - 1)) = 0), Nat.zero_add]
  rw [cat_cons, countOcc_win build_file_entry_ne]
  rw [(by decide : countOcc build_file_entry (seg37 ++ (cat [seg39, cfg_debug_p2, cfg_debug_p3, seg40, cfg_release_p2, cfg_release_p3, seg41, seg43]).take (build_file_entry.length - 1)) = 0), Nat.zero_add]
  rw [cat_cons, countOcc_win build_file_entry_ne]
  rw [(by decide : countOcc build_file_entry (seg39 ++ (cat [cfg_debug_p2, cfg_debug_p3, seg40, cfg_release_p2, cfg_release_p3, seg41, seg43]).take (build_file_entry.length - 1)) = 0), Nat.zero_add]
  rw [cat_cons, countOcc_win build_file_entry_ne]
  rw [(by decide : countOcc build_file_entry (cfg_debug_p2 ++ (cat [cfg_debug_p3, seg40, cfg_release_p2, cfg_release_p3, seg41, seg43]).take (build_file_entry.length - 1)) = 0), Nat.zero_add]
  rw [cat_cons, countOcc_win build_file_entry_ne]
  rw [(by decide : countOcc build_file_entry (cfg_debug_p3 ++ (cat [seg40, cfg_release_p2, cfg_release_p3, seg41, seg43]).take (build_file_entry.length - 1)) = 0), Nat.zero_add]
  rw [cat_cons, countOcc_win build_file_entry_ne]
  rw [(by decide : countOcc build_file_entry (seg40 ++ (cat [cfg_release_p2, cfg_release_p3, seg41, seg43]).take (build_file_entry.length - 1)) = 0), Nat.zero_add]
  rw [cat_cons, countOcc_win build_file_entry_ne]
  rw [(by decide : countOcc build_file_entry (cfg_release_p2 ++ (cat [cfg_release_p3, seg41, seg43]).take (build_file_entry.length - 1)) = 0), Nat.zero_add]
  rw [cat_cons, countOcc_win build_file_entry_ne]
  rw [(by decide : countOcc build_file_entry (cfg_release_p3 ++ (cat [seg41, seg43]).take (build_file_entry.length - 1)) = 0), Nat.zero_add]
  rw [cat_cons, countOcc_win build_file_entry_ne]
  rw [(by decide : countOcc build_file_entry (seg41 ++ (cat [seg43]).take (build_file_entry.length - 1)) = 0), Nat.zero_add]
  rw [cat_cons, countOcc_win build_file_entry_ne]
  rw [(by decide : countOcc build_file_entry (seg43 ++ (cat []).take (build_file_entry.length - 1)) = 0), Nat.zero_add]
  rfl

theorem cnt_fin_proxy_entry_p1 : countOcc proxy_entry_p1 (cat [chunkA, build_file_entry, anchor_build_file, chunkB, proxy_entry_p1, proxy_entry_p2, anchor_proxy, chunkC, copy_phase_p1, copy_phase_p2, copy_phase_p3, anchor_begin_file_ref, chunkD, file_ref, anchor_file_ref, chunkE, sync_group_p1, sync_group_p2, anchor_sync_group, chunkF, fw_phase_p1, fw_phase_p2, anchor_frameworks, chunkG, new_products_p1, new_products_p2, chunkH, new_root_p1, new_root_p2, chunkI, new_app_phases_p1, new_app_phases_p2, new_app_phases_p3, chunkJ, native_target_p1, native_target_p2, native_target_p3, native_target_p4, anchor_native_target, chunkK, attrs_new_p1, attrs_new_p2, chunkL, targets_new_p1, targets_new_p2, chunkM, res_phase_p1, res_phase_p2, anchor_resources, chunkN, src_phase_p1, src_phase_p2, anchor_sources, chunkO, dep_entry_p1, dep_entry_p2, anchor_dependency, chunkP, cfg_debug_p1, cfg_debug_p2, cfg_debug_p3, cfg_debug_p4, cfg_debug_p5, cfg_release_p1, cfg_release_p2, cfg_release_p3, cfg_release_p4, cfg_release_p5, anchor_xcbuild_config, chunkQ, cfg_list_p1, cfg_list_p2, anchor_config_list, chunkR]) = 1 := by
  rw [regroup18]
  rw [cat_cons, countOcc_win proxy_entry_p1_ne]
  rw [(by decide : countOcc proxy_entry_p1 (seg12 ++ (cat [seg15, seg17, seg19, seg22, seg24, seg32, seg33, seg34, seg29, seg35, seg37, seg39, cfg_debug_p2, cfg_debug_p3, seg40, cfg_release_p2, cfg_release_p3, seg41, seg43]).take (proxy_entry_p1.length - 1)) = 1)]
  rw [cat_cons, countOcc_win proxy_entry_p1_ne]
  rw [(by decide : countOcc proxy_entry_p1 (seg15 ++ (cat [seg17, seg19, seg22, seg24, seg32, seg33, seg34, seg29, seg35, seg37, seg39, cfg_debug_p2, cfg_debug_p3, seg40, cfg_release_p2, cfg_release_p3, seg41, seg43]).take (proxy_entry_p1.length - 1)) = 0), Nat.zero_add]
  rw [cat_cons, countOcc_win proxy_entry_p1_ne]
  rw [(by decide : countOcc proxy_entry_p1 (seg17 ++ (cat [seg19, seg22, seg24, seg32, seg33, seg34, seg29, seg35, seg37, seg39, cfg_debug_p2, cfg_debug_p3, seg40, cfg_release_p2, cfg_release_p3, seg41, seg43]).take (proxy_entry_p1.length - 1)) = 0), Nat.zero_add]
  rw [cat_cons, countOcc_win proxy_entry_p1_ne]
  rw [(by decide : countOcc proxy_entry_p1 (seg19 ++ (cat [seg22, seg24, seg32, seg33, seg34, seg29, seg35, seg37, seg39, cfg_debug_p2, cfg_debug_p3, seg40, cfg_release_p2, cfg_release_p3, seg41, seg43]).take (proxy_entry_p1.length - 1)) = 0), Nat.zero_add]
  rw [cat_cons, countOcc_win proxy_entry_p1_ne]
  rw [(by decide : countOcc proxy_entry_p1 (seg22 ++ (cat [seg24, seg32, seg33, seg34, seg29, seg35, seg37, seg39, cfg_debug_p2, cfg_debug_p3, seg40, cfg_release_p2, cfg_release_p3, seg41, seg43]).take (proxy_entry_p1.length - 1)) = 0), Nat.zero_add]
  rw [cat_cons, countOcc_win proxy_entry_p1_ne]
  rw [(by decide : countOcc proxy_entry_p1 (seg24 ++ (cat [seg32, seg33, seg34, seg29, seg35, seg37, seg39, cfg_debug_p2, cfg_debug_p3, seg40, cfg_release_p2, cfg_release_p3, seg41, seg43]).take (proxy_entry_p1.length - 1)) = 0), Nat.zero_add]
  rw [cat_cons, countOcc_win proxy_entry_p1_ne]
  rw [(by decide : countOcc proxy_entry_p1 (seg32 ++ (cat [seg33, seg34, seg29, seg35, seg37, seg39, cfg_debug_p2, cfg_debug_p3, seg40, cfg_release_p2, cfg_release_p3, seg41, seg43]).take (proxy_entry_p1.length - 1)) = 0), Nat.zero_add]
  rw [cat_cons, countOcc_win proxy_entry_p1_ne]
  rw [(by decide : countOcc proxy_entry_p1 (seg33 ++ (cat [seg34, seg29, seg35, seg37, seg39, cfg_debug_p2, cfg_debug_p3, seg40, cfg_release_p2, cfg_release_p3, seg41, seg43]).take (proxy_entry_p1.length - 1)) = 0), Nat.zero_add]
  rw [cat_cons, countOcc_win proxy_entry_p1_ne]
  rw [(by decide : countOcc proxy_entry_p1 (seg34 ++ (cat [seg29, seg35, seg37, seg39, cfg_debug_p2, cfg_debug_p3, seg40, cfg_release_p2, cfg_release_p3, seg41, seg43]).take (proxy_entry_p1.length - 1)) = 0), Nat.zero_add]
  rw [cat_cons, countOcc_win proxy_entry_p1_ne]
  rw [(by decide : countOcc proxy_entry_p1 (seg29 ++ (cat [seg35, seg37, seg39, cfg_debug_p2, cfg_debug_p3, seg40, cfg_release_p2, cfg_release_p3, seg41, seg43]).take (proxy_entry_p1.length - 1)) = 0), Nat.zero_add]
  rw [cat_cons, countOcc_win proxy_entry_p1_ne]
  rw [(by decide : countOcc proxy_entry_p1 (seg35 ++ (cat [seg37, seg39, cfg_debug_p2, cfg_debug_p3, seg40, cfg_release_p2, cfg_release_p3, seg41, seg43]).take (proxy_entry_p1.length - 1)) = 0), Nat.zero_add]
  rw [cat_cons, countOcc_win proxy_entry_p1_ne]
  rw [(by decide : countOcc proxy_entry_p1 (seg37 ++ (cat [seg39, cfg_debug_p2, cfg_debug_p3, seg40, cfg_release_p2, cfg_release_p3, seg41, seg43]).take (proxy_entry_p1.length - 1)) = 0), Nat.zero_add]
  rw [cat_cons, countOcc_win proxy_entry_p1_ne]
  rw [(by decide : countOcc proxy_entry_p1 (seg39 ++ (cat [cfg_debug_p2, cfg_debug_p3, seg40, cfg_release_p2, cfg_release_p3, seg41, seg43]).take (proxy_entry_p1.length - 1)) = 0), Nat.zero_add]
  rw [cat_cons, countOcc_win proxy_entry_p1_ne]
  rw [(by decide : countOcc proxy_entry_p1 (cfg_debug_p2 ++ (cat [cfg_debug_p3, seg40, cfg_release_p2, cfg_release_p3, seg41, seg43]).take (proxy_entry_p1.length - 1)) = 0), Nat.zero_add]
  rw [cat_cons, countOcc_win proxy_entry_p1_ne]
  rw [(by decide : countOcc proxy_entry_p1 (cfg_debug_p3 ++ (cat [seg40, cfg_release_p2, cfg_release_p3, seg41, seg43]).take (proxy_entry_p1.length - 1)) = 0), Nat.zero_add]
  rw [cat_cons, countOcc_win proxy_entry_p1_ne]
  rw [(by decide : countOcc proxy_entry_p1 (seg40 ++ (cat [cfg_release_p2, cfg_release_p3, seg41, seg43]).take (proxy_entry_p1.length - 1)) = 0), Nat.zero_add]
  rw [cat_cons, countOcc_win proxy_entry_p1_ne]
  rw [(by decide : countOcc proxy_entry_p1 (cfg_release_p2 ++ (cat [cfg_release_p3, seg41, seg43]).take (proxy_entry_p1.length - 1)) = 0), Nat.zero_add]
  rw [cat_cons, countOcc_win proxy_entry_p1_ne]
  rw [(by decide : countOcc proxy_entry_p1 (cfg_release_p3 ++ (cat [seg41, seg43]).take (proxy_entry_p1.length - 1)) = 0), Nat.zero_add]
  rw [cat_cons, countOcc_win proxy_entry_p1_ne]
  rw [(by decide : countOcc proxy_entry_p1 (seg41 ++ (cat [seg43]).take (proxy_entry_p1.length - 1)) = 0), Nat.zero_add]
  rw [cat_cons, countOcc_win proxy_entry_p1_ne]
  rw [(by decide : countOcc proxy_entry_p1 (seg43 ++ (cat []).take (proxy_entry_p1.length - 1)) = 0), Nat.zero_add]
  rfl

theorem cnt_fin_copy_phase_p1 : countOcc copy_phase_p1 (cat [chunkA, build_file_entry, anchor_build_file, chunkB, proxy_entry_p1, proxy_entry_p2, anchor_proxy, chunkC, copy_phase_p1, copy_phase_p2, copy_phase_p3, anchor_begin_file_ref, chunkD, file_ref, anchor_file_ref, chunkE, sync_group_p1, sync_group_p2, anchor_sync_group, chunkF, fw_phase_p1, fw_phase_p2, anchor_frameworks, chunkG, new_products_p1, new_products_p2, chunkH, new_root_p1, new_root_p2, chunkI, new_app_phases_p1, new_app_phases_p2, new_app_phases_p3, chunkJ, native_target_p1, native_target_p2, native_target_p3, native_target_p4, anchor_native_target, chunkK, attrs_new_p1, attrs_new_p2, chunkL, targets_new_p1, targets_new_p2, chunkM, res_phase_p1, res_phase_p2, anchor_resources, chunkN, src_phase_p1, src_phase_p2, anchor_sources, chunkO, dep_entry_p1, dep_entry_p2, anchor_dependency, chunkP, cfg_debug_p1, cfg_debug_p2, cfg_debug_p3, cfg_debug_p4, cfg_debug_p5, cfg_release_p1, cfg_release_p2, cfg_release_p3, cfg_release_p4, cfg_release_p5, anchor_xcbuild_config, chunkQ, cfg_list_p1, cfg_list_p2, anchor_config_list, chunkR]) = 1 := by
  rw [regroup18]
  rw [cat_cons, countOcc_win copy_phase_p1_ne]
  rw [(by decide : countOcc copy_phase_p1 (seg12 ++ (cat [seg15, seg17, seg19, seg22, seg24, seg32, seg33, seg34, seg29, seg35, seg37, seg39, cfg_debug_p2, cfg_debug_p3, seg40, cfg_release_p2, cfg_release_p3, seg41, seg43]).take (copy_phase_p1.length - 1)) = 0), Nat.zero_add]
  rw [cat_cons, countOcc_win copy_phase_p1_ne]
  rw [(by decide : countOcc copy_phase_p1 (seg15 ++ (cat [seg17, seg19, seg22, seg24, seg32, seg33, seg34, seg29, seg35, seg37, seg39, cfg_debug_p2, cfg_debug_p3, seg40, cfg_release_p2, cfg_release_p3, seg41, seg43]).take (copy_phase_p1.length - 1)) = 1)]
  rw [cat_cons, countOcc_win copy_phase_p1_ne]
  rw [(by decide : countOcc copy_phase_p1 (seg17 ++ (cat [seg19, seg22, seg24, seg32, seg33, seg34, seg29, seg35, seg37, seg39, cfg_debug_p2, cfg_debug_p3, seg40, cfg_release_p2, cfg_release_p3, seg41, seg43]).take (copy_phase_p1.length - 1)) = 0), Nat.zero_add]
  rw [cat_cons, countOcc_win copy_phase_p1_ne]
  rw [(by decide : countOcc copy_phase_p1 (seg19 ++ (cat [seg22, seg24, seg32, seg33, seg34, seg29, seg35, seg37, seg39, cfg_debug_p2, cfg_debug_p3, seg40, cfg_release_p2, cfg_release_p3, seg41, seg43]).take (copy_phase_p1.length - 1)) = 0), Nat.zero_add]
  rw [cat_cons, countOcc_win copy_phase_p1_ne]
  rw [(by decide : countOcc copy_phase_p1 (seg22 ++ (cat [seg24, seg32, seg33, seg34, seg29, seg35, seg37, seg39, cfg_debug_p2, cfg_debug_p3, seg40, cfg_release_p2, cfg_release_p3, seg41, seg43]).take (copy_phase_p1.length - 1)) = 0), Nat.zero_add]
  rw [cat_cons, countOcc_win copy_phase_p1_ne]
  rw [(by decide : countOcc copy_phase_p1 (seg24 ++ (cat [seg32, seg33, seg34, seg29, seg35, seg37, seg39, cfg_debug_p2, cfg_debug_p3, seg40, cfg_release_p2, cfg_release_p3, seg41, seg43]).take (copy_phase_p1.length - 1)) = 0), Nat.zero_add]
  rw [cat_cons, countOcc_win copy_phase_p1_ne]
  rw [(by decide : countOcc copy_phase_p1 (seg32 ++ (cat [seg33, seg34, seg29, seg35, seg37, seg39, cfg_debug_p2, cfg_debug_p3, seg40, cfg_release_p2, cfg_release_p3, seg41, seg43]).take (copy_phase_p1.length - 1)) = 0), Nat.zero_add]
  rw [cat_cons, countOcc_win copy_phase_p1_ne]
  rw [(by decide : countOcc copy_phase_p1 (seg33 ++ (cat [seg34, seg29, seg35, seg37, seg39, cfg_debug_p2, cfg_debug_p3, seg40, cfg_release_p2, cfg_release_p3, seg41, seg43]).take (copy_phase_p1.length - 1)) = 0), Nat.zero_add]
  rw [cat_cons, countOcc_win copy_phase_p1_ne]
  rw [(by decide : countOcc copy_phase_p1 (seg34 ++ (cat [seg29, seg35, seg37, seg39, cfg_debug_p2, cfg_debug_p3, seg40, cfg_release_p2, cfg_release_p3, seg41, seg43]).take (copy_phase_p1.length - 1)) = 0), Nat.zero_add]
  rw [cat_cons, countOcc_win copy_phase_p1_ne]
  rw [(by decide : countOcc copy_phase_p1 (seg29 ++ (cat [seg35, seg37, seg39, cfg_debug_p2, cfg_debug_p3, seg40, cfg_release_p2, cfg_release_p3, seg41, seg43]).take (copy_phase_p1.length - 1)) = 0), Nat.zero_add]
  rw [cat_cons, countOcc_win copy_phase_p1_ne]
  rw [(by decide : countOcc copy_phase_p1 (seg35 ++ (cat [seg37, seg39, cfg_debug_p2, cfg_debug_p3, seg40, cfg_release_p2, cfg_release_p3, seg41, seg43]).take (copy_phase_p1.length - 1)) = 0), Nat.zero_add]
  rw [cat_cons, countOcc_win copy_phase_p1_ne]
  rw [(by decide : countOcc copy_phase_p1 (seg37 ++ (cat [seg39, cfg_debug_p2, cfg_debug_p3, seg40, cfg_release_p2, cfg_release_p3, seg41, seg43]).take (copy_phase_p1.length - 1)) = 0), Nat.zero_add]
  rw [cat_cons, countOcc_win copy_phase_p1_ne]
  rw [(by decide : countOcc copy_phase_p1 (seg39 ++ (cat [cfg_debug_p2, cfg_debug_p3, seg40, cfg_release_p2, cfg_release_p3, seg41, seg43]).take (copy_phase_p1.length - 1)) = 0), Nat.zero_add]
  rw [cat_cons, countOcc_win copy_phase_p1_ne]
  rw [(by decide : countOcc copy_phase_p1 (cfg_debug_p2 ++ (cat [cfg_debug_p3, seg40, cfg_release_p2, cfg_release_p3, seg41, seg43]).take (copy_phase_p1.length - 1)) = 0), Nat.zero_add]
  rw [cat_cons, countOcc_win copy_phase_p1_ne]
  rw [(by decide : countOcc copy_phase_p1 (cfg_debug_p3 ++ (cat [seg40, cfg_release_p2, cfg_release_p3, seg41, seg43]).take (copy_phase_p1.length - 1)) = 0), Nat.zero_add]
  rw [cat_cons, countOcc_win copy_phase_p1_ne]
  rw [(by decide : countOcc copy_phase_p1 (seg40 ++ (cat [cfg_release_p2, cfg_release_p3, seg41, seg43]).take (copy_phase_p1.length - 1)) = 0), Nat.zero_add]
  rw [cat_cons, countOcc_win copy_phase_p1_ne]
  rw [(by decide : countOcc copy_phase_p1 (cfg_release_p2 ++ (cat [cfg_release_p3, seg41, seg43]).take (copy_phase_p1.length - 1)) = 0), Nat.zero_add]
  rw [cat_cons, countOcc_win copy_phase_p1_ne]
  rw [(by decide : countOcc copy_phase_p1 (cfg_release_p3 ++ (cat [seg41, seg43]).take (copy_phase_p1.length - 1)) = 0), Nat.zero_add]
  rw [cat_cons, countOcc_win copy_phase_p1_ne]
  rw [(by decide : countOcc copy_phase_p1 (seg41 ++ (cat [seg43]).take (copy_phase_p1.length - 1)) = 0), Nat.zero_add]
  rw [cat_cons, countOcc_win copy_phase_p1_ne]
  rw [(by decide : countOcc copy_phase_p1 (seg43 ++ (cat []).take (copy_phase_p1.length - 1)) = 0), Nat.zero_add]
  rfl

theorem cnt_fin_file_ref : countOcc file_ref (cat [chunkA, build_file_entry, anchor_build_file, chunkB, proxy_entry_p1, proxy_entry_p2, anchor_proxy, chunkC, copy_phase_p1, copy_phase_p2, copy_phase_p3, anchor_begin_file_ref, chunkD, file_ref, anchor_file_ref, chunkE, sync_group_p1, sync_group_p2, anchor_sync_group, chunkF, fw_phase_p1, fw_phase_p2, anchor_frameworks, chunkG, new_products_p1, new_products_p2, chunkH, new_root_p1, new_root_p2, chunkI, new_app_phases_p1, new_app_phases_p2, new_app_phases_p3, chunkJ, native_target_p1, native_target_p2, native_target_p3, native_target_p4, anchor_native_target, chunkK, attrs_new_p1, attrs_new_p2, chunkL, targets_new_p1, targets_new_p2, chunkM, res_phase_p1, res_phase_p2, anchor_resources, chunkN, src_phase_p1, src_phase_p2, anchor_sources, chunkO, dep_entry_p1, dep_entry_p2, anchor_dependency, chunkP, cfg_debug_p1, cfg_debug_p2, cfg_debug_p3, cfg_debug_p4, cfg_debug_p5, cfg_release_p1, cfg_release_p2, cfg_release_p3, cfg_release_p4, cfg_release_p5, anchor_xcbuild_config, chunkQ, cfg_list_p1, cfg_list_p2, anchor_config_list, chunkR]) = 1 := by
  rw [regroup18]
  rw [cat_cons, countOcc_win file_ref_ne]
  rw [(by decide : countOcc file_ref (seg12 ++ (cat [seg15, seg17, seg19, seg22, seg24, seg32, seg33, seg34, seg29, seg35, seg37, seg39, cfg_debug_p2, cfg_debug_p3, seg40, cfg_release_p2, cfg_release_p3, seg41, seg43]).take (file_ref.length - 1)) = 0), Nat.zero_add]
  rw [cat_cons, countOcc_win file_ref_ne]
  rw [(by decide : countOcc file_ref (seg15 ++ (cat [seg17, seg19, seg22, seg24, seg32, seg33, seg34, seg29, seg35, seg37, seg39, cfg_debug_p2, cfg_debug_p3, seg40, cfg_release_p2, cfg_release_p3, seg41, seg43]).take (file_ref.length - 1)) = 0), Nat.zero_add]
  rw [cat_cons, countOcc_win file_ref_ne]
  rw [(by decide : countOcc file_ref (seg17 ++ (cat [seg19, seg22, seg24, seg32, seg33, seg34, seg29, seg35, seg37, seg39, cfg_debug_p2, cfg_debug_p3, seg40, cfg_release_p2, cfg_release_p3, seg41, seg43]).take (file_ref.length - 1)) = 0), Nat.zero_add]
  rw [cat_cons, countOcc_win file_ref_ne]
  rw [(by decide : countOcc file_ref (seg19 ++ (cat [seg22, seg24, seg32, seg33, seg34, seg29, seg35, seg37, seg39, cfg_debug_p2, cfg_debug_p3, seg40, cfg_release_p2, cfg_release_p3, seg41, seg43]).take (file_ref.length - 1)) = 1)]
  rw [cat_cons, countOcc_win file_ref_ne]
  rw [(by decide : countOcc file_ref (seg22 ++ (cat [seg24, seg32, seg33, seg34, seg29, seg35, seg37, seg39, cfg_debug_p2, cfg_debug_p3, seg40, cfg_release_p2, cfg_release_p3, seg41, seg43]).take (file_ref.length - 1)) = 0), Nat.zero_add]
  rw [cat_cons, countOcc_win file_ref_ne]
  rw [(by decide : countOcc file_ref (seg24 ++ (cat [seg32, seg33, seg34, seg29, seg35, seg37, seg39, cfg_debug_p2, cfg_debug_p3, seg40, cfg_release_p2, cfg_release_p3, seg41, seg43]).take (file_ref.length - 1)) = 0), Nat.zero_add]
  rw [cat_cons, countOcc_win file_ref_ne]
  rw [(by decide : countOcc file_ref (seg32 ++ (cat [seg33, seg34, seg29, seg35, seg37, seg39, cfg_debug_p2, cfg_debug_p3, seg40, cfg_release_p2, cfg_release_p3, seg41, seg43]).take (file_ref.length - 1)) = 0), Nat.zero_add]
  rw [cat_cons, countOcc_win file_ref_ne]
  rw [(by decide : countOcc file_ref (seg33 ++ (cat [seg34, seg29, seg35, seg37, seg39, cfg_debug_p2, cfg_debug_p3, seg40, cfg_release_p2, cfg_release_p3, seg41, seg43]).take (file_ref.length - 1)) = 0), Nat.zero_add]
  rw [cat_cons, countOcc_win file_ref_ne]
  rw [(by decide : countOcc file_ref (seg34 ++ (cat [seg29, seg35, seg37, seg39, cfg_debug_p2, cfg_debug_p3, seg40, cfg_release_p2, cfg_release_p3, seg41, seg43]).take (file_ref.length - 1)) = 0), Nat.zero_add]
  rw [cat_cons, countOcc_win file_ref_ne]
  rw [(by decide : countOcc file_ref (seg29 ++ (cat [seg35, seg37, seg39, cfg_debug_p2, cfg_debug_p3, seg40, cfg_release_p2, cfg_release_p3, seg41, seg43]).take (file_ref.length - 1)) = 0), Nat.zero_add]
  rw [cat_cons, countOcc_win file_ref_ne]
  rw [(by decide : countOcc file_ref (seg35 ++ (cat [seg37, seg39, cfg_debug_p2, cfg_debug_p3, seg40, cfg_release_p2, cfg_release_p3, seg41, seg43]).take (file_ref.length - 1)) = 0), Nat.zero_add]
  rw [cat_cons, countOcc_win file_ref_ne]
  rw [(by decide : countOcc file_ref (seg37 ++ (cat [seg39, cfg_debug_p2, cfg_debug_p3, seg40, cfg_release_p2, cfg_release_p3, seg41, seg43]).take (file_ref.length - 1)) = 0), Nat.zero_add]
  rw [cat_cons, countOcc_win file_ref_ne]
  rw [(by decide : countOcc file_ref (seg39 ++ (cat [cfg_debug_p2, cfg_debug_p3, seg40, cfg_release_p2, cfg_release_p3, seg41, seg43]).take (file_ref.length - 1)) = 0), Nat.zero_add]
  rw [cat_cons, countOcc_win file_ref_ne]
  rw [(by decide : countOcc file_ref (cfg_debug_p2 ++ (cat [cfg_debug_p3, seg40, cfg_release_p2, cfg_release_p3, seg41, seg43]).take (file_ref.length - 1)) = 0), Nat.zero_add]
  rw [cat_cons, countOcc_win file_ref_ne]
  rw [(by decide : countOcc file_ref (cfg_debug_p3 ++ (cat [seg40, cfg_release_p2, cfg_release_p3, seg41, seg43]).take (file_ref.length - 1)) = 0), Nat.zero_add]
  rw [cat_cons, countOcc_win file_ref_ne]
  rw [(by decide : countOcc file_ref (seg40 ++ (cat [cfg_release_p2, cfg_release_p3, seg41, seg43]).take (file_ref.length - 1)) = 0), Nat.zero_add]
  rw [cat_cons, countOcc_win file_ref_ne]
  rw [(by decide : countOcc file_ref (cfg_release_p2 ++ (cat [cfg_release_p3, seg41, seg43]).take (file_ref.length - 1)) = 0), Nat.zero_add]
  rw [cat_cons, countOcc_win file_ref_ne]
  rw [(by decide : countOcc file_ref (cfg_release_p3 ++ (cat [seg41, seg43]).take (file_ref.length - 1)) = 0), Nat.zero_add]
  rw [cat_cons, countOcc_win file_ref_ne]
  rw [(by decide : countOcc file_ref (seg41 ++ (cat [seg43]).take (file_ref.length - 1)) = 0), Nat.zero_add]
  rw [cat_cons, countOcc_win file_ref_ne]
  rw [(by decide : countOcc file_ref (seg43 ++ (cat []).take (file_ref.length - 1)) = 0), Nat.zero_add]
  rfl

theorem cnt_fin_sync_group_p1 : countOcc sync_group_p1 (cat [chunkA, build_file_entry, anchor_build_file, chunkB, proxy_entry_p1, proxy_entry_p2, anchor_proxy, chunkC, copy_phase_p1, copy_phase_p2, copy_phase_p3, anchor_begin_file_ref, chunkD, file_ref, anchor_file_ref, chunkE, sync_group_p1, sync_group_p2, anchor_sync_group, chunkF, fw_phase_p1, fw_phase_p2, anchor_frameworks, chunkG, new_products_p1, new_products_p2, chunkH, new_root_p1, new_root_p2, chunkI, new_app_phases_p1, new_app_phases_p2, new_app_phases_p3, chunkJ, native_target_p1, native_target_p2, native_target_p3, native_target_p4, anchor_native_target, chunkK, attrs_new_p1, attrs_new_p2, chunkL, targets_new_p1, targets_new_p2, chunkM, res_phase_p1, res_phase_p2, anchor_resources, chunkN, src_phase_p1, src_phase_p2, anchor_sources, chunkO, dep_entry_p1, dep_entry_p2, anchor_dependency, chunkP, cfg_debug_p1, cfg_debug_p2, cfg_debug_p3, cfg_debug_p4, cfg_debug_p5, cfg_release_p1, cfg_release_p2, cfg_release_p3, cfg_release_p4, cfg_release_p5, anchor_xcbuild_config, chunkQ, cfg_list_p1, cfg_list_p2, anchor_config_list, chunkR]) = 1 := by
  rw [regroup18]
  rw [cat_cons, countOcc_win sync_group_p1_ne]
  rw [(by decide : countOcc sync_group_p1 (seg12 ++ (cat [seg15, seg17, seg19, seg22, seg24, seg32, seg33, seg34, seg29, seg35, seg37, seg39, cfg_debug_p2, cfg_debug_p3, seg40, cfg_release_p2, cfg_release_p3, seg41, seg43]).take (sync_group_p1.length - 1)) = 0), Nat.zero_add]
  rw [cat_cons, countOcc_win sync_group_p1_ne]
  rw [(by decide : countOcc sync_group_p1 (seg15 ++ (cat [seg17, seg19, seg22, seg24, seg32, seg33, seg34, seg29, seg35, seg37, seg39, cfg_debug_p2, cfg_debug_p3, seg40, cfg_release_p2, cfg_release_p3, seg41, seg43]).take (sync_group_p1.length - 1)) = 0), Nat.zero_add]
  rw [cat_cons, countOcc_win sync_group_p1_ne]
  rw [(by decide : countOcc sync_group_p1 (seg17 ++ (cat [seg19, seg22, seg24, seg32, seg33, seg34, seg29, seg35, seg37, seg39, cfg_debug_p2, cfg_debug_p3, seg40, cfg_release_p2, cfg_release_p3, seg41, seg43]).take (sync_group_p1.length - 1)) = 0), Nat.zero_add]
  rw [cat_cons, countOcc_win sync_group_p1_ne]
  rw [(by decide : countOcc sync_group_p1 (seg19 ++ (cat [seg22, seg24, seg32, seg33, seg34, seg29, seg35, seg37, seg39, cfg_debug_p2, cfg_debug_p3, seg40, cfg_release_p2, cfg_release_p3, seg41, seg43]).take (sync_group_p1.length - 1)) = 1)]
  rw [cat_cons, countOcc_win sync_group_p1_ne]
  rw [(by decide : countOcc sync_group_p1 (seg22 ++ (cat [seg24, seg32, seg33, seg34, seg29, seg35, seg37, seg39, cfg_debug_p2, cfg_debug_p3, seg40, cfg_release_p2, cfg_release_p3, seg41, seg43]).take (sync_group_p1.length - 1)) = 0), Nat.zero_add]
  rw [cat_cons, countOcc_win sync_group_p1_ne]
  rw [(by decide : countOcc sync_group_p1 (seg24 ++ (cat [seg32, seg33, seg34, seg29, seg35, seg37, seg39, cfg_debug_p2, cfg_debug_p3, seg40, cfg_release_p2, cfg_release_p3, seg41, seg43]).take (sync_group_p1.length - 1)) = 0), Nat.zero_add]
  rw [cat_cons, countOcc_win sync_group_p1_ne]
  rw [(by decide : countOcc sync_group_p1 (seg32 ++ (cat [seg33, seg34, seg29, seg35, seg37, seg39, cfg_debug_p2, cfg_debug_p3, seg40, cfg_release_p2, cfg_release_p3, seg41, seg43]).take (sync_group_p1.length - 1)) = 0), Nat.zero_add]
  rw [cat_cons, countOcc_win sync_group_p1_ne]
  rw [(by decide : countOcc sync_group_p1 (seg33 ++ (cat [seg34, seg29, seg35, seg37, seg39, cfg_debug_p2, cfg_debug_p3, seg40, cfg_release_p2, cfg_release_p3, seg41, seg43]).take (sync_group_p1.length - 1)) = 0), Nat.zero_add]
  rw [cat_cons, countOcc_win sync_group_p1_ne]
  rw [(by decide : countOcc sync_group_p1 (seg34 ++ (cat [seg29, seg35, seg37, seg39, cfg_debug_p2, cfg_debug_p3, seg40, cfg_release_p2, cfg_release_p3, seg41, seg43]).take (sync_group_p1.length - 1)) = 0), Nat.zero_add]
  rw [cat_cons, countOcc_win sync_group_p1_ne]
  rw [(by decide : countOcc sync_group_p1 (seg29 ++ (cat [seg35, seg37, seg39, cfg_debug_p2, cfg_debug_p3, seg40, cfg_release_p2, cfg_release_p3, seg41, seg43]).take (sync_group_p1.length - 1)) = 0), Nat.zero_add]
  rw [cat_cons, countOcc_win sync_group_p1_ne]
  rw [(by decide : countOcc sync_group_p1 (seg35 ++ (cat [seg37, seg39, cfg_debug_p2, cfg_debug_p3, seg40, cfg_release_p2, cfg_release_p3, seg41, seg43]).take (sync_group_p1.length - 1)) = 0), Nat.zero_add]
  rw [cat_cons, countOcc_win sync_group_p1_ne]
  rw [(by decide : countOcc sync_group_p1 (seg37 ++ (cat [seg39, cfg_debug_p2, cfg_debug_p3, seg40, cfg_release_p2, cfg_release_p3, seg41, seg43]).take (sync_group_p1.length - 1)) = 0), Nat.zero_add]
  rw [cat_cons, countOcc_win sync_group_p1_ne]
  rw [(by decide : countOcc sync_group_p1 (seg39 ++ (cat [cfg_debug_p2, cfg_debug_p3, seg40, cfg_release_p2, cfg_release_p3, seg41, seg43]).take (sync_group_p1.length - 1)) = 0), Nat.zero_add]
  rw [cat_cons, countOcc_win sync_group_p1_ne]
  rw [(by decide : countOcc sync_group_p1 (cfg_debug_p2 ++ (cat [cfg_debug_p3, seg40, cfg_release_p2, cfg_release_p3, seg41, seg43]).take (sync_group_p1.length - 1)) = 0), Nat.zero_add]
  rw [cat_cons, countOcc_win sync_group_p1_ne]
  rw [(by decide : countOcc sync_group_p1 (cfg_debug_p3 ++ (cat [seg40, cfg_release_p2, cfg_release_p3, seg41, seg43]).take (sync_group_p1.length - 1)) = 0), Nat.zero_add]
  rw [cat_cons, countOcc_win sync_group_p1_ne]
  rw [(by decide : countOcc sync_group_p1 (seg40 ++ (cat [cfg_release_p2, cfg_release_p3, seg41, seg43]).take (sync_group_p1.length - 1)) = 0), Nat.zero_add]
  rw [cat_cons, countOcc_win sync_group_p1_ne]
  rw [(by decide : countOcc sync_group_p1 (cfg_release_p2 ++ (cat [cfg_release_p3, seg41, seg43]).take (sync_group_p1.length - 1)) = 0), Nat.zero_add]
  rw [cat_cons, countOcc_win sync_group_p1_ne]
  rw [(by decide : countOcc sync_group_p1 (cfg_release_p3 ++ (cat [seg41, seg43]).take (sync_group_p1.length - 1)) = 0), Nat.zero_add]
  rw [cat_cons, countOcc_win sync_group_p1_ne]
  rw [(by decide : countOcc sync_group_p1 (seg41 ++ (cat [seg43]).take (sync_group_p1.length - 1)) = 0), Nat.zero_add]
  rw [cat_cons, countOcc_win sync_group_p1_ne]
  rw [(by decide : countOcc sync_group_p1 (seg43 ++ (cat []).take (sync_group_p1.length - 1)) = 0), Nat.zero_add]
  rfl

theorem cnt_fin_fw_phase_p1 : countOcc fw_phase_p1 (cat [chunkA, build_file_entry, anchor_build_file, chunkB, proxy_entry_p1, proxy_entry_p2, anchor_proxy, chunkC, copy_phase_p1, copy_phase_p2, copy_phase_p3, anchor_begin_file_ref, chunkD, file_ref, anchor_file_ref, chunkE, sync_group_p1, sync_group_p2, anchor_sync_group, chunkF, fw_phase_p1, fw_phase_p2, anchor_frameworks, chunkG, new_products_p1, new_products_p2, chunkH, new_root_p1, new_root_p2, chunkI, new_app_phases_p1, new_app_phases_p2, new_app_phases_p3, chunkJ, native_target_p1, native_target_p2, native_target_p3, native_target_p4, anchor_native_target, chunkK, attrs_new_p1, attrs_new_p2, chunkL, targets_new_p1, targets_new_p2, chunkM, res_phase_p1, res_phase_p2, anchor_resources, chunkN, src_phase_p1, src_phase_p2, anchor_sources, chunkO, dep_entry_p1, dep_entry_p2, anchor_dependency, chunkP, cfg_debug_p1, cfg_debug_p2, cfg_debug_p3, cfg_debug_p4, cfg_debug_p5, cfg_release_p1, cfg_release_p2, cfg_release_p3, cfg_release_p4, cfg_release_p5, anchor_xcbuild_config, chunkQ, cfg_list_p1, cfg_list_p2, anchor_config_list, chunkR]) = 1 := by
  rw [regroup18]
  rw [cat_cons, countOcc_win fw_phase_p1_ne]
  rw [(by decide : countOcc fw_phase_p1 (seg12 ++ (cat [seg15, seg17, seg19, seg22, seg24, seg32, seg33, seg34, seg29, seg35, seg37, seg39, cfg_debug_p2, cfg_debug_p3, seg40, cfg_release_p2, cfg_release_p3, seg41, seg43]).take (fw_phase_p1.length - 1)) = 0), Nat.zero_add]
  rw [cat_cons, countOcc_win fw_phase_p1_ne]
  rw [(by decide : countOcc fw_phase_p1 (seg15 ++ (cat [seg17, seg19, seg22, seg24, seg32, seg33, seg34, seg29, seg35, seg37, seg39, cfg_debug_p2, cfg_debug_p3, seg40, cfg_release_p2, cfg_release_p3, seg41, seg43]).take (fw_phase_p1.length - 1)) = 0), Nat.zero_add]
  rw [cat_cons, countOcc_win fw_phase_p1_ne]
  rw [(by decide : countOcc fw_phase_p1 (seg17 ++ (cat [seg19, seg22, seg24, seg32, seg33, seg34, seg29, seg35, seg37, seg39, cfg_debug_p2, cfg_debug_p3, seg40, cfg_release_p2, cfg_release_p3, seg41, seg43]).take (fw_phase_p1.length - 1)) = 0), Nat.zero_add]
  rw [cat_cons, countOcc_win fw_phase_p1_ne]
  rw [(by decide : countOcc fw_phase_p1 (seg19 ++ (cat [seg22, seg24, seg32, seg33, seg34, seg29, seg35, seg37, seg39, cfg_debug_p2, cfg_debug_p3, seg40, cfg_release_p2, cfg_release_p3, seg41, seg43]).take (fw_phase_p1.length - 1)) = 0), Nat.zero_add]
  rw [cat_cons, countOcc_win fw_phase_p1_ne]
  rw [(by decide : countOcc fw_phase_p1 (seg22 ++ (cat [seg24, seg32, seg33, seg34, seg29, seg35, seg37, seg39, cfg_debug_p2, cfg_debug_p3, seg40, cfg_release_p2, cfg_release_p3, seg41, seg43]).take (fw_phase_p1.length - 1)) = 1)]
  rw [cat_cons, countOcc_win fw_phase_p1_ne]
  rw [(by decide : countOcc fw_phase_p1 (seg24 ++ (cat [seg32, seg33, seg34, seg29, seg35, seg37, seg39, cfg_debug_p2, cfg_debug_p3, seg40, cfg_release_p2, cfg_release_p3, seg41, seg43]).take (fw_phase_p1.length - 1)) = 0), Nat.zero_add]
  rw [cat_cons, countOcc_win fw_phase_p1_ne]
  rw [(by decide : countOcc fw_phase_p1 (seg32 ++ (cat [seg33, seg34, seg29, seg35, seg37, seg39, cfg_debug_p2, cfg_debug_p3, seg40, cfg_release_p2, cfg_release_p3, seg41, seg43]).take (fw_phase_p1.length - 1)) = 0), Nat.zero_add]
  rw [cat_cons, countOcc_win fw_phase_p1_ne]
  rw [(by decide : countOcc fw_phase_p1 (seg33 ++ (cat [seg34, seg29, seg35, seg37, seg39, cfg_debug_p2, cfg_debug_p3, seg40, cfg_release_p2, cfg_release_p3, seg41, seg43]).take (fw_phase_p1.length - 1)) = 0), Nat.zero_add]
  rw [cat_cons, countOcc_win fw_phase_p1_ne]
  rw [(by decide : countOcc fw_phase_p1 (seg34 ++ (cat [seg29, seg35, seg37, seg39, cfg_debug_p2, cfg_debug_p3, seg40, cfg_release_p2, cfg_release_p3, seg41, seg43]).take (fw_phase_p1.length - 1)) = 0), Nat.zero_add]
  rw [cat_cons, countOcc_win fw_phase_p1_ne]
  rw [(by decide : countOcc fw_phase_p1 (seg29 ++ (cat [seg35, seg37, seg39, cfg_debug_p2, cfg_debug_p3, seg40, cfg_release_p2, cfg_release_p3, seg41, seg43]).take (fw_phase_p1.length - 1)) = 0), Nat.zero_add]
  rw [cat_cons, countOcc_win fw_phase_p1_ne]
  rw [(by decide : countOcc fw_phase_p1 (seg35 ++ (cat [seg37, seg39, cfg_debug_p2, cfg_debug_p3, seg40, cfg_release_p2, cfg_release_p3, seg41, seg43]).take (fw_phase_p1.length - 1)) = 0), Nat.zero_add]
  rw [cat_cons, countOcc_win fw_phase_p1_ne]
  rw [(by decide : countOcc fw_phase_p1 (seg37 ++ (cat [seg39, cfg_debug_p2, cfg_debug_p3, seg40, cfg_release_p2, cfg_release_p3, seg41, seg43]).take (fw_phase_p1.length - 1)) = 0), Nat.zero_add]
  rw [cat_cons, countOcc_win fw_phase_p1_ne]
  rw [(by decide : countOcc fw_phase_p1 (seg39 ++ (cat [cfg_debug_p2, cfg_debug_p3, seg40, cfg_release_p2, cfg_release_p3, seg41, seg43]).take (fw_phase_p1.length - 1)) = 0), Nat.zero_add]
  rw [cat_cons, countOcc_win fw_phase_p1_ne]
  rw [(by decide : countOcc fw_phase_p1 (cfg_debug_p2 ++ (cat [cfg_debug_p3, seg40, cfg_release_p2, cfg_release_p3, seg41, seg43]).take (fw_phase_p1.length - 1)) = 0), Nat.zero_add]
  rw [cat_cons, countOcc_win fw_phase_p1_ne]
  rw [(by decide : countOcc fw_phase_p1 (cfg_debug_p3 ++ (cat [seg40, cfg_release_p2, cfg_release_p3, seg41, seg43]).take (fw_phase_p1.length - 1)) = 0), Nat.zero_add]
  rw [cat_cons, countOcc_win fw_phase_p1_ne]
  rw [(by decide : countOcc fw_phase_p1 (seg40 ++ (cat [cfg_release_p2, cfg_release_p3, seg41, seg43]).take (fw_phase_p1.length - 1)) = 0), Nat.zero_add]
  rw [cat_cons, countOcc_win fw_phase_p1_ne]
  rw [(by decide : countOcc fw_phase_p1 (cfg_release_p2 ++ (cat [cfg_release_p3, seg41, seg43]).take (fw_phase_p1.length - 1)) = 0), Nat.zero_add]
  rw [cat_cons, countOcc_win fw_phase_p1_ne]
  rw [(by decide : countOcc fw_phase_p1 (cfg_release_p3 ++ (cat [seg41, seg43]).take (fw_phase_p1.length - 1)) = 0), Nat.zero_add]
  rw [cat_cons, countOcc_win fw_phase_p1_ne]
  rw [(by decide : countOcc fw_phase_p1 (seg41 ++ (cat [seg43]).take (fw_phase_p1.length - 1)) = 0), Nat.zero_add]
  rw [cat_cons, countOcc_win fw_phase_p1_ne]
  rw [(by decide : countOcc fw_phase_p1 (seg43 ++ (cat []).take (fw_phase_p1.length - 1)) = 0), Nat.zero_add]
  rfl

theorem cnt_fin_native_target_p1 : countOcc native_target_p1 (cat [chunkA, build_file_entry, anchor_build_file, chunkB, proxy_entry_p1, proxy_entry_p2, anchor_proxy, chunkC, copy_phase_p1, copy_phase_p2, copy_phase_p3, anchor_begin_file_ref, chunkD, file_ref, anchor_file_ref, chunkE, sync_group_p1, sync_group_p2, anchor_sync_group, chunkF, fw_phase_p1, fw_phase_p2, anchor_frameworks, chunkG, new_products_p1, new_products_p2, chunkH, new_root_p1, new_root_p2, chunkI, new_app_phases_p1, new_app_phases_p2, new_app_phases_p3, chunkJ, native_target_p1, native_target_p2, native_target_p3, native_target_p4, anchor_native_target, chunkK, attrs_new_p1, attrs_new_p2, chunkL, targets_new_p1, targets_new_p2, chunkM, res_phase_p1, res_phase_p2, anchor_resources, chunkN, src_phase_p1, src_phase_p2, anchor_sources, chunkO, dep_entry_p1, dep_entry_p2, anchor_dependency, chunkP, cfg_debug_p1, cfg_debug_p2, cfg_debug_p3, cfg_debug_p4, cfg_debug_p5, cfg_release_p1, cfg_release_p2, cfg_release_p3, cfg_release_p4, cfg_release_p5, anchor_xcbuild_config, chunkQ, cfg_list_p1, cfg_list_p2, anchor_config_list, chunkR]) = 1 := by
  rw [regroup18]
  rw [cat_cons, countOcc_win native_target_p1_ne]
  rw [(by decide : countOcc native_target_p1 (seg12 ++ (cat [seg15, seg17, seg19, seg22, seg24, seg32, seg33, seg34, seg29, seg35, seg37, seg39, cfg_debug_p2, cfg_debug_p3, seg40, cfg_release_p2, cfg_release_p3, seg41, seg43]).take (native_target_p1.length - 1)) = 0), Nat.zero_add]
  rw [cat_cons, countOcc_win native_target_p1_ne]
  rw [(by decide : countOcc native_target_p1 (seg15 ++ (cat [seg17, seg19, seg22, seg24, seg32, seg33, seg34, seg29, seg35, seg37, seg39, cfg_debug_p2, cfg_debug_p3, seg40, cfg_release_p2, cfg_release_p3, seg41, seg43]).take (native_target_p1.length - 1)) = 0), Nat.zero_add]
  rw [cat_cons, countOcc_win native_target_p1_ne]
  rw [(by decide : countOcc native_target_p1 (seg17 ++ (cat [seg19, seg22, seg24, seg32, seg33, seg34, seg29, seg35, seg37, seg39, cfg_debug_p2, cfg_debug_p3, seg40, cfg_release_p2, cfg_release_p3, seg41, seg43]).take (native_target_p1.length - 1)) = 0), Nat.zero_add]
  rw [cat_cons, countOcc_win native_target_p1_ne]
  rw [(by decide : countOcc native_target_p1 (seg19 ++ (cat [seg22, seg24, seg32, seg33, seg34, seg29, seg35, seg37, seg39, cfg_debug_p2, cfg_debug_p3, seg40, cfg_release_p2, cfg_release_p3, seg41, seg43]).take (native_target_p1.length - 1)) = 0), Nat.zero_add]
  rw [cat_cons, countOcc_win native_target_p1_ne]
  rw [(by decide : countOcc native_target_p1 (seg22 ++ (cat [seg24, seg32, seg33, seg34, seg29, seg35, seg37, seg39, cfg_debug_p2, cfg_debug_p3, seg40, cfg_release_p2, cfg_release_p3, seg41, seg43]).take (native_target_p1.length - 1)) = 0), Nat.zero_add]
  rw [cat_cons, countOcc_win native_target_p1_ne]
  rw [(by decide : countOcc native_target_p1 (seg24 ++ (cat [seg32, seg33, seg34, seg29, seg35, seg37, seg39, cfg_debug_p2, cfg_debug_p3, seg40, cfg_release_p2, cfg_release_p3, seg41, seg43]).take (native_target_p1.length - 1)) = 0), Nat.zero_add]
  rw [cat_cons, countOcc_win native_target_p1_ne]
  rw [(by decide : countOcc native_target_p1 (seg32 ++ (cat [seg33, seg34, seg29, seg35, seg37, seg39, cfg_debug_p2, cfg_debug_p3, seg40, cfg_release_p2, cfg_release_p3, seg41, seg43]).take (native_target_p1.length - 1)) = 0), Nat.zero_add]
  rw [cat_cons, countOcc_win native_target_p1_ne]
  rw [(by decide : countOcc native_target_p1 (seg33 ++ (cat [seg34, seg29, seg35, seg37, seg39, cfg_debug_p2, cfg_debug_p3, seg40, cfg_release_p2, cfg_release_p3, seg41, seg43]).take (native_target_p1.length - 1)) = 0), Nat.zero_add]
  rw [cat_cons, countOcc_win native_target_p1_ne]
  rw [(by decide : countOcc native_target_p1 (seg34 ++ (cat [seg29, seg35, seg37, seg39, cfg_debug_p2, cfg_debug_p3, seg40, cfg_release_p2, cfg_release_p3, seg41, seg43]).take (native_target_p1.length - 1)) = 1)]
  rw [cat_cons, countOcc_win native_target_p1_ne]
  rw [(by decide : countOcc native_target_p1 (seg29 ++ (cat [seg35, seg37, seg39, cfg_debug_p2, cfg_debug_p3, seg40, cfg_release_p2, cfg_release_p3, seg41, seg43]).take (native_target_p1.length - 1)) = 0), Nat.zero_add]
  rw [cat_cons, countOcc_win native_target_p1_ne]
  rw [(by decide : countOcc native_target_p1 (seg35 ++ (cat [seg37, seg39, cfg_debug_p2, cfg_debug_p3, seg40, cfg_release_p2, cfg_release_p3, seg41, seg43]).take (native_target_p1.length - 1)) = 0), Nat.zero_add]
  rw [cat_cons, countOcc_win native_target_p1_ne]
  rw [(by decide : countOcc native_target_p1 (seg37 ++ (cat [seg39, cfg_debug_p2, cfg_debug_p3, seg40, cfg_release_p2, cfg_release_p3, seg41, seg43]).take (native_target_p1.length - 1)) = 0), Nat.zero_add]
  rw [cat_cons, countOcc_win native_target_p1_ne]
  rw [(by decide : countOcc native_target_p1 (seg39 ++ (cat [cfg_debug_p2, cfg_debug_p3, seg40, cfg_release_p2, cfg_release_p3, seg41, seg43]).take (native_target_p1.length - 1)) = 0), Nat.zero_add]
  rw [cat_cons, countOcc_win native_target_p1_ne]
  rw [(by decide : countOcc native_target_p1 (cfg_debug_p2 ++ (cat [cfg_debug_p3, seg40, cfg_release_p2, cfg_release_p3, seg41, seg43]).take (native_target_p1.length - 1)) = 0), Nat.zero_add]
  rw [cat_cons, countOcc_win native_target_p1_ne]
  rw [(by decide : countOcc native_target_p1 (cfg_debug_p3 ++ (cat [seg40, cfg_release_p2, cfg_release_p3, seg41, seg43]).take (native_target_p1.length - 1)) = 0), Nat.zero_add]
  rw [cat_cons, countOcc_win native_target_p1_ne]
  rw [(by decide : countOcc native_target_p1 (seg40 ++ (cat [cfg_release_p2, cfg_release_p3, seg41, seg43]).take (native_target_p1.length - 1)) = 0), Nat.zero_add]
  rw [cat_cons, countOcc_win native_target_p1_ne]
  rw [(by decide : countOcc native_target_p1 (cfg_release_p2 ++ (cat [cfg_release_p3, seg41, seg43]).take (native_target_p1.length - 1)) = 0), Nat.zero_add]
  rw [cat_cons, countOcc_win native_target_p1_ne]
  rw [(by decide : countOcc native_target_p1 (cfg_release_p3 ++ (cat [seg41, seg43]).take (native_target_p1.length - 1)) = 0), Nat.zero_add]
  rw [cat_cons, countOcc_win native_target_p1_ne]
  rw [(by decide : countOcc native_target_p1 (seg41 ++ (cat [seg43]).take (native_target_p1.length - 1)) = 0), Nat.zero_add]
  rw [cat_cons, countOcc_win native_target_p1_ne]
  rw [(by decide : countOcc native_target_p1 (seg43 ++ (cat []).take (native_target_p1.length - 1)) = 0), Nat.zero_add]
  rfl

theorem cnt_fin_res_phase_p1 : countOcc res_phase_p1 (cat [chunkA, build_file_entry, anchor_build_file, chunkB, proxy_entry_p1, proxy_entry_p2, anchor_proxy, chunkC, copy_phase_p1, copy_phase_p2, copy_phase_p3, anchor_begin_file_ref, chunkD, file_ref, anchor_file_ref, chunkE, sync_group_p1, sync_group_p2, anchor_sync_group, chunkF, fw_phase_p1, fw_phase_p2, anchor_frameworks, chunkG, new_products_p1, new_products_p2, chunkH, new_root_p1, new_root_p2, chunkI, new_app_phases_p1, new_app_phases_p2, new_app_phases_p3, chunkJ, native_target_p1, native_target_p2, native_target_p3, native_target_p4, anchor_native_target, chunkK, attrs_new_p1, attrs_new_p2, chunkL, targets_new_p1, targets_new_p2, chunkM, res_phase_p1, res_phase_p2, anchor_resources, chunkN, src_phase_p1, src_phase_p2, anchor_sources, chunkO, dep_entry_p1, dep_entry_p2, anchor_dependency, chunkP, cfg_debug_p1, cfg_debug_p2, cfg_debug_p3, cfg_debug_p4, cfg_debug_p5, cfg_release_p1, cfg_release_p2, cfg_release_p3, cfg_release_p4, cfg_release_p5, anchor_xcbuild_config, chunkQ, cfg_list_p1, cfg_list_p2, anchor_config_list, chunkR]) = 1 := by
  rw [regroup18]
  rw [cat_cons, countOcc_win res_phase_p1_ne]
  rw [(by decide : countOcc res_phase_p1 (seg12 ++ (cat [seg15, seg17, seg19, seg22, seg24, seg32, seg33, seg34, seg29, seg35, seg37, seg39, cfg_debug_p2, cfg_debug_p3, seg40, cfg_release_p2, cfg_release_p3, seg41, seg43]).take (res_phase_p1.length - 1)) = 0), Nat.zero_add]
  rw [cat_cons, countOcc_win res_phase_p1_ne]
  rw [(by decide : countOcc res_phase_p1 (seg15 ++ (cat [seg17, seg19, seg22, seg24, seg32, seg33, seg34, seg29, seg35, seg37, seg39, cfg_debug_p2, cfg_debug_p3, seg40, cfg_release_p2, cfg_release_p3, seg41, seg43]).take (res_phase_p1.length - 1)) = 0), Nat.zero_add]
  rw [cat_cons, countOcc_win res_phase_p1_ne]
  rw [(by decide : countOcc res_phase_p1 (seg17 ++ (cat [seg19, seg22, seg24, seg32, seg33, seg34, seg29, seg35, seg37, seg39, cfg_debug_p2, cfg_debug_p3, seg40, cfg_release_p2, cfg_release_p3, seg41, seg43]).take (res_phase_p1.length - 1)) = 0), Nat.zero_add]
  rw [cat_cons, countOcc_win res_phase_p1_ne]
  rw [(by decide : countOcc res_phase_p1 (seg19 ++ (cat [seg22, seg24, seg32, seg33, seg34, seg29, seg35, seg37, seg39, cfg_debug_p2, cfg_debug_p3, seg40, cfg_release_p2, cfg_release_p3, seg41, seg43]).take (res_phase_p1.length - 1)) = 0), Nat.zero_add]
  rw [cat_cons, countOcc_win res_phase_p1_ne]
  rw [(by decide : countOcc res_phase_p1 (seg22 ++ (cat [seg24, seg32, seg33, seg34, seg29, seg35, seg37, seg39, cfg_debug_p2, cfg_debug_p3, seg40, cfg_release_p2, cfg_release_p3, seg41, seg43]).take (res_phase_p1.length - 1)) = 0), Nat.zero_add]
  rw [cat_cons, countOcc_win res_phase_p1_ne]
  rw [(by decide : countOcc res_phase_p1 (seg24 ++ (cat [seg32, seg33, seg34, seg29, seg35, seg37, seg39, cfg_debug_p2, cfg_debug_p3, seg40, cfg_release_p2, cfg_release_p3, seg41, seg43]).take (res_phase_p1.length - 1)) = 0), Nat.zero_add]
  rw [cat_cons, countOcc_win res_phase_p1_ne]
  rw [(by decide : countOcc res_phase_p1 (seg32 ++ (cat [seg33, seg34, seg29, seg35, seg37, seg39, cfg_debug_p2, cfg_debug_p3, seg40, cfg_release_p2, cfg_release_p3, seg41, seg43]).take (res_phase_p1.length - 1)) = 0), Nat.zero_add]
  rw [cat_cons, countOcc_win res_phase_p1_ne]
  rw [(by decide : countOcc res_phase_p1 (seg33 ++ (cat [seg34, seg29, seg35, seg37, seg39, cfg_debug_p2, cfg_debug_p3, seg40, cfg_release_p2, cfg_release_p3, seg41, seg43]).take (res_phase_p1.length - 1)) = 0), Nat.zero_add]
  rw [cat_cons, countOcc_win res_phase_p1_ne]
  rw [(by decide : countOcc res_phase_p1 (seg34 ++ (cat [seg29, seg35, seg37, seg39, cfg_debug_p2, cfg_debug_p3, seg40, cfg_release_p2, cfg_release_p3, seg41, seg43]).take (res_phase_p1.length - 1)) = 0), Nat.zero_add]
  rw [cat_cons, countOcc_win res_phase_p1_ne]
  rw [(by decide : countOcc res_phase_p1 (seg29 ++ (cat [seg35, seg37, seg39, cfg_debug_p2, cfg_debug_p3, seg40, cfg_release_p2, cfg_release_p3, seg41, seg43]).take (res_phase_p1.length - 1)) = 0), Nat.zero_add]
  rw [cat_cons, countOcc_win res_phase_p1_ne]
  rw [(by decide : countOcc res_phase_p1 (seg35 ++ (cat [seg37, seg39, cfg_debug_p2, cfg_debug_p3, seg40, cfg_release_p2, cfg_release_p3, seg41, seg43]).take (res_phase_p1.length - 1)) = 1)]
  rw [cat_cons, countOcc_win res_phase_p1_ne]
  rw [(by decide : countOcc res_phase_p1 (seg37 ++ (cat [seg39, cfg_debug_p2, cfg_debug_p3, seg40, cfg_release_p2, cfg_release_p3, seg41, seg43]).take (res_phase_p1.length - 1)) = 0), Nat.zero_add]
  rw [cat_cons, countOcc_win res_phase_p1_ne]
  rw [(by decide : countOcc res_phase_p1 (seg39 ++ (cat [cfg_debug_p2, cfg_debug_p3, seg40, cfg_release_p2, cfg_release_p3, seg41, seg43]).take (res_phase_p1.length - 1)) = 0), Nat.zero_add]
  rw [cat_cons, countOcc_win res_phase_p1_ne]
  rw [(by decide : countOcc res_phase_p1 (cfg_debug_p2 ++ (cat [cfg_debug_p3, seg40, cfg_release_p2, cfg_release_p3, seg41, seg43]).take (res_phase_p1.length - 1)) = 0), Nat.zero_add]
  rw [cat_cons, countOcc_win res_phase_p1_ne]
  rw [(by decide : countOcc res_phase_p1 (cfg_debug_p3 ++ (cat [seg40, cfg_release_p2, cfg_release_p3, seg41, seg43]).take (res_phase_p1.length - 1)) = 0), Nat.zero_add]
  rw [cat_cons, countOcc_win res_phase_p1_ne]
  rw [(by decide : countOcc res_phase_p1 (seg40 ++ (cat [cfg_release_p2, cfg_release_p3, seg41, seg43]).take (res_phase_p1.length - 1)) = 0), Nat.zero_add]
  rw [cat_cons, countOcc_win res_phase_p1_ne]
  rw [(by decide : countOcc res_phase_p1 (cfg_release_p2 ++ (cat [cfg_release_p3, seg41, seg43]).take (res_phase_p1.length - 1)) = 0), Nat.zero_add]
  rw [cat_cons, countOcc_win res_phase_p1_ne]
  rw [(by decide : countOcc res_phase_p1 (cfg_release_p3 ++ (cat [seg41, seg43]).take (res_phase_p1.length - 1)) = 0), Nat.zero_add]
  rw [cat_cons, countOcc_win res_phase_p1_ne]
  rw [(by decide : countOcc res_phase_p1 (seg41 ++ (cat [seg43]).take (res_phase_p1.length - 1)) = 0), Nat.zero_add]
  rw [cat_cons, countOcc_win res_phase_p1_ne]
  rw [(by decide : countOcc res_phase_p1 (seg43 ++ (cat []).take (res_phase_p1.length - 1)) = 0), Nat.zero_add]
  rfl

theorem cnt_fin_src_phase_p1 : countOcc src_phase_p1 (cat [chunkA, build_file_entry, anchor_build_file, chunkB, proxy_entry_p1, proxy_entry_p2, anchor_proxy, chunkC, copy_phase_p1, copy_phase_p2, copy_phase_p3, anchor_begin_file_ref, chunkD, file_ref, anchor_file_ref, chunkE, sync_group_p1, sync_group_p2, anchor_sync_group, chunkF, fw_phase_p1, fw_phase_p2, anchor_frameworks, chunkG, new_products_p1, new_products_p2, chunkH, new_root_p1, new_root_p2, chunkI, new_app_phases_p1, new_app_phases_p2, new_app_phases_p3, chunkJ, native_target_p1, native_target_p2, native_target_p3, native_target_p4, anchor_native_target, chunkK, attrs_new_p1, attrs_new_p2, chunkL, targets_new_p1, targets_new_p2, chunkM, res_phase_p1, res_phase_p2, anchor_resources, chunkN, src_phase_p1, src_phase_p2, anchor_sources, chunkO, dep_entry_p1, dep_entry_p2, anchor_dependency, chunkP, cfg_debug_p1, cfg_debug_p2, cfg_debug_p3, cfg_debug_p4, cfg_debug_p5, cfg_release_p1, cfg_release_p2, cfg_release_p3, cfg_release_p4, cfg_release_p5, anchor_xcbuild_config, chunkQ, cfg_list_p1, cfg_list_p2, anchor_config_list, chunkR]) = 1 := by
  rw [regroup18]
  rw [cat_cons, countOcc_win src_phase_p1_ne]
  rw [(by decide : countOcc src_phase_p1 (seg12 ++ (cat [seg15, seg17, seg19, seg22, seg24, seg32, seg33, seg34, seg29, seg35, seg37, seg39, cfg_debug_p2, cfg_debug_p3, seg40, cfg_release_p2, cfg_release_p3, seg41, seg43]).take (src_phase_p1.length - 1)) = 0), Nat.zero_add]
  rw [cat_cons, countOcc_win src_phase_p1_ne]
  rw [(by decide : countOcc src_phase_p1 (seg15 ++ (cat [seg17, seg19, seg22, seg24, seg32, seg33, seg34, seg29, seg35, seg37, seg39, cfg_debug_p2, cfg_debug_p3, seg40, cfg_release_p2, cfg_release_p3, seg41, seg43]).take (src_phase_p1.length - 1)) = 0), Nat.zero_add]
  rw [cat_cons, countOcc_win src_phase_p1_ne]
  rw [(by decide : countOcc src_phase_p1 (seg17 ++ (cat [seg19, seg22, seg24, seg32, seg33, seg34, seg29, seg35, seg37, seg39, cfg_debug_p2, cfg_debug_p3, seg40, cfg_release_p2, cfg_release_p3, seg41, seg43]).take (src_phase_p1.length - 1)) = 0), Nat.zero_add]
  rw [cat_cons, countOcc_win src_phase_p1_ne]
  rw [(by decide : countOcc src_phase_p1 (seg19 ++ (cat [seg22, seg24, seg32, seg33, seg34, seg29, seg35, seg37, seg39, cfg_debug_p2, cfg_debug_p3, seg40, cfg_release_p2, cfg_release_p3, seg41, seg43]).take (src_phase_p1.length - 1)) = 0), Nat.zero_add]
  rw [cat_cons, countOcc_win src_phase_p1_ne]
  rw [(by decide : countOcc src_phase_p1 (seg22 ++ (cat [seg24, seg32, seg33, seg34, seg29, seg35, seg37, seg39, cfg_debug_p2, cfg_debug_p3, seg40, cfg_release_p2, cfg_release_p3, seg41, seg43]).take (src_phase_p1.length - 1)) = 0), Nat.zero_add]
  rw [cat_cons, countOcc_win src_phase_p1_ne]
  rw [(by decide : countOcc src_phase_p1 (seg24 ++ (cat [seg32, seg33, seg34, seg29, seg35, seg37, seg39, cfg_debug_p2, cfg_debug_p3, seg40, cfg_release_p2, cfg_release_p3, seg41, seg43]).take (src_phase_p1.length - 1)) = 0), Nat.zero_add]
  rw [cat_cons, countOcc_win src_phase_p1_ne]
  rw [(by decide : countOcc src_phase_p1 (seg32 ++ (cat [seg33, seg34, seg29, seg35, seg37, seg39, cfg_debug_p2, cfg_debug_p3, seg40, cfg_release_p2, cfg_release_p3, seg41, seg43]).take (src_phase_p1.length - 1)) = 0), Nat.zero_add]
  rw [cat_cons, countOcc_win src_phase_p1_ne]
  rw [(by decide : countOcc src_phase_p1 (seg33 ++ (cat [seg34, seg29, seg35, seg37, seg39, cfg_debug_p2, cfg_debug_p3, seg40, cfg_release_p2, cfg_release_p3, seg41, seg43]).take (src_phase_p1.length - 1)) = 0), Nat.zero_add]
  rw [cat_cons, countOcc_win src_phase_p1_ne]
  rw [(by decide : countOcc src_phase_p1 (seg34 ++ (cat [seg29, seg35, seg37, seg39, cfg_debug_p2, cfg_debug_p3, seg40, cfg_release_p2, cfg_release_p3, seg41, seg43]).take (src_phase_p1.length - 1)) = 0), Nat.zero_add]
  rw [cat_cons, countOcc_win src_phase_p1_ne]
  rw [(by decide : countOcc src_phase_p1 (seg29 ++ (cat [seg35, seg37, seg39, cfg_debug_p2, cfg_debug_p3, seg40, cfg_release_p2, cfg_release_p3, seg41, seg43]).take (src_phase_p1.length - 1)) = 0), Nat.zero_add]
  rw [cat_cons, countOcc_win src_phase_p1_ne]
  rw [(by decide : countOcc src_phase_p1 (seg35 ++ (cat [seg37, seg39, cfg_debug_p2, cfg_debug_p3, seg40, cfg_release_p2, cfg_release_p3, seg41, seg43]).take (src_phase_p1.length - 1)) = 0), Nat.zero_add]
  rw [cat_cons, countOcc_win src_phase_p1_ne]
  rw [(by decide : countOcc src_phase_p1 (seg37 ++ (cat [seg39, cfg_debug_p2, cfg_debug_p3, seg40, cfg_release_p2, cfg_release_p3, seg41, seg43]).take (src_phase_p1.length - 1)) = 1)]
  rw [cat_cons, countOcc_win src_phase_p1_ne]
  rw [(by decide : countOcc src_phase_p1 (seg39 ++ (cat [cfg_debug_p2, cfg_debug_p3, seg40, cfg_release_p2, cfg_release_p3, seg41, seg43]).take (src_phase_p1.length - 1)) = 0), Nat.zero_add]
  rw [cat_cons, countOcc_win src_phase_p1_ne]
  rw [(by decide : countOcc src_phase_p1 (cfg_debug_p2 ++ (cat [cfg_debug_p3, seg40, cfg_release_p2, cfg_release_p3, seg41, seg43]).take (src_phase_p1.length - 1)) = 0), Nat.zero_add]
  rw [cat_cons, countOcc_win src_phase_p1_ne]
  rw [(by decide : countOcc src_phase_p1 (cfg_debug_p3 ++ (cat [seg40, cfg_release_p2, cfg_release_p3, seg41, seg43]).take (src_phase_p1.length - 1)) = 0), Nat.zero_add]
  rw [cat_cons, countOcc_win src_phase_p1_ne]
  rw [(by decide : countOcc src_phase_p1 (seg40 ++ (cat [cfg_release_p2, cfg_release_p3, seg41, seg43]).take (src_phase_p1.length - 1)) = 0), Nat.zero_add]
  rw [cat_cons, countOcc_win src_phase_p1_ne]
  rw [(by decide : countOcc src_phase_p1 (cfg_release_p2 ++ (cat [cfg_release_p3, seg41, seg43]).take (src_phase_p1.length - 1)) = 0), Nat.zero_add]
  rw [cat_cons, countOcc_win src_phase_p1_ne]
  rw [(by decide : countOcc src_phase_p1 (cfg_release_p3 ++ (cat [seg41, seg43]).take (src_phase_p1.length - 1)) = 0), Nat.zero_add]
  rw [cat_cons, countOcc_win src_phase_p1_ne]
  rw [(by decide : countOcc src_phase_p1 (seg41 ++ (cat [seg43]).take (src_phase_p1.length - 1)) = 0), Nat.zero_add]
  rw [cat_cons, countOcc_win src_phase_p1_ne]
  rw [(by decide : countOcc src_phase_p1 (seg43 ++ (cat []).take (src_phase_p1.length - 1)) = 0), Nat.zero_add]
  rfl

theorem cnt_fin_dep_entry_p1 : countOcc dep_entry_p1 (cat [chunkA, build_file_entry, anchor_build_file, chunkB, proxy_entry_p1, proxy_entry_p2, anchor_proxy, chunkC, copy_phase_p1, copy_phase_p2, copy_phase_p3, anchor_begin_file_ref, chunkD, file_ref, anchor_file_ref, chunkE, sync_group_p1, sync_group_p2, anchor_sync_group, chunkF, fw_phase_p1, fw_phase_p2, anchor_frameworks, chunkG, new_products_p1, new_products_p2, chunkH, new_root_p1, new_root_p2, chunkI, new_app_phases_p1, new_app_phases_p2, new_app_phases_p3, chunkJ, native_target_p1, native_target_p2, native_target_p3, native_target_p4, anchor_native_target, chunkK, attrs_new_p1, attrs_new_p2, chunkL, targets_new_p1, targets_new_p2, chunkM, res_phase_p1, res_phase_p2, anchor_resources, chunkN, src_phase_p1, src_phase_p2, anchor_sources, chunkO, dep_entry_p1, dep_entry_p2, anchor_dependency, chunkP, cfg_debug_p1, cfg_debug_p2, cfg_debug_p3, cfg_debug_p4, cfg_debug_p5, cfg_release_p1, cfg_release_p2, cfg_release_p3, cfg_release_p4, cfg_release_p5, anchor_xcbuild_config, chunkQ, cfg_list_p1, cfg_list_p2, anchor_config_list, chunkR]) = 1 := by
  rw [regroup18]
  rw [cat_cons, countOcc_win dep_entry_p1_ne]
  rw [(by decide : countOcc dep_entry_p1 (seg12 ++ (cat [seg15, seg17, seg19, seg22, seg24, seg32, seg33, seg34, seg29, seg35, seg37, seg39, cfg_debug_p2, cfg_debug_p3, seg40, cfg_release_p2, cfg_release_p3, seg41, seg43]).take (dep_entry_p1.length - 1)) = 0), Nat.zero_add]
  rw [cat_cons, countOcc_win dep_entry_p1_ne]
  rw [(by decide : countOcc dep_entry_p1 (seg15 ++ (cat [seg17, seg19, seg22, seg24, seg32, seg33, seg34, seg29, seg35, seg37, seg39, cfg_debug_p2, cfg_debug_p3, seg40, cfg_release_p2, cfg_release_p3, seg41, seg43]).take (dep_entry_p1.length - 1)) = 0), Nat.zero_add]
  rw [cat_cons, countOcc_win dep_entry_p1_ne]
  rw [(by decide : countOcc dep_entry_p1 (seg17 ++ (cat [seg19, seg22, seg24, seg32, seg33, seg34, seg29, seg35, seg37, seg39, cfg_debug_p2, cfg_debug_p3, seg40, cfg_release_p2, cfg_release_p3, seg41, seg43]).take (dep_entry_p1.length - 1)) = 0), Nat.zero_add]
  rw [cat_cons, countOcc_win dep_entry_p1_ne]
  rw [(by decide : countOcc dep_entry_p1 (seg19 ++ (cat [seg22, seg24, seg32, seg33, seg34, seg29, seg35, seg37, seg39, cfg_debug_p2, cfg_debug_p3, seg40, cfg_release_p2, cfg_release_p3, seg41, seg43]).take (dep_entry_p1.length - 1)) = 0), Nat.zero_add]
  rw [cat_cons, countOcc_win dep_entry_p1_ne]
  rw [(by decide : countOcc dep_entry_p1 (seg22 ++ (cat [seg24, seg32, seg33, seg34, seg29, seg35, seg37, seg39, cfg_debug_p2, cfg_debug_p3, seg40, cfg_release_p2, cfg_release_p3, seg41, seg43]).take (dep_entry_p1.length - 1)) = 0), Nat.zero_add]
  rw [cat_cons, countOcc_win dep_entry_p1_ne]
  rw [(by decide : countOcc dep_entry_p1 (seg24 ++ (cat [seg32, seg33, seg34, seg29, seg35, seg37, seg39, cfg_debug_p2, cfg_debug_p3, seg40, cfg_release_p2, cfg_release_p3, seg41, seg43]).take (dep_entry_p1.length - 1)) = 0), Nat.zero_add]
  rw [cat_cons, countOcc_win dep_entry_p1_ne]
  rw [(by decide : countOcc dep_entry_p1 (seg32 ++ (cat [seg33, seg34, seg29, seg35, seg37, seg39, cfg_debug_p2, cfg_debug_p3, seg40, cfg_release_p2, cfg_release_p3, seg41, seg43]).take (dep_entry_p1.length - 1)) = 0), Nat.zero_add]
  rw [cat_cons, countOcc_win dep_entry_p1_ne]
  rw [(by decide : countOcc dep_entry_p1 (seg33 ++ (cat [seg34, seg29, seg35, seg37, seg39, cfg_debug_p2, cfg_debug_p3, seg40, cfg_release_p2, cfg_release_p3, seg41, seg43]).take (dep_entry_p1.length - 1)) = 0), Nat.zero_add]
  rw [cat_cons, countOcc_win dep_entry_p1_ne]
  rw [(by decide : countOcc dep_entry_p1 (seg34 ++ (cat [seg29, seg35, seg37, seg39, cfg_debug_p2, cfg_debug_p3, seg40, cfg_release_p2, cfg_release_p3, seg41, seg43]).take (dep_entry_p1.length - 1)) = 0), Nat.zero_add]
  rw [cat_cons, countOcc_win dep_entry_p1_ne]
  rw [(by decide : countOcc dep_entry_p1 (seg29 ++ (cat [seg35, seg37, seg39, cfg_debug_p2, cfg_debug_p3, seg40, cfg_release_p2, cfg_release_p3, seg41, seg43]).take (dep_entry_p1.length - 1)) = 0), Nat.zero_add]
  rw [cat_cons, countOcc_win dep_entry_p1_ne]
  rw [(by decide : countOcc dep_entry_p1 (seg35 ++ (cat [seg37, seg39, cfg_debug_p2, cfg_debug_p3, seg40, cfg_release_p2, cfg_release_p3, seg41, seg43]).take (dep_entry_p1.length - 1)) = 0), Nat.zero_add]
  rw [cat_cons, countOcc_win dep_entry_p1_ne]
  rw [(by decide : countOcc dep_entry_p1 (seg37 ++ (cat [seg39, cfg_debug_p2, cfg_debug_p3, seg40, cfg_release_p2, cfg_release_p3, seg41, seg43]).take (dep_entry_p1.length - 1)) = 0), Nat.zero_add]
  rw [cat_cons, countOcc_win dep_entry_p1_ne]
  rw [(by decide : countOcc dep_entry_p1 (seg39 ++ (cat [cfg_debug_p2, cfg_debug_p3, seg40, cfg_release_p2, cfg_release_p3, seg41, seg43]).take (dep_entry_p1.length - 1)) = 1)]
  rw [cat_cons, countOcc_win dep_entry_p1_ne]
  rw [(by decide : countOcc dep_entry_p1 (cfg_debug_p2 ++ (cat [cfg_debug_p3, seg40, cfg_release_p2, cfg_release_p3, seg41, seg43]).take (dep_entry_p1.length - 1)) = 0), Nat.zero_add]
  rw [cat_cons, countOcc_win dep_entry_p1_ne]
  rw [(by decide : countOcc dep_entry_p1 (cfg_debug_p3 ++ (cat [seg40, cfg_release_p2, cfg_release_p3, seg41, seg43]).take (dep_entry_p1.length - 1)) = 0), Nat.zero_add]
  rw [cat_cons, countOcc_win dep_entry_p1_ne]
  rw [(by decide : countOcc dep_entry_p1 (seg40 ++ (cat [cfg_release_p2, cfg_release_p3, seg41, seg43]).take (dep_entry_p1.length - 1)) = 0), Nat.zero_add]
  rw [cat_cons, countOcc_win dep_entry_p1_ne]
  rw [(by decide : countOcc dep_entry_p1 (cfg_release_p2 ++ (cat [cfg_release_p3, seg41, seg43]).take (dep_entry_p1.length - 1)) = 0), Nat.zero_add]
  rw [cat_cons, countOcc_win dep_entry_p1_ne]
  rw [(by decide : countOcc dep_entry_p1 (cfg_release_p3 ++ (cat [seg41, seg43]).take (dep_entry_p1.length - 1)) = 0), Nat.zero_add]
  rw [cat_cons, countOcc_win dep_entry_p1_ne]
  rw [(by decide : countOcc dep_entry_p1 (seg41 ++ (cat [seg43]).take (dep_entry_p1.length - 1)) = 0), Nat.zero_add]
  rw [cat_cons, countOcc_win dep_entry_p1_ne]
  rw [(by decide : countOcc dep_entry_p1 (seg43 ++ (cat []).take (dep_entry_p1.length - 1)) = 0), Nat.zero_add]
  rfl

theorem cnt_fin_cfg_debug_p1 : countOcc cfg_debug_p1 (cat [chunkA, build_file_entry, anchor_build_file, chunkB, proxy_entry_p1, proxy_entry_p2, anchor_proxy, chunkC, copy_phase_p1, copy_phase_p2, copy_phase_p3, anchor_begin_file_ref, chunkD, file_ref, anchor_file_ref, chunkE, sync_group_p1, sync_group_p2, anchor_sync_group, chunkF, fw_phase_p1, fw_phase_p2, anchor_frameworks, chunkG, new_products_p1, new_products_p2, chunkH, new_root_p1, new_root_p2, chunkI, new_app_phases_p1, new_app_phases_p2, new_app_phases_p3, chunkJ, native_target_p1, native_target_p2, native_target_p3, native_target_p4, anchor_native_target, chunkK, attrs_new_p1, attrs_new_p2, chunkL, targets_new_p1, targets_new_p2, chunkM, res_phase_p1, res_phase_p2, anchor_resources, chunkN, src_phase_p1, src_phase_p2, anchor_sources, chunkO, dep_entry_p1, dep_entry_p2, anchor_dependency, chunkP, cfg_debug_p1, cfg_debug_p2, cfg_debug_p3, cfg_debug_p4, cfg_debug_p5, cfg_release_p1, cfg_release_p2, cfg_release_p3, cfg_release_p4, cfg_release_p5, anchor_xcbuild_config, chunkQ, cfg_list_p1, cfg_list_p2, anchor_config_list, chunkR]) = 1 := by
  rw [regroup18]
  rw [cat_cons, countOcc_win cfg_debug_p1_ne]
  rw [(by decide : countOcc cfg_debug_p1 (seg12 ++ (cat [seg15, seg17, seg19, seg22, seg24, seg32, seg33, seg34, seg29, seg35, seg37, seg39, cfg_debug_p2, cfg_debug_p3, seg40, cfg_release_p2, cfg_release_p3, seg41, seg43]).take (cfg_debug_p1.length - 1)) = 0), Nat.zero_add]
  rw [cat_cons, countOcc_win cfg_debug_p1_ne]
  rw [(by decide : countOcc cfg_debug_p1 (seg15 ++ (cat [seg17, seg19, seg22, seg24, seg32, seg33, seg34, seg29, seg35, seg37, seg39, cfg_debug_p2, cfg_debug_p3, seg40, cfg_release_p2, cfg_release_p3, seg41, seg43]).take (cfg_debug_p1.length - 1)) = 0), Nat.zero_add]
  rw [cat_cons, countOcc_win cfg_debug_p1_ne]
  rw [(by decide : countOcc cfg_debug_p1 (seg17 ++ (cat [seg19, seg22, seg24, seg32, seg33, seg34, seg29, seg35, seg37, seg39, cfg_debug_p2, cfg_debug_p3, seg40, cfg_release_p2, cfg_release_p3, seg41, seg43]).take (cfg_debug_p1.length - 1)) = 0), Nat.zero_add]
  rw [cat_cons, countOcc_win cfg_debug_p1_ne]
  rw [(by decide : countOcc cfg_debug_p1 (seg19 ++ (cat [seg22, seg24, seg32, seg33, seg34, seg29, seg35, seg37, seg39, cfg_debug_p2, cfg_debug_p3, seg40, cfg_release_p2, cfg_release_p3, seg41, seg43]).take (cfg_debug_p1.length - 1)) = 0), Nat.zero_add]
  rw [cat_cons, countOcc_win cfg_debug_p1_ne]
  rw [(by decide : countOcc cfg_debug_p1 (seg22 ++ (cat [seg24, seg32, seg33, seg34, seg29, seg35, seg37, seg39, cfg_debug_p2, cfg_debug_p3, seg40, cfg_release_p2, cfg_release_p3, seg41, seg43]).take (cfg_debug_p1.length - 1)) = 0), Nat.zero_add]
  rw [cat_cons, countOcc_win cfg_debug_p1_ne]
  rw [(by decide : countOcc cfg_debug_p1 (seg24 ++ (cat [seg32, seg33, seg34, seg29, seg35, seg37, seg39, cfg_debug_p2, cfg_debug_p3, seg40, cfg_release_p2, cfg_release_p3, seg41, seg43]).take (cfg_debug_p1.length - 1)) = 0), Nat.zero_add]
  rw [cat_cons, countOcc_win cfg_debug_p1_ne]
  rw [(by decide : countOcc cfg_debug_p1 (seg32 ++ (cat [seg33, seg34, seg29, seg35, seg37, seg39, cfg_debug_p2, cfg_debug_p3, seg40, cfg_release_p2, cfg_release_p3, seg41, seg43]).take (cfg_debug_p1.length - 1)) = 0), Nat.zero_add]
  rw [cat_cons, countOcc_win cfg_debug_p1_ne]
  rw [(by decide : countOcc cfg_debug_p1 (seg33 ++ (cat [seg34, seg29, seg35, seg37, seg39, cfg_debug_p2, cfg_debug_p3, seg40, cfg_release_p2, cfg_release_p3, seg41, seg43]).take (cfg_debug_p1.length - 1)) = 0), Nat.zero_add]
  rw [cat_cons, countOcc_win cfg_debug_p1_ne]
  rw [(by decide : countOcc cfg_debug_p1 (seg34 ++ (cat [seg29, seg35, seg37, seg39, cfg_debug_p2, cfg_debug_p3, seg40, cfg_release_p2, cfg_release_p3, seg41, seg43]).take (cfg_debug_p1.length - 1)) = 0), Nat.zero_add]
  rw [cat_cons, countOcc_win cfg_debug_p1_ne]
  rw [(by decide : countOcc cfg_debug_p1 (seg29 ++ (cat [seg35, seg37, seg39, cfg_debug_p2, cfg_debug_p3, seg40, cfg_release_p2, cfg_release_p3, seg41, seg43]).take (cfg_debug_p1.length - 1)) = 0), Nat.zero_add]
  rw [cat_cons, countOcc_win cfg_debug_p1_ne]
  rw [(by decide : countOcc cfg_debug_p1 (seg35 ++ (cat [seg37, seg39, cfg_debug_p2, cfg_debug_p3, seg40, cfg_release_p2, cfg_release_p3, seg41, seg43]).take (cfg_debug_p1.length - 1)) = 0), Nat.zero_add]
  rw [cat_cons, countOcc_win cfg_debug_p1_ne]
  rw [(by decide : countOcc cfg_debug_p1 (seg37 ++ (cat [seg39, cfg_debug_p2, cfg_debug_p3, seg40, cfg_release_p2, cfg_release_p3, seg41, seg43]).take (cfg_debug_p1.length - 1)) = 0), Nat.zero_add]
  rw [cat_cons, countOcc_win cfg_debug_p1_ne]
  rw [(by decide : countOcc cfg_debug_p1 (seg39 ++ (cat [cfg_debug_p2, cfg_debug_p3, seg40, cfg_release_p2, cfg_release_p3, seg41, seg43]).take (cfg_debug_p1.length - 1)) = 1)]
  rw [cat_cons, countOcc_win cfg_debug_p1_ne]
  rw [(by decide : countOcc cfg_debug_p1 (cfg_debug_p2 ++ (cat [cfg_debug_p3, seg40, cfg_release_p2, cfg_release_p3, seg41, seg43]).take (cfg_debug_p1.length - 1)) = 0), Nat.zero_add]
  rw [cat_cons, countOcc_win cfg_debug_p1_ne]
  rw [(by decide : countOcc cfg_debug_p1 (cfg_debug_p3 ++ (cat [seg40, cfg_release_p2, cfg_release_p3, seg41, seg43]).take (cfg_debug_p1.length - 1)) = 0), Nat.zero_add]
  rw [cat_cons, countOcc_win cfg_debug_p1_ne]
  rw [(by decide : countOcc cfg_debug_p1 (seg40 ++ (cat [cfg_release_p2, cfg_release_p3, seg41, seg43]).take (cfg_debug_p1.length - 1)) = 0), Nat.zero_add]
  rw [cat_cons, countOcc_win cfg_debug_p1_ne]
  rw [(by decide : countOcc cfg_debug_p1 (cfg_release_p2 ++ (cat [cfg_release_p3, seg41, seg43]).take (cfg_debug_p1.length - 1)) = 0), Nat.zero_add]
  rw [cat_cons, countOcc_win cfg_debug_p1_ne]
  rw [(by decide : countOcc cfg_debug_p1 (cfg_release_p3 ++ (cat [seg41, seg43]).take (cfg_debug_p1.length - 1)) = 0), Nat.zero_add]
  rw [cat_cons, countOcc_win cfg_debug_p1_ne]
  rw [(by decide : countOcc cfg_debug_p1 (seg41 ++ (cat [seg43]).take (cfg_debug_p1.length - 1)) = 0), Nat.zero_add]
  rw [cat_cons, countOcc_win cfg_debug_p1_ne]
  rw [(by decide : countOcc cfg_debug_p1 (seg43 ++ (cat []).take (cfg_debug_p1.length - 1)) = 0), Nat.zero_add]
  rfl

theorem cnt_fin_cfg_release_p1 : countOcc cfg_release_p1 (cat [chunkA, build_file_entry, anchor_build_file, chunkB, proxy_entry_p1, proxy_entry_p2, anchor_proxy, chunkC, copy_phase_p1, copy_phase_p2, copy_phase_p3, anchor_begin_file_ref, chunkD, file_ref, anchor_file_ref, chunkE, sync_group_p1, sync_group_p2, anchor_sync_group, chunkF, fw_phase_p1, fw_phase_p2, anchor_frameworks, chunkG, new_products_p1, new_products_p2, chunkH, new_root_p1, new_root_p2, chunkI, new_app_phases_p1, new_app_phases_p2, new_app_phases_p3, chunkJ, native_target_p1, native_target_p2, native_target_p3, native_target_p4, anchor_native_target, chunkK, attrs_new_p1, attrs_new_p2, chunkL, targets_new_p1, targets_new_p2, chunkM, res_phase_p1, res_phase_p2, anchor_resources, chunkN, src_phase_p1, src_phase_p2, anchor_sources, chunkO, dep_entry_p1, dep_entry_p2, anchor_dependency, chunkP, cfg_debug_p1, cfg_debug_p2, cfg_debug_p3, cfg_debug_p4, cfg_debug_p5, cfg_release_p1, cfg_release_p2, cfg_release_p3, cfg_release_p4, cfg_release_p5, anchor_xcbuild_config, chunkQ, cfg_list_p1, cfg_list_p2, anchor_config_list, chunkR]) = 1 := by
  rw [regroup18]
  rw [cat_cons, countOcc_win cfg_release_p1_ne]
  rw [(by decide : countOcc cfg_release_p1 (seg12 ++ (cat [seg15, seg17, seg19, seg22, seg24, seg32, seg33, seg34, seg29, seg35, seg37, seg39, cfg_debug_p2, cfg_debug_p3, seg40, cfg_release_p2, cfg_release_p3, seg41, seg43]).take (cfg_release_p1.length - 1)) = 0), Nat.zero_add]
  rw [cat_cons, countOcc_win cfg_release_p1_ne]
  rw [(by decide : countOcc cfg_release_p1 (seg15 ++ (cat [seg17, seg19, seg22, seg24, seg32, seg33, seg34, seg29, seg35, seg37, seg39, cfg_debug_p2, cfg_debug_p3, seg40, cfg_release_p2, cfg_release_p3, seg41, seg43]).take (cfg_release_p1.length - 1)) = 0), Nat.zero_add]
  rw [cat_cons, countOcc_win cfg_release_p1_ne]
  rw [(by decide : countOcc cfg_release_p1 (seg17 ++ (cat [seg19, seg22, seg24, seg32, seg33, seg34, seg29, seg35, seg37, seg39, cfg_debug_p2, cfg_debug_p3, seg40, cfg_release_p2, cfg_release_p3, seg41, seg43]).take (cfg_release_p1.length - 1)) = 0), Nat.zero_add]
  rw [cat_cons, countOcc_win cfg_release_p1_ne]
  rw [(by decide : countOcc cfg_release_p1 (seg19 ++ (cat [seg22, seg24, seg32, seg33, seg34, seg29, seg35, seg37, seg39, cfg_debug_p2, cfg_debug_p3, seg40, cfg_release_p2, cfg_release_p3, seg41, seg43]).take (cfg_release_p1.length - 1)) = 0), Nat.zero_add]
  rw [cat_cons, countOcc_win cfg_release_p1_ne]
  rw [(by decide : countOcc cfg_release_p1 (seg22 ++ (cat [seg24, seg32, seg33, seg34, seg29, seg35, seg37, seg39, cfg_debug_p2, cfg_debug_p3, seg40, cfg_release_p2, cfg_release_p3, seg41, seg43]).take (cfg_release_p1.length - 1)) = 0), Nat.zero_add]
  rw [cat_cons, countOcc_win cfg_release_p1_ne]
  rw [(by decide : countOcc cfg_release_p1 (seg24 ++ (cat [seg32, seg33, seg34, seg29, seg35, seg37, seg39, cfg_debug_p2, cfg_debug_p3, seg40, cfg_release_p2, cfg_release_p3, seg41, seg43]).take (cfg_release_p1.length - 1)) = 0), Nat.zero_add]
  rw [cat_cons, countOcc_win cfg_release_p1_ne]
  rw [(by decide : countOcc cfg_release_p1 (seg32 ++ (cat [seg33, seg34, seg29, seg35, seg37, seg39, cfg_debug_p2, cfg_debug_p3, seg40, cfg_release_p2, cfg_release_p3, seg41, seg43]).take (cfg_release_p1.length - 1)) = 0), Nat.zero_add]
  rw [cat_cons, countOcc_win cfg_release_p1_ne]
  rw [(by decide : countOcc cfg_release_p1 (seg33 ++ (cat [seg34, seg29, seg35, seg37, seg39, cfg_debug_p2, cfg_debug_p3, seg40, cfg_release_p2, cfg_release_p3, seg41, seg43]).take (cfg_release_p1.length - 1)) = 0), Nat.zero_add]
  rw [cat_cons, countOcc_win cfg_release_p1_ne]
  rw [(by decide : countOcc cfg_release_p1 (seg34 ++ (cat [seg29, seg35, seg37, seg39, cfg_debug_p2, cfg_debug_p3, seg40, cfg_release_p2, cfg_release_p3, seg41, seg43]).take (cfg_release_p1.length - 1)) = 0), Nat.zero_add]
  rw [cat_cons, countOcc_win cfg_release_p1_ne]
  rw [(by decide : countOcc cfg_release_p1 (seg29 ++ (cat [seg35, seg37, seg39, cfg_debug_p2, cfg_debug_p3, seg40, cfg_release_p2, cfg_release_p3, seg41, seg43]).take (cfg_release_p1.length - 1)) = 0), Nat.zero_add]
  rw [cat_cons, countOcc_win cfg_release_p1_ne]
  rw [(by decide : countOcc cfg_release_p1 (seg35 ++ (cat [seg37, seg39, cfg_debug_p2, cfg_debug_p3, seg40, cfg_release_p2, cfg_release_p3, seg41, seg43]).take (cfg_release_p1.length - 1)) = 0), Nat.zero_add]
  rw [cat_cons, countOcc_win cfg_release_p1_ne]
  rw [(by decide : countOcc cfg_release_p1 (seg37 ++ (cat [seg39, cfg_debug_p2, cfg_debug_p3, seg40, cfg_release_p2, cfg_release_p3, seg41, seg43]).take (cfg_release_p1.length - 1)) = 0), Nat.zero_add]
  rw [cat_cons, countOcc_win cfg_release_p1_ne]
  rw [(by decide : countOcc cfg_release_p1 (seg39 ++ (cat [cfg_debug_p2, cfg_debug_p3, seg40, cfg_release_p2, cfg_release_p3, seg41, seg43]).take (cfg_release_p1.length - 1)) = 0), Nat.zero_add]
  rw [cat_cons, countOcc_win cfg_release_p1_ne]
  rw [(by decide : countOcc cfg_release_p1 (cfg_debug_p2 ++ (cat [cfg_debug_p3, seg40, cfg_release_p2, cfg_release_p3, seg41, seg43]).take (cfg_release_p1.length - 1)) = 0), Nat.zero_add]
  rw [cat_cons, countOcc_win cfg_release_p1_ne]
  rw [(by decide : countOcc cfg_release_p1 (cfg_debug_p3 ++ (cat [seg40, cfg_release_p2, cfg_release_p3, seg41, seg43]).take (cfg_release_p1.length - 1)) = 0), Nat.zero_add]
  rw [cat_cons, countOcc_win cfg_release_p1_ne]
  rw [(by decide : countOcc cfg_release_p1 (seg40 ++ (cat [cfg_release_p2, cfg_release_p3, seg41, seg43]).take (cfg_release_p1.length - 1)) = 1)]
  rw [cat_cons, countOcc_win cfg_release_p1_ne]
  rw [(by decide : countOcc cfg_release_p1 (cfg_release_p2 ++ (cat [cfg_release_p3, seg41, seg43]).take (cfg_release_p1.length - 1)) = 0), Nat.zero_add]
  rw [cat_cons, countOcc_win cfg_release_p1_ne]
  rw [(by decide : countOcc cfg_release_p1 (cfg_release_p3 ++ (cat [seg41, seg43]).take (cfg_release_p1.length - 1)) = 0), Nat.zero_add]
  rw [cat_cons, countOcc_win cfg_release_p1_ne]
  rw [(by decide : countOcc cfg_release_p1 (seg41 ++ (cat [seg43]).take (cfg_release_p1.length - 1)) = 0), Nat.zero_add]
  rw [cat_cons, countOcc_win cfg_release_p1_ne]
  rw [(by decide : countOcc cfg_release_p1 (seg43 ++ (cat []).take (cfg_release_p1.length - 1)) = 0), Nat.zero_add]
  rfl

theorem cnt_fin_cfg_list_p1 : countOcc cfg_list_p1 (cat [chunkA, build_file_entry, anchor_build_file, chunkB, proxy_entry_p1, proxy_entry_p2, anchor_proxy, chunkC, copy_phase_p1, copy_phase_p2, copy_phase_p3, anchor_begin_file_ref, chunkD, file_ref, anchor_file_ref, chunkE, sync_group_p1, sync_group_p2, anchor_sync_group, chunkF, fw_phase_p1, fw_phase_p2, anchor_frameworks, chunkG, new_products_p1, new_products_p2, chunkH, new_root_p1, new_root_p2, chunkI, new_app_phases_p1, new_app_phases_p2, new_app_phases_p3, chunkJ, native_target_p1, native_target_p2, native_target_p3, native_target_p4, anchor_native_target, chunkK, attrs_new_p1, attrs_new_p2, chunkL, targets_new_p1, targets_new_p2, chunkM, res_phase_p1, res_phase_p2, anchor_resources, chunkN, src_phase_p1, src_phase_p2, anchor_sources, chunkO, dep_entry_p1, dep_entry_p2, anchor_dependency, chunkP, cfg_debug_p1, cfg_debug_p2, cfg_debug_p3, cfg_debug_p4, cfg_debug_p5, cfg_release_p1, cfg_release_p2, cfg_release_p3, cfg_release_p4, cfg_release_p5, anchor_xcbuild_config, chunkQ, cfg_list_p1, cfg_list_p2, anchor_config_list, chunkR]) = 1 := by
  rw [regroup18]
  rw [cat_cons, countOcc_win cfg_list_p1_ne]
  rw [(by decide : countOcc cfg_list_p1 (seg12 ++ (cat [seg15, seg17, seg19, seg22, seg24, seg32, seg33, seg34, seg29, seg35, seg37, seg39, cfg_debug_p2, cfg_debug_p3, seg40, cfg_release_p2, cfg_release_p3, seg41, seg43]).take (cfg_list_p1.length - 1)) = 0), Nat.zero_add]
  rw [cat_cons, countOcc_win cfg_list_p1_ne]
  rw [(by decide : countOcc cfg_list_p1 (seg15 ++ (cat [seg17, seg19, seg22, seg24, seg32, seg33, seg34, seg29, seg35, seg37, seg39, cfg_debug_p2, cfg_debug_p3, seg40, cfg_release_p2, cfg_release_p3, seg41, seg43]).take (cfg_list_p1.length - 1)) = 0), Nat.zero_add]
  rw [cat_cons, countOcc_win cfg_list_p1_ne]
  rw [(by decide : countOcc cfg_list_p1 (seg17 ++ (cat [seg19, seg22, seg24, seg32, seg33, seg34, seg29, seg35, seg37, seg39, cfg_debug_p2, cfg_debug_p3, seg40, cfg_release_p2, cfg_release_p3, seg41, seg43]).take (cfg_list_p1.length - 1)) = 0), Nat.zero_add]
  rw [cat_cons, countOcc_win cfg_list_p1_ne]
  rw [(by decide : countOcc cfg_list_p1 (seg19 ++ (cat [seg22, seg24, seg32, seg33, seg34, seg29, seg35, seg37, seg39, cfg_debug_p2, cfg_debug_p3, seg40, cfg_release_p2, cfg_release_p3, seg41, seg43]).take (cfg_list_p1.length - 1)) = 0), Nat.zero_add]
  rw [cat_cons, countOcc_win cfg_list_p1_ne]
  rw [(by decide : countOcc cfg_list_p1 (seg22 ++ (cat [seg24, seg32, seg33, seg34, seg29, seg35, seg37, seg39, cfg_debug_p2, cfg_debug_p3, seg40, cfg_release_p2, cfg_release_p3, seg41, seg43]).take (cfg_list_p1.length - 1)) = 0), Nat.zero_add]
  rw [cat_cons, countOcc_win cfg_list_p1_ne]
  rw [(by decide : countOcc cfg_list_p1 (seg24 ++ (cat [seg32, seg33, seg34, seg29, seg35, seg37, seg39, cfg_debug_p2, cfg_debug_p3, seg40, cfg_release_p2, cfg_release_p3, seg41, seg43]).take (cfg_list_p1.length - 1)) = 0), Nat.zero_add]
  rw [cat_cons, countOcc_win cfg_list_p1_ne]
  rw [(by decide : countOcc cfg_list_p1 (seg32 ++ (cat [seg33, seg34, seg29, seg35, seg37, seg39, cfg_debug_p2, cfg_debug_p3, seg40, cfg_release_p2, cfg_release_p3, seg41, seg43]).take (cfg_list_p1.length - 1)) = 0), Nat.zero_add]
  rw [cat_cons, countOcc_win cfg_list_p1_ne]
  rw [(by decide : countOcc cfg_list_p1 (seg33 ++ (cat [seg34, seg29, seg35, seg37, seg39, cfg_debug_p2, cfg_debug_p3, seg40, cfg_release_p2, cfg_release_p3, seg41, seg43]).take (cfg_list_p1.length - 1)) = 0), Nat.zero_add]
  rw [cat_cons, countOcc_win cfg_list_p1_ne]
  rw [(by decide : countOcc cfg_list_p1 (seg34 ++ (cat [seg29, seg35, seg37, seg39, cfg_debug_p2, cfg_debug_p3, seg40, cfg_release_p2, cfg_release_p3, seg41, seg43]).take (cfg_list_p1.length - 1)) = 0), Nat.zero_add]
  rw [cat_cons, countOcc_win cfg_list_p1_ne]
  rw [(by decide : countOcc cfg_list_p1 (seg29 ++ (cat [seg35, seg37, seg39, cfg_debug_p2, cfg_debug_p3, seg40, cfg_release_p2, cfg_release_p3, seg41, seg43]).take (cfg_list_p1.length - 1)) = 0), Nat.zero_add]
  rw [cat_cons, countOcc_win cfg_list_p1_ne]
  rw [(by decide : countOcc cfg_list_p1 (seg35 ++ (cat [seg37, seg39, cfg_debug_p2, cfg_debug_p3, seg40, cfg_release_p2, cfg_release_p3, seg41, seg43]).take (cfg_list_p1.length - 1)) = 0), Nat.zero_add]
  rw [cat_cons, countOcc_win cfg_list_p1_ne]
  rw [(by decide : countOcc cfg_list_p1 (seg37 ++ (cat [seg39, cfg_debug_p2, cfg_debug_p3, seg40, cfg_release_p2, cfg_release_p3, seg41, seg43]).take (cfg_list_p1.length - 1)) = 0), Nat.zero_add]
  rw [cat_cons, countOcc_win cfg_list_p1_ne]
  rw [(by decide : countOcc cfg_list_p1 (seg39 ++ (cat [cfg_debug_p2, cfg_debug_p3, seg40, cfg_release_p2, cfg_release_p3, seg41, seg43]).take (cfg_list_p1.length - 1)) = 0), Nat.zero_add]
  rw [cat_cons, countOcc_win cfg_list_p1_ne]
  rw [(by decide : countOcc cfg_list_p1 (cfg_debug_p2 ++ (cat [cfg_debug_p3, seg40, cfg_release_p2, cfg_release_p3, seg41, seg43]).take (cfg_list_p1.length - 1)) = 0), Nat.zero_add]
  rw [cat_cons, countOcc_win cfg_list_p1_ne]
  rw [(by decide : countOcc cfg_list_p1 (cfg_debug_p3 ++ (cat [seg40, cfg_release_p2, cfg_release_p3, seg41, seg43]).take (cfg_list_p1.length - 1)) = 0), Nat.zero_add]
  rw [cat_cons, countOcc_win cfg_list_p1_ne]
  rw [(by decide : countOcc cfg_list_p1 (seg40 ++ (cat [cfg_release_p2, cfg_release_p3, seg41, seg43]).take (cfg_list_p1.length - 1)) = 0), Nat.zero_add]
  rw [cat_cons, countOcc_win cfg_list_p1_ne]
  rw [(by decide : countOcc cfg_list_p1 (cfg_release_p2 ++ (cat [cfg_release_p3, seg41, seg43]).take (cfg_list_p1.length - 1)) = 0), Nat.zero_add]
  rw [cat_cons, countOcc_win cfg_list_p1_ne]
  rw [(by decide : countOcc cfg_list_p1 (cfg_release_p3 ++ (cat [seg41, seg43]).take (cfg_list_p1.length - 1)) = 0), Nat.zero_add]
  rw [cat_cons, countOcc_win cfg_list_p1_ne]
  rw [(by decide : countOcc cfg_list_p1 (seg41 ++ (cat [seg43]).take (cfg_list_p1.length - 1)) = 0), Nat.zero_add]
  rw [cat_cons, countOcc_win cfg_list_p1_ne]
  rw [(by decide : countOcc cfg_list_p1 (seg43 ++ (cat []).take (cfg_list_p1.length - 1)) = 1)]
  rfl

theorem fix_step1 :
    pyReplace fixture anchor_build_file (build_file_entry ++ anchor_build_file) = cat [chunkA, build_file_entry, anchor_build_file, chunkB, anchor_proxy, chunkC, anchor_begin_file_ref, chunkD, anchor_file_ref, chunkE, anchor_sync_group, chunkF, anchor_frameworks, chunkG, old_products, chunkH, old_root, chunkI, old_app_phases_p1, old_app_phases_p2, chunkJ, anchor_native_target, chunkK, attrs_old, chunkL, targets_old, chunkM, anchor_resources, chunkN, anchor_sources, chunkO, anchor_dependency, chunkP, anchor_xcbuild_config, chunkQ, anchor_config_list, chunkR] :=
  splice_cat anchor_build_file_ne [chunkA] [anchor_build_file] [chunkB, anchor_proxy, chunkC, anchor_begin_file_ref, chunkD, anchor_file_ref, chunkE, anchor_sync_group, chunkF, anchor_frameworks, chunkG, old_products, chunkH, old_root, chunkI, old_app_phases_p1, old_app_phases_p2, chunkJ, anchor_native_target, chunkK, attrs_old, chunkL, targets_old, chunkM, anchor_resources, chunkN, anchor_sources, chunkO, anchor_dependency, chunkP, anchor_xcbuild_config, chunkQ, anchor_config_list, chunkR]
    [build_file_entry, anchor_build_file]
    (by simp [cat_cons, cat_nil, List.append_nil])
    (by simp [cat_cons, cat_nil, List.append_nil, List.append_assoc])
    cnt_fix0_anchor_build_file

theorem fix_step2 :
    pyReplace (cat [chunkA, build_file_entry, anchor_build_file, chunkB, anchor_proxy, chunkC, anchor_begin_file_ref, chunkD, anchor_file_ref, chunkE, anchor_sync_group, chunkF, anchor_frameworks, chunkG, old_products, chunkH, old_root, chunkI, old_app_phases_p1, old_app_phases_p2, chunkJ, anchor_native_target, chunkK, attrs_old, chunkL, targets_old, chunkM, anchor_resources, chunkN, anchor_sources, chunkO, anchor_dependency, chunkP, anchor_xcbuild_config, chunkQ, anchor_config_list, chunkR]) anchor_proxy (proxy_entry ++ anchor_proxy) = cat [chunkA, build_file_entry, anchor_build_file, chunkB, proxy_entry_p1, proxy_entry_p2, anchor_proxy, chunkC, anchor_begin_file_ref, chunkD, anchor_file_ref, chunkE, anchor_sync_group, chunkF, anchor_frameworks, chunkG, old_products, chunkH, old_root, chunkI, old_app_phases_p1, old_app_phases_p2, chunkJ, anchor_native_target, chunkK, attrs_old, chunkL, targets_old, chunkM, anchor_resources, chunkN, anchor_sources, chunkO, anchor_dependency, chunkP, anchor_xcbuild_config, chunkQ, anchor_config_list, chunkR] :=
  splice_cat anchor_proxy_ne [chunkA, build_file_entry, anchor_build_file, chunkB] [anchor_proxy] [chunkC, anchor_begin_file_ref, chunkD, anchor_file_ref, chunkE, anchor_sync_group, chunkF, anchor_frameworks, chunkG, old_products, chunkH, old_root, chunkI, old_app_phases_p1, old_app_phases_p2, chunkJ, anchor_native_target, chunkK, attrs_old, chunkL, targets_old, chunkM, anchor_resources, chunkN, anchor_sources, chunkO, anchor_dependency, chunkP, anchor_xcbuild_config, chunkQ, anchor_config_list, chunkR]
    [proxy_entry_p1, proxy_entry_p2, anchor_proxy]
    (by simp [cat_cons, cat_nil, List.append_nil])
    (by simp [cat_cons, cat_nil, List.append_nil, List.append_assoc, proxy_entry])
    cnt_fix1_anchor_proxy

theorem fix_step3 :
    pyReplace (cat [chunkA, build_file_entry, anchor_build_file, chunkB, proxy_entry_p1, proxy_entry_p2, anchor_proxy, chunkC, anchor_begin_file_ref, chunkD, anchor_file_ref, chunkE, anchor_sync_group, chunkF, anchor_frameworks, chunkG, old_products, chunkH, old_root, chunkI, old_app_phases_p1, old_app_phases_p2, chunkJ, anchor_native_target, chunkK, attrs_old, chunkL, targets_old, chunkM, anchor_resources, chunkN, anchor_sources, chunkO, anchor_dependency, chunkP, anchor_xcbuild_config, chunkQ, anchor_config_list, chunkR]) anchor_begin_file_ref (copy_phase ++ anchor_begin_file_ref) = cat [chunkA, build_file_entry, anchor_build_file, chunkB, proxy_entry_p1, proxy_entry_p2, anchor_proxy, chunkC, copy_phase_p1, copy_phase_p2, copy_phase_p3, anchor_begin_file_ref, chunkD, anchor_file_ref, chunkE, anchor_sync_group, chunkF, anchor_frameworks, chunkG, old_products, chunkH, old_root, chunkI, old_app_phases_p1, old_app_phases_p2, chunkJ, anchor_native_target, chunkK, attrs_old, chunkL, targets_old, chunkM, anchor_resources, chunkN, anchor_sources, chunkO, anchor_dependency, chunkP, anchor_xcbuild_config, chunkQ, anchor_config_list, chunkR] :=
  splice_cat anchor_begin_file_ref_ne [chunkA, build_file_entry, anchor_build_file, chunkB, proxy_entry_p1, proxy_entry_p2, anchor_proxy, chunkC] [anchor_begin_file_ref] [chunkD, anchor_file_ref, chunkE, anchor_sync_group, chunkF, anchor_frameworks, chunkG, old_products, chunkH, old_root, chunkI, old_app_phases_p1, old_app_phases_p2, chunkJ, anchor_native_target, chunkK, attrs_old, chunkL, targets_old, chunkM, anchor_resources, chunkN, anchor_sources, chunkO, anchor_dependency, chunkP, anchor_xcbuild_config, chunkQ, anchor_config_list, chunkR]
    [copy_phase_p1, copy_phase_p2, copy_phase_p3, anchor_begin_file_ref]
    (by simp [cat_cons, cat_nil, List.append_nil])
    (by simp [cat_cons, cat_nil, List.append_nil, List.append_assoc, copy_phase])
    cnt_fix2_anchor_begin_file_ref

theorem fix_step4 :
    pyReplace (cat [chunkA, build_file_entry, anchor_build_file, chunkB, proxy_entry_p1, proxy_entry_p2, anchor_proxy, chunkC, copy_phase_p1, copy_phase_p2, copy_phase_p3, anchor_begin_file_ref, chunkD, anchor_file_ref, chunkE, anchor_sync_group, chunkF, anchor_frameworks, chunkG, old_products, chunkH, old_root, chunkI, old_app_phases_p1, old_app_phases_p2, chunkJ, anchor_native_target, chunkK, attrs_old, chunkL, targets_old, chunkM, anchor_resources, chunkN, anchor_sources, chunkO, anchor_dependency, chunkP, anchor_xcbuild_config, chunkQ, anchor_config_list, chunkR]) anchor_file_ref (file_ref ++ anchor_file_ref) = cat [chunkA, build_file_entry, anchor_build_file, chunkB, proxy_entry_p1, proxy_entry_p2, anchor_proxy, chunkC, copy_phase_p1, copy_phase_p2, copy_phase_p3, anchor_begin_file_ref, chunkD, file_ref, anchor_file_ref, chunkE, anchor_sync_group, chunkF, anchor_frameworks, chunkG, old_products, chunkH, old_root, chunkI, old_app_phases_p1, old_app_phases_p2, chunkJ, anchor_native_target, chunkK, attrs_old, chunkL, targets_old, chunkM, anchor_resources, chunkN, anchor_sources, chunkO, anchor_dependency, chunkP, anchor_xcbuild_config, chunkQ, anchor_config_list, chunkR] :=
  splice_cat anchor_file_ref_ne [chunkA, build_file_entry, anchor_build_file, chunkB, proxy_entry_p1, proxy_entry_p2, anchor_proxy, chunkC, copy_phase_p1, copy_phase_p2, copy_phase_p3, anchor_begin_file_ref, chunkD] [anchor_file_ref] [chunkE, anchor_sync_group, chunkF, anchor_frameworks, chunkG, old_products, chunkH, old_root, chunkI, old_app_phases_p1, old_app_phases_p2, chunkJ, anchor_native_target, chunkK, attrs_old, chunkL, targets_old, chunkM, anchor_resources, chunkN, anchor_sources, chunkO, anchor_dependency, chunkP, anchor_xcbuild_config, chunkQ, anchor_config_list, chunkR]
    [file_ref, anchor_file_ref]
    (by simp [cat_cons, cat_nil, List.append_nil])
    (by simp [cat_cons, cat_nil, List.append_nil, List.append_assoc])
    cnt_fix3_anchor_file_ref

theorem fix_step5 :
    pyReplace (cat [chunkA, build_file_entry, anchor_build_file, chunkB, proxy_entry_p1, proxy_entry_p2, anchor_proxy, chunkC, copy_phase_p1, copy_phase_p2, copy_phase_p3, anchor_begin_file_ref, chunkD, file_ref, anchor_file_ref, chunkE, anchor_sync_group, chunkF, anchor_frameworks, chunkG, old_products, chunkH, old_root, chunkI, old_app_phases_p1, old_app_phases_p2, chunkJ, anchor_native_target, chunkK, attrs_old, chunkL, targets_old, chunkM, anchor_resources, chunkN, anchor_sources, chunkO, anchor_dependency, chunkP, anchor_xcbuild_config, chunkQ, anchor_config_list, chunkR]) anchor_sync_group (sync_group ++ anchor_sync_group) = cat [chunkA, build_file_entry, anchor_build_file, chunkB, proxy_entry_p1, proxy_entry_p2, anchor_proxy, chunkC, copy_phase_p1, copy_phase_p2, copy_phase_p3, anchor_begin_file_ref, chunkD, file_ref, anchor_file_ref, chunkE, sync_group_p1, sync_group_p2, anchor_sync_group, chunkF, anchor_frameworks, chunkG, old_products, chunkH, old_root, chunkI, old_app_phases_p1, old_app_phases_p2, chunkJ, anchor_native_target, chunkK, attrs_old, chunkL, targets_old, chunkM, anchor_resources, chunkN, anchor_sources, chunkO, anchor_dependency, chunkP, anchor_xcbuild_config, chunkQ, anchor_config_list, chunkR] :=
  splice_cat anchor_sync_group_ne [chunkA, build_file_entry, anchor_build_file, chunkB, proxy_entry_p1, proxy_entry_p2, anchor_proxy, chunkC, copy_phase_p1, copy_phase_p2, copy_phase_p3, anchor_begin_file_ref, chunkD, file_ref, anchor_file_ref, chunkE] [anchor_sync_group] [chunkF, anchor_frameworks, chunkG, old_products, chunkH, old_root, chunkI, old_app_phases_p1, old_app_phases_p2, chunkJ, anchor_native_target, chunkK, attrs_old, chunkL, targets_old, chunkM, anchor_resources, chunkN, anchor_sources, chunkO, anchor_dependency, chunkP, anchor_xcbuild_config, chunkQ, anchor_config_list, chunkR]
    [sync_group_p1, sync_group_p2, anchor_sync_group]
    (by simp [cat_cons, cat_nil, List.append_nil])
    (by simp [cat_cons, cat_nil, List.append_nil, List.append_assoc, sync_group])
    cnt_fix4_anchor_sync_group

theorem fix_step6 :
    pyReplace (cat [chunkA, build_file_entry, anchor_build_file, chunkB, proxy_entry_p1, proxy_entry_p2, anchor_proxy, chunkC, copy_phase_p1, copy_phase_p2, copy_phase_p3, anchor_begin_file_ref, chunkD, file_ref, anchor_file_ref, chunkE, sync_group_p1, sync_group_p2, anchor_sync_group, chunkF, anchor_frameworks, chunkG, old_products, chunkH, old_root, chunkI, old_app_phases_p1, old_app_phases_p2, chunkJ, anchor_native_target, chunkK, attrs_old, chunkL, targets_old, chunkM, anchor_resources, chunkN, anchor_sources, chunkO, anchor_dependency, chunkP, anchor_xcbuild_config, chunkQ, anchor_config_list, chunkR]) anchor_frameworks (fw_phase ++ anchor_frameworks) = cat [chunkA, build_file_entry, anchor_build_file, chunkB, proxy_entry_p1, proxy_entry_p2, anchor_proxy, chunkC, copy_phase_p1, copy_phase_p2, copy_phase_p3, anchor_begin_file_ref, chunkD, file_ref, anchor_file_ref, chunkE, sync_group_p1, sync_group_p2, anchor_sync_group, chunkF, fw_phase_p1, fw_phase_p2, anchor_frameworks, chunkG, old_products, chunkH, old_root, chunkI, old_app_phases_p1, old_app_phases_p2, chunkJ, anchor_native_target, chunkK, attrs_old, chunkL, targets_old, chunkM, anchor_resources, chunkN, anchor_sources, chunkO, anchor_dependency, chunkP, anchor_xcbuild_config, chunkQ, anchor_config_list, chunkR] :=
  splice_cat anchor_frameworks_ne [chunkA, build_file_entry, anchor_build_file, chunkB, proxy_entry_p1, proxy_entry_p2, anchor_proxy, chunkC, copy_phase_p1, copy_phase_p2, copy_phase_p3, anchor_begin_file_ref, chunkD, file_ref, anchor_file_ref, chunkE, sync_group_p1, sync_group_p2, anchor_sync_group, chunkF] [anchor_frameworks] [chunkG, old_products, chunkH, old_root, chunkI, old_app_phases_p1, old_app_phases_p2, chunkJ, anchor_native_target, chunkK, attrs_old, chunkL, targets_old, chunkM, anchor_resources, chunkN, anchor_sources, chunkO, anchor_dependency, chunkP, anchor_xcbuild_config, chunkQ, anchor_config_list, chunkR]
    [fw_phase_p1, fw_phase_p2, anchor_frameworks]
    (by simp [cat_cons, cat_nil, List.append_nil])
    (by simp [cat_cons, cat_nil, List.append_nil, List.append_assoc, fw_phase])
    cnt_fix5_anchor_frameworks

theorem fix_step7 :
    pyReplace (cat [chunkA, build_file_entry, anchor_build_file, chunkB, proxy_entry_p1, proxy_entry_p2, anchor_proxy, chunkC, copy_phase_p1, copy_phase_p2, copy_phase_p3, anchor_begin_file_ref, chunkD, file_ref, anchor_file_ref, chunkE, sync_group_p1, sync_group_p2, anchor_sync_group, chunkF, fw_phase_p1, fw_phase_p2, anchor_frameworks, chunkG, old_products, chunkH, old_root, chunkI, old_app_phases_p1, old_app_phases_p2, chunkJ, anchor_native_target, chunkK, attrs_old, chunkL, targets_old, chunkM, anchor_resources, chunkN, anchor_sources, chunkO, anchor_dependency, chunkP, anchor_xcbuild_config, chunkQ, anchor_config_list, chunkR]) old_products (new_products) = cat [chunkA, build_file_entry, anchor_build_file, chunkB, proxy_entry_p1, proxy_entry_p2, anchor_proxy, chunkC, copy_phase_p1, copy_phase_p2, copy_phase_p3, anchor_begin_file_ref, chunkD, file_ref, anchor_file_ref, chunkE, sync_group_p1, sync_group_p2, anchor_sync_group, chunkF, fw_phase_p1, fw_phase_p2, anchor_frameworks, chunkG, new_products_p1, new_products_p2, chunkH, old_root, chunkI, old_app_phases_p1, old_app_phases_p2, chunkJ, anchor_native_target, chunkK, attrs_old, chunkL, targets_old, chunkM, anchor_resources, chunkN, anchor_sources, chunkO, anchor_dependency, chunkP, anchor_xcbuild_config, chunkQ, anchor_config_list, chunkR] :=
  splice_cat old_products_ne [chunkA, build_file_entry, anchor_build_file, chunkB, proxy_entry_p1, proxy_entry_p2, anchor_proxy, chunkC, copy_phase_p1, copy_phase_p2, copy_phase_p3, anchor_begin_file_ref, chunkD, file_ref, anchor_file_ref, chunkE, sync_group_p1, sync_group_p2, anchor_sync_group, chunkF, fw_phase_p1, fw_phase_p2, anchor_frameworks, chunkG] [old_products] [chunkH, old_root, chunkI, old_app_phases_p1, old_app_phases_p2, chunkJ, anchor_native_target, chunkK, attrs_old, chunkL, targets_old, chunkM, anchor_resources, chunkN, anchor_sources, chunkO, anchor_dependency, chunkP, anchor_xcbuild_config, chunkQ, anchor_config_list, chunkR]
    [new_products_p1, new_products_p2]
    (by simp [cat_cons, cat_nil, List.append_nil])
    (by simp [cat_cons, cat_nil, List.append_nil, List.append_assoc, new_products])
    cnt_fix6_old_products

theorem fix_step8 :
    pyReplace (cat [chunkA, build_file_entry, anchor_build_file, chunkB, proxy_entry_p1, proxy_entry_p2, anchor_proxy, chunkC, copy_phase_p1, copy_phase_p2, copy_phase_p3, anchor_begin_file_ref, chunkD, file_ref, anchor_file_ref, chunkE, sync_group_p1, sync_group_p2, anchor_sync_group, chunkF, fw_phase_p1, fw_phase_p2, anchor_frameworks, chunkG, new_products_p1, new_products_p2, chunkH, old_root, chunkI, old_app_phases_p1, old_app_phases_p2, chunkJ, anchor_native_target, chunkK, attrs_old, chunkL, targets_old, chunkM, anchor_resources, chunkN, anchor_sources, chunkO, anchor_dependency, chunkP, anchor_xcbuild_config, chunkQ, anchor_config_list, chunkR]) old_root (new_root) = cat [chunkA, build_file_entry, anchor_build_file, chunkB, proxy_entry_p1, proxy_entry_p2, anchor_proxy, chunkC, copy_phase_p1, copy_phase_p2, copy_phase_p3, anchor_begin_file_ref, chunkD, file_ref, anchor_file_ref, chunkE, sync_group_p1, sync_group_p2, anchor_sync_group, chunkF, fw_phase_p1, fw_phase_p2, anchor_frameworks, chunkG, new_products_p1, new_products_p2, chunkH, new_root_p1, new_root_p2, chunkI, old_app_phases_p1, old_app_phases_p2, chunkJ, anchor_native_target, chunkK, attrs_old, chunkL, targets_old, chunkM, anchor_resources, chunkN, anchor_sources, chunkO, anchor_dependency, chunkP, anchor_xcbuild_config, chunkQ, anchor_config_list, chunkR] :=
  splice_cat old_root_ne [chunkA, build_file_entry, anchor_build_file, chunkB, proxy_entry_p1, proxy_entry_p2, anchor_proxy, chunkC, copy_phase_p1, copy_phase_p2, copy_phase_p3, anchor_begin_file_ref, chunkD, file_ref, anchor_file_ref, chunkE, sync_group_p1, sync_group_p2, anchor_sync_group, chunkF, fw_phase_p1, fw_phase_p2, anchor_frameworks, chunkG, new_products_p1, new_products_p2, chunkH] [old_root] [chunkI, old_app_phases_p1, old_app_phases_p2, chunkJ, anchor_native_target, chunkK, attrs_old, chunkL, targets_old, chunkM, anchor_resources, chunkN, anchor_sources, chunkO, anchor_dependency, chunkP, anchor_xcbuild_config, chunkQ, anchor_config_list, chunkR]
    [new_root_p1, new_root_p2]
    (by simp [cat_cons, cat_nil, List.append_nil])
    (by simp [cat_cons, cat_nil, List.append_nil, List.append_assoc, new_root])
    cnt_fix7_old_root

theorem fix_step9 :
    pyReplace (cat [chunkA, build_file_entry, anchor_build_file, chunkB, proxy_entry_p1, proxy_entry_p2, anchor_proxy, chunkC, copy_phase_p1, copy_phase_p2, copy_phase_p3, anchor_begin_file_ref, chunkD, file_ref, anchor_file_ref, chunkE, sync_group_p1, sync_group_p2, anchor_sync_group, chunkF, fw_phase_p1, fw_phase_p2, anchor_frameworks, chunkG, new_products_p1, new_products_p2, chunkH, new_root_p1, new_root_p2, chunkI, old_app_phases_p1, old_app_phases_p2, chunkJ, anchor_native_target, chunkK, attrs_old, chunkL, targets_old, chunkM, anchor_resources, chunkN, anchor_sources, chunkO, anchor_dependency, chunkP, anchor_xcbuild_config, chunkQ, anchor_config_list, chunkR]) anchor_native_target (native_target ++ anchor_native_target) = cat [chunkA, build_file_entry, anchor_build_file, chunkB, proxy_entry_p1, proxy_entry_p2, anchor_proxy, chunkC, copy_phase_p1, copy_phase_p2, copy_phase_p3, anchor_begin_file_ref, chunkD, file_ref, anchor_file_ref, chunkE, sync_group_p1, sync_group_p2, anchor_sync_group, chunkF, fw_phase_p1, fw_phase_p2, anchor_frameworks, chunkG, new_products_p1, new_products_p2, chunkH, new_root_p1, new_root_p2, chunkI, old_app_phases_p1, old_app_phases_p2, chunkJ, native_target_p1, native_target_p2, native_target_p3, native_target_p4, anchor_native_target, chunkK, attrs_old, chunkL, targets_old, chunkM, anchor_resources, chunkN, anchor_sources, chunkO, anchor_dependency, chunkP, anchor_xcbuild_config, chunkQ, anchor_config_list, chunkR] :=
  splice_cat anchor_native_target_ne [chunkA, build_file_entry, anchor_build_file, chunkB, proxy_entry_p1, proxy_entry_p2, anchor_proxy, chunkC, copy_phase_p1, copy_phase_p2, copy_phase_p3, anchor_begin_file_ref, chunkD, file_ref, anchor_file_ref, chunkE, sync_group_p1, sync_group_p2, anchor_sync_group, chunkF, fw_phase_p1, fw_phase_p2, anchor_frameworks, chunkG, new_products_p1, new_products_p2, chunkH, new_root_p1, new_root_p2, chunkI, old_app_phases_p1, old_app_phases_p2, chunkJ] [anchor_native_target] [chunkK, attrs_old, chunkL, targets_old, chunkM, anchor_resources, chunkN, anchor_sources, chunkO, anchor_dependency, chunkP, anchor_xcbuild_config, chunkQ, anchor_config_list, chunkR]
    [native_target_p1, native_target_p2, native_target_p3, native_target_p4, anchor_native_target]
    (by simp [cat_cons, cat_nil, List.append_nil])
    (by simp [cat_cons, cat_nil, List.append_nil, List.append_assoc, native_target])
    cnt_fix8_anchor_native_target

theorem fix_step10 :
    pyReplace (cat [chunkA, build_file_entry, anchor_build_file, chunkB, proxy_entry_p1, proxy_entry_p2, anchor_proxy, chunkC, copy_phase_p1, copy_phase_p2, copy_phase_p3, anchor_begin_file_ref, chunkD, file_ref, anchor_file_ref, chunkE, sync_group_p1, sync_group_p2, anchor_sync_group, chunkF, fw_phase_p1, fw_phase_p2, anchor_frameworks, chunkG, new_products_p1, new_products_p2, chunkH, new_root_p1, new_root_p2, chunkI, old_app_phases_p1, old_app_phases_p2, chunkJ, native_target_p1, native_target_p2, native_target_p3, native_target_p4, anchor_native_target, chunkK, attrs_old, chunkL, targets_old, chunkM, anchor_resources, chunkN, anchor_sources, chunkO, anchor_dependency, chunkP, anchor_xcbuild_config, chunkQ, anchor_config_list, chunkR]) targets_old (targets_new) = cat [chunkA, build_file_entry, anchor_build_file, chunkB, proxy_entry_p1, proxy_entry_p2, anchor_proxy, chunkC, copy_phase_p1, copy_phase_p2, copy_phase_p3, anchor_begin_file_ref, chunkD, file_ref, anchor_file_ref, chunkE, sync_group_p1, sync_group_p2, anchor_sync_group, chunkF, fw_phase_p1, fw_phase_p2, anchor_frameworks, chunkG, new_products_p1, new_products_p2, chunkH, new_root_p1, new_root_p2, chunkI, old_app_phases_p1, old_app_phases_p2, chunkJ, native_target_p1, native_target_p2, native_target_p3, native_target_p4, anchor_native_target, chunkK, attrs_old, chunkL, targets_new_p1, targets_new_p2, chunkM, anchor_resources, chunkN, anchor_sources, chunkO, anchor_dependency, chunkP, anchor_xcbuild_config, chunkQ, anchor_config_list, chunkR] :=
  splice_cat targets_old_ne [chunkA, build_file_entry, anchor_build_file, chunkB, proxy_entry_p1, proxy_entry_p2, anchor_proxy, chunkC, copy_phase_p1, copy_phase_p2, copy_phase_p3, anchor_begin_file_ref, chunkD, file_ref, anchor_file_ref, chunkE, sync_group_p1, sync_group_p2, anchor_sync_group, chunkF, fw_phase_p1, fw_phase_p2, anchor_frameworks, chunkG, new_products_p1, new_products_p2, chunkH, new_root_p1, new_root_p2, chunkI, old_app_phases_p1, old_app_phases_p2, chunkJ, native_target_p1, native_target_p2, native_target_p3, native_target_p4, anchor_native_target, chunkK, attrs_old, chunkL] [targets_old] [chunkM, anchor_resources, chunkN, anchor_sources, chunkO, anchor_dependency, chunkP, anchor_xcbuild_config, chunkQ, anchor_config_list, chunkR]
    [targets_new_p1, targets_new_p2]
    (by simp [cat_cons, cat_nil, List.append_nil])
    (by simp [cat_cons, cat_nil, List.append_nil, List.append_assoc, targets_new])
    cnt_fix9_targets_old

theorem fix_step11 :
    pyReplace (cat [chunkA, build_file_entry, anchor_build_file, chunkB, proxy_entry_p1, proxy_entry_p2, anchor_proxy, chunkC, copy_phase_p1, copy_phase_p2, copy_phase_p3, anchor_begin_file_ref, chunkD, file_ref, anchor_file_ref, chunkE, sync_group_p1, sync_group_p2, anchor_sync_group, chunkF, fw_phase_p1, fw_phase_p2, anchor_frameworks, chunkG, new_products_p1, new_products_p2, chunkH, new_root_p1, new_root_p2, chunkI, old_app_phases_p1, old_app_phases_p2, chunkJ, native_target_p1, native_target_p2, native_target_p3, native_target_p4, anchor_native_target, chunkK, attrs_old, chunkL, targets_new_p1, targets_new_p2, chunkM, anchor_resources, chunkN, anchor_sources, chunkO, anchor_dependency, chunkP, anchor_xcbuild_config, chunkQ, anchor_config_list, chunkR]) attrs_old (attrs_new) = cat [chunkA, build_file_entry, anchor_build_file, chunkB, proxy_entry_p1, proxy_entry_p2, anchor_proxy, chunkC, copy_phase_p1, copy_phase_p2, copy_phase_p3, anchor_begin_file_ref, chunkD, file_ref, anchor_file_ref, chunkE, sync_group_p1, sync_group_p2, anchor_sync_group, chunkF, fw_phase_p1, fw_phase_p2, anchor_frameworks, chunkG, new_products_p1, new_products_p2, chunkH, new_root_p1, new_root_p2, chunkI, old_app_phases_p1, old_app_phases_p2, chunkJ, native_target_p1, native_target_p2, native_target_p3, native_target_p4, anchor_native_target, chunkK, attrs_new_p1, attrs_new_p2, chunkL, targets_new_p1, targets_new_p2, chunkM, anchor_resources, chunkN, anchor_sources, chunkO, anchor_dependency, chunkP, anchor_xcbuild_config, chunkQ, anchor_config_list, chunkR] :=
  splice_cat attrs_old_ne [chunkA, build_file_entry, anchor_build_file, chunkB, proxy_entry_p1, proxy_entry_p2, anchor_proxy, chunkC, copy_phase_p1, copy_phase_p2, copy_phase_p3, anchor_begin_file_ref, chunkD, file_ref, anchor_file_ref, chunkE, sync_group_p1, sync_group_p2, anchor_sync_group, chunkF, fw_phase_p1, fw_phase_p2, anchor_frameworks, chunkG, new_products_p1, new_products_p2, chunkH, new_root_p1, new_root_p2, chunkI, old_app_phases_p1, old_app_phases_p2, chunkJ, native_target_p1, native_target_p2, native_target_p3, native_target_p4, anchor_native_target, chunkK] [attrs_old] [chunkL, targets_new_p1, targets_new_p2, chunkM, anchor_resources, chunkN, anchor_sources, chunkO, anchor_dependency, chunkP, anchor_xcbuild_config, chunkQ, anchor_config_list, chunkR]
    [attrs_new_p1, attrs_new_p2]
    (by simp [cat_cons, cat_nil, List.append_nil])
    (by simp [cat_cons, cat_nil, List.append_nil, List.append_assoc, attrs_new])
    cnt_fix10_attrs_old

theorem fix_step12 :
    pyReplace (cat [chunkA, build_file_entry, anchor_build_file, chunkB, proxy_entry_p1, proxy_entry_p2, anchor_proxy, chunkC, copy_phase_p1, copy_phase_p2, copy_phase_p3, anchor_begin_file_ref, chunkD, file_ref, anchor_file_ref, chunkE, sync_group_p1, sync_group_p2, anchor_sync_group, chunkF, fw_phase_p1, fw_phase_p2, anchor_frameworks, chunkG, new_products_p1, new_products_p2, chunkH, new_root_p1, new_root_p2, chunkI, old_app_phases_p1, old_app_phases_p2, chunkJ, native_target_p1, native_target_p2, native_target_p3, native_target_p4, anchor_native_target, chunkK, attrs_new_p1, attrs_new_p2, chunkL, targets_new_p1, targets_new_p2, chunkM, anchor_resources, chunkN, anchor_sources, chunkO, anchor_dependency, chunkP, anchor_xcbuild_config, chunkQ, anchor_config_list, chunkR]) old_app_phases (new_app_phases) = cat [chunkA, build_file_entry, anchor_build_file, chunkB, proxy_entry_p1, proxy_entry_p2, anchor_proxy, chunkC, copy_phase_p1, copy_phase_p2, copy_phase_p3, anchor_begin_file_ref, chunkD, file_ref, anchor_file_ref, chunkE, sync_group_p1, sync_group_p2, anchor_sync_group, chunkF, fw_phase_p1, fw_phase_p2, anchor_frameworks, chunkG, new_products_p1, new_products_p2, chunkH, new_root_p1, new_root_p2, chunkI, new_app_phases_p1, new_app_phases_p2, new_app_phases_p3, chunkJ, native_target_p1, native_target_p2, native_target_p3, native_target_p4, anchor_native_target, chunkK, attrs_new_p1, attrs_new_p2, chunkL, targets_new_p1, targets_new_p2, chunkM, anchor_resources, chunkN, anchor_sources, chunkO, anchor_dependency, chunkP, anchor_xcbuild_config, chunkQ, anchor_config_list, chunkR] :=
  splice_cat old_app_phases_ne [chunkA, build_file_entry, anchor_build_file, chunkB, proxy_entry_p1, proxy_entry_p2, anchor_proxy, chunkC, copy_phase_p1, copy_phase_p2, copy_phase_p3, anchor_begin_file_ref, chunkD, file_ref, anchor_file_ref, chunkE, sync_group_p1, sync_group_p2, anchor_sync_group, chunkF, fw_phase_p1, fw_phase_p2, anchor_frameworks, chunkG, new_products_p1, new_products_p2, chunkH, new_root_p1, new_root_p2, chunkI] [old_app_phases_p1, old_app_phases_p2] [chunkJ, native_target_p1, native_target_p2, native_target_p3, native_target_p4, anchor_native_target, chunkK, attrs_new_p1, attrs_new_p2, chunkL, targets_new_p1, targets_new_p2, chunkM, anchor_resources, chunkN, anchor_sources, chunkO, anchor_dependency, chunkP, anchor_xcbuild_config, chunkQ, anchor_config_list, chunkR]
    [new_app_phases_p1, new_app_phases_p2, new_app_phases_p3]
    (by simp [cat_cons, cat_nil, List.append_nil, old_app_phases])
    (by simp [cat_cons, cat_nil, List.append_nil, List.append_assoc, new_app_phases])
    cnt_fix11_old_app_phases

theorem fix_step13 :
    pyReplace (cat [chunkA, build_file_entry, anchor_build_file, chunkB, proxy_entry_p1, proxy_entry_p2, anchor_proxy, chunkC, copy_phase_p1, copy_phase_p2, copy_phase_p3, anchor_begin_file_ref, chunkD, file_ref, anchor_file_ref, chunkE, sync_group_p1, sync_group_p2, anchor_sync_group, chunkF, fw_phase_p1, fw_phase_p2, anchor_frameworks, chunkG, new_products_p1, new_products_p2, chunkH, new_root_p1, new_root_p2, chunkI, new_app_phases_p1, new_app_phases_p2, new_app_phases_p3, chunkJ, native_target_p1, native_target_p2, native_target_p3, native_target_p4, anchor_native_target, chunkK, attrs_new_p1, attrs_new_p2, chunkL, targets_new_p1, targets_new_p2, chunkM, anchor_resources, chunkN, anchor_sources, chunkO, anchor_dependency, chunkP, anchor_xcbuild_config, chunkQ, anchor_config_list, chunkR]) anchor_resources (res_phase ++ anchor_resources) = cat [chunkA, build_file_entry, anchor_build_file, chunkB, proxy_entry_p1, proxy_entry_p2, anchor_proxy, chunkC, copy_phase_p1, copy_phase_p2, copy_phase_p3, anchor_begin_file_ref, chunkD, file_ref, anchor_file_ref, chunkE, sync_group_p1, sync_group_p2, anchor_sync_group, chunkF, fw_phase_p1, fw_phase_p2, anchor_frameworks, chunkG, new_products_p1, new_products_p2, chunkH, new_root_p1, new_root_p2, chunkI, new_app_phases_p1, new_app_phases_p2, new_app_phases_p3, chunkJ, native_target_p1, native_target_p2, native_target_p3, native_target_p4, anchor_native_target, chunkK, attrs_new_p1, attrs_new_p2, chunkL, targets_new_p1, targets_new_p2, chunkM, res_phase_p1, res_phase_p2, anchor_resources, chunkN, anchor_sources, chunkO, anchor_dependency, chunkP, anchor_xcbuild_config, chunkQ, anchor_config_list, chunkR] :=
  splice_cat anchor_resources_ne [chunkA, build_file_entry, anchor_build_file, chunkB, proxy_entry_p1, proxy_entry_p2, anchor_proxy, chunkC, copy_phase_p1, copy_phase_p2, copy_phase_p3, anchor_begin_file_ref, chunkD, file_ref, anchor_file_ref, chunkE, sync_group_p1, sync_group_p2, anchor_sync_group, chunkF, fw_phase_p1, fw_phase_p2, anchor_frameworks, chunkG, new_products_p1, new_products_p2, chunkH, new_root_p1, new_root_p2, chunkI, new_app_phases_p1, new_app_phases_p2, new_app_phases_p3, chunkJ, native_target_p1, native_target_p2, native_target_p3, native_target_p4, anchor_native_target, chunkK, attrs_new_p1, attrs_new_p2, chunkL, targets_new_p1, targets_new_p2, chunkM] [anchor_resources] [chunkN, anchor_sources, chunkO, anchor_dependency, chunkP, anchor_xcbuild_config, chunkQ, anchor_config_list, chunkR]
    [res_phase_p1, res_phase_p2, anchor_resources]
    (by simp [cat_cons, cat_nil, List.append_nil])
    (by simp [cat_cons, cat_nil, List.append_nil, List.append_assoc, res_phase])
    cnt_fix12_anchor_resources

theorem fix_step14 :
    pyReplace (cat [chunkA, build_file_entry, anchor_build_file, chunkB, proxy_entry_p1, proxy_entry_p2, anchor_proxy, chunkC, copy_phase_p1, copy_phase_p2, copy_phase_p3, anchor_begin_file_ref, chunkD, file_ref, anchor_file_ref, chunkE, sync_group_p1, sync_group_p2, anchor_sync_group, chunkF, fw_phase_p1, fw_phase_p2, anchor_frameworks, chunkG, new_products_p1, new_products_p2, chunkH, new_root_p1, new_root_p2, chunkI, new_app_phases_p1, new_app_phases_p2, new_app_phases_p3, chunkJ, native_target_p1, native_target_p2, native_target_p3, native_target_p4, anchor_native_target, chunkK, attrs_new_p1, attrs_new_p2, chunkL, targets_new_p1, targets_new_p2, chunkM, res_phase_p1, res_phase_p2, anchor_resources, chunkN, anchor_sources, chunkO, anchor_dependency, chunkP, anchor_xcbuild_config, chunkQ, anchor_config_list, chunkR]) anchor_sources (src_phase ++ anchor_sources) = cat [chunkA, build_file_entry, anchor_build_file, chunkB, proxy_entry_p1, proxy_entry_p2, anchor_proxy, chunkC, copy_phase_p1, copy_phase_p2, copy_phase_p3, anchor_begin_file_ref, chunkD, file_ref, anchor_file_ref, chunkE, sync_group_p1, sync_group_p2, anchor_sync_group, chunkF, fw_phase_p1, fw_phase_p2, anchor_frameworks, chunkG, new_products_p1, new_products_p2, chunkH, new_root_p1, new_root_p2, chunkI, new_app_phases_p1, new_app_phases_p2, new_app_phases_p3, chunkJ, native_target_p1, native_target_p2, native_target_p3, native_target_p4, anchor_native_target, chunkK, attrs_new_p1, attrs_new_p2, chunkL, targets_new_p1, targets_new_p2, chunkM, res_phase_p1, res_phase_p2, anchor_resources, chunkN, src_phase_p1, src_phase_p2, anchor_sources, chunkO, anchor_dependency, chunkP, anchor_xcbuild_config, chunkQ, anchor_config_list, chunkR] :=
  splice_cat anchor_sources_ne [chunkA, build_file_entry, anchor_build_file, chunkB, proxy_entry_p1, proxy_entry_p2, anchor_proxy, chunkC, copy_phase_p1, copy_phase_p2, copy_phase_p3, anchor_begin_file_ref, chunkD, file_ref, anchor_file_ref, chunkE, sync_group_p1, sync_group_p2, anchor_sync_group, chunkF, fw_phase_p1, fw_phase_p2, anchor_frameworks, chunkG, new_products_p1, new_products_p2, chunkH, new_root_p1, new_root_p2, chunkI, new_app_phases_p1, new_app_phases_p2, new_app_phases_p3, chunkJ, native_target_p1, native_target_p2, native_target_p3, native_target_p4, anchor_native_target, chunkK, attrs_new_p1, attrs_new_p2, chunkL, targets_new_p1, targets_new_p2, chunkM, res_phase_p1, res_phase_p2, anchor_resources, chunkN] [anchor_sources] [chunkO, anchor_dependency, chunkP, anchor_xcbuild_config, chunkQ, anchor_config_list, chunkR]
    [src_phase_p1, src_phase_p2, anchor_sources]
    (by simp [cat_cons, cat_nil, List.append_nil])
    (by simp [cat_cons, cat_nil, List.append_nil, List.append_assoc, src_phase])
    cnt_fix13_anchor_sources

theorem fix_step15 :
    pyReplace (cat [chunkA, build_file_entry, anchor_build_file, chunkB, proxy_entry_p1, proxy_entry_p2, anchor_proxy, chunkC, copy_phase_p1, copy_phase_p2, copy_phase_p3, anchor_begin_file_ref, chunkD, file_ref, anchor_file_ref, chunkE, sync_group_p1, sync_group_p2, anchor_sync_group, chunkF, fw_phase_p1, fw_phase_p2, anchor_frameworks, chunkG, new_products_p1, new_products_p2, chunkH, new_root_p1, new_root_p2, chunkI, new_app_phases_p1, new_app_phases_p2, new_app_phases_p3, chunkJ, native_target_p1, native_target_p2, native_target_p3, native_target_p4, anchor_native_target, chunkK, attrs_new_p1, attrs_new_p2, chunkL, targets_new_p1, targets_new_p2, chunkM, res_phase_p1, res_phase_p2, anchor_resources, chunkN, src_phase_p1, src_phase_p2, anchor_sources, chunkO, anchor_dependency, chunkP, anchor_xcbuild_config, chunkQ, anchor_config_list, chunkR]) anchor_dependency (dep_entry ++ anchor_dependency) = cat [chunkA, build_file_entry, anchor_build_file, chunkB, proxy_entry_p1, proxy_entry_p2, anchor_proxy, chunkC, copy_phase_p1, copy_phase_p2, copy_phase_p3, anchor_begin_file_ref, chunkD, file_ref, anchor_file_ref, chunkE, sync_group_p1, sync_group_p2, anchor_sync_group, chunkF, fw_phase_p1, fw_phase_p2, anchor_frameworks, chunkG, new_products_p1, new_products_p2, chunkH, new_root_p1, new_root_p2, chunkI, new_app_phases_p1, new_app_phases_p2, new_app_phases_p3, chunkJ, native_target_p1, native_target_p2, native_target_p3, native_target_p4, anchor_native_target, chunkK, attrs_new_p1, attrs_new_p2, chunkL, targets_new_p1, targets_new_p2, chunkM, res_phase_p1, res_phase_p2, anchor_resources, chunkN, src_phase_p1, src_phase_p2, anchor_sources, chunkO, dep_entry_p1, dep_entry_p2, anchor_dependency, chunkP, anchor_xcbuild_config, chunkQ, anchor_config_list, chunkR] :=
  splice_cat anchor_dependency_ne [chunkA, build_file_entry, anchor_build_file, chunkB, proxy_entry_p1, proxy_entry_p2, anchor_proxy, chunkC, copy_phase_p1, copy_phase_p2, copy_phase_p3, anchor_begin_file_ref, chunkD, file_ref, anchor_file_ref, chunkE, sync_group_p1, sync_group_p2, anchor_sync_group, chunkF, fw_phase_p1, fw_phase_p2, anchor_frameworks, chunkG, new_products_p1, new_products_p2, chunkH, new_root_p1, new_root_p2, chunkI, new_app_phases_p1, new_app_phases_p2, new_app_phases_p3, chunkJ, native_target_p1, native_target_p2, native_target_p3, native_target_p4, anchor_native_target, chunkK, attrs_new_p1, attrs_new_p2, chunkL, targets_new_p1, targets_new_p2, chunkM, res_phase_p1, res_phase_p2, anchor_resources, chunkN, src_phase_p1, src_phase_p2, anchor_sources, chunkO] [anchor_dependency] [chunkP, anchor_xcbuild_config, chunkQ, anchor_config_list, chunkR]
    [dep_entry_p1, dep_entry_p2, anchor_dependency]
    (by simp [cat_cons, cat_nil, List.append_nil])
    (by simp [cat_cons, cat_nil, List.append_nil, List.append_assoc, dep_entry])
    cnt_fix14_anchor_dependency

theorem fix_step16 :
    pyReplace (cat [chunkA, build_file_entry, anchor_build_file, chunkB, proxy_entry_p1, proxy_entry_p2, anchor_proxy, chunkC, copy_phase_p1, copy_phase_p2, copy_phase_p3, anchor_begin_file_ref, chunkD, file_ref, anchor_file_ref, chunkE, sync_group_p1, sync_group_p2, anchor_sync_group, chunkF, fw_phase_p1, fw_phase_p2, anchor_frameworks, chunkG, new_products_p1, new_products_p2, chunkH, new_root_p1, new_root_p2, chunkI, new_app_phases_p1, new_app_phases_p2, new_app_phases_p3, chunkJ, native_target_p1, native_target_p2, native_target_p3, native_target_p4, anchor_native_target, chunkK, attrs_new_p1, attrs_new_p2, chunkL, targets_new_p1, targets_new_p2, chunkM, res_phase_p1, res_phase_p2, anchor_resources, chunkN, src_phase_p1, src_phase_p2, anchor_sources, chunkO, dep_entry_p1, dep_entry_p2, anchor_dependency, chunkP, anchor_xcbuild_config, chunkQ, anchor_config_list, chunkR]) anchor_xcbuild_config (cfg_debug ++ cfg_release ++ anchor_xcbuild_config) = cat [chunkA, build_file_entry, anchor_build_file, chunkB, proxy_entry_p1, proxy_entry_p2, anchor_proxy, chunkC, copy_phase_p1, copy_phase_p2, copy_phase_p3, anchor_begin_file_ref, chunkD, file_ref, anchor_file_ref, chunkE, sync_group_p1, sync_group_p2, anchor_sync_group, chunkF, fw_phase_p1, fw_phase_p2, anchor_frameworks, chunkG, new_products_p1, new_products_p2, chunkH, new_root_p1, new_root_p2, chunkI, new_app_phases_p1, new_app_phases_p2, new_app_phases_p3, chunkJ, native_target_p1, native_target_p2, native_target_p3, native_target_p4, anchor_native_target, chunkK, attrs_new_p1, attrs_new_p2, chunkL, targets_new_p1, targets_new_p2, chunkM, res_phase_p1, res_phase_p2, anchor_resources, chunkN, src_phase_p1, src_phase_p2, anchor_sources, chunkO, dep_entry_p1, dep_entry_p2, anchor_dependency, chunkP, cfg_debug_p1, cfg_debug_p2, cfg_debug_p3, cfg_debug_p4, cfg_debug_p5, cfg_release_p1, cfg_release_p2, cfg_release_p3, cfg_release_p4, cfg_release_p5, anchor_xcbuild_config, chunkQ, anchor_config_list, chunkR] :=
  splice_cat anchor_xcbuild_config_ne [chunkA, build_file_entry, anchor_build_file, chunkB, proxy_entry_p1, proxy_entry_p2, anchor_proxy, chunkC, copy_phase_p1, copy_phase_p2, copy_phase_p3, anchor_begin_file_ref, chunkD, file_ref, anchor_file_ref, chunkE, sync_group_p1, sync_group_p2, anchor_sync_group, chunkF, fw_phase_p1, fw_phase_p2, anchor_frameworks, chunkG, new_products_p1, new_products_p2, chunkH, new_root_p1, new_root_p2, chunkI, new_app_phases_p1, new_app_phases_p2, new_app_phases_p3, chunkJ, native_target_p1, native_target_p2, native_target_p3, native_target_p4, anchor_native_target, chunkK, attrs_new_p1, attrs_new_p2, chunkL, targets_new_p1, targets_new_p2, chunkM, res_phase_p1, res_phase_p2, anchor_resources, chunkN, src_phase_p1, src_phase_p2, anchor_sources, chunkO, dep_entry_p1, dep_entry_p2, anchor_dependency, chunkP] [anchor_xcbuild_config] [chunkQ, anchor_config_list, chunkR]
    [cfg_debug_p1, cfg_debug_p2, cfg_debug_p3, cfg_debug_p4, cfg_debug_p5, cfg_release_p1, cfg_release_p2, cfg_release_p3, cfg_release_p4, cfg_release_p5, anchor_xcbuild_config]
    (by simp [cat_cons, cat_nil, List.append_nil])
    (by simp [cat_cons, cat_nil, List.append_nil, List.append_assoc, cfg_debug, cfg_release])
    cnt_fix15_anchor_xcbuild_config

theorem fix_step17 :
    pyReplace (cat [chunkA, build_file_entry, anchor_build_file, chunkB, proxy_entry_p1, proxy_entry_p2, anchor_proxy, chunkC, copy_phase_p1, copy_phase_p2, copy_phase_p3, anchor_begin_file_ref, chunkD, file_ref, anchor_file_ref, chunkE, sync_group_p1, sync_group_p2, anchor_sync_group, chunkF, fw_phase_p1, fw_phase_p2, anchor_frameworks, chunkG, new_products_p1, new_products_p2, chunkH, new_root_p1, new_root_p2, chunkI, new_app_phases_p1, new_app_phases_p2, new_app_phases_p3, chunkJ, native_target_p1, native_target_p2, native_target_p3, native_target_p4, anchor_native_target, chunkK, attrs_new_p1, attrs_new_p2, chunkL, targets_new_p1, targets_new_p2, chunkM, res_phase_p1, res_phase_p2, anchor_resources, chunkN, src_phase_p1, src_phase_p2, anchor_sources, chunkO, dep_entry_p1, dep_entry_p2, anchor_dependency, chunkP, cfg_debug_p1, cfg_debug_p2, cfg_debug_p3, cfg_debug_p4, cfg_debug_p5, cfg_release_p1, cfg_release_p2, cfg_release_p3, cfg_release_p4, cfg_release_p5, anchor_xcbuild_config, chunkQ, anchor_config_list, chunkR]) anchor_config_list (cfg_list ++ anchor_config_list) = cat [chunkA, build_file_entry, anchor_build_file, chunkB, proxy_entry_p1, proxy_entry_p2, anchor_proxy, chunkC, copy_phase_p1, copy_phase_p2, copy_phase_p3, anchor_begin_file_ref, chunkD, file_ref, anchor_file_ref, chunkE, sync_group_p1, sync_group_p2, anchor_sync_group, chunkF, fw_phase_p1, fw_phase_p2, anchor_frameworks, chunkG, new_products_p1, new_products_p2, chunkH, new_root_p1, new_root_p2, chunkI, new_app_phases_p1, new_app_phases_p2, new_app_phases_p3, chunkJ, native_target_p1, native_target_p2, native_target_p3, native_target_p4, anchor_native_target, chunkK, attrs_new_p1, attrs_new_p2, chunkL, targets_new_p1, targets_new_p2, chunkM, res_phase_p1, res_phase_p2, anchor_resources, chunkN, src_phase_p1, src_phase_p2, anchor_sources, chunkO, dep_entry_p1, dep_entry_p2, anchor_dependency, chunkP, cfg_debug_p1, cfg_debug_p2, cfg_debug_p3, cfg_debug_p4, cfg_debug_p5, cfg_release_p1, cfg_release_p2, cfg_release_p3, cfg_release_p4, cfg_release_p5, anchor_xcbuild_config, chunkQ, cfg_list_p1, cfg_list_p2, anchor_config_list, chunkR] :=
  splice_cat anchor_config_list_ne [chunkA, build_file_entry, anchor_build_file, chunkB, proxy_entry_p1, proxy_entry_p2, anchor_proxy, chunkC, copy_phase_p1, copy_phase_p2, copy_phase_p3, anchor_begin_file_ref, chunkD, file_ref, anchor_file_ref, chunkE, sync_group_p1, sync_group_p2, anchor_sync_group, chunkF, fw_phase_p1, fw_phase_p2, anchor_frameworks, chunkG, new_products_p1, new_products_p2, chunkH, new_root_p1, new_root_p2, chunkI, new_app_phases_p1, new_app_phases_p2, new_app_phases_p3, chunkJ, native_target_p1, native_target_p2, native_target_p3, native_target_p4, anchor_native_target, chunkK, attrs_new_p1, attrs_new_p2, chunkL, targets_new_p1, targets_new_p2, chunkM, res_phase_p1, res_phase_p2, anchor_resources, chunkN, src_phase_p1, src_phase_p2, anchor_sources, chunkO, dep_entry_p1, dep_entry_p2, anchor_dependency, chunkP, cfg_debug_p1, cfg_debug_p2, cfg_debug_p3, cfg_debug_p4, cfg_debug_p5, cfg_release_p1, cfg_release_p2, cfg_release_p3, cfg_release_p4, cfg_release_p5, anchor_xcbuild_config, chunkQ] [anchor_config_list] [chunkR]
    [cfg_list_p1, cfg_list_p2, anchor_config_list]
    (by simp [cat_cons, cat_nil, List.append_nil])
    (by simp [cat_cons, cat_nil, List.append_nil, List.append_assoc, cfg_list])
    cnt_fix16_anchor_config_list

theorem patch_fixture : patch fixture = cat [chunkA, build_file_entry, anchor_build_file, chunkB, proxy_entry_p1, proxy_entry_p2, anchor_proxy, chunkC, copy_phase_p1, copy_phase_p2, copy_phase_p3, anchor_begin_file_ref, chunkD, file_ref, anchor_file_ref, chunkE, sync_group_p1, sync_group_p2, anchor_sync_group, chunkF, fw_phase_p1, fw_phase_p2, anchor_frameworks, chunkG, new_products_p1, new_products_p2, chunkH, new_root_p1, new_root_p2, chunkI, new_app_phases_p1, new_app_phases_p2, new_app_phases_p3, chunkJ, native_target_p1, native_target_p2, native_target_p3, native_target_p4, anchor_native_target, chunkK, attrs_new_p1, attrs_new_p2, chunkL, targets_new_p1, targets_new_p2, chunkM, res_phase_p1, res_phase_p2, anchor_resources, chunkN, src_phase_p1, src_phase_p2, anchor_sources, chunkO, dep_entry_p1, dep_entry_p2, anchor_dependency, chunkP, cfg_debug_p1, cfg_debug_p2, cfg_debug_p3, cfg_debug_p4, cfg_debug_p5, cfg_release_p1, cfg_release_p2, cfg_release_p3, cfg_release_p4, cfg_release_p5, anchor_xcbuild_config, chunkQ, cfg_list_p1, cfg_list_p2, anchor_config_list, chunkR] := by
  rw [patch_eq]
  rw [fix_step1, fix_step2, fix_step3, fix_step4, fix_step5, fix_step6, fix_step7, fix_step8, fix_step9, fix_step10, fix_step11, fix_step12, fix_step13, fix_step14, fix_step15, fix_step16, fix_step17]

/- ## Facts about the patched fixture -/

theorem occ_fin_build_file_entry : Occ (build_file_entry) (cat [chunkA, build_file_entry, anchor_build_file, chunkB, proxy_entry_p1, proxy_entry_p2, anchor_proxy, chunkC, copy_phase_p1, copy_phase_p2, copy_phase_p3, anchor_begin_file_ref, chunkD, file_ref, anchor_file_ref, chunkE, sync_group_p1, sync_group_p2, anchor_sync_group, chunkF, fw_phase_p1, fw_phase_p2, anchor_frameworks, chunkG, new_products_p1, new_products_p2, chunkH, new_root_p1, new_root_p2, chunkI, new_app_phases_p1, new_app_phases_p2, new_app_phases_p3, chunkJ, native_target_p1, native_target_p2, native_target_p3, native_target_p4, anchor_native_target, chunkK, attrs_new_p1, attrs_new_p2, chunkL, targets_new_p1, targets_new_p2, chunkM, res_phase_p1, res_phase_p2, anchor_resources, chunkN, src_phase_p1, src_phase_p2, anchor_sources, chunkO, dep_entry_p1, dep_entry_p2, anchor_dependency, chunkP, cfg_debug_p1, cfg_debug_p2, cfg_debug_p3, cfg_debug_p4, cfg_debug_p5, cfg_release_p1, cfg_release_p2, cfg_release_p3, cfg_release_p4, cfg_release_p5, anchor_xcbuild_config, chunkQ, cfg_list_p1, cfg_list_p2, anchor_config_list, chunkR]) :=
  ⟨cat [chunkA], cat [anchor_build_file, chunkB, proxy_entry_p1, proxy_entry_p2, anchor_proxy, chunkC, copy_phase_p1, copy_phase_p2, copy_phase_p3, anchor_begin_file_ref, chunkD, file_ref, anchor_file_ref, chunkE, sync_group_p1, sync_group_p2, anchor_sync_group, chunkF, fw_phase_p1, fw_phase_p2, anchor_frameworks, chunkG, new_products_p1, new_products_p2, chunkH, new_root_p1, new_root_p2, chunkI, new_app_phases_p1, new_app_phases_p2, new_app_phases_p3, chunkJ, native_target_p1, native_target_p2, native_target_p3, native_target_p4, anchor_native_target, chunkK, attrs_new_p1, attrs_new_p2, chunkL, targets_new_p1, targets_new_p2, chunkM, res_phase_p1, res_phase_p2, anchor_resources, chunkN, src_phase_p1, src_phase_p2, anchor_sources, chunkO, dep_entry_p1, dep_entry_p2, anchor_dependency, chunkP, cfg_debug_p1, cfg_debug_p2, cfg_debug_p3, cfg_debug_p4, cfg_debug_p5, cfg_release_p1, cfg_release_p2, cfg_release_p3, cfg_release_p4, cfg_release_p5, anchor_xcbuild_config, chunkQ, cfg_list_p1, cfg_list_p2, anchor_config_list, chunkR],
    by simp [cat_cons, cat_nil, List.append_nil, List.append_assoc]⟩

theorem cnt_fin_blk_build_file_entry : countOcc build_file_entry (cat [chunkA, build_file_entry, anchor_build_file, chunkB, proxy_entry_p1, proxy_entry_p2, anchor_proxy, chunkC, copy_phase_p1, copy_phase_p2, copy_phase_p3, anchor_begin_file_ref, chunkD, file_ref, anchor_file_ref, chunkE, sync_group_p1, sync_group_p2, anchor_sync_group, chunkF, fw_phase_p1, fw_phase_p2, anchor_frameworks, chunkG, new_products_p1, new_products_p2, chunkH, new_root_p1, new_root_p2, chunkI, new_app_phases_p1, new_app_phases_p2, new_app_phases_p3, chunkJ, native_target_p1, native_target_p2, native_target_p3, native_target_p4, anchor_native_target, chunkK, attrs_new_p1, attrs_new_p2, chunkL, targets_new_p1, targets_new_p2, chunkM, res_phase_p1, res_phase_p2, anchor_resources, chunkN, src_phase_p1, src_phase_p2, anchor_sources, chunkO, dep_entry_p1, dep_entry_p2, anchor_dependency, chunkP, cfg_debug_p1, cfg_debug_p2, cfg_debug_p3, cfg_debug_p4, cfg_debug_p5, cfg_release_p1, cfg_release_p2, cfg_release_p3, cfg_release_p4, cfg_release_p5, anchor_xcbuild_config, chunkQ, cfg_list_p1, cfg_list_p2, anchor_config_list, chunkR]) = 1 :=
  cnt_fin_build_file_entry

theorem occ_fin_proxy_entry : Occ (proxy_entry) (cat [chunkA, build_file_entry, anchor_build_file, chunkB, proxy_entry_p1, proxy_entry_p2, anchor_proxy, chunkC, copy_phase_p1, copy_phase_p2, copy_phase_p3, anchor_begin_file_ref, chunkD, file_ref, anchor_file_ref, chunkE, sync_group_p1, sync_group_p2, anchor_sync_group, chunkF, fw_phase_p1, fw_phase_p2, anchor_frameworks, chunkG, new_products_p1, new_products_p2, chunkH, new_root_p1, new_root_p2, chunkI, new_app_phases_p1, new_app_phases_p2, new_app_phases_p3, chunkJ, native_target_p1, native_target_p2, native_target_p3, native_target_p4, anchor_native_target, chunkK, attrs_new_p1, attrs_new_p2, chunkL, targets_new_p1, targets_new_p2, chunkM, res_phase_p1, res_phase_p2, anchor_resources, chunkN, src_phase_p1, src_phase_p2, anchor_sources, chunkO, dep_entry_p1, dep_entry_p2, anchor_dependency, chunkP, cfg_debug_p1, cfg_debug_p2, cfg_debug_p3, cfg_debug_p4, cfg_debug_p5, cfg_release_p1, cfg_release_p2, cfg_release_p3, cfg_release_p4, cfg_release_p5, anchor_xcbuild_config, chunkQ, cfg_list_p1, cfg_list_p2, anchor_config_list, chunkR]) :=
  ⟨cat [chunkA, build_file_entry, anchor_build_file, chunkB], cat [anchor_proxy, chunkC, copy_phase_p1, copy_phase_p2, copy_phase_p3, anchor_begin_file_ref, chunkD, file_ref, anchor_file_ref, chunkE, sync_group_p1, sync_group_p2, anchor_sync_group, chunkF, fw_phase_p1, fw_phase_p2, anchor_frameworks, chunkG, new_products_p1, new_products_p2, chunkH, new_root_p1, new_root_p2, chunkI, new_app_phases_p1, new_app_phases_p2, new_app_phases_p3, chunkJ, native_target_p1, native_target_p2, native_target_p3, native_target_p4, anchor_native_target, chunkK, attrs_new_p1, attrs_new_p2, chunkL, targets_new_p1, targets_new_p2, chunkM, res_phase_p1, res_phase_p2, anchor_resources, chunkN, src_phase_p1, src_phase_p2, anchor_sources, chunkO, dep_entry_p1, dep_entry_p2, anchor_dependency, chunkP, cfg_debug_p1, cfg_debug_p2, cfg_debug_p3, cfg_debug_p4, cfg_debug_p5, cfg_release_p1, cfg_release_p2, cfg_release_p3, cfg_release_p4, cfg_release_p5, anchor_xcbuild_config, chunkQ, cfg_list_p1, cfg_list_p2, anchor_config_list, chunkR],
    by simp [cat_cons, cat_nil, List.append_nil, List.append_assoc, proxy_entry]⟩

theorem cnt_fin_blk_proxy_entry : countOcc proxy_entry (cat [chunkA, build_file_entry, anchor_build_file, chunkB, proxy_entry_p1, proxy_entry_p2, anchor_proxy, chunkC, copy_phase_p1, copy_phase_p2, copy_phase_p3, anchor_begin_file_ref, chunkD, file_ref, anchor_file_ref, chunkE, sync_group_p1, sync_group_p2, anchor_sync_group, chunkF, fw_phase_p1, fw_phase_p2, anchor_frameworks, chunkG, new_products_p1, new_products_p2, chunkH, new_root_p1, new_root_p2, chunkI, new_app_phases_p1, new_app_phases_p2, new_app_phases_p3, chunkJ, native_target_p1, native_target_p2, native_target_p3, native_target_p4, anchor_native_target, chunkK, attrs_new_p1, attrs_new_p2, chunkL, targets_new_p1, targets_new_p2, chunkM, res_phase_p1, res_phase_p2, anchor_resources, chunkN, src_phase_p1, src_phase_p2, anchor_sources, chunkO, dep_entry_p1, dep_entry_p2, anchor_dependency, chunkP, cfg_debug_p1, cfg_debug_p2, cfg_debug_p3, cfg_debug_p4, cfg_debug_p5, cfg_release_p1, cfg_release_p2, cfg_release_p3, cfg_release_p4, cfg_release_p5, anchor_xcbuild_config, chunkQ, cfg_list_p1, cfg_list_p2, anchor_config_list, chunkR]) = 1 := by
  have h1 : countOcc (proxy_entry_p1 ++ (proxy_entry_p2)) (cat [chunkA, build_file_entry, anchor_build_file, chunkB, proxy_entry_p1, proxy_entry_p2, anchor_proxy, chunkC, copy_phase_p1, copy_phase_p2, copy_phase_p3, anchor_begin_file_ref, chunkD, file_ref, anchor_file_ref, chunkE, sync_group_p1, sync_group_p2, anchor_sync_group, chunkF, fw_phase_p1, fw_phase_p2, anchor_frameworks, chunkG, new_products_p1, new_products_p2, chunkH, new_root_p1, new_root_p2, chunkI, new_app_phases_p1, new_app_phases_p2, new_app_phases_p3, chunkJ, native_target_p1, native_target_p2, native_target_p3, native_target_p4, anchor_native_target, chunkK, attrs_new_p1, attrs_new_p2, chunkL, targets_new_p1, targets_new_p2, chunkM, res_phase_p1, res_phase_p2, anchor_resources, chunkN, src_phase_p1, src_phase_p2, anchor_sources, chunkO, dep_entry_p1, dep_entry_p2, anchor_dependency, chunkP, cfg_debug_p1, cfg_debug_p2, cfg_debug_p3, cfg_debug_p4, cfg_debug_p5, cfg_release_p1, cfg_release_p2, cfg_release_p3, cfg_release_p4, cfg_release_p5, anchor_xcbuild_config, chunkQ, cfg_list_p1, cfg_list_p2, anchor_config_list, chunkR]) ≤
      countOcc proxy_entry_p1 (cat [chunkA, build_file_entry, anchor_build_file, chunkB, proxy_entry_p1, proxy_entry_p2, anchor_proxy, chunkC, copy_phase_p1, copy_phase_p2, copy_phase_p3, anchor_begin_file_ref, chunkD, file_ref, anchor_file_ref, chunkE, sync_group_p1, sync_group_p2, anchor_sync_group, chunkF, fw_phase_p1, fw_phase_p2, anchor_frameworks, chunkG, new_products_p1, new_products_p2, chunkH, new_root_p1, new_root_p2, chunkI, new_app_phases_p1, new_app_phases_p2, new_app_phases_p3, chunkJ, native_target_p1, native_target_p2, native_target_p3, native_target_p4, anchor_native_target, chunkK, attrs_new_p1, attrs_new_p2, chunkL, targets_new_p1, targets_new_p2, chunkM, res_phase_p1, res_phase_p2, anchor_resources, chunkN, src_phase_p1, src_phase_p2, anchor_sources, chunkO, dep_entry_p1, dep_entry_p2, anchor_dependency, chunkP, cfg_debug_p1, cfg_debug_p2, cfg_debug_p3, cfg_debug_p4, cfg_debug_p5, cfg_release_p1, cfg_release_p2, cfg_release_p3, cfg_release_p4, cfg_release_p5, anchor_xcbuild_config, chunkQ, cfg_list_p1, cfg_list_p2, anchor_config_list, chunkR]) := countOcc_append_le _ _ _
  rw [show proxy_entry_p1 ++ (proxy_entry_p2) = proxy_entry from by simp [proxy_entry, List.append_assoc]] at h1
  have h2 := countOcc_ne_zero_of_occ proxy_entry_ne occ_fin_proxy_entry
  have h3 := cnt_fin_proxy_entry_p1
  omega

theorem occ_fin_copy_phase : Occ (copy_phase) (cat [chunkA, build_file_entry, anchor_build_file, chunkB, proxy_entry_p1, proxy_entry_p2, anchor_proxy, chunkC, copy_phase_p1, copy_phase_p2, copy_phase_p3, anchor_begin_file_ref, chunkD, file_ref, anchor_file_ref, chunkE, sync_group_p1, sync_group_p2, anchor_sync_group, chunkF, fw_phase_p1, fw_phase_p2, anchor_frameworks, chunkG, new_products_p1, new_products_p2, chunkH, new_root_p1, new_root_p2, chunkI, new_app_phases_p1, new_app_phases_p2, new_app_phases_p3, chunkJ, native_target_p1, native_target_p2, native_target_p3, native_target_p4, anchor_native_target, chunkK, attrs_new_p1, attrs_new_p2, chunkL, targets_new_p1, targets_new_p2, chunkM, res_phase_p1, res_phase_p2, anchor_resources, chunkN, src_phase_p1, src_phase_p2, anchor_sources, chunkO, dep_entry_p1, dep_entry_p2, anchor_dependency, chunkP, cfg_debug_p1, cfg_debug_p2, cfg_debug_p3, cfg_debug_p4, cfg_debug_p5, cfg_release_p1, cfg_release_p2, cfg_release_p3, cfg_release_p4, cfg_release_p5, anchor_xcbuild_config, chunkQ, cfg_list_p1, cfg_list_p2, anchor_config_list, chunkR]) :=
  ⟨cat [chunkA, build_file_entry, anchor_build_file, chunkB, proxy_entry_p1, proxy_entry_p2, anchor_proxy, chunkC], cat [anchor_begin_file_ref, chunkD, file_ref, anchor_file_ref, chunkE, sync_group_p1, sync_group_p2, anchor_sync_group, chunkF, fw_phase_p1, fw_phase_p2, anchor_frameworks, chunkG, new_products_p1, new_products_p2, chunkH, new_root_p1, new_root_p2, chunkI, new_app_phases_p1, new_app_phases_p2, new_app_phases_p3, chunkJ, native_target_p1, native_target_p2, native_target_p3, native_target_p4, anchor_native_target, chunkK, attrs_new_p1, attrs_new_p2, chunkL, targets_new_p1, targets_new_p2, chunkM, res_phase_p1, res_phase_p2, anchor_resources, chunkN, src_phase_p1, src_phase_p2, anchor_sources, chunkO, dep_entry_p1, dep_entry_p2, anchor_dependency, chunkP, cfg_debug_p1, cfg_debug_p2, cfg_debug_p3, cfg_debug_p4, cfg_debug_p5, cfg_release_p1, cfg_release_p2, cfg_release_p3, cfg_release_p4, cfg_release_p5, anchor_xcbuild_config, chunkQ, cfg_list_p1, cfg_list_p2, anchor_config_list, chunkR],
    by simp [cat_cons, cat_nil, List.append_nil, List.append_assoc, copy_phase]⟩

theorem cnt_fin_blk_copy_phase : countOcc copy_phase (cat [chunkA, build_file_entry, anchor_build_file, chunkB, proxy_entry_p1, proxy_entry_p2, anchor_proxy, chunkC, copy_phase_p1, copy_phase_p2, copy_phase_p3, anchor_begin_file_ref, chunkD, file_ref, anchor_file_ref, chunkE, sync_group_p1, sync_group_p2, anchor_sync_group, chunkF, fw_phase_p1, fw_phase_p2, anchor_frameworks, chunkG, new_products_p1, new_products_p2, chunkH, new_root_p1, new_root_p2, chunkI, new_app_phases_p1, new_app_phases_p2, new_app_phases_p3, chunkJ, native_target_p1, native_target_p2, native_target_p3, native_target_p4, anchor_native_target, chunkK, attrs_new_p1, attrs_new_p2, chunkL, targets_new_p1, targets_new_p2, chunkM, res_phase_p1, res_phase_p2, anchor_resources, chunkN, src_phase_p1, src_phase_p2, anchor_sources, chunkO, dep_entry_p1, dep_entry_p2, anchor_dependency, chunkP, cfg_debug_p1, cfg_debug_p2, cfg_debug_p3, cfg_debug_p4, cfg_debug_p5, cfg_release_p1, cfg_release_p2, cfg_release_p3, cfg_release_p4, cfg_release_p5, anchor_xcbuild_config, chunkQ, cfg_list_p1, cfg_list_p2, anchor_config_list, chunkR]) = 1 := by
  have h1 : countOcc (copy_phase_p1 ++ (copy_phase_p2 ++ copy_phase_p3)) (cat [chunkA, build_file_entry, anchor_build_file, chunkB, proxy_entry_p1, proxy_entry_p2, anchor_proxy, chunkC, copy_phase_p1, copy_phase_p2, copy_phase_p3, anchor_begin_file_ref, chunkD, file_ref, anchor_file_ref, chunkE, sync_group_p1, sync_group_p2, anchor_sync_group, chunkF, fw_phase_p1, fw_phase_p2, anchor_frameworks, chunkG, new_products_p1, new_products_p2, chunkH, new_root_p1, new_root_p2, chunkI, new_app_phases_p1, new_app_phases_p2, new_app_phases_p3, chunkJ, native_target_p1, native_target_p2, native_target_p3, native_target_p4, anchor_native_target, chunkK, attrs_new_p1, attrs_new_p2, chunkL, targets_new_p1, targets_new_p2, chunkM, res_phase_p1, res_phase_p2, anchor_resources, chunkN, src_phase_p1, src_phase_p2, anchor_sources, chunkO, dep_entry_p1, dep_entry_p2, anchor_dependency, chunkP, cfg_debug_p1, cfg_debug_p2, cfg_debug_p3, cfg_debug_p4, cfg_debug_p5, cfg_release_p1, cfg_release_p2, cfg_release_p3, cfg_release_p4, cfg_release_p5, anchor_xcbuild_config, chunkQ, cfg_list_p1, cfg_list_p2, anchor_config_list, chunkR]) ≤
      countOcc copy_phase_p1 (cat [chunkA, build_file_entry, anchor_build_file, chunkB, proxy_entry_p1, proxy_entry_p2, anchor_proxy, chunkC, copy_phase_p1, copy_phase_p2, copy_phase_p3, anchor_begin_file_ref, chunkD, file_ref, anchor_file_ref, chunkE, sync_group_p1, sync_group_p2, anchor_sync_group, chunkF, fw_phase_p1, fw_phase_p2, anchor_frameworks, chunkG, new_products_p1, new_products_p2, chunkH, new_root_p1, new_root_p2, chunkI, new_app_phases_p1, new_app_phases_p2, new_app_phases_p3, chunkJ, native_target_p1, native_target_p2, native_target_p3, native_target_p4, anchor_native_target, chunkK, attrs_new_p1, attrs_new_p2, chunkL, targets_new_p1, targets_new_p2, chunkM, res_phase_p1, res_phase_p2, anchor_resources, chunkN, src_phase_p1, src_phase_p2, anchor_sources, chunkO, dep_entry_p1, dep_entry_p2, anchor_dependency, chunkP, cfg_debug_p1, cfg_debug_p2, cfg_debug_p3, cfg_debug_p4, cfg_debug_p5, cfg_release_p1, cfg_release_p2, cfg_release_p3, cfg_release_p4, cfg_release_p5, anchor_xcbuild_config, chunkQ, cfg_list_p1, cfg_list_p2, anchor_config_list, chunkR]) := countOcc_append_le _ _ _
  rw [show copy_phase_p1 ++ (copy_phase_p2 ++ copy_phase_p3) = copy_phase from by simp [copy_phase, List.append_assoc]] at h1
  have h2 := countOcc_ne_zero_of_occ copy_phase_ne occ_fin_copy_phase
  have h3 := cnt_fin_copy_phase_p1
  omega

theorem occ_fin_file_ref : Occ (file_ref) (cat [chunkA, build_file_entry, anchor_build_file, chunkB, proxy_entry_p1, proxy_entry_p2, anchor_proxy, chunkC, copy_phase_p1, copy_phase_p2, copy_phase_p3, anchor_begin_file_ref, chunkD, file_ref, anchor_file_ref, chunkE, sync_group_p1, sync_group_p2, anchor_sync_group, chunkF, fw_phase_p1, fw_phase_p2, anchor_frameworks, chunkG, new_products_p1, new_products_p2, chunkH, new_root_p1, new_root_p2, chunkI, new_app_phases_p1, new_app_phases_p2, new_app_phases_p3, chunkJ, native_target_p1, native_target_p2, native_target_p3, native_target_p4, anchor_native_target, chunkK, attrs_new_p1, attrs_new_p2, chunkL, targets_new_p1, targets_new_p2, chunkM, res_phase_p1, res_phase_p2, anchor_resources, chunkN, src_phase_p1, src_phase_p2, anchor_sources, chunkO, dep_entry_p1, dep_entry_p2, anchor_dependency, chunkP, cfg_debug_p1, cfg_debug_p2, cfg_debug_p3, cfg_debug_p4, cfg_debug_p5, cfg_release_p1, cfg_release_p2, cfg_release_p3, cfg_release_p4, cfg_release_p5, anchor_xcbuild_config, chunkQ, cfg_list_p1, cfg_list_p2, anchor_config_list, chunkR]) :=
  ⟨cat [chunkA, build_file_entry, anchor_build_file, chunkB, proxy_entry_p1, proxy_entry_p2, anchor_proxy, chunkC, copy_phase_p1, copy_phase_p2, copy_phase_p3, anchor_begin_file_ref, chunkD], cat [anchor_file_ref, chunkE, sync_group_p1, sync_group_p2, anchor_sync_group, chunkF, fw_phase_p1, fw_phase_p2, anchor_frameworks, chunkG, new_products_p1, new_products_p2, chunkH, new_root_p1, new_root_p2, chunkI, new_app_phases_p1, new_app_phases_p2, new_app_phases_p3, chunkJ, native_target_p1, native_target_p2, native_target_p3, native_target_p4, anchor_native_target, chunkK, attrs_new_p1, attrs_new_p2, chunkL, targets_new_p1, targets_new_p2, chunkM, res_phase_p1, res_phase_p2, anchor_resources, chunkN, src_phase_p1, src_phase_p2, anchor_sources, chunkO, dep_entry_p1, dep_entry_p2, anchor_dependency, chunkP, cfg_debug_p1, cfg_debug_p2, cfg_debug_p3, cfg_debug_p4, cfg_debug_p5, cfg_release_p1, cfg_release_p2, cfg_release_p3, cfg_release_p4, cfg_release_p5, anchor_xcbuild_config, chunkQ, cfg_list_p1, cfg_list_p2, anchor_config_list, chunkR],
    by simp [cat_cons, cat_nil, List.append_nil, List.append_assoc]⟩

theorem cnt_fin_blk_file_ref : countOcc file_ref (cat [chunkA, build_file_entry, anchor_build_file, chunkB, proxy_entry_p1, proxy_entry_p2, anchor_proxy, chunkC, copy_phase_p1, copy_phase_p2, copy_phase_p3, anchor_begin_file_ref, chunkD, file_ref, anchor_file_ref, chunkE, sync_group_p1, sync_group_p2, anchor_sync_group, chunkF, fw_phase_p1, fw_phase_p2, anchor_frameworks, chunkG, new_products_p1, new_products_p2, chunkH, new_root_p1, new_root_p2, chunkI, new_app_phases_p1, new_app_phases_p2, new_app_phases_p3, chunkJ, native_target_p1, native_target_p2, native_target_p3, native_target_p4, anchor_native_target, chunkK, attrs_new_p1, attrs_new_p2, chunkL, targets_new_p1, targets_new_p2, chunkM, res_phase_p1, res_phase_p2, anchor_resources, chunkN, src_phase_p1, src_phase_p2, anchor_sources, chunkO, dep_entry_p1, dep_entry_p2, anchor_dependency, chunkP, cfg_debug_p1, cfg_debug_p2, cfg_debug_p3, cfg_debug_p4, cfg_debug_p5, cfg_release_p1, cfg_release_p2, cfg_release_p3, cfg_release_p4, cfg_release_p5, anchor_xcbuild_config, chunkQ, cfg_list_p1, cfg_list_p2, anchor_config_list, chunkR]) = 1 :=
  cnt_fin_file_ref

theorem occ_fin_sync_group : Occ (sync_group) (cat [chunkA, build_file_entry, anchor_build_file, chunkB, proxy_entry_p1, proxy_entry_p2, anchor_proxy, chunkC, copy_phase_p1, copy_phase_p2, copy_phase_p3, anchor_begin_file_ref, chunkD, file_ref, anchor_file_ref, chunkE, sync_group_p1, sync_group_p2, anchor_sync_group, chunkF, fw_phase_p1, fw_phase_p2, anchor_frameworks, chunkG, new_products_p1, new_products_p2, chunkH, new_root_p1, new_root_p2, chunkI, new_app_phases_p1, new_app_phases_p2, new_app_phases_p3, chunkJ, native_target_p1, native_target_p2, native_target_p3, native_target_p4, anchor_native_target, chunkK, attrs_new_p1, attrs_new_p2, chunkL, targets_new_p1, targets_new_p2, chunkM, res_phase_p1, res_phase_p2, anchor_resources, chunkN, src_phase_p1, src_phase_p2, anchor_sources, chunkO, dep_entry_p1, dep_entry_p2, anchor_dependency, chunkP, cfg_debug_p1, cfg_debug_p2, cfg_debug_p3, cfg_debug_p4, cfg_debug_p5, cfg_release_p1, cfg_release_p2, cfg_release_p3, cfg_release_p4, cfg_release_p5, anchor_xcbuild_config, chunkQ, cfg_list_p1, cfg_list_p2, anchor_config_list, chunkR]) :=
  ⟨cat [chunkA, build_file_entry, anchor_build_file, chunkB, proxy_entry_p1, proxy_entry_p2, anchor_proxy, chunkC, copy_phase_p1, copy_phase_p2, copy_phase_p3, anchor_begin_file_ref, chunkD, file_ref, anchor_file_ref, chunkE], cat [anchor_sync_group, chunkF, fw_phase_p1, fw_phase_p2, anchor_frameworks, chunkG, new_products_p1, new_products_p2, chunkH, new_root_p1, new_root_p2, chunkI, new_app_phases_p1, new_app_phases_p2, new_app_phases_p3, chunkJ, native_target_p1, native_target_p2, native_target_p3, native_target_p4, anchor_native_target, chunkK, attrs_new_p1, attrs_new_p2, chunkL, targets_new_p1, targets_new_p2, chunkM, res_phase_p1, res_phase_p2, anchor_resources, chunkN, src_phase_p1, src_phase_p2, anchor_sources, chunkO, dep_entry_p1, dep_entry_p2, anchor_dependency, chunkP, cfg_debug_p1, cfg_debug_p2, cfg_debug_p3, cfg_debug_p4, cfg_debug_p5, cfg_release_p1, cfg_release_p2, cfg_release_p3, cfg_release_p4, cfg_release_p5, anchor_xcbuild_config, chunkQ, cfg_list_p1, cfg_list_p2, anchor_config_list, chunkR],
    by simp [cat_cons, cat_nil, List.append_nil, List.append_assoc, sync_group]⟩

theorem cnt_fin_blk_sync_group : countOcc sync_group (cat [chunkA, build_file_entry, anchor_build_file, chunkB, proxy_entry_p1, proxy_entry_p2, anchor_proxy, chunkC, copy_phase_p1, copy_phase_p2, copy_phase_p3, anchor_begin_file_ref, chunkD, file_ref, anchor_file_ref, chunkE, sync_group_p1, sync_group_p2, anchor_sync_group, chunkF, fw_phase_p1, fw_phase_p2, anchor_frameworks, chunkG, new_products_p1, new_products_p2, chunkH, new_root_p1, new_root_p2, chunkI, new_app_phases_p1, new_app_phases_p2, new_app_phases_p3, chunkJ, native_target_p1, native_target_p2, native_target_p3, native_target_p4, anchor_native_target, chunkK, attrs_new_p1, attrs_new_p2, chunkL, targets_new_p1, targets_new_p2, chunkM, res_phase_p1, res_phase_p2, anchor_resources, chunkN, src_phase_p1, src_phase_p2, anchor_sources, chunkO, dep_entry_p1, dep_entry_p2, anchor_dependency, chunkP, cfg_debug_p1, cfg_debug_p2, cfg_debug_p3, cfg_debug_p4, cfg_debug_p5, cfg_release_p1, cfg_release_p2, cfg_release_p3, cfg_release_p4, cfg_release_p5, anchor_xcbuild_config, chunkQ, cfg_list_p1, cfg_list_p2, anchor_config_list, chunkR]) = 1 := by
  have h1 : countOcc (sync_group_p1 ++ (sync_group_p2)) (cat [chunkA, build_file_entry, anchor_build_file, chunkB, proxy_entry_p1, proxy_entry_p2, anchor_proxy, chunkC, copy_phase_p1, copy_phase_p2, copy_phase_p3, anchor_begin_file_ref, chunkD, file_ref, anchor_file_ref, chunkE, sync_group_p1, sync_group_p2, anchor_sync_group, chunkF, fw_phase_p1, fw_phase_p2, anchor_frameworks, chunkG, new_products_p1, new_products_p2, chunkH, new_root_p1, new_root_p2, chunkI, new_app_phases_p1, new_app_phases_p2, new_app_phases_p3, chunkJ, native_target_p1, native_target_p2, native_target_p3, native_target_p4, anchor_native_target, chunkK, attrs_new_p1, attrs_new_p2, chunkL, targets_new_p1, targets_new_p2, chunkM, res_phase_p1, res_phase_p2, anchor_resources, chunkN, src_phase_p1, src_phase_p2, anchor_sources, chunkO, dep_entry_p1, dep_entry_p2, anchor_dependency, chunkP, cfg_debug_p1, cfg_debug_p2, cfg_debug_p3, cfg_debug_p4, cfg_debug_p5, cfg_release_p1, cfg_release_p2, cfg_release_p3, cfg_release_p4, cfg_release_p5, anchor_xcbuild_config, chunkQ, cfg_list_p1, cfg_list_p2, anchor_config_list, chunkR]) ≤
      countOcc sync_group_p1 (cat [chunkA, build_file_entry, anchor_build_file, chunkB, proxy_entry_p1, proxy_entry_p2, anchor_proxy, chunkC, copy_phase_p1, copy_phase_p2, copy_phase_p3, anchor_begin_file_ref, chunkD, file_ref, anchor_file_ref, chunkE, sync_group_p1, sync_group_p2, anchor_sync_group, chunkF, fw_phase_p1, fw_phase_p2, anchor_frameworks, chunkG, new_products_p1, new_products_p2, chunkH, new_root_p1, new_root_p2, chunkI, new_app_phases_p1, new_app_phases_p2, new_app_phases_p3, chunkJ, native_target_p1, native_target_p2, native_target_p3, native_target_p4, anchor_native_target, chunkK, attrs_new_p1, attrs_new_p2, chunkL, targets_new_p1, targets_new_p2, chunkM, res_phase_p1, res_phase_p2, anchor_resources, chunkN, src_phase_p1, src_phase_p2, anchor_sources, chunkO, dep_entry_p1, dep_entry_p2, anchor_dependency, chunkP, cfg_debug_p1, cfg_debug_p2, cfg_debug_p3, cfg_debug_p4, cfg_debug_p5, cfg_release_p1, cfg_release_p2, cfg_release_p3, cfg_release_p4, cfg_release_p5, anchor_xcbuild_config, chunkQ, cfg_list_p1, cfg_list_p2, anchor_config_list, chunkR]) := countOcc_append_le _ _ _
  rw [show sync_group_p1 ++ (sync_group_p2) = sync_group from by simp [sync_group, List.append_assoc]] at h1
  have h2 := countOcc_ne_zero_of_occ sync_group_ne occ_fin_sync_group
  have h3 := cnt_fin_sync_group_p1
  omega

theorem occ_fin_fw_phase : Occ (fw_phase) (cat [chunkA, build_file_entry, anchor_build_file, chunkB, proxy_entry_p1, proxy_entry_p2, anchor_proxy, chunkC, copy_phase_p1, copy_phase_p2, copy_phase_p3, anchor_begin_file_ref, chunkD, file_ref, anchor_file_ref, chunkE, sync_group_p1, sync_group_p2, anchor_sync_group, chunkF, fw_phase_p1, fw_phase_p2, anchor_frameworks, chunkG, new_products_p1, new_products_p2, chunkH, new_root_p1, new_root_p2, chunkI, new_app_phases_p1, new_app_phases_p2, new_app_phases_p3, chunkJ, native_target_p1, native_target_p2, native_target_p3, native_target_p4, anchor_native_target, chunkK, attrs_new_p1, attrs_new_p2, chunkL, targets_new_p1, targets_new_p2, chunkM, res_phase_p1, res_phase_p2, anchor_resources, chunkN, src_phase_p1, src_phase_p2, anchor_sources, chunkO, dep_entry_p1, dep_entry_p2, anchor_dependency, chunkP, cfg_debug_p1, cfg_debug_p2, cfg_debug_p3, cfg_debug_p4, cfg_debug_p5, cfg_release_p1, cfg_release_p2, cfg_release_p3, cfg_release_p4, cfg_release_p5, anchor_xcbuild_config, chunkQ, cfg_list_p1, cfg_list_p2, anchor_config_list, chunkR]) :=
  ⟨cat [chunkA, build_file_entry, anchor_build_file, chunkB, proxy_entry_p1, proxy_entry_p2, anchor_proxy, chunkC, copy_phase_p1, copy_phase_p2, copy_phase_p3, anchor_begin_file_ref, chunkD, file_ref, anchor_file_ref, chunkE, sync_group_p1, sync_group_p2, anchor_sync_group, chunkF], cat [anchor_frameworks, chunkG, new_products_p1, new_products_p2, chunkH, new_root_p1, new_root_p2, chunkI, new_app_phases_p1, new_app_phases_p2, new_app_phases_p3, chunkJ, native_target_p1, native_target_p2, native_target_p3, native_target_p4, anchor_native_target, chunkK, attrs_new_p1, attrs_new_p2, chunkL, targets_new_p1, targets_new_p2, chunkM, res_phase_p1, res_phase_p2, anchor_resources, chunkN, src_phase_p1, src_phase_p2, anchor_sources, chunkO, dep_entry_p1, dep_entry_p2, anchor_dependency, chunkP, cfg_debug_p1, cfg_debug_p2, cfg_debug_p3, cfg_debug_p4, cfg_debug_p5, cfg_release_p1, cfg_release_p2, cfg_release_p3, cfg_release_p4, cfg_release_p5, anchor_xcbuild_config, chunkQ, cfg_list_p1, cfg_list_p2, anchor_config_list, chunkR],
    by simp [cat_cons, cat_nil, List.append_nil, List.append_assoc, fw_phase]⟩

theorem cnt_fin_blk_fw_phase : countOcc fw_phase (cat [chunkA, build_file_entry, anchor_build_file, chunkB, proxy_entry_p1, proxy_entry_p2, anchor_proxy, chunkC, copy_phase_p1, copy_phase_p2, copy_phase_p3, anchor_begin_file_ref, chunkD, file_ref, anchor_file_ref, chunkE, sync_group_p1, sync_group_p2, anchor_sync_group, chunkF, fw_phase_p1, fw_phase_p2, anchor_frameworks, chunkG, new_products_p1, new_products_p2, chunkH, new_root_p1, new_root_p2, chunkI, new_app_phases_p1, new_app_phases_p2, new_app_phases_p3, chunkJ, native_target_p1, native_target_p2, native_target_p3, native_target_p4, anchor_native_target, chunkK, attrs_new_p1, attrs_new_p2, chunkL, targets_new_p1, targets_new_p2, chunkM, res_phase_p1, res_phase_p2, anchor_resources, chunkN, src_phase_p1, src_phase_p2, anchor_sources, chunkO, dep_entry_p1, dep_entry_p2, anchor_dependency, chunkP, cfg_debug_p1, cfg_debug_p2, cfg_debug_p3, cfg_debug_p4, cfg_debug_p5, cfg_release_p1, cfg_release_p2, cfg_release_p3, cfg_release_p4, cfg_release_p5, anchor_xcbuild_config, chunkQ, cfg_list_p1, cfg_list_p2, anchor_config_list, chunkR]) = 1 := by
  have h1 : countOcc (fw_phase_p1 ++ (fw_phase_p2)) (cat [chunkA, build_file_entry, anchor_build_file, chunkB, proxy_entry_p1, proxy_entry_p2, anchor_proxy, chunkC, copy_phase_p1, copy_phase_p2, copy_phase_p3, anchor_begin_file_ref, chunkD, file_ref, anchor_file_ref, chunkE, sync_group_p1, sync_group_p2, anchor_sync_group, chunkF, fw_phase_p1, fw_phase_p2, anchor_frameworks, chunkG, new_products_p1, new_products_p2, chunkH, new_root_p1, new_root_p2, chunkI, new_app_phases_p1, new_app_phases_p2, new_app_phases_p3, chunkJ, native_target_p1, native_target_p2, native_target_p3, native_target_p4, anchor_native_target, chunkK, attrs_new_p1, attrs_new_p2, chunkL, targets_new_p1, targets_new_p2, chunkM, res_phase_p1, res_phase_p2, anchor_resources, chunkN, src_phase_p1, src_phase_p2, anchor_sources, chunkO, dep_entry_p1, dep_entry_p2, anchor_dependency, chunkP, cfg_debug_p1, cfg_debug_p2, cfg_debug_p3, cfg_debug_p4, cfg_debug_p5, cfg_release_p1, cfg_release_p2, cfg_release_p3, cfg_release_p4, cfg_release_p5, anchor_xcbuild_config, chunkQ, cfg_list_p1, cfg_list_p2, anchor_config_list, chunkR]) ≤
      countOcc fw_phase_p1 (cat [chunkA, build_file_entry, anchor_build_file, chunkB, proxy_entry_p1, proxy_entry_p2, anchor_proxy, chunkC, copy_phase_p1, copy_phase_p2, copy_phase_p3, anchor_begin_file_ref, chunkD, file_ref, anchor_file_ref, chunkE, sync_group_p1, sync_group_p2, anchor_sync_group, chunkF, fw_phase_p1, fw_phase_p2, anchor_frameworks, chunkG, new_products_p1, new_products_p2, chunkH, new_root_p1, new_root_p2, chunkI, new_app_phases_p1, new_app_phases_p2, new_app_phases_p3, chunkJ, native_target_p1, native_target_p2, native_target_p3, native_target_p4, anchor_native_target, chunkK, attrs_new_p1, attrs_new_p2, chunkL, targets_new_p1, targets_new_p2, chunkM, res_phase_p1, res_phase_p2, anchor_resources, chunkN, src_phase_p1, src_phase_p2, anchor_sources, chunkO, dep_entry_p1, dep_entry_p2, anchor_dependency, chunkP, cfg_debug_p1, cfg_debug_p2, cfg_debug_p3, cfg_debug_p4, cfg_debug_p5, cfg_release_p1, cfg_release_p2, cfg_release_p3, cfg_release_p4, cfg_release_p5, anchor_xcbuild_config, chunkQ, cfg_list_p1, cfg_list_p2, anchor_config_list, chunkR]) := countOcc_append_le _ _ _
  rw [show fw_phase_p1 ++ (fw_phase_p2) = fw_phase from by simp [fw_phase, List.append_assoc]] at h1
  have h2 := countOcc_ne_zero_of_occ fw_phase_ne occ_fin_fw_phase
  have h3 := cnt_fin_fw_phase_p1
  omega

theorem occ_fin_native_target : Occ (native_target) (cat [chunkA, build_file_entry, anchor_build_file, chunkB, proxy_entry_p1, proxy_entry_p2, anchor_proxy, chunkC, copy_phase_p1, copy_phase_p2, copy_phase_p3, anchor_begin_file_ref, chunkD, file_ref, anchor_file_ref, chunkE, sync_group_p1, sync_group_p2, anchor_sync_group, chunkF, fw_phase_p1, fw_phase_p2, anchor_frameworks, chunkG, new_products_p1, new_products_p2, chunkH, new_root_p1, new_root_p2, chunkI, new_app_phases_p1, new_app_phases_p2, new_app_phases_p3, chunkJ, native_target_p1, native_target_p2, native_target_p3, native_target_p4, anchor_native_target, chunkK, attrs_new_p1, attrs_new_p2, chunkL, targets_new_p1, targets_new_p2, chunkM, res_phase_p1, res_phase_p2, anchor_resources, chunkN, src_phase_p1, src_phase_p2, anchor_sources, chunkO, dep_entry_p1, dep_entry_p2, anchor_dependency, chunkP, cfg_debug_p1, cfg_debug_p2, cfg_debug_p3, cfg_debug_p4, cfg_debug_p5, cfg_release_p1, cfg_release_p2, cfg_release_p3, cfg_release_p4, cfg_release_p5, anchor_xcbuild_config, chunkQ, cfg_list_p1, cfg_list_p2, anchor_config_list, chunkR]) :=
  ⟨cat [chunkA, build_file_entry, anchor_build_file, chunkB, proxy_entry_p1, proxy_entry_p2, anchor_proxy, chunkC, copy_phase_p1, copy_phase_p2, copy_phase_p3, anchor_begin_file_ref, chunkD, file_ref, anchor_file_ref, chunkE, sync_group_p1, sync_group_p2, anchor_sync_group, chunkF, fw_phase_p1, fw_phase_p2, anchor_frameworks, chunkG, new_products_p1, new_products_p2, chunkH, new_root_p1, new_root_p2, chunkI, new_app_phases_p1, new_app_phases_p2, new_app_phases_p3, chunkJ], cat [anchor_native_target, chunkK, attrs_new_p1, attrs_new_p2, chunkL, targets_new_p1, targets_new_p2, chunkM, res_phase_p1, res_phase_p2, anchor_resources, chunkN, src_phase_p1, src_phase_p2, anchor_sources, chunkO, dep_entry_p1, dep_entry_p2, anchor_dependency, chunkP, cfg_debug_p1, cfg_debug_p2, cfg_debug_p3, cfg_debug_p4, cfg_debug_p5, cfg_release_p1, cfg_release_p2, cfg_release_p3, cfg_release_p4, cfg_release_p5, anchor_xcbuild_config, chunkQ, cfg_list_p1, cfg_list_p2, anchor_config_list, chunkR],
    by simp [cat_cons, cat_nil, List.append_nil, List.append_assoc, native_target]⟩

theorem cnt_fin_blk_native_target : countOcc native_target (cat [chunkA, build_file_entry, anchor_build_file, chunkB, proxy_entry_p1, proxy_entry_p2, anchor_proxy, chunkC, copy_phase_p1, copy_phase_p2, copy_phase_p3, anchor_begin_file_ref, chunkD, file_ref, anchor_file_ref, chunkE, sync_group_p1, sync_group_p2, anchor_sync_group, chunkF, fw_phase_p1, fw_phase_p2, anchor_frameworks, chunkG, new_products_p1, new_products_p2, chunkH, new_root_p1, new_root_p2, chunkI, new_app_phases_p1, new_app_phases_p2, new_app_phases_p3, chunkJ, native_target_p1, native_target_p2, native_target_p3, native_target_p4, anchor_native_target, chunkK, attrs_new_p1, attrs_new_p2, chunkL, targets_new_p1, targets_new_p2, chunkM, res_phase_p1, res_phase_p2, anchor_resources, chunkN, src_phase_p1, src_phase_p2, anchor_sources, chunkO, dep_entry_p1, dep_entry_p2, anchor_dependency, chunkP, cfg_debug_p1, cfg_debug_p2, cfg_debug_p3, cfg_debug_p4, cfg_debug_p5, cfg_release_p1, cfg_release_p2, cfg_release_p3, cfg_release_p4, cfg_release_p5, anchor_xcbuild_config, chunkQ, cfg_list_p1, cfg_list_p2, anchor_config_list, chunkR]) = 1 := by
  have h1 : countOcc (native_target_p1 ++ (native_target_p2 ++ native_target_p3 ++ native_target_p4)) (cat [chunkA, build_file_entry, anchor_build_file, chunkB, proxy_entry_p1, proxy_entry_p2, anchor_proxy, chunkC, copy_phase_p1, copy_phase_p2, copy_phase_p3, anchor_begin_file_ref, chunkD, file_ref, anchor_file_ref, chunkE, sync_group_p1, sync_group_p2, anchor_sync_group, chunkF, fw_phase_p1, fw_phase_p2, anchor_frameworks, chunkG, new_products_p1, new_products_p2, chunkH, new_root_p1, new_root_p2, chunkI, new_app_phases_p1, new_app_phases_p2, new_app_phases_p3, chunkJ, native_target_p1, native_target_p2, native_target_p3, native_target_p4, anchor_native_target, chunkK, attrs_new_p1, attrs_new_p2, chunkL, targets_new_p1, targets_new_p2, chunkM, res_phase_p1, res_phase_p2, anchor_resources, chunkN, src_phase_p1, src_phase_p2, anchor_sources, chunkO, dep_entry_p1, dep_entry_p2, anchor_dependency, chunkP, cfg_debug_p1, cfg_debug_p2, cfg_debug_p3, cfg_debug_p4, cfg_debug_p5, cfg_release_p1, cfg_release_p2, cfg_release_p3, cfg_release_p4, cfg_release_p5, anchor_xcbuild_config, chunkQ, cfg_list_p1, cfg_list_p2, anchor_config_list, chunkR]) ≤
      countOcc native_target_p1 (cat [chunkA, build_file_entry, anchor_build_file, chunkB, proxy_entry_p1, proxy_entry_p2, anchor_proxy, chunkC, copy_phase_p1, copy_phase_p2, copy_phase_p3, anchor_begin_file_ref, chunkD, file_ref, anchor_file_ref, chunkE, sync_group_p1, sync_group_p2, anchor_sync_group, chunkF, fw_phase_p1, fw_phase_p2, anchor_frameworks, chunkG, new_products_p1, new_products_p2, chunkH, new_root_p1, new_root_p2, chunkI, new_app_phases_p1, new_app_phases_p2, new_app_phases_p3, chunkJ, native_target_p1, native_target_p2, native_target_p3, native_target_p4, anchor_native_target, chunkK, attrs_new_p1, attrs_new_p2, chunkL, targets_new_p1, targets_new_p2, chunkM, res_phase_p1, res_phase_p2, anchor_resources, chunkN, src_phase_p1, src_phase_p2, anchor_sources, chunkO, dep_entry_p1, dep_entry_p2, anchor_dependency, chunkP, cfg_debug_p1, cfg_debug_p2, cfg_debug_p3, cfg_debug_p4, cfg_debug_p5, cfg_release_p1, cfg_release_p2, cfg_release_p3, cfg_release_p4, cfg_release_p5, anchor_xcbuild_config, chunkQ, cfg_list_p1, cfg_list_p2, anchor_config_list, chunkR]) := countOcc_append_le _ _ _
  rw [show native_target_p1 ++ (native_target_p2 ++ native_target_p3 ++ native_target_p4) = native_target from by simp [native_target, List.append_assoc]] at h1
  have h2 := countOcc_ne_zero_of_occ native_target_ne occ_fin_native_target
  have h3 := cnt_fin_native_target_p1
  omega

theorem occ_fin_res_phase : Occ (res_phase) (cat [chunkA, build_file_entry, anchor_build_file, chunkB, proxy_entry_p1, proxy_entry_p2, anchor_proxy, chunkC, copy_phase_p1, copy_phase_p2, copy_phase_p3, anchor_begin_file_ref, chunkD, file_ref, anchor_file_ref, chunkE, sync_group_p1, sync_group_p2, anchor_sync_group, chunkF, fw_phase_p1, fw_phase_p2, anchor_frameworks, chunkG, new_products_p1, new_products_p2, chunkH, new_root_p1, new_root_p2, chunkI, new_app_phases_p1, new_app_phases_p2, new_app_phases_p3, chunkJ, native_target_p1, native_target_p2, native_target_p3, native_target_p4, anchor_native_target, chunkK, attrs_new_p1, attrs_new_p2, chunkL, targets_new_p1, targets_new_p2, chunkM, res_phase_p1, res_phase_p2, anchor_resources, chunkN, src_phase_p1, src_phase_p2, anchor_sources, chunkO, dep_entry_p1, dep_entry_p2, anchor_dependency, chunkP, cfg_debug_p1, cfg_debug_p2, cfg_debug_p3, cfg_debug_p4, cfg_debug_p5, cfg_release_p1, cfg_release_p2, cfg_release_p3, cfg_release_p4, cfg_release_p5, anchor_xcbuild_config, chunkQ, cfg_list_p1, cfg_list_p2, anchor_config_list, chunkR]) :=
  ⟨cat [chunkA, build_file_entry, anchor_build_file, chunkB, proxy_entry_p1, proxy_entry_p2, anchor_proxy, chunkC, copy_phase_p1, copy_phase_p2, copy_phase_p3, anchor_begin_file_ref, chunkD, file_ref, anchor_file_ref, chunkE, sync_group_p1, sync_group_p2, anchor_sync_group, chunkF, fw_phase_p1, fw_phase_p2, anchor_frameworks, chunkG, new_products_p1, new_products_p2, chunkH, new_root_p1, new_root_p2, chunkI, new_app_phases_p1, new_app_phases_p2, new_app_phases_p3, chunkJ, native_target_p1, native_target_p2, native_target_p3, native_target_p4, anchor_native_target, chunkK, attrs_new_p1, attrs_new_p2, chunkL, targets_new_p1, targets_new_p2, chunkM], cat [anchor_resources, chunkN, src_phase_p1, src_phase_p2, anchor_sources, chunkO, dep_entry_p1, dep_entry_p2, anchor_dependency, chunkP, cfg_debug_p1, cfg_debug_p2, cfg_debug_p3, cfg_debug_p4, cfg_debug_p5, cfg_release_p1, cfg_release_p2, cfg_release_p3, cfg_release_p4, cfg_release_p5, anchor_xcbuild_config, chunkQ, cfg_list_p1, cfg_list_p2, anchor_config_list, chunkR],
    by simp [cat_cons, cat_nil, List.append_nil, List.append_assoc, res_phase]⟩

theorem cnt_fin_blk_res_phase : countOcc res_phase (cat [chunkA, build_file_entry, anchor_build_file, chunkB, proxy_entry_p1, proxy_entry_p2, anchor_proxy, chunkC, copy_phase_p1, copy_phase_p2, copy_phase_p3, anchor_begin_file_ref, chunkD, file_ref, anchor_file_ref, chunkE, sync_group_p1, sync_group_p2, anchor_sync_group, chunkF, fw_phase_p1, fw_phase_p2, anchor_frameworks, chunkG, new_products_p1, new_products_p2, chunkH, new_root_p1, new_root_p2, chunkI, new_app_phases_p1, new_app_phases_p2, new_app_phases_p3, chunkJ, native_target_p1, native_target_p2, native_target_p3, native_target_p4, anchor_native_target, chunkK, attrs_new_p1, attrs_new_p2, chunkL, targets_new_p1, targets_new_p2, chunkM, res_phase_p1, res_phase_p2, anchor_resources, chunkN, src_phase_p1, src_phase_p2, anchor_sources, chunkO, dep_entry_p1, dep_entry_p2, anchor_dependency, chunkP, cfg_debug_p1, cfg_debug_p2, cfg_debug_p3, cfg_debug_p4, cfg_debug_p5, cfg_release_p1, cfg_release_p2, cfg_release_p3, cfg_release_p4, cfg_release_p5, anchor_xcbuild_config, chunkQ, cfg_list_p1, cfg_list_p2, anchor_config_list, chunkR]) = 1 := by
  have h1 : countOcc (res_phase_p1 ++ (res_phase_p2)) (cat [chunkA, build_file_entry, anchor_build_file, chunkB, proxy_entry_p1, proxy_entry_p2, anchor_proxy, chunkC, copy_phase_p1, copy_phase_p2, copy_phase_p3, anchor_begin_file_ref, chunkD, file_ref, anchor_file_ref, chunkE, sync_group_p1, sync_group_p2, anchor_sync_group, chunkF, fw_phase_p1, fw_phase_p2, anchor_frameworks, chunkG, new_products_p1, new_products_p2, chunkH, new_root_p1, new_root_p2, chunkI, new_app_phases_p1, new_app_phases_p2, new_app_phases_p3, chunkJ, native_target_p1, native_target_p2, native_target_p3, native_target_p4, anchor_native_target, chunkK, attrs_new_p1, attrs_new_p2, chunkL, targets_new_p1, targets_new_p2, chunkM, res_phase_p1, res_phase_p2, anchor_resources, chunkN, src_phase_p1, src_phase_p2, anchor_sources, chunkO, dep_entry_p1, dep_entry_p2, anchor_dependency, chunkP, cfg_debug_p1, cfg_debug_p2, cfg_debug_p3, cfg_debug_p4, cfg_debug_p5, cfg_release_p1, cfg_release_p2, cfg_release_p3, cfg_release_p4, cfg_release_p5, anchor_xcbuild_config, chunkQ, cfg_list_p1, cfg_list_p2, anchor_config_list, chunkR]) ≤
      countOcc res_phase_p1 (cat [chunkA, build_file_entry, anchor_build_file, chunkB, proxy_entry_p1, proxy_entry_p2, anchor_proxy, chunkC, copy_phase_p1, copy_phase_p2, copy_phase_p3, anchor_begin_file_ref, chunkD, file_ref, anchor_file_ref, chunkE, sync_group_p1, sync_group_p2, anchor_sync_group, chunkF, fw_phase_p1, fw_phase_p2, anchor_frameworks, chunkG, new_products_p1, new_products_p2, chunkH, new_root_p1, new_root_p2, chunkI, new_app_phases_p1, new_app_phases_p2, new_app_phases_p3, chunkJ, native_target_p1, native_target_p2, native_target_p3, native_target_p4, anchor_native_target, chunkK, attrs_new_p1, attrs_new_p2, chunkL, targets_new_p1, targets_new_p2, chunkM, res_phase_p1, res_phase_p2, anchor_resources, chunkN, src_phase_p1, src_phase_p2, anchor_sources, chunkO, dep_entry_p1, dep_entry_p2, anchor_dependency, chunkP, cfg_debug_p1, cfg_debug_p2, cfg_debug_p3, cfg_debug_p4, cfg_debug_p5, cfg_release_p1, cfg_release_p2, cfg_release_p3, cfg_release_p4, cfg_release_p5, anchor_xcbuild_config, chunkQ, cfg_list_p1, cfg_list_p2, anchor_config_list, chunkR]) := countOcc_append_le _ _ _
  rw [show res_phase_p1 ++ (res_phase_p2) = res_phase from by simp [res_phase, List.append_assoc]] at h1
  have h2 := countOcc_ne_zero_of_occ res_phase_ne occ_fin_res_phase
  have h3 := cnt_fin_res_phase_p1
  omega

theorem occ_fin_src_phase : Occ (src_phase) (cat [chunkA, build_file_entry, anchor_build_file, chunkB, proxy_entry_p1, proxy_entry_p2, anchor_proxy, chunkC, copy_phase_p1, copy_phase_p2, copy_phase_p3, anchor_begin_file_ref, chunkD, file_ref, anchor_file_ref, chunkE, sync_group_p1, sync_group_p2, anchor_sync_group, chunkF, fw_phase_p1, fw_phase_p2, anchor_frameworks, chunkG, new_products_p1, new_products_p2, chunkH, new_root_p1, new_root_p2, chunkI, new_app_phases_p1, new_app_phases_p2, new_app_phases_p3, chunkJ, native_target_p1, native_target_p2, native_target_p3, native_target_p4, anchor_native_target, chunkK, attrs_new_p1, attrs_new_p2, chunkL, targets_new_p1, targets_new_p2, chunkM, res_phase_p1, res_phase_p2, anchor_resources, chunkN, src_phase_p1, src_phase_p2, anchor_sources, chunkO, dep_entry_p1, dep_entry_p2, anchor_dependency, chunkP, cfg_debug_p1, cfg_debug_p2, cfg_debug_p3, cfg_debug_p4, cfg_debug_p5, cfg_release_p1, cfg_release_p2, cfg_release_p3, cfg_release_p4, cfg_release_p5, anchor_xcbuild_config, chunkQ, cfg_list_p1, cfg_list_p2, anchor_config_list, chunkR]) :=
  ⟨cat [chunkA, build_file_entry, anchor_build_file, chunkB, proxy_entry_p1, proxy_entry_p2, anchor_proxy, chunkC, copy_phase_p1, copy_phase_p2, copy_phase_p3, anchor_begin_file_ref, chunkD, file_ref, anchor_file_ref, chunkE, sync_group_p1, sync_group_p2, anchor_sync_group, chunkF, fw_phase_p1, fw_phase_p2, anchor_frameworks, chunkG, new_products_p1, new_products_p2, chunkH, new_root_p1, new_root_p2, chunkI, new_app_phases_p1, new_app_phases_p2, new_app_phases_p3, chunkJ, native_target_p1, native_target_p2, native_target_p3, native_target_p4, anchor_native_target, chunkK, attrs_new_p1, attrs_new_p2, chunkL, targets_new_p1, targets_new_p2, chunkM, res_phase_p1, res_phase_p2, anchor_resources, chunkN], cat [anchor_sources, chunkO, dep_entry_p1, dep_entry_p2, anchor_dependency, chunkP, cfg_debug_p1, cfg_debug_p2, cfg_debug_p3, cfg_debug_p4, cfg_debug_p5, cfg_release_p1, cfg_release_p2, cfg_release_p3, cfg_release_p4, cfg_release_p5, anchor_xcbuild_config, chunkQ, cfg_list_p1, cfg_list_p2, anchor_config_list, chunkR],
    by simp [cat_cons, cat_nil, List.append_nil, List.append_assoc, src_phase]⟩

theorem cnt_fin_blk_src_phase : countOcc src_phase (cat [chunkA, build_file_entry, anchor_build_file, chunkB, proxy_entry_p1, proxy_entry_p2, anchor_proxy, chunkC, copy_phase_p1, copy_phase_p2, copy_phase_p3, anchor_begin_file_ref, chunkD, file_ref, anchor_file_ref, chunkE, sync_group_p1, sync_group_p2, anchor_sync_group, chunkF, fw_phase_p1, fw_phase_p2, anchor_frameworks, chunkG, new_products_p1, new_products_p2, chunkH, new_root_p1, new_root_p2, chunkI, new_app_phases_p1, new_app_phases_p2, new_app_phases_p3, chunkJ, native_target_p1, native_target_p2, native_target_p3, native_target_p4, anchor_native_target, chunkK, attrs_new_p1, attrs_new_p2, chunkL, targets_new_p1, targets_new_p2, chunkM, res_phase_p1, res_phase_p2, anchor_resources, chunkN, src_phase_p1, src_phase_p2, anchor_sources, chunkO, dep_entry_p1, dep_entry_p2, anchor_dependency, chunkP, cfg_debug_p1, cfg_debug_p2, cfg_debug_p3, cfg_debug_p4, cfg_debug_p5, cfg_release_p1, cfg_release_p2, cfg_release_p3, cfg_release_p4, cfg_release_p5, anchor_xcbuild_config, chunkQ, cfg_list_p1, cfg_list_p2, anchor_config_list, chunkR]) = 1 := by
  have h1 : countOcc (src_phase_p1 ++ (src_phase_p2)) (cat [chunkA, build_file_entry, anchor_build_file, chunkB, proxy_entry_p1, proxy_entry_p2, anchor_proxy, chunkC, copy_phase_p1, copy_phase_p2, copy_phase_p3, anchor_begin_file_ref, chunkD, file_ref, anchor_file_ref, chunkE, sync_group_p1, sync_group_p2, anchor_sync_group, chunkF, fw_phase_p1, fw_phase_p2, anchor_frameworks, chunkG, new_products_p1, new_products_p2, chunkH, new_root_p1, new_root_p2, chunkI, new_app_phases_p1, new_app_phases_p2, new_app_phases_p3, chunkJ, native_target_p1, native_target_p2, native_target_p3, native_target_p4, anchor_native_target, chunkK, attrs_new_p1, attrs_new_p2, chunkL, targets_new_p1, targets_new_p2, chunkM, res_phase_p1, res_phase_p2, anchor_resources, chunkN, src_phase_p1, src_phase_p2, anchor_sources, chunkO, dep_entry_p1, dep_entry_p2, anchor_dependency, chunkP, cfg_debug_p1, cfg_debug_p2, cfg_debug_p3, cfg_debug_p4, cfg_debug_p5, cfg_release_p1, cfg_release_p2, cfg_release_p3, cfg_release_p4, cfg_release_p5, anchor_xcbuild_config, chunkQ, cfg_list_p1, cfg_list_p2, anchor_config_list, chunkR]) ≤
      countOcc src_phase_p1 (cat [chunkA, build_file_entry, anchor_build_file, chunkB, proxy_entry_p1, proxy_entry_p2, anchor_proxy, chunkC, copy_phase_p1, copy_phase_p2, copy_phase_p3, anchor_begin_file_ref, chunkD, file_ref, anchor_file_ref, chunkE, sync_group_p1, sync_group_p2, anchor_sync_group, chunkF, fw_phase_p1, fw_phase_p2, anchor_frameworks, chunkG, new_products_p1, new_products_p2, chunkH, new_root_p1, new_root_p2, chunkI, new_app_phases_p1, new_app_phases_p2, new_app_phases_p3, chunkJ, native_target_p1, native_target_p2, native_target_p3, native_target_p4, anchor_native_target, chunkK, attrs_new_p1, attrs_new_p2, chunkL, targets_new_p1, targets_new_p2, chunkM, res_phase_p1, res_phase_p2, anchor_resources, chunkN, src_phase_p1, src_phase_p2, anchor_sources, chunkO, dep_entry_p1, dep_entry_p2, anchor_dependency, chunkP, cfg_debug_p1, cfg_debug_p2, cfg_debug_p3, cfg_debug_p4, cfg_debug_p5, cfg_release_p1, cfg_release_p2, cfg_release_p3, cfg_release_p4, cfg_release_p5, anchor_xcbuild_config, chunkQ, cfg_list_p1, cfg_list_p2, anchor_config_list, chunkR]) := countOcc_append_le _ _ _
  rw [show src_phase_p1 ++ (src_phase_p2) = src_phase from by simp [src_phase, List.append_assoc]] at h1
  have h2 := countOcc_ne_zero_of_occ src_phase_ne occ_fin_src_phase
  have h3 := cnt_fin_src_phase_p1
  omega

theorem occ_fin_dep_entry : Occ (dep_entry) (cat [chunkA, build_file_entry, anchor_build_file, chunkB, proxy_entry_p1, proxy_entry_p2, anchor_proxy, chunkC, copy_phase_p1, copy_phase_p2, copy_phase_p3, anchor_begin_file_ref, chunkD, file_ref, anchor_file_ref, chunkE, sync_group_p1, sync_group_p2, anchor_sync_group, chunkF, fw_phase_p1, fw_phase_p2, anchor_frameworks, chunkG, new_products_p1, new_products_p2, chunkH, new_root_p1, new_root_p2, chunkI, new_app_phases_p1, new_app_phases_p2, new_app_phases_p3, chunkJ, native_target_p1, native_target_p2, native_target_p3, native_target_p4, anchor_native_target, chunkK, attrs_new_p1, attrs_new_p2, chunkL, targets_new_p1, targets_new_p2, chunkM, res_phase_p1, res_phase_p2, anchor_resources, chunkN, src_phase_p1, src_phase_p2, anchor_sources, chunkO, dep_entry_p1, dep_entry_p2, anchor_dependency, chunkP, cfg_debug_p1, cfg_debug_p2, cfg_debug_p3, cfg_debug_p4, cfg_debug_p5, cfg_release_p1, cfg_release_p2, cfg_release_p3, cfg_release_p4, cfg_release_p5, anchor_xcbuild_config, chunkQ, cfg_list_p1, cfg_list_p2, anchor_config_list, chunkR]) :=
  ⟨cat [chunkA, build_file_entry, anchor_build_file, chunkB, proxy_entry_p1, proxy_entry_p2, anchor_proxy, chunkC, copy_phase_p1, copy_phase_p2, copy_phase_p3, anchor_begin_file_ref, chunkD, file_ref, anchor_file_ref, chunkE, sync_group_p1, sync_group_p2, anchor_sync_group, chunkF, fw_phase_p1, fw_phase_p2, anchor_frameworks, chunkG, new_products_p1, new_products_p2, chunkH, new_root_p1, new_root_p2, chunkI, new_app_phases_p1, new_app_phases_p2, new_app_phases_p3, chunkJ, native_target_p1, native_target_p2, native_target_p3, native_target_p4, anchor_native_target, chunkK, attrs_new_p1, attrs_new_p2, chunkL, targets_new_p1, targets_new_p2, chunkM, res_phase_p1, res_phase_p2, anchor_resources, chunkN, src_phase_p1, src_phase_p2, anchor_sources, chunkO], cat [anchor_dependency, chunkP, cfg_debug_p1, cfg_debug_p2, cfg_debug_p3, cfg_debug_p4, cfg_debug_p5, cfg_release_p1, cfg_release_p2, cfg_release_p3, cfg_release_p4, cfg_release_p5, anchor_xcbuild_config, chunkQ, cfg_list_p1, cfg_list_p2, anchor_config_list, chunkR],
    by simp [cat_cons, cat_nil, List.append_nil, List.append_assoc, dep_entry]⟩

theorem cnt_fin_blk_dep_entry : countOcc dep_entry (cat [chunkA, build_file_entry, anchor_build_file, chunkB, proxy_entry_p1, proxy_entry_p2, anchor_proxy, chunkC, copy_phase_p1, copy_phase_p2, copy_phase_p3, anchor_begin_file_ref, chunkD, file_ref, anchor_file_ref, chunkE, sync_group_p1, sync_group_p2, anchor_sync_group, chunkF, fw_phase_p1, fw_phase_p2, anchor_frameworks, chunkG, new_products_p1, new_products_p2, chunkH, new_root_p1, new_root_p2, chunkI, new_app_phases_p1, new_app_phases_p2, new_app_phases_p3, chunkJ, native_target_p1, native_target_p2, native_target_p3, native_target_p4, anchor_native_target, chunkK, attrs_new_p1, attrs_new_p2, chunkL, targets_new_p1, targets_new_p2, chunkM, res_phase_p1, res_phase_p2, anchor_resources, chunkN, src_phase_p1, src_phase_p2, anchor_sources, chunkO, dep_entry_p1, dep_entry_p2, anchor_dependency, chunkP, cfg_debug_p1, cfg_debug_p2, cfg_debug_p3, cfg_debug_p4, cfg_debug_p5, cfg_release_p1, cfg_release_p2, cfg_release_p3, cfg_release_p4, cfg_release_p5, anchor_xcbuild_config, chunkQ, cfg_list_p1, cfg_list_p2, anchor_config_list, chunkR]) = 1 := by
  have h1 : countOcc (dep_entry_p1 ++ (dep_entry_p2)) (cat [chunkA, build_file_entry, anchor_build_file, chunkB, proxy_entry_p1, proxy_entry_p2, anchor_proxy, chunkC, copy_phase_p1, copy_phase_p2, copy_phase_p3, anchor_begin_file_ref, chunkD, file_ref, anchor_file_ref, chunkE, sync_group_p1, sync_group_p2, anchor_sync_group, chunkF, fw_phase_p1, fw_phase_p2, anchor_frameworks, chunkG, new_products_p1, new_products_p2, chunkH, new_root_p1, new_root_p2, chunkI, new_app_phases_p1, new_app_phases_p2, new_app_phases_p3, chunkJ, native_target_p1, native_target_p2, native_target_p3, native_target_p4, anchor_native_target, chunkK, attrs_new_p1, attrs_new_p2, chunkL, targets_new_p1, targets_new_p2, chunkM, res_phase_p1, res_phase_p2, anchor_resources, chunkN, src_phase_p1, src_phase_p2, anchor_sources, chunkO, dep_entry_p1, dep_entry_p2, anchor_dependency, chunkP, cfg_debug_p1, cfg_debug_p2, cfg_debug_p3, cfg_debug_p4, cfg_debug_p5, cfg_release_p1, cfg_release_p2, cfg_release_p3, cfg_release_p4, cfg_release_p5, anchor_xcbuild_config, chunkQ, cfg_list_p1, cfg_list_p2, anchor_config_list, chunkR]) ≤
      countOcc dep_entry_p1 (cat [chunkA, build_file_entry, anchor_build_file, chunkB, proxy_entry_p1, proxy_entry_p2, anchor_proxy, chunkC, copy_phase_p1, copy_phase_p2, copy_phase_p3, anchor_begin_file_ref, chunkD, file_ref, anchor_file_ref, chunkE, sync_group_p1, sync_group_p2, anchor_sync_group, chunkF, fw_phase_p1, fw_phase_p2, anchor_frameworks, chunkG, new_products_p1, new_products_p2, chunkH, new_root_p1, new_root_p2, chunkI, new_app_phases_p1, new_app_phases_p2, new_app_phases_p3, chunkJ, native_target_p1, native_target_p2, native_target_p3, native_target_p4, anchor_native_target, chunkK, attrs_new_p1, attrs_new_p2, chunkL, targets_new_p1, targets_new_p2, chunkM, res_phase_p1, res_phase_p2, anchor_resources, chunkN, src_phase_p1, src_phase_p2, anchor_sources, chunkO, dep_entry_p1, dep_entry_p2, anchor_dependency, chunkP, cfg_debug_p1, cfg_debug_p2, cfg_debug_p3, cfg_debug_p4, cfg_debug_p5, cfg_release_p1, cfg_release_p2, cfg_release_p3, cfg_release_p4, cfg_release_p5, anchor_xcbuild_config, chunkQ, cfg_list_p1, cfg_list_p2, anchor_config_list, chunkR]) := countOcc_append_le _ _ _
  rw [show dep_entry_p1 ++ (dep_entry_p2) = dep_entry from by simp [dep_entry, List.append_assoc]] at h1
  have h2 := countOcc_ne_zero_of_occ dep_entry_ne occ_fin_dep_entry
  have h3 := cnt_fin_dep_entry_p1
  omega

theorem occ_fin_cfg_debug : Occ (cfg_debug) (cat [chunkA, build_file_entry, anchor_build_file, chunkB, proxy_entry_p1, proxy_entry_p2, anchor_proxy, chunkC, copy_phase_p1, copy_phase_p2, copy_phase_p3, anchor_begin_file_ref, chunkD, file_ref, anchor_file_ref, chunkE, sync_group_p1, sync_group_p2, anchor_sync_group, chunkF, fw_phase_p1, fw_phase_p2, anchor_frameworks, chunkG, new_products_p1, new_products_p2, chunkH, new_root_p1, new_root_p2, chunkI, new_app_phases_p1, new_app_phases_p2, new_app_phases_p3, chunkJ, native_target_p1, native_target_p2, native_target_p3, native_target_p4, anchor_native_target, chunkK, attrs_new_p1, attrs_new_p2, chunkL, targets_new_p1, targets_new_p2, chunkM, res_phase_p1, res_phase_p2, anchor_resources, chunkN, src_phase_p1, src_phase_p2, anchor_sources, chunkO, dep_entry_p1, dep_entry_p2, anchor_dependency, chunkP, cfg_debug_p1, cfg_debug_p2, cfg_debug_p3, cfg_debug_p4, cfg_debug_p5, cfg_release_p1, cfg_release_p2, cfg_release_p3, cfg_release_p4, cfg_release_p5, anchor_xcbuild_config, chunkQ, cfg_list_p1, cfg_list_p2, anchor_config_list, chunkR]) :=
  ⟨cat [chunkA, build_file_entry, anchor_build_file, chunkB, proxy_entry_p1, proxy_entry_p2, anchor_proxy, chunkC, copy_phase_p1, copy_phase_p2, copy_phase_p3, anchor_begin_file_ref, chunkD, file_ref, anchor_file_ref, chunkE, sync_group_p1, sync_group_p2, anchor_sync_group, chunkF, fw_phase_p1, fw_phase_p2, anchor_frameworks, chunkG, new_products_p1, new_products_p2, chunkH, new_root_p1, new_root_p2, chunkI, new_app_phases_p1, new_app_phases_p2, new_app_phases_p3, chunkJ, native_target_p1, native_target_p2, native_target_p3, native_target_p4, anchor_native_target, chunkK, attrs_new_p1, attrs_new_p2, chunkL, targets_new_p1, targets_new_p2, chunkM, res_phase_p1, res_phase_p2, anchor_resources, chunkN, src_phase_p1, src_phase_p2, anchor_sources, chunkO, dep_entry_p1, dep_entry_p2, anchor_dependency, chunkP], cat [cfg_release_p1, cfg_release_p2, cfg_release_p3, cfg_release_p4, cfg_release_p5, anchor_xcbuild_config, chunkQ, cfg_list_p1, cfg_list_p2, anchor_config_list, chunkR],
    by simp [cat_cons, cat_nil, List.append_nil, List.append_assoc, cfg_debug]⟩

theorem cnt_fin_blk_cfg_debug : countOcc cfg_debug (cat [chunkA, build_file_entry, anchor_build_file, chunkB, proxy_entry_p1, proxy_entry_p2, anchor_proxy, chunkC, copy_phase_p1, copy_phase_p2, copy_phase_p3, anchor_begin_file_ref, chunkD, file_ref, anchor_file_ref, chunkE, sync_group_p1, sync_group_p2, anchor_sync_group, chunkF, fw_phase_p1, fw_phase_p2, anchor_frameworks, chunkG, new_products_p1, new_products_p2, chunkH, new_root_p1, new_root_p2, chunkI, new_app_phases_p1, new_app_phases_p2, new_app_phases_p3, chunkJ, native_target_p1, native_target_p2, native_target_p3, native_target_p4, anchor_native_target, chunkK, attrs_new_p1, attrs_new_p2, chunkL, targets_new_p1, targets_new_p2, chunkM, res_phase_p1, res_phase_p2, anchor_resources, chunkN, src_phase_p1, src_phase_p2, anchor_sources, chunkO, dep_entry_p1, dep_entry_p2, anchor_dependency, chunkP, cfg_debug_p1, cfg_debug_p2, cfg_debug_p3, cfg_debug_p4, cfg_debug_p5, cfg_release_p1, cfg_release_p2, cfg_release_p3, cfg_release_p4, cfg_release_p5, anchor_xcbuild_config, chunkQ, cfg_list_p1, cfg_list_p2, anchor_config_list, chunkR]) = 1 := by
  have h1 : countOcc (cfg_debug_p1 ++ (cfg_debug_p2 ++ cfg_debug_p3 ++ cfg_debug_p4 ++ cfg_debug_p5)) (cat [chunkA, build_file_entry, anchor_build_file, chunkB, proxy_entry_p1, proxy_entry_p2, anchor_proxy, chunkC, copy_phase_p1, copy_phase_p2, copy_phase_p3, anchor_begin_file_ref, chunkD, file_ref, anchor_file_ref, chunkE, sync_group_p1, sync_group_p2, anchor_sync_group, chunkF, fw_phase_p1, fw_phase_p2, anchor_frameworks, chunkG, new_products_p1, new_products_p2, chunkH, new_root_p1, new_root_p2, chunkI, new_app_phases_p1, new_app_phases_p2, new_app_phases_p3, chunkJ, native_target_p1, native_target_p2, native_target_p3, native_target_p4, anchor_native_target, chunkK, attrs_new_p1, attrs_new_p2, chunkL, targets_new_p1, targets_new_p2, chunkM, res_phase_p1, res_phase_p2, anchor_resources, chunkN, src_phase_p1, src_phase_p2, anchor_sources, chunkO, dep_entry_p1, dep_entry_p2, anchor_dependency, chunkP, cfg_debug_p1, cfg_debug_p2, cfg_debug_p3, cfg_debug_p4, cfg_debug_p5, cfg_release_p1, cfg_release_p2, cfg_release_p3, cfg_release_p4, cfg_release_p5, anchor_xcbuild_config, chunkQ, cfg_list_p1, cfg_list_p2, anchor_config_list, chunkR]) ≤
      countOcc cfg_debug_p1 (cat [chunkA, build_file_entry, anchor_build_file, chunkB, proxy_entry_p1, proxy_entry_p2, anchor_proxy, chunkC, copy_phase_p1, copy_phase_p2, copy_phase_p3, anchor_begin_file_ref, chunkD, file_ref, anchor_file_ref, chunkE, sync_group_p1, sync_group_p2, anchor_sync_group, chunkF, fw_phase_p1, fw_phase_p2, anchor_frameworks, chunkG, new_products_p1, new_products_p2, chunkH, new_root_p1, new_root_p2, chunkI, new_app_phases_p1, new_app_phases_p2, new_app_phases_p3, chunkJ, native_target_p1, native_target_p2, native_target_p3, native_target_p4, anchor_native_target, chunkK, attrs_new_p1, attrs_new_p2, chunkL, targets_new_p1, targets_new_p2, chunkM, res_phase_p1, res_phase_p2, anchor_resources, chunkN, src_phase_p1, src_phase_p2, anchor_sources, chunkO, dep_entry_p1, dep_entry_p2, anchor_dependency, chunkP, cfg_debug_p1, cfg_debug_p2, cfg_debug_p3, cfg_debug_p4, cfg_debug_p5, cfg_release_p1, cfg_release_p2, cfg_release_p3, cfg_release_p4, cfg_release_p5, anchor_xcbuild_config, chunkQ, cfg_list_p1, cfg_list_p2, anchor_config_list, chunkR]) := countOcc_append_le _ _ _
  rw [show cfg_debug_p1 ++ (cfg_debug_p2 ++ cfg_debug_p3 ++ cfg_debug_p4 ++ cfg_debug_p5) = cfg_debug from by simp [cfg_debug, List.append_assoc]] at h1
  have h2 := countOcc_ne_zero_of_occ cfg_debug_ne occ_fin_cfg_debug
  have h3 := cnt_fin_cfg_debug_p1
  omega

theorem occ_fin_cfg_release : Occ (cfg_release) (cat [chunkA, build_file_entry, anchor_build_file, chunkB, proxy_entry_p1, proxy_entry_p2, anchor_proxy, chunkC, copy_phase_p1, copy_phase_p2, copy_phase_p3, anchor_begin_file_ref, chunkD, file_ref, anchor_file_ref, chunkE, sync_group_p1, sync_group_p2, anchor_sync_group, chunkF, fw_phase_p1, fw_phase_p2, anchor_frameworks, chunkG, new_products_p1, new_products_p2, chunkH, new_root_p1, new_root_p2, chunkI, new_app_phases_p1, new_app_phases_p2, new_app_phases_p3, chunkJ, native_target_p1, native_target_p2, native_target_p3, native_target_p4, anchor_native_target, chunkK, attrs_new_p1, attrs_new_p2, chunkL, targets_new_p1, targets_new_p2, chunkM, res_phase_p1, res_phase_p2, anchor_resources, chunkN, src_phase_p1, src_phase_p2, anchor_sources, chunkO, dep_entry_p1, dep_entry_p2, anchor_dependency, chunkP, cfg_debug_p1, cfg_debug_p2, cfg_debug_p3, cfg_debug_p4, cfg_debug_p5, cfg_release_p1, cfg_release_p2, cfg_release_p3, cfg_release_p4, cfg_release_p5, anchor_xcbuild_config, chunkQ, cfg_list_p1, cfg_list_p2, anchor_config_list, chunkR]) :=
  ⟨cat [chunkA, build_file_entry, anchor_build_file, chunkB, proxy_entry_p1, proxy_entry_p2, anchor_proxy, chunkC, copy_phase_p1, copy_phase_p2, copy_phase_p3, anchor_begin_file_ref, chunkD, file_ref, anchor_file_ref, chunkE, sync_group_p1, sync_group_p2, anchor_sync_group, chunkF, fw_phase_p1, fw_phase_p2, anchor_frameworks, chunkG, new_products_p1, new_products_p2, chunkH, new_root_p1, new_root_p2, chunkI, new_app_phases_p1, new_app_phases_p2, new_app_phases_p3, chunkJ, native_target_p1, native_target_p2, native_target_p3, native_target_p4, anchor_native_target, chunkK, attrs_new_p1, attrs_new_p2, chunkL, targets_new_p1, targets_new_p2, chunkM, res_phase_p1, res_phase_p2, anchor_resources, chunkN, src_phase_p1, src_phase_p2, anchor_sources, chunkO, dep_entry_p1, dep_entry_p2, anchor_dependency, chunkP, cfg_debug_p1, cfg_debug_p2, cfg_debug_p3, cfg_debug_p4, cfg_debug_p5], cat [anchor_xcbuild_config, chunkQ, cfg_list_p1, cfg_list_p2, anchor_config_list, chunkR],
    by simp [cat_cons, cat_nil, List.append_nil, List.append_assoc, cfg_release]⟩

theorem cnt_fin_blk_cfg_release : countOcc cfg_release (cat [chunkA, build_file_entry, anchor_build_file, chunkB, proxy_entry_p1, proxy_entry_p2, anchor_proxy, chunkC, copy_phase_p1, copy_phase_p2, copy_phase_p3, anchor_begin_file_ref, chunkD, file_ref, anchor_file_ref, chunkE, sync_group_p1, sync_group_p2, anchor_sync_group, chunkF, fw_phase_p1, fw_phase_p2, anchor_frameworks, chunkG, new_products_p1, new_products_p2, chunkH, new_root_p1, new_root_p2, chunkI, new_app_phases_p1, new_app_phases_p2, new_app_phases_p3, chunkJ, native_target_p1, native_target_p2, native_target_p3, native_target_p4, anchor_native_target, chunkK, attrs_new_p1, attrs_new_p2, chunkL, targets_new_p1, targets_new_p2, chunkM, res_phase_p1, res_phase_p2, anchor_resources, chunkN, src_phase_p1, src_phase_p2, anchor_sources, chunkO, dep_entry_p1, dep_entry_p2, anchor_dependency, chunkP, cfg_debug_p1, cfg_debug_p2, cfg_debug_p3, cfg_debug_p4, cfg_debug_p5, cfg_release_p1, cfg_release_p2, cfg_release_p3, cfg_release_p4, cfg_release_p5, anchor_xcbuild_config, chunkQ, cfg_list_p1, cfg_list_p2, anchor_config_list, chunkR]) = 1 := by
  have h1 : countOcc (cfg_release_p1 ++ (cfg_release_p2 ++ cfg_release_p3 ++ cfg_release_p4 ++ cfg_release_p5)) (cat [chunkA, build_file_entry, anchor_build_file, chunkB, proxy_entry_p1, proxy_entry_p2, anchor_proxy, chunkC, copy_phase_p1, copy_phase_p2, copy_phase_p3, anchor_begin_file_ref, chunkD, file_ref, anchor_file_ref, chunkE, sync_group_p1, sync_group_p2, anchor_sync_group, chunkF, fw_phase_p1, fw_phase_p2, anchor_frameworks, chunkG, new_products_p1, new_products_p2, chunkH, new_root_p1, new_root_p2, chunkI, new_app_phases_p1, new_app_phases_p2, new_app_phases_p3, chunkJ, native_target_p1, native_target_p2, native_target_p3, native_target_p4, anchor_native_target, chunkK, attrs_new_p1, attrs_new_p2, chunkL, targets_new_p1, targets_new_p2, chunkM, res_phase_p1, res_phase_p2, anchor_resources, chunkN, src_phase_p1, src_phase_p2, anchor_sources, chunkO, dep_entry_p1, dep_entry_p2, anchor_dependency, chunkP, cfg_debug_p1, cfg_debug_p2, cfg_debug_p3, cfg_debug_p4, cfg_debug_p5, cfg_release_p1, cfg_release_p2, cfg_release_p3, cfg_release_p4, cfg_release_p5, anchor_xcbuild_config, chunkQ, cfg_list_p1, cfg_list_p2, anchor_config_list, chunkR]) ≤
      countOcc cfg_release_p1 (cat [chunkA, build_file_entry, anchor_build_file, chunkB, proxy_entry_p1, proxy_entry_p2, anchor_proxy, chunkC, copy_phase_p1, copy_phase_p2, copy_phase_p3, anchor_begin_file_ref, chunkD, file_ref, anchor_file_ref, chunkE, sync_group_p1, sync_group_p2, anchor_sync_group, chunkF, fw_phase_p1, fw_phase_p2, anchor_frameworks, chunkG, new_products_p1, new_products_p2, chunkH, new_root_p1, new_root_p2, chunkI, new_app_phases_p1, new_app_phases_p2, new_app_phases_p3, chunkJ, native_target_p1, native_target_p2, native_target_p3, native_target_p4, anchor_native_target, chunkK, attrs_new_p1, attrs_new_p2, chunkL, targets_new_p1, targets_new_p2, chunkM, res_phase_p1, res_phase_p2, anchor_resources, chunkN, src_phase_p1, src_phase_p2, anchor_sources, chunkO, dep_entry_p1, dep_entry_p2, anchor_dependency, chunkP, cfg_debug_p1, cfg_debug_p2, cfg_debug_p3, cfg_debug_p4, cfg_debug_p5, cfg_release_p1, cfg_release_p2, cfg_release_p3, cfg_release_p4, cfg_release_p5, anchor_xcbuild_config, chunkQ, cfg_list_p1, cfg_list_p2, anchor_config_list, chunkR]) := countOcc_append_le _ _ _
  rw [show cfg_release_p1 ++ (cfg_release_p2 ++ cfg_release_p3 ++ cfg_release_p4 ++ cfg_release_p5) = cfg_release from by simp [cfg_release, List.append_assoc]] at h1
  have h2 := countOcc_ne_zero_of_occ cfg_release_ne occ_fin_cfg_release
  have h3 := cnt_fin_cfg_release_p1
  omega

theorem occ_fin_cfg_list : Occ (cfg_list) (cat [chunkA, build_file_entry, anchor_build_file, chunkB, proxy_entry_p1, proxy_entry_p2, anchor_proxy, chunkC, copy_phase_p1, copy_phase_p2, copy_phase_p3, anchor_begin_file_ref, chunkD, file_ref, anchor_file_ref, chunkE, sync_group_p1, sync_group_p2, anchor_sync_group, chunkF, fw_phase_p1, fw_phase_p2, anchor_frameworks, chunkG, new_products_p1, new_products_p2, chunkH, new_root_p1, new_root_p2, chunkI, new_app_phases_p1, new_app_phases_p2, new_app_phases_p3, chunkJ, native_target_p1, native_target_p2, native_target_p3, native_target_p4, anchor_native_target, chunkK, attrs_new_p1, attrs_new_p2, chunkL, targets_new_p1, targets_new_p2, chunkM, res_phase_p1, res_phase_p2, anchor_resources, chunkN, src_phase_p1, src_phase_p2, anchor_sources, chunkO, dep_entry_p1, dep_entry_p2, anchor_dependency, chunkP, cfg_debug_p1, cfg_debug_p2, cfg_debug_p3, cfg_debug_p4, cfg_debug_p5, cfg_release_p1, cfg_release_p2, cfg_release_p3, cfg_release_p4, cfg_release_p5, anchor_xcbuild_config, chunkQ, cfg_list_p1, cfg_list_p2, anchor_config_list, chunkR]) :=
  ⟨cat [chunkA, build_file_entry, anchor_build_file, chunkB, proxy_entry_p1, proxy_entry_p2, anchor_proxy, chunkC, copy_phase_p1, copy_phase_p2, copy_phase_p3, anchor_begin_file_ref, chunkD, file_ref, anchor_file_ref, chunkE, sync_group_p1, sync_group_p2, anchor_sync_group, chunkF, fw_phase_p1, fw_phase_p2, anchor_frameworks, chunkG, new_products_p1, new_products_p2, chunkH, new_root_p1, new_root_p2, chunkI, new_app_phases_p1, new_app_phases_p2, new_app_phases_p3, chunkJ, native_target_p1, native_target_p2, native_target_p3, native_target_p4, anchor_native_target, chunkK, attrs_new_p1, attrs_new_p2, chunkL, targets_new_p1, targets_new_p2, chunkM, res_phase_p1, res_phase_p2, anchor_resources, chunkN, src_phase_p1, src_phase_p2, anchor_sources, chunkO, dep_entry_p1, dep_entry_p2, anchor_dependency, chunkP, cfg_debug_p1, cfg_debug_p2, cfg_debug_p3, cfg_debug_p4, cfg_debug_p5, cfg_release_p1, cfg_release_p2, cfg_release_p3, cfg_release_p4, cfg_release_p5, anchor_xcbuild_config, chunkQ], cat [anchor_config_list, chunkR],
    by simp [cat_cons, cat_nil, List.append_nil, List.append_assoc, cfg_list]⟩

theorem cnt_fin_blk_cfg_list : countOcc cfg_list (cat [chunkA, build_file_entry, anchor_build_file, chunkB, proxy_entry_p1, proxy_entry_p2, anchor_proxy, chunkC, copy_phase_p1, copy_phase_p2, copy_phase_p3, anchor_begin_file_ref, chunkD, file_ref, anchor_file_ref, chunkE, sync_group_p1, sync_group_p2, anchor_sync_group, chunkF, fw_phase_p1, fw_phase_p2, anchor_frameworks, chunkG, new_products_p1, new_products_p2, chunkH, new_root_p1, new_root_p2, chunkI, new_app_phases_p1, new_app_phases_p2, new_app_phases_p3, chunkJ, native_target_p1, native_target_p2, native_target_p3, native_target_p4, anchor_native_target, chunkK, attrs_new_p1, attrs_new_p2, chunkL, targets_new_p1, targets_new_p2, chunkM, res_phase_p1, res_phase_p2, anchor_resources, chunkN, src_phase_p1, src_phase_p2, anchor_sources, chunkO, dep_entry_p1, dep_entry_p2, anchor_dependency, chunkP, cfg_debug_p1, cfg_debug_p2, cfg_debug_p3, cfg_debug_p4, cfg_debug_p5, cfg_release_p1, cfg_release_p2, cfg_release_p3, cfg_release_p4, cfg_release_p5, anchor_xcbuild_config, chunkQ, cfg_list_p1, cfg_list_p2, anchor_config_list, chunkR]) = 1 := by
  have h1 : countOcc (cfg_list_p1 ++ (cfg_list_p2)) (cat [chunkA, build_file_entry, anchor_build_file, chunkB, proxy_entry_p1, proxy_entry_p2, anchor_proxy, chunkC, copy_phase_p1, copy_phase_p2, copy_phase_p3, anchor_begin_file_ref, chunkD, file_ref, anchor_file_ref, chunkE, sync_group_p1, sync_group_p2, anchor_sync_group, chunkF, fw_phase_p1, fw_phase_p2, anchor_frameworks, chunkG, new_products_p1, new_products_p2, chunkH, new_root_p1, new_root_p2, chunkI, new_app_phases_p1, new_app_phases_p2, new_app_phases_p3, chunkJ, native_target_p1, native_target_p2, native_target_p3, native_target_p4, anchor_native_target, chunkK, attrs_new_p1, attrs_new_p2, chunkL, targets_new_p1, targets_new_p2, chunkM, res_phase_p1, res_phase_p2, anchor_resources, chunkN, src_phase_p1, src_phase_p2, anchor_sources, chunkO, dep_entry_p1, dep_entry_p2, anchor_dependency, chunkP, cfg_debug_p1, cfg_debug_p2, cfg_debug_p3, cfg_debug_p4, cfg_debug_p5, cfg_release_p1, cfg_release_p2, cfg_release_p3, cfg_release_p4, cfg_release_p5, anchor_xcbuild_config, chunkQ, cfg_list_p1, cfg_list_p2, anchor_config_list, chunkR]) ≤
      countOcc cfg_list_p1 (cat [chunkA, build_file_entry, anchor_build_file, chunkB, proxy_entry_p1, proxy_entry_p2, anchor_proxy, chunkC, copy_phase_p1, copy_phase_p2, copy_phase_p3, anchor_begin_file_ref, chunkD, file_ref, anchor_file_ref, chunkE, sync_group_p1, sync_group_p2, anchor_sync_group, chunkF, fw_phase_p1, fw_phase_p2, anchor_frameworks, chunkG, new_products_p1, new_products_p2, chunkH, new_root_p1, new_root_p2, chunkI, new_app_phases_p1, new_app_phases_p2, new_app_phases_p3, chunkJ, native_target_p1, native_target_p2, native_target_p3, native_target_p4, anchor_native_target, chunkK, attrs_new_p1, attrs_new_p2, chunkL, targets_new_p1, targets_new_p2, chunkM, res_phase_p1, res_phase_p2, anchor_resources, chunkN, src_phase_p1, src_phase_p2, anchor_sources, chunkO, dep_entry_p1, dep_entry_p2, anchor_dependency, chunkP, cfg_debug_p1, cfg_debug_p2, cfg_debug_p3, cfg_debug_p4, cfg_debug_p5, cfg_release_p1, cfg_release_p2, cfg_release_p3, cfg_release_p4, cfg_release_p5, anchor_xcbuild_config, chunkQ, cfg_list_p1, cfg_list_p2, anchor_config_list, chunkR]) := countOcc_append_le _ _ _
  rw [show cfg_list_p1 ++ (cfg_list_p2) = cfg_list from by simp [cfg_list, List.append_assoc]] at h1
  have h2 := countOcc_ne_zero_of_occ cfg_list_ne occ_fin_cfg_list
  have h3 := cnt_fin_cfg_list_p1
  omega

theorem occ_fin_new_products : Occ (new_products) (cat [chunkA, build_file_entry, anchor_build_file, chunkB, proxy_entry_p1, proxy_entry_p2, anchor_proxy, chunkC, copy_phase_p1, copy_phase_p2, copy_phase_p3, anchor_begin_file_ref, chunkD, file_ref, anchor_file_ref, chunkE, sync_group_p1, sync_group_p2, anchor_sync_group, chunkF, fw_phase_p1, fw_phase_p2, anchor_frameworks, chunkG, new_products_p1, new_products_p2, chunkH, new_root_p1, new_root_p2, chunkI, new_app_phases_p1, new_app_phases_p2, new_app_phases_p3, chunkJ, native_target_p1, native_target_p2, native_target_p3, native_target_p4, anchor_native_target, chunkK, attrs_new_p1, attrs_new_p2, chunkL, targets_new_p1, targets_new_p2, chunkM, res_phase_p1, res_phase_p2, anchor_resources, chunkN, src_phase_p1, src_phase_p2, anchor_sources, chunkO, dep_entry_p1, dep_entry_p2, anchor_dependency, chunkP, cfg_debug_p1, cfg_debug_p2, cfg_debug_p3, cfg_debug_p4, cfg_debug_p5, cfg_release_p1, cfg_release_p2, cfg_release_p3, cfg_release_p4, cfg_release_p5, anchor_xcbuild_config, chunkQ, cfg_list_p1, cfg_list_p2, anchor_config_list, chunkR]) :=
  ⟨cat [chunkA, build_file_entry, anchor_build_file, chunkB, proxy_entry_p1, proxy_entry_p2, anchor_proxy, chunkC, copy_phase_p1, copy_phase_p2, copy_phase_p3, anchor_begin_file_ref, chunkD, file_ref, anchor_file_ref, chunkE, sync_group_p1, sync_group_p2, anchor_sync_group, chunkF, fw_phase_p1, fw_phase_p2, anchor_frameworks, chunkG], cat [chunkH, new_root_p1, new_root_p2, chunkI, new_app_phases_p1, new_app_phases_p2, new_app_phases_p3, chunkJ, native_target_p1, native_target_p2, native_target_p3, native_target_p4, anchor_native_target, chunkK, attrs_new_p1, attrs_new_p2, chunkL, targets_new_p1, targets_new_p2, chunkM, res_phase_p1, res_phase_p2, anchor_resources, chunkN, src_phase_p1, src_phase_p2, anchor_sources, chunkO, dep_entry_p1, dep_entry_p2, anchor_dependency, chunkP, cfg_debug_p1, cfg_debug_p2, cfg_debug_p3, cfg_debug_p4, cfg_debug_p5, cfg_release_p1, cfg_release_p2, cfg_release_p3, cfg_release_p4, cfg_release_p5, anchor_xcbuild_config, chunkQ, cfg_list_p1, cfg_list_p2, anchor_config_list, chunkR],
    by simp [cat_cons, cat_nil, List.append_nil, List.append_assoc, new_products]⟩

theorem occ_fin_new_root : Occ (new_root) (cat [chunkA, build_file_entry, anchor_build_file, chunkB, proxy_entry_p1, proxy_entry_p2, anchor_proxy, chunkC, copy_phase_p1, copy_phase_p2, copy_phase_p3, anchor_begin_file_ref, chunkD, file_ref, anchor_file_ref, chunkE, sync_group_p1, sync_group_p2, anchor_sync_group, chunkF, fw_phase_p1, fw_phase_p2, anchor_frameworks, chunkG, new_products_p1, new_products_p2, chunkH, new_root_p1, new_root_p2, chunkI, new_app_phases_p1, new_app_phases_p2, new_app_phases_p3, chunkJ, native_target_p1, native_target_p2, native_target_p3, native_target_p4, anchor_native_target, chunkK, attrs_new_p1, attrs_new_p2, chunkL, targets_new_p1, targets_new_p2, chunkM, res_phase_p1, res_phase_p2, anchor_resources, chunkN, src_phase_p1, src_phase_p2, anchor_sources, chunkO, dep_entry_p1, dep_entry_p2, anchor_dependency, chunkP, cfg_debug_p1, cfg_debug_p2, cfg_debug_p3, cfg_debug_p4, cfg_debug_p5, cfg_release_p1, cfg_release_p2, cfg_release_p3, cfg_release_p4, cfg_release_p5, anchor_xcbuild_config, chunkQ, cfg_list_p1, cfg_list_p2, anchor_config_list, chunkR]) :=
  ⟨cat [chunkA, build_file_entry, anchor_build_file, chunkB, proxy_entry_p1, proxy_entry_p2, anchor_proxy, chunkC, copy_phase_p1, copy_phase_p2, copy_phase_p3, anchor_begin_file_ref, chunkD, file_ref, anchor_file_ref, chunkE, sync_group_p1, sync_group_p2, anchor_sync_group, chunkF, fw_phase_p1, fw_phase_p2, anchor_frameworks, chunkG, new_products_p1, new_products_p2, chunkH], cat [chunkI, new_app_phases_p1, new_app_phases_p2, new_app_phases_p3, chunkJ, native_target_p1, native_target_p2, native_target_p3, native_target_p4, anchor_native_target, chunkK, attrs_new_p1, attrs_new_p2, chunkL, targets_new_p1, targets_new_p2, chunkM, res_phase_p1, res_phase_p2, anchor_resources, chunkN, src_phase_p1, src_phase_p2, anchor_sources, chunkO, dep_entry_p1, dep_entry_p2, anchor_dependency, chunkP, cfg_debug_p1, cfg_debug_p2, cfg_debug_p3, cfg_debug_p4, cfg_debug_p5, cfg_release_p1, cfg_release_p2, cfg_release_p3, cfg_release_p4, cfg_release_p5, anchor_xcbuild_config, chunkQ, cfg_list_p1, cfg_list_p2, anchor_config_list, chunkR],
    by simp [cat_cons, cat_nil, List.append_nil, List.append_assoc, new_root]⟩

theorem occ_fin_targets_new : Occ (targets_new) (cat [chunkA, build_file_entry, anchor_build_file, chunkB, proxy_entry_p1, proxy_entry_p2, anchor_proxy, chunkC, copy_phase_p1, copy_phase_p2, copy_phase_p3, anchor_begin_file_ref, chunkD, file_ref, anchor_file_ref, chunkE, sync_group_p1, sync_group_p2, anchor_sync_group, chunkF, fw_phase_p1, fw_phase_p2, anchor_frameworks, chunkG, new_products_p1, new_products_p2, chunkH, new_root_p1, new_root_p2, chunkI, new_app_phases_p1, new_app_phases_p2, new_app_phases_p3, chunkJ, native_target_p1, native_target_p2, native_target_p3, native_target_p4, anchor_native_target, chunkK, attrs_new_p1, attrs_new_p2, chunkL, targets_new_p1, targets_new_p2, chunkM, res_phase_p1, res_phase_p2, anchor_resources, chunkN, src_phase_p1, src_phase_p2, anchor_sources, chunkO, dep_entry_p1, dep_entry_p2, anchor_dependency, chunkP, cfg_debug_p1, cfg_debug_p2, cfg_debug_p3, cfg_debug_p4, cfg_debug_p5, cfg_release_p1, cfg_release_p2, cfg_release_p3, cfg_release_p4, cfg_release_p5, anchor_xcbuild_config, chunkQ, cfg_list_p1, cfg_list_p2, anchor_config_list, chunkR]) :=
  ⟨cat [chunkA, build_file_entry, anchor_build_file, chunkB, proxy_entry_p1, proxy_entry_p2, anchor_proxy, chunkC, copy_phase_p1, copy_phase_p2, copy_phase_p3, anchor_begin_file_ref, chunkD, file_ref, anchor_file_ref, chunkE, sync_group_p1, sync_group_p2, anchor_sync_group, chunkF, fw_phase_p1, fw_phase_p2, anchor_frameworks, chunkG, new_products_p1, new_products_p2, chunkH, new_root_p1, new_root_p2, chunkI, new_app_phases_p1, new_app_phases_p2, new_app_phases_p3, chunkJ, native_target_p1, native_target_p2, native_target_p3, native_target_p4, anchor_native_target, chunkK, attrs_new_p1, attrs_new_p2, chunkL], cat [chunkM, res_phase_p1, res_phase_p2, anchor_resources, chunkN, src_phase_p1, src_phase_p2, anchor_sources, chunkO, dep_entry_p1, dep_entry_p2, anchor_dependency, chunkP, cfg_debug_p1, cfg_debug_p2, cfg_debug_p3, cfg_debug_p4, cfg_debug_p5, cfg_release_p1, cfg_release_p2, cfg_release_p3, cfg_release_p4, cfg_release_p5, anchor_xcbuild_config, chunkQ, cfg_list_p1, cfg_list_p2, anchor_config_list, chunkR],
    by simp [cat_cons, cat_nil, List.append_nil, List.append_assoc, targets_new]⟩

theorem occ_fin_attrs_new : Occ (attrs_new) (cat [chunkA, build_file_entry, anchor_build_file, chunkB, proxy_entry_p1, proxy_entry_p2, anchor_proxy, chunkC, copy_phase_p1, copy_phase_p2, copy_phase_p3, anchor_begin_file_ref, chunkD, file_ref, anchor_file_ref, chunkE, sync_group_p1, sync_group_p2, anchor_sync_group, chunkF, fw_phase_p1, fw_phase_p2, anchor_frameworks, chunkG, new_products_p1, new_products_p2, chunkH, new_root_p1, new_root_p2, chunkI, new_app_phases_p1, new_app_phases_p2, new_app_phases_p3, chunkJ, native_target_p1, native_target_p2, native_target_p3, native_target_p4, anchor_native_target, chunkK, attrs_new_p1, attrs_new_p2, chunkL, targets_new_p1, targets_new_p2, chunkM, res_phase_p1, res_phase_p2, anchor_resources, chunkN, src_phase_p1, src_phase_p2, anchor_sources, chunkO, dep_entry_p1, dep_entry_p2, anchor_dependency, chunkP, cfg_debug_p1, cfg_debug_p2, cfg_debug_p3, cfg_debug_p4, cfg_debug_p5, cfg_release_p1, cfg_release_p2, cfg_release_p3, cfg_release_p4, cfg_release_p5, anchor_xcbuild_config, chunkQ, cfg_list_p1, cfg_list_p2, anchor_config_list, chunkR]) :=
  ⟨cat [chunkA, build_file_entry, anchor_build_file, chunkB, proxy_entry_p1, proxy_entry_p2, anchor_proxy, chunkC, copy_phase_p1, copy_phase_p2, copy_phase_p3, anchor_begin_file_ref, chunkD, file_ref, anchor_file_ref, chunkE, sync_group_p1, sync_group_p2, anchor_sync_group, chunkF, fw_phase_p1, fw_phase_p2, anchor_frameworks, chunkG, new_products_p1, new_products_p2, chunkH, new_root_p1, new_root_p2, chunkI, new_app_phases_p1, new_app_phases_p2, new_app_phases_p3, chunkJ, native_target_p1, native_target_p2, native_target_p3, native_target_p4, anchor_native_target, chunkK], cat [chunkL, targets_new_p1, targets_new_p2, chunkM, res_phase_p1, res_phase_p2, anchor_resources, chunkN, src_phase_p1, src_phase_p2, anchor_sources, chunkO, dep_entry_p1, dep_entry_p2, anchor_dependency, chunkP, cfg_debug_p1, cfg_debug_p2, cfg_debug_p3, cfg_debug_p4, cfg_debug_p5, cfg_release_p1, cfg_release_p2, cfg_release_p3, cfg_release_p4, cfg_release_p5, anchor_xcbuild_config, chunkQ, cfg_list_p1, cfg_list_p2, anchor_config_list, chunkR],
    by simp [cat_cons, cat_nil, List.append_nil, List.append_assoc, attrs_new]⟩

theorem occ_fin_new_app_phases : Occ (new_app_phases) (cat [chunkA, build_file_entry, anchor_build_file, chunkB, proxy_entry_p1, proxy_entry_p2, anchor_proxy, chunkC, copy_phase_p1, copy_phase_p2, copy_phase_p3, anchor_begin_file_ref, chunkD, file_ref, anchor_file_ref, chunkE, sync_group_p1, sync_group_p2, anchor_sync_group, chunkF, fw_phase_p1, fw_phase_p2, anchor_frameworks, chunkG, new_products_p1, new_products_p2, chunkH, new_root_p1, new_root_p2, chunkI, new_app_phases_p1, new_app_phases_p2, new_app_phases_p3, chunkJ, native_target_p1, native_target_p2, native_target_p3, native_target_p4, anchor_native_target, chunkK, attrs_new_p1, attrs_new_p2, chunkL, targets_new_p1, targets_new_p2, chunkM, res_phase_p1, res_phase_p2, anchor_resources, chunkN, src_phase_p1, src_phase_p2, anchor_sources, chunkO, dep_entry_p1, dep_entry_p2, anchor_dependency, chunkP, cfg_debug_p1, cfg_debug_p2, cfg_debug_p3, cfg_debug_p4, cfg_debug_p5, cfg_release_p1, cfg_release_p2, cfg_release_p3, cfg_release_p4, cfg_release_p5, anchor_xcbuild_config, chunkQ, cfg_list_p1, cfg_list_p2, anchor_config_list, chunkR]) :=
  ⟨cat [chunkA, build_file_entry, anchor_build_file, chunkB, proxy_entry_p1, proxy_entry_p2, anchor_proxy, chunkC, copy_phase_p1, copy_phase_p2, copy_phase_p3, anchor_begin_file_ref, chunkD, file_ref, anchor_file_ref, chunkE, sync_group_p1, sync_group_p2, anchor_sync_group, chunkF, fw_phase_p1, fw_phase_p2, anchor_frameworks, chunkG, new_products_p1, new_products_p2, chunkH, new_root_p1, new_root_p2, chunkI], cat [chunkJ, native_target_p1, native_target_p2, native_target_p3, native_target_p4, anchor_native_target, chunkK, attrs_new_p1, attrs_new_p2, chunkL, targets_new_p1, targets_new_p2, chunkM, res_phase_p1, res_phase_p2, anchor_resources, chunkN, src_phase_p1, src_phase_p2, anchor_sources, chunkO, dep_entry_p1, dep_entry_p2, anchor_dependency, chunkP, cfg_debug_p1, cfg_debug_p2, cfg_debug_p3, cfg_debug_p4, cfg_debug_p5, cfg_release_p1, cfg_release_p2, cfg_release_p3, cfg_release_p4, cfg_release_p5, anchor_xcbuild_config, chunkQ, cfg_list_p1, cfg_list_p2, anchor_config_list, chunkR],
    by simp [cat_cons, cat_nil, List.append_nil, List.append_assoc, new_app_phases]⟩

theorem occ_adj_1 : Occ (build_file_entry ++ anchor_build_file) (cat [chunkA, build_file_entry, anchor_build_file, chunkB, proxy_entry_p1, proxy_entry_p2, anchor_proxy, chunkC, copy_phase_p1, copy_phase_p2, copy_phase_p3, anchor_begin_file_ref, chunkD, file_ref, anchor_file_ref, chunkE, sync_group_p1, sync_group_p2, anchor_sync_group, chunkF, fw_phase_p1, fw_phase_p2, anchor_frameworks, chunkG, new_products_p1, new_products_p2, chunkH, new_root_p1, new_root_p2, chunkI, new_app_phases_p1, new_app_phases_p2, new_app_phases_p3, chunkJ, native_target_p1, native_target_p2, native_target_p3, native_target_p4, anchor_native_target, chunkK, attrs_new_p1, attrs_new_p2, chunkL, targets_new_p1, targets_new_p2, chunkM, res_phase_p1, res_phase_p2, anchor_resources, chunkN, src_phase_p1, src_phase_p2, anchor_sources, chunkO, dep_entry_p1, dep_entry_p2, anchor_dependency, chunkP, cfg_debug_p1, cfg_debug_p2, cfg_debug_p3, cfg_debug_p4, cfg_debug_p5, cfg_release_p1, cfg_release_p2, cfg_release_p3, cfg_release_p4, cfg_release_p5, anchor_xcbuild_config, chunkQ, cfg_list_p1, cfg_list_p2, anchor_config_list, chunkR]) :=
  ⟨cat [chunkA], cat [chunkB, proxy_entry_p1, proxy_entry_p2, anchor_proxy, chunkC, copy_phase_p1, copy_phase_p2, copy_phase_p3, anchor_begin_file_ref, chunkD, file_ref, anchor_file_ref, chunkE, sync_group_p1, sync_group_p2, anchor_sync_group, chunkF, fw_phase_p1, fw_phase_p2, anchor_frameworks, chunkG, new_products_p1, new_products_p2, chunkH, new_root_p1, new_root_p2, chunkI, new_app_phases_p1, new_app_phases_p2, new_app_phases_p3, chunkJ, native_target_p1, native_target_p2, native_target_p3, native_target_p4, anchor_native_target, chunkK, attrs_new_p1, attrs_new_p2, chunkL, targets_new_p1, targets_new_p2, chunkM, res_phase_p1, res_phase_p2, anchor_resources, chunkN, src_phase_p1, src_phase_p2, anchor_sources, chunkO, dep_entry_p1, dep_entry_p2, anchor_dependency, chunkP, cfg_debug_p1, cfg_debug_p2, cfg_debug_p3, cfg_debug_p4, cfg_debug_p5, cfg_release_p1, cfg_release_p2, cfg_release_p3, cfg_release_p4, cfg_release_p5, anchor_xcbuild_config, chunkQ, cfg_list_p1, cfg_list_p2, anchor_config_list, chunkR],
    by simp [cat_cons, cat_nil, List.append_nil, List.append_assoc]⟩

theorem occ_adj_2 : Occ (proxy_entry ++ anchor_proxy) (cat [chunkA, build_file_entry, anchor_build_file, chunkB, proxy_entry_p1, proxy_entry_p2, anchor_proxy, chunkC, copy_phase_p1, copy_phase_p2, copy_phase_p3, anchor_begin_file_ref, chunkD, file_ref, anchor_file_ref, chunkE, sync_group_p1, sync_group_p2, anchor_sync_group, chunkF, fw_phase_p1, fw_phase_p2, anchor_frameworks, chunkG, new_products_p1, new_products_p2, chunkH, new_root_p1, new_root_p2, chunkI, new_app_phases_p1, new_app_phases_p2, new_app_phases_p3, chunkJ, native_target_p1, native_target_p2, native_target_p3, native_target_p4, anchor_native_target, chunkK, attrs_new_p1, attrs_new_p2, chunkL, targets_new_p1, targets_new_p2, chunkM, res_phase_p1, res_phase_p2, anchor_resources, chunkN, src_phase_p1, src_phase_p2, anchor_sources, chunkO, dep_entry_p1, dep_entry_p2, anchor_dependency, chunkP, cfg_debug_p1, cfg_debug_p2, cfg_debug_p3, cfg_debug_p4, cfg_debug_p5, cfg_release_p1, cfg_release_p2, cfg_release_p3, cfg_release_p4, cfg_release_p5, anchor_xcbuild_config, chunkQ, cfg_list_p1, cfg_list_p2, anchor_config_list, chunkR]) :=
  ⟨cat [chunkA, build_file_entry, anchor_build_file, chunkB], cat [chunkC, copy_phase_p1, copy_phase_p2, copy_phase_p3, anchor_begin_file_ref, chunkD, file_ref, anchor_file_ref, chunkE, sync_group_p1, sync_group_p2, anchor_sync_group, chunkF, fw_phase_p1, fw_phase_p2, anchor_frameworks, chunkG, new_products_p1, new_products_p2, chunkH, new_root_p1, new_root_p2, chunkI, new_app_phases_p1, new_app_phases_p2, new_app_phases_p3, chunkJ, native_target_p1, native_target_p2, native_target_p3, native_target_p4, anchor_native_target, chunkK, attrs_new_p1, attrs_new_p2, chunkL, targets_new_p1, targets_new_p2, chunkM, res_phase_p1, res_phase_p2, anchor_resources, chunkN, src_phase_p1, src_phase_p2, anchor_sources, chunkO, dep_entry_p1, dep_entry_p2, anchor_dependency, chunkP, cfg_debug_p1, cfg_debug_p2, cfg_debug_p3, cfg_debug_p4, cfg_debug_p5, cfg_release_p1, cfg_release_p2, cfg_release_p3, cfg_release_p4, cfg_release_p5, anchor_xcbuild_config, chunkQ, cfg_list_p1, cfg_list_p2, anchor_config_list, chunkR],
    by simp [cat_cons, cat_nil, List.append_nil, List.append_assoc, proxy_entry]⟩

theorem occ_adj_3 : Occ (copy_phase ++ anchor_begin_file_ref) (cat [chunkA, build_file_entry, anchor_build_file, chunkB, proxy_entry_p1, proxy_entry_p2, anchor_proxy, chunkC, copy_phase_p1, copy_phase_p2, copy_phase_p3, anchor_begin_file_ref, chunkD, file_ref, anchor_file_ref, chunkE, sync_group_p1, sync_group_p2, anchor_sync_group, chunkF, fw_phase_p1, fw_phase_p2, anchor_frameworks, chunkG, new_products_p1, new_products_p2, chunkH, new_root_p1, new_root_p2, chunkI, new_app_phases_p1, new_app_phases_p2, new_app_phases_p3, chunkJ, native_target_p1, native_target_p2, native_target_p3, native_target_p4, anchor_native_target, chunkK, attrs_new_p1, attrs_new_p2, chunkL, targets_new_p1, targets_new_p2, chunkM, res_phase_p1, res_phase_p2, anchor_resources, chunkN, src_phase_p1, src_phase_p2, anchor_sources, chunkO, dep_entry_p1, dep_entry_p2, anchor_dependency, chunkP, cfg_debug_p1, cfg_debug_p2, cfg_debug_p3, cfg_debug_p4, cfg_debug_p5, cfg_release_p1, cfg_release_p2, cfg_release_p3, cfg_release_p4, cfg_release_p5, anchor_xcbuild_config, chunkQ, cfg_list_p1, cfg_list_p2, anchor_config_list, chunkR]) :=
  ⟨cat [chunkA, build_file_entry, anchor_build_file, chunkB, proxy_entry_p1, proxy_entry_p2, anchor_proxy, chunkC], cat [chunkD, file_ref, anchor_file_ref, chunkE, sync_group_p1, sync_group_p2, anchor_sync_group, chunkF, fw_phase_p1, fw_phase_p2, anchor_frameworks, chunkG, new_products_p1, new_products_p2, chunkH, new_root_p1, new_root_p2, chunkI, new_app_phases_p1, new_app_phases_p2, new_app_phases_p3, chunkJ, native_target_p1, native_target_p2, native_target_p3, native_target_p4, anchor_native_target, chunkK, attrs_new_p1, attrs_new_p2, chunkL, targets_new_p1, targets_new_p2, chunkM, res_phase_p1, res_phase_p2, anchor_resources, chunkN, src_phase_p1, src_phase_p2, anchor_sources, chunkO, dep_entry_p1, dep_entry_p2, anchor_dependency, chunkP, cfg_debug_p1, cfg_debug_p2, cfg_debug_p3, cfg_debug_p4, cfg_debug_p5, cfg_release_p1, cfg_release_p2, cfg_release_p3, cfg_release_p4, cfg_release_p5, anchor_xcbuild_config, chunkQ, cfg_list_p1, cfg_list_p2, anchor_config_list, chunkR],
    by simp [cat_cons, cat_nil, List.append_nil, List.append_assoc, copy_phase]⟩

theorem occ_adj_4 : Occ (file_ref ++ anchor_file_ref) (cat [chunkA, build_file_entry, anchor_build_file, chunkB, proxy_entry_p1, proxy_entry_p2, anchor_proxy, chunkC, copy_phase_p1, copy_phase_p2, copy_phase_p3, anchor_begin_file_ref, chunkD, file_ref, anchor_file_ref, chunkE, sync_group_p1, sync_group_p2, anchor_sync_group, chunkF, fw_phase_p1, fw_phase_p2, anchor_frameworks, chunkG, new_products_p1, new_products_p2, chunkH, new_root_p1, new_root_p2, chunkI, new_app_phases_p1, new_app_phases_p2, new_app_phases_p3, chunkJ, native_target_p1, native_target_p2, native_target_p3, native_target_p4, anchor_native_target, chunkK, attrs_new_p1, attrs_new_p2, chunkL, targets_new_p1, targets_new_p2, chunkM, res_phase_p1, res_phase_p2, anchor_resources, chunkN, src_phase_p1, src_phase_p2, anchor_sources, chunkO, dep_entry_p1, dep_entry_p2, anchor_dependency, chunkP, cfg_debug_p1, cfg_debug_p2, cfg_debug_p3, cfg_debug_p4, cfg_debug_p5, cfg_release_p1, cfg_release_p2, cfg_release_p3, cfg_release_p4, cfg_release_p5, anchor_xcbuild_config, chunkQ, cfg_list_p1, cfg_list_p2, anchor_config_list, chunkR]) :=
  ⟨cat [chunkA, build_file_entry, anchor_build_file, chunkB, proxy_entry_p1, proxy_entry_p2, anchor_proxy, chunkC, copy_phase_p1, copy_phase_p2, copy_phase_p3, anchor_begin_file_ref, chunkD], cat [chunkE, sync_group_p1, sync_group_p2, anchor_sync_group, chunkF, fw_phase_p1, fw_phase_p2, anchor_frameworks, chunkG, new_products_p1, new_products_p2, chunkH, new_root_p1, new_root_p2, chunkI, new_app_phases_p1, new_app_phases_p2, new_app_phases_p3, chunkJ, native_target_p1, native_target_p2, native_target_p3, native_target_p4, anchor_native_target, chunkK, attrs_new_p1, attrs_new_p2, chunkL, targets_new_p1, targets_new_p2, chunkM, res_phase_p1, res_phase_p2, anchor_resources, chunkN, src_phase_p1, src_phase_p2, anchor_sources, chunkO, dep_entry_p1, dep_entry_p2, anchor_dependency, chunkP, cfg_debug_p1, cfg_debug_p2, cfg_debug_p3, cfg_debug_p4, cfg_debug_p5, cfg_release_p1, cfg_release_p2, cfg_release_p3, cfg_release_p4, cfg_release_p5, anchor_xcbuild_config, chunkQ, cfg_list_p1, cfg_list_p2, anchor_config_list, chunkR],
    by simp [cat_cons, cat_nil, List.append_nil, List.append_assoc]⟩

theorem occ_adj_5 : Occ (sync_group ++ anchor_sync_group) (cat [chunkA, build_file_entry, anchor_build_file, chunkB, proxy_entry_p1, proxy_entry_p2, anchor_proxy, chunkC, copy_phase_p1, copy_phase_p2, copy_phase_p3, anchor_begin_file_ref, chunkD, file_ref, anchor_file_ref, chunkE, sync_group_p1, sync_group_p2, anchor_sync_group, chunkF, fw_phase_p1, fw_phase_p2, anchor_frameworks, chunkG, new_products_p1, new_products_p2, chunkH, new_root_p1, new_root_p2, chunkI, new_app_phases_p1, new_app_phases_p2, new_app_phases_p3, chunkJ, native_target_p1, native_target_p2, native_target_p3, native_target_p4, anchor_native_target, chunkK, attrs_new_p1, attrs_new_p2, chunkL, targets_new_p1, targets_new_p2, chunkM, res_phase_p1, res_phase_p2, anchor_resources, chunkN, src_phase_p1, src_phase_p2, anchor_sources, chunkO, dep_entry_p1, dep_entry_p2, anchor_dependency, chunkP, cfg_debug_p1, cfg_debug_p2, cfg_debug_p3, cfg_debug_p4, cfg_debug_p5, cfg_release_p1, cfg_release_p2, cfg_release_p3, cfg_release_p4, cfg_release_p5, anchor_xcbuild_config, chunkQ, cfg_list_p1, cfg_list_p2, anchor_config_list, chunkR]) :=
  ⟨cat [chunkA, build_file_entry, anchor_build_file, chunkB, proxy_entry_p1, proxy_entry_p2, anchor_proxy, chunkC, copy_phase_p1, copy_phase_p2, copy_phase_p3, anchor_begin_file_ref, chunkD, file_ref, anchor_file_ref, chunkE], cat [chunkF, fw_phase_p1, fw_phase_p2, anchor_frameworks, chunkG, new_products_p1, new_products_p2, chunkH, new_root_p1, new_root_p2, chunkI, new_app_phases_p1, new_app_phases_p2, new_app_phases_p3, chunkJ, native_target_p1, native_target_p2, native_target_p3, native_target_p4, anchor_native_target, chunkK, attrs_new_p1, attrs_new_p2, chunkL, targets_new_p1, targets_new_p2, chunkM, res_phase_p1, res_phase_p2, anchor_resources, chunkN, src_phase_p1, src_phase_p2, anchor_sources, chunkO, dep_entry_p1, dep_entry_p2, anchor_dependency, chunkP, cfg_debug_p1, cfg_debug_p2, cfg_debug_p3, cfg_debug_p4, cfg_debug_p5, cfg_release_p1, cfg_release_p2, cfg_release_p3, cfg_release_p4, cfg_release_p5, anchor_xcbuild_config, chunkQ, cfg_list_p1, cfg_list_p2, anchor_config_list, chunkR],
    by simp [cat_cons, cat_nil, List.append_nil, List.append_assoc, sync_group]⟩

theorem occ_adj_6 : Occ (fw_phase ++ anchor_frameworks) (cat [chunkA, build_file_entry, anchor_build_file, chunkB, proxy_entry_p1, proxy_entry_p2, anchor_proxy, chunkC, copy_phase_p1, copy_phase_p2, copy_phase_p3, anchor_begin_file_ref, chunkD, file_ref, anchor_file_ref, chunkE, sync_group_p1, sync_group_p2, anchor_sync_group, chunkF, fw_phase_p1, fw_phase_p2, anchor_frameworks, chunkG, new_products_p1, new_products_p2, chunkH, new_root_p1, new_root_p2, chunkI, new_app_phases_p1, new_app_phases_p2, new_app_phases_p3, chunkJ, native_target_p1, native_target_p2, native_target_p3, native_target_p4, anchor_native_target, chunkK, attrs_new_p1, attrs_new_p2, chunkL, targets_new_p1, targets_new_p2, chunkM, res_phase_p1, res_phase_p2, anchor_resources, chunkN, src_phase_p1, src_phase_p2, anchor_sources, chunkO, dep_entry_p1, dep_entry_p2, anchor_dependency, chunkP, cfg_debug_p1, cfg_debug_p2, cfg_debug_p3, cfg_debug_p4, cfg_debug_p5, cfg_release_p1, cfg_release_p2, cfg_release_p3, cfg_release_p4, cfg_release_p5, anchor_xcbuild_config, chunkQ, cfg_list_p1, cfg_list_p2, anchor_config_list, chunkR]) :=
  ⟨cat [chunkA, build_file_entry, anchor_build_file, chunkB, proxy_entry_p1, proxy_entry_p2, anchor_proxy, chunkC, copy_phase_p1, copy_phase_p2, copy_phase_p3, anchor_begin_file_ref, chunkD, file_ref, anchor_file_ref, chunkE, sync_group_p1, sync_group_p2, anchor_sync_group, chunkF], cat [chunkG, new_products_p1, new_products_p2, chunkH, new_root_p1, new_root_p2, chunkI, new_app_phases_p1, new_app_phases_p2, new_app_phases_p3, chunkJ, native_target_p1, native_target_p2, native_target_p3, native_target_p4, anchor_native_target, chunkK, attrs_new_p1, attrs_new_p2, chunkL, targets_new_p1, targets_new_p2, chunkM, res_phase_p1, res_phase_p2, anchor_resources, chunkN, src_phase_p1, src_phase_p2, anchor_sources, chunkO, dep_entry_p1, dep_entry_p2, anchor_dependency, chunkP, cfg_debug_p1, cfg_debug_p2, cfg_debug_p3, cfg_debug_p4, cfg_debug_p5, cfg_release_p1, cfg_release_p2, cfg_release_p3, cfg_release_p4, cfg_release_p5, anchor_xcbuild_config, chunkQ, cfg_list_p1, cfg_list_p2, anchor_config_list, chunkR],
    by simp [cat_cons, cat_nil, List.append_nil, List.append_assoc, fw_phase]⟩

theorem occ_adj_9 : Occ (native_target ++ anchor_native_target) (cat [chunkA, build_file_entry, anchor_build_file, chunkB, proxy_entry_p1, proxy_entry_p2, anchor_proxy, chunkC, copy_phase_p1, copy_phase_p2, copy_phase_p3, anchor_begin_file_ref, chunkD, file_ref, anchor_file_ref, chunkE, sync_group_p1, sync_group_p2, anchor_sync_group, chunkF, fw_phase_p1, fw_phase_p2, anchor_frameworks, chunkG, new_products_p1, new_products_p2, chunkH, new_root_p1, new_root_p2, chunkI, new_app_phases_p1, new_app_phases_p2, new_app_phases_p3, chunkJ, native_target_p1, native_target_p2, native_target_p3, native_target_p4, anchor_native_target, chunkK, attrs_new_p1, attrs_new_p2, chunkL, targets_new_p1, targets_new_p2, chunkM, res_phase_p1, res_phase_p2, anchor_resources, chunkN, src_phase_p1, src_phase_p2, anchor_sources, chunkO, dep_entry_p1, dep_entry_p2, anchor_dependency, chunkP, cfg_debug_p1, cfg_debug_p2, cfg_debug_p3, cfg_debug_p4, cfg_debug_p5, cfg_release_p1, cfg_release_p2, cfg_release_p3, cfg_release_p4, cfg_release_p5, anchor_xcbuild_config, chunkQ, cfg_list_p1, cfg_list_p2, anchor_config_list, chunkR]) :=
  ⟨cat [chunkA, build_file_entry, anchor_build_file, chunkB, proxy_entry_p1, proxy_entry_p2, anchor_proxy, chunkC, copy_phase_p1, copy_phase_p2, copy_phase_p3, anchor_begin_file_ref, chunkD, file_ref, anchor_file_ref, chunkE, sync_group_p1, sync_group_p2, anchor_sync_group, chunkF, fw_phase_p1, fw_phase_p2, anchor_frameworks, chunkG, new_products_p1, new_products_p2, chunkH, new_root_p1, new_root_p2, chunkI, new_app_phases_p1, new_app_phases_p2, new_app_phases_p3, chunkJ], cat [chunkK, attrs_new_p1, attrs_new_p2, chunkL, targets_new_p1, targets_new_p2, chunkM, res_phase_p1, res_phase_p2, anchor_resources, chunkN, src_phase_p1, src_phase_p2, anchor_sources, chunkO, dep_entry_p1, dep_entry_p2, anchor_dependency, chunkP, cfg_debug_p1, cfg_debug_p2, cfg_debug_p3, cfg_debug_p4, cfg_debug_p5, cfg_release_p1, cfg_release_p2, cfg_release_p3, cfg_release_p4, cfg_release_p5, anchor_xcbuild_config, chunkQ, cfg_list_p1, cfg_list_p2, anchor_config_list, chunkR],
    by simp [cat_cons, cat_nil, List.append_nil, List.append_assoc, native_target]⟩

theorem occ_adj_13 : Occ (res_phase ++ anchor_resources) (cat [chunkA, build_file_entry, anchor_build_file, chunkB, proxy_entry_p1, proxy_entry_p2, anchor_proxy, chunkC, copy_phase_p1, copy_phase_p2, copy_phase_p3, anchor_begin_file_ref, chunkD, file_ref, anchor_file_ref, chunkE, sync_group_p1, sync_group_p2, anchor_sync_group, chunkF, fw_phase_p1, fw_phase_p2, anchor_frameworks, chunkG, new_products_p1, new_products_p2, chunkH, new_root_p1, new_root_p2, chunkI, new_app_phases_p1, new_app_phases_p2, new_app_phases_p3, chunkJ, native_target_p1, native_target_p2, native_target_p3, native_target_p4, anchor_native_target, chunkK, attrs_new_p1, attrs_new_p2, chunkL, targets_new_p1, targets_new_p2, chunkM, res_phase_p1, res_phase_p2, anchor_resources, chunkN, src_phase_p1, src_phase_p2, anchor_sources, chunkO, dep_entry_p1, dep_entry_p2, anchor_dependency, chunkP, cfg_debug_p1, cfg_debug_p2, cfg_debug_p3, cfg_debug_p4, cfg_debug_p5, cfg_release_p1, cfg_release_p2, cfg_release_p3, cfg_release_p4, cfg_release_p5, anchor_xcbuild_config, chunkQ, cfg_list_p1, cfg_list_p2, anchor_config_list, chunkR]) :=
  ⟨cat [chunkA, build_file_entry, anchor_build_file, chunkB, proxy_entry_p1, proxy_entry_p2, anchor_proxy, chunkC, copy_phase_p1, copy_phase_p2, copy_phase_p3, anchor_begin_file_ref, chunkD, file_ref, anchor_file_ref, chunkE, sync_group_p1, sync_group_p2, anchor_sync_group, chunkF, fw_phase_p1, fw_phase_p2, anchor_frameworks, chunkG, new_products_p1, new_products_p2, chunkH, new_root_p1, new_root_p2, chunkI, new_app_phases_p1, new_app_phases_p2, new_app_phases_p3, chunkJ, native_target_p1, native_target_p2, native_target_p3, native_target_p4, anchor_native_target, chunkK, attrs_new_p1, attrs_new_p2, chunkL, targets_new_p1, targets_new_p2, chunkM], cat [chunkN, src_phase_p1, src_phase_p2, anchor_sources, chunkO, dep_entry_p1, dep_entry_p2, anchor_dependency, chunkP, cfg_debug_p1, cfg_debug_p2, cfg_debug_p3, cfg_debug_p4, cfg_debug_p5, cfg_release_p1, cfg_release_p2, cfg_release_p3, cfg_release_p4, cfg_release_p5, anchor_xcbuild_config, chunkQ, cfg_list_p1, cfg_list_p2, anchor_config_list, chunkR],
    by simp [cat_cons, cat_nil, List.append_nil, List.append_assoc, res_phase]⟩

theorem occ_adj_14 : Occ (src_phase ++ anchor_sources) (cat [chunkA, build_file_entry, anchor_build_file, chunkB, proxy_entry_p1, proxy_entry_p2, anchor_proxy, chunkC, copy_phase_p1, copy_phase_p2, copy_phase_p3, anchor_begin_file_ref, chunkD, file_ref, anchor_file_ref, chunkE, sync_group_p1, sync_group_p2, anchor_sync_group, chunkF, fw_phase_p1, fw_phase_p2, anchor_frameworks, chunkG, new_products_p1, new_products_p2, chunkH, new_root_p1, new_root_p2, chunkI, new_app_phases_p1, new_app_phases_p2, new_app_phases_p3, chunkJ, native_target_p1, native_target_p2, native_target_p3, native_target_p4, anchor_native_target, chunkK, attrs_new_p1, attrs_new_p2, chunkL, targets_new_p1, targets_new_p2, chunkM, res_phase_p1, res_phase_p2, anchor_resources, chunkN, src_phase_p1, src_phase_p2, anchor_sources, chunkO, dep_entry_p1, dep_entry_p2, anchor_dependency, chunkP, cfg_debug_p1, cfg_debug_p2, cfg_debug_p3, cfg_debug_p4, cfg_debug_p5, cfg_release_p1, cfg_release_p2, cfg_release_p3, cfg_release_p4, cfg_release_p5, anchor_xcbuild_config, chunkQ, cfg_list_p1, cfg_list_p2, anchor_config_list, chunkR]) :=
  ⟨cat [chunkA, build_file_entry, anchor_build_file, chunkB, proxy_entry_p1, proxy_entry_p2, anchor_proxy, chunkC, copy_phase_p1, copy_phase_p2, copy_phase_p3, anchor_begin_file_ref, chunkD, file_ref, anchor_file_ref, chunkE, sync_group_p1, sync_group_p2, anchor_sync_group, chunkF, fw_phase_p1, fw_phase_p2, anchor_frameworks, chunkG, new_products_p1, new_products_p2, chunkH, new_root_p1, new_root_p2, chunkI, new_app_phases_p1, new_app_phases_p2, new_app_phases_p3, chunkJ, native_target_p1, native_target_p2, native_target_p3, native_target_p4, anchor_native_target, chunkK, attrs_new_p1, attrs_new_p2, chunkL, targets_new_p1, targets_new_p2, chunkM, res_phase_p1, res_phase_p2, anchor_resources, chunkN], cat [chunkO, dep_entry_p1, dep_entry_p2, anchor_dependency, chunkP, cfg_debug_p1, cfg_debug_p2, cfg_debug_p3, cfg_debug_p4, cfg_debug_p5, cfg_release_p1, cfg_release_p2, cfg_release_p3, cfg_release_p4, cfg_release_p5, anchor_xcbuild_config, chunkQ, cfg_list_p1, cfg_list_p2, anchor_config_list, chunkR],
    by simp [cat_cons, cat_nil, List.append_nil, List.append_assoc, src_phase]⟩

theorem occ_adj_15 : Occ (dep_entry ++ anchor_dependency) (cat [chunkA, build_file_entry, anchor_build_file, chunkB, proxy_entry_p1, proxy_entry_p2, anchor_proxy, chunkC, copy_phase_p1, copy_phase_p2, copy_phase_p3, anchor_begin_file_ref, chunkD, file_ref, anchor_file_ref, chunkE, sync_group_p1, sync_group_p2, anchor_sync_group, chunkF, fw_phase_p1, fw_phase_p2, anchor_frameworks, chunkG, new_products_p1, new_products_p2, chunkH, new_root_p1, new_root_p2, chunkI, new_app_phases_p1, new_app_phases_p2, new_app_phases_p3, chunkJ, native_target_p1, native_target_p2, native_target_p3, native_target_p4, anchor_native_target, chunkK, attrs_new_p1, attrs_new_p2, chunkL, targets_new_p1, targets_new_p2, chunkM, res_phase_p1, res_phase_p2, anchor_resources, chunkN, src_phase_p1, src_phase_p2, anchor_sources, chunkO, dep_entry_p1, dep_entry_p2, anchor_dependency, chunkP, cfg_debug_p1, cfg_debug_p2, cfg_debug_p3, cfg_debug_p4, cfg_debug_p5, cfg_release_p1, cfg_release_p2, cfg_release_p3, cfg_release_p4, cfg_release_p5, anchor_xcbuild_config, chunkQ, cfg_list_p1, cfg_list_p2, anchor_config_list, chunkR]) :=
  ⟨cat [chunkA, build_file_entry, anchor_build_file, chunkB, proxy_entry_p1, proxy_entry_p2, anchor_proxy, chunkC, copy_phase_p1, copy_phase_p2, copy_phase_p3, anchor_begin_file_ref, chunkD, file_ref, anchor_file_ref, chunkE, sync_group_p1, sync_group_p2, anchor_sync_group, chunkF, fw_phase_p1, fw_phase_p2, anchor_frameworks, chunkG, new_products_p1, new_products_p2, chunkH, new_root_p1, new_root_p2, chunkI, new_app_phases_p1, new_app_phases_p2, new_app_phases_p3, chunkJ, native_target_p1, native_target_p2, native_target_p3, native_target_p4, anchor_native_target, chunkK, attrs_new_p1, attrs_new_p2, chunkL, targets_new_p1, targets_new_p2, chunkM, res_phase_p1, res_phase_p2, anchor_resources, chunkN, src_phase_p1, src_phase_p2, anchor_sources, chunkO], cat [chunkP, cfg_debug_p1, cfg_debug_p2, cfg_debug_p3, cfg_debug_p4, cfg_debug_p5, cfg_release_p1, cfg_release_p2, cfg_release_p3, cfg_release_p4, cfg_release_p5, anchor_xcbuild_config, chunkQ, cfg_list_p1, cfg_list_p2, anchor_config_list, chunkR],
    by simp [cat_cons, cat_nil, List.append_nil, List.append_assoc, dep_entry]⟩

theorem occ_adj_16 : Occ (cfg_debug ++ cfg_release ++ anchor_xcbuild_config) (cat [chunkA, build_file_entry, anchor_build_file, chunkB, proxy_entry_p1, proxy_entry_p2, anchor_proxy, chunkC, copy_phase_p1, copy_phase_p2, copy_phase_p3, anchor_begin_file_ref, chunkD, file_ref, anchor_file_ref, chunkE, sync_group_p1, sync_group_p2, anchor_sync_group, chunkF, fw_phase_p1, fw_phase_p2, anchor_frameworks, chunkG, new_products_p1, new_products_p2, chunkH, new_root_p1, new_root_p2, chunkI, new_app_phases_p1, new_app_phases_p2, new_app_phases_p3, chunkJ, native_target_p1, native_target_p2, native_target_p3, native_target_p4, anchor_native_target, chunkK, attrs_new_p1, attrs_new_p2, chunkL, targets_new_p1, targets_new_p2, chunkM, res_phase_p1, res_phase_p2, anchor_resources, chunkN, src_phase_p1, src_phase_p2, anchor_sources, chunkO, dep_entry_p1, dep_entry_p2, anchor_dependency, chunkP, cfg_debug_p1, cfg_debug_p2, cfg_debug_p3, cfg_debug_p4, cfg_debug_p5, cfg_release_p1, cfg_release_p2, cfg_release_p3, cfg_release_p4, cfg_release_p5, anchor_xcbuild_config, chunkQ, cfg_list_p1, cfg_list_p2, anchor_config_list, chunkR]) :=
  ⟨cat [chunkA, build_file_entry, anchor_build_file, chunkB, proxy_entry_p1, proxy_entry_p2, anchor_proxy, chunkC, copy_phase_p1, copy_phase_p2, copy_phase_p3, anchor_begin_file_ref, chunkD, file_ref, anchor_file_ref, chunkE, sync_group_p1, sync_group_p2, anchor_sync_group, chunkF, fw_phase_p1, fw_phase_p2, anchor_frameworks, chunkG, new_products_p1, new_products_p2, chunkH, new_root_p1, new_root_p2, chunkI, new_app_phases_p1, new_app_phases_p2, new_app_phases_p3, chunkJ, native_target_p1, native_target_p2, native_target_p3, native_target_p4, anchor_native_target, chunkK, attrs_new_p1, attrs_new_p2, chunkL, targets_new_p1, targets_new_p2, chunkM, res_phase_p1, res_phase_p2, anchor_resources, chunkN, src_phase_p1, src_phase_p2, anchor_sources, chunkO, dep_entry_p1, dep_entry_p2, anchor_dependency, chunkP], cat [chunkQ, cfg_list_p1, cfg_list_p2, anchor_config_list, chunkR],
    by simp [cat_cons, cat_nil, List.append_nil, List.append_assoc, cfg_debug, cfg_release]⟩

theorem occ_adj_17 : Occ (cfg_list ++ anchor_config_list) (cat [chunkA, build_file_entry, anchor_build_file, chunkB, proxy_entry_p1, proxy_entry_p2, anchor_proxy, chunkC, copy_phase_p1, copy_phase_p2, copy_phase_p3, anchor_begin_file_ref, chunkD, file_ref, anchor_file_ref, chunkE, sync_group_p1, sync_group_p2, anchor_sync_group, chunkF, fw_phase_p1, fw_phase_p2, anchor_frameworks, chunkG, new_products_p1, new_products_p2, chunkH, new_root_p1, new_root_p2, chunkI, new_app_phases_p1, new_app_phases_p2, new_app_phases_p3, chunkJ, native_target_p1, native_target_p2, native_target_p3, native_target_p4, anchor_native_target, chunkK, attrs_new_p1, attrs_new_p2, chunkL, targets_new_p1, targets_new_p2, chunkM, res_phase_p1, res_phase_p2, anchor_resources, chunkN, src_phase_p1, src_phase_p2, anchor_sources, chunkO, dep_entry_p1, dep_entry_p2, anchor_dependency, chunkP, cfg_debug_p1, cfg_debug_p2, cfg_debug_p3, cfg_debug_p4, cfg_debug_p5, cfg_release_p1, cfg_release_p2, cfg_release_p3, cfg_release_p4, cfg_release_p5, anchor_xcbuild_config, chunkQ, cfg_list_p1, cfg_list_p2, anchor_config_list, chunkR]) :=
  ⟨cat [chunkA, build_file_entry, anchor_build_file, chunkB, proxy_entry_p1, proxy_entry_p2, anchor_proxy, chunkC, copy_phase_p1, copy_phase_p2, copy_phase_p3, anchor_begin_file_ref, chunkD, file_ref, anchor_file_ref, chunkE, sync_group_p1, sync_group_p2, anchor_sync_group, chunkF, fw_phase_p1, fw_phase_p2, anchor_frameworks, chunkG, new_products_p1, new_products_p2, chunkH, new_root_p1, new_root_p2, chunkI, new_app_phases_p1, new_app_phases_p2, new_app_phases_p3, chunkJ, native_target_p1, native_target_p2, native_target_p3, native_target_p4, anchor_native_target, chunkK, attrs_new_p1, attrs_new_p2, chunkL, targets_new_p1, targets_new_p2, chunkM, res_phase_p1, res_phase_p2, anchor_resources, chunkN, src_phase_p1, src_phase_p2, anchor_sources, chunkO, dep_entry_p1, dep_entry_p2, anchor_dependency, chunkP, cfg_debug_p1, cfg_debug_p2, cfg_debug_p3, cfg_debug_p4, cfg_debug_p5, cfg_release_p1, cfg_release_p2, cfg_release_p3, cfg_release_p4, cfg_release_p5, anchor_xcbuild_config, chunkQ], cat [chunkR],
    by simp [cat_cons, cat_nil, List.append_nil, List.append_assoc, cfg_list]⟩

theorem fixtureC_split : fixtureC = (build_file_entry ++ chunkS) ++ fixture := by
  simp [fixtureC, fixture, cat_cons, cat_nil, List.append_nil, List.append_assoc]

theorem patch_fixtureC :
    patch fixtureC = (build_file_entry ++ chunkS) ++ cat [chunkA, build_file_entry, anchor_build_file, chunkB, proxy_entry_p1, proxy_entry_p2, anchor_proxy, chunkC, copy_phase_p1, copy_phase_p2, copy_phase_p3, anchor_begin_file_ref, chunkD, file_ref, anchor_file_ref, chunkE, sync_group_p1, sync_group_p2, anchor_sync_group, chunkF, fw_phase_p1, fw_phase_p2, anchor_frameworks, chunkG, new_products_p1, new_products_p2, chunkH, new_root_p1, new_root_p2, chunkI, new_app_phases_p1, new_app_phases_p2, new_app_phases_p3, chunkJ, native_target_p1, native_target_p2, native_target_p3, native_target_p4, anchor_native_target, chunkK, attrs_new_p1, attrs_new_p2, chunkL, targets_new_p1, targets_new_p2, chunkM, res_phase_p1, res_phase_p2, anchor_resources, chunkN, src_phase_p1, src_phase_p2, anchor_sources, chunkO, dep_entry_p1, dep_entry_p2, anchor_dependency, chunkP, cfg_debug_p1, cfg_debug_p2, cfg_debug_p3, cfg_debug_p4, cfg_debug_p5, cfg_release_p1, cfg_release_p2, cfg_release_p3, cfg_release_p4, cfg_release_p5, anchor_xcbuild_config, chunkQ, cfg_list_p1, cfg_list_p2, anchor_config_list, chunkR] := by
  rw [fixtureC_split]
  show steps.foldl applyStep _ = _
  rw [foldl_prefix_skip steps (build_file_entry ++ chunkS) fixture
    (by intro p hp; fin_cases hp <;> decide)]
  rw [show steps.foldl applyStep fixture = patch fixture from rfl, patch_fixture]

theorem cnt_fixc0_anchor_build_file : countOcc anchor_build_file fixtureC = 1 := by
  rw [fixtureC_split, countOcc_win anchor_build_file_ne]
  rw [(by decide : countOcc anchor_build_file ((build_file_entry ++ chunkS) ++ fixture.take (anchor_build_file.length - 1)) = 0), Nat.zero_add]
  exact cnt_fix0_anchor_build_file

theorem cnt_fixc0_anchor_proxy : countOcc anchor_proxy fixtureC = 1 := by
  rw [fixtureC_split, countOcc_win anchor_proxy_ne]
  rw [(by decide : countOcc anchor_proxy ((build_file_entry ++ chunkS) ++ fixture.take (anchor_proxy.length - 1)) = 0), Nat.zero_add]
  exact cnt_fix0_anchor_proxy

theorem cnt_fixc0_anchor_begin_file_ref : countOcc anchor_begin_file_ref fixtureC = 1 := by
  rw [fixtureC_split, countOcc_win anchor_begin_file_ref_ne]
  rw [(by decide : countOcc anchor_begin_file_ref ((build_file_entry ++ chunkS) ++ fixture.take (anchor_begin_file_ref.length - 1)) = 0), Nat.zero_add]
  exact cnt_fix0_anchor_begin_file_ref

theorem cnt_fixc0_anchor_file_ref : countOcc anchor_file_ref fixtureC = 1 := by
  rw [fixtureC_split, countOcc_win anchor_file_ref_ne]
  rw [(by decide : countOcc anchor_file_ref ((build_file_entry ++ chunkS) ++ fixture.take (anchor_file_ref.length - 1)) = 0), Nat.zero_add]
  exact cnt_fix0_anchor_file_ref

theorem cnt_fixc0_anchor_sync_group : countOcc anchor_sync_group fixtureC = 1 := by
  rw [fixtureC_split, countOcc_win anchor_sync_group_ne]
  rw [(by decide : countOcc anchor_sync_group ((build_file_entry ++ chunkS) ++ fixture.take (anchor_sync_group.length - 1)) = 0), Nat.zero_add]
  exact cnt_fix0_anchor_sync_group

theorem cnt_fixc0_anchor_frameworks : countOcc anchor_frameworks fixtureC = 1 := by
  rw [fixtureC_split, countOcc_win anchor_frameworks_ne]
  rw [(by decide : countOcc anchor_frameworks ((build_file_entry ++ chunkS) ++ fixture.take (anchor_frameworks.length - 1)) = 0), Nat.zero_add]
  exact cnt_fix0_anchor_frameworks

theorem cnt_fixc0_old_products : countOcc old_products fixtureC = 1 := by
  rw [fixtureC_split, countOcc_win old_products_ne]
  rw [(by decide : countOcc old_products ((build_file_entry ++ chunkS) ++ fixture.take (old_products.length - 1)) = 0), Nat.zero_add]
  exact cnt_fix0_old_products

theorem cnt_fixc0_old_root : countOcc old_root fixtureC = 1 := by
  rw [fixtureC_split, countOcc_win old_root_ne]
  rw [(by decide : countOcc old_root ((build_file_entry ++ chunkS) ++ fixture.take (old_root.length - 1)) = 0), Nat.zero_add]
  exact cnt_fix0_old_root

theorem cnt_fixc0_anchor_native_target : countOcc anchor_native_target fixtureC = 1 := by
  rw [fixtureC_split, countOcc_win anchor_native_target_ne]
  rw [(by decide : countOcc anchor_native_target ((build_file_entry ++ chunkS) ++ fixture.take (anchor_native_target.length - 1)) = 0), Nat.zero_add]
  exact cnt_fix0_anchor_native_target

theorem cnt_fixc0_targets_old : countOcc targets_old fixtureC = 1 := by
  rw [fixtureC_split, countOcc_win targets_old_ne]
  rw [(by decide : countOcc targets_old ((build_file_entry ++ chunkS) ++ fixture.take (targets_old.length - 1)) = 0), Nat.zero_add]
  exact cnt_fix0_targets_old

theorem cnt_fixc0_attrs_old : countOcc attrs_old fixtureC = 1 := by
  rw [fixtureC_split, countOcc_win attrs_old_ne]
  rw [(by decide : countOcc attrs_old ((build_file_entry ++ chunkS) ++ fixture.take (attrs_old.length - 1)) = 0), Nat.zero_add]
  exact cnt_fix0_attrs_old

theorem cnt_fixc0_old_app_phases : countOcc old_app_phases fixtureC = 1 := by
  rw [fixtureC_split, countOcc_win old_app_phases_ne]
  rw [(by decide : countOcc old_app_phases ((build_file_entry ++ chunkS) ++ fixture.take (old_app_phases.length - 1)) = 0), Nat.zero_add]
  exact cnt_fix0_old_app_phases

theorem cnt_fixc0_anchor_resources : countOcc anchor_resources fixtureC = 1 := by
  rw [fixtureC_split, countOcc_win anchor_resources_ne]
  rw [(by decide : countOcc anchor_resources ((build_file_entry ++ chunkS) ++ fixture.take (anchor_resources.length - 1)) = 0), Nat.zero_add]
  exact cnt_fix0_anchor_resources

theorem cnt_fixc0_anchor_sources : countOcc anchor_sources fixtureC = 1 := by
  rw [fixtureC_split, countOcc_win anchor_sources_ne]
  rw [(by decide : countOcc anchor_sources ((build_file_entry ++ chunkS) ++ fixture.take (anchor_sources.length - 1)) = 0), Nat.zero_add]
  exact cnt_fix0_anchor_sources

theorem cnt_fixc0_anchor_dependency : countOcc anchor_dependency fixtureC = 1 := by
  rw [fixtureC_split, countOcc_win anchor_dependency_ne]
  rw [(by decide : countOcc anchor_dependency ((build_file_entry ++ chunkS) ++ fixture.take (anchor_dependency.length - 1)) = 0), Nat.zero_add]
  exact cnt_fix0_anchor_dependency

theorem cnt_fixc0_anchor_xcbuild_config : countOcc anchor_xcbuild_config fixtureC = 1 := by
  rw [fixtureC_split, countOcc_win anchor_xcbuild_config_ne]
  rw [(by decide : countOcc anchor_xcbuild_config ((build_file_entry ++ chunkS) ++ fixture.take (anchor_xcbuild_config.length - 1)) = 0), Nat.zero_add]
  exact cnt_fix0_anchor_xcbuild_config

theorem cnt_fixc0_anchor_config_list : countOcc anchor_config_list fixtureC = 1 := by
  rw [fixtureC_split, countOcc_win anchor_config_list_ne]
  rw [(by decide : countOcc anchor_config_list ((build_file_entry ++ chunkS) ++ fixture.take (anchor_config_list.length - 1)) = 0), Nat.zero_add]
  exact cnt_fix0_anchor_config_list

theorem cnt_finC_build_file_entry : countOcc build_file_entry (patch fixtureC) = 2 := by
  rw [patch_fixtureC, countOcc_win build_file_entry_ne]
  rw [(by decide : countOcc build_file_entry ((build_file_entry ++ chunkS) ++ (cat [chunkA, build_file_entry, anchor_build_file, chunkB, proxy_entry_p1, proxy_entry_p2, anchor_proxy, chunkC, copy_phase_p1, copy_phase_p2, copy_phase_p3, anchor_begin_file_ref, chunkD, file_ref, anchor_file_ref, chunkE, sync_group_p1, sync_group_p2, anchor_sync_group, chunkF, fw_phase_p1, fw_phase_p2, anchor_frameworks, chunkG, new_products_p1, new_products_p2, chunkH, new_root_p1, new_root_p2, chunkI, new_app_phases_p1, new_app_phases_p2, new_app_phases_p3, chunkJ, native_target_p1, native_target_p2, native_target_p3, native_target_p4, anchor_native_target, chunkK, attrs_new_p1, attrs_new_p2, chunkL, targets_new_p1, targets_new_p2, chunkM, res_phase_p1, res_phase_p2, anchor_resources, chunkN, src_phase_p1, src_phase_p2, anchor_sources, chunkO, dep_entry_p1, dep_entry_p2, anchor_dependency, chunkP, cfg_debug_p1, cfg_debug_p2, cfg_debug_p3, cfg_debug_p4, cfg_debug_p5, cfg_release_p1, cfg_release_p2, cfg_release_p3, cfg_release_p4, cfg_release_p5, anchor_xcbuild_config, chunkQ, cfg_list_p1, cfg_list_p2, anchor_config_list, chunkR]).take (build_file_entry.length - 1)) = 1)]
  rw [cnt_fin_build_file_entry]

/- ## Length bookkeeping -/

theorem len_anchor_begin_file_ref : (anchor_begin_file_ref).length = 36 := by decide
theorem len_anchor_build_file : (anchor_build_file).length = 30 := by decide
theorem len_anchor_config_list : (anchor_config_list).length = 37 := by decide
theorem len_anchor_dependency : (anchor_dependency).length = 37 := by decide
theorem len_anchor_file_ref : (anchor_file_ref).length = 34 := by decide
theorem len_anchor_frameworks : (anchor_frameworks).length = 41 := by decide
theorem len_anchor_native_target : (anchor_native_target).length = 33 := by decide
theorem len_anchor_proxy : (anchor_proxy).length = 39 := by decide
theorem len_anchor_resources : (anchor_resources).length = 40 := by decide
theorem len_anchor_sources : (anchor_sources).length = 38 := by decide
theorem len_anchor_sync_group : (anchor_sync_group).length = 52 := by decide
theorem len_anchor_xcbuild_config : (anchor_xcbuild_config).length = 38 := by decide
theorem len_attrs_new_p1 : (attrs_new_p1).length = 34 := by decide
theorem len_attrs_new_p2 : (attrs_new_p2).length = 121 := by decide
theorem len_attrs_old : (attrs_old).length = 77 := by decide
theorem len_build_file_entry : (build_file_entry).length = 231 := by decide
theorem len_cfg_debug_p1 : (cfg_debug_p1).length = 43 := by decide
theorem len_cfg_debug_p2 : (cfg_debug_p2).length = 301 := by decide
theorem len_cfg_debug_p3 : (cfg_debug_p3).length = 315 := by decide
theorem len_cfg_debug_p4 : (cfg_debug_p4).length = 302 := by decide
theorem len_cfg_debug_p5 : (cfg_debug_p5).length = 123 := by decide
theorem len_cfg_list_p1 : (cfg_list_p1).length = 101 := by decide
theorem len_cfg_list_p2 : (cfg_list_p2).length = 231 := by decide
theorem len_cfg_release_p1 : (cfg_release_p1).length = 45 := by decide
theorem len_cfg_release_p2 : (cfg_release_p2).length = 301 := by decide
theorem len_cfg_release_p3 : (cfg_release_p3).length = 315 := by decide
theorem len_cfg_release_p4 : (cfg_release_p4).length = 302 := by decide
theorem len_cfg_release_p5 : (cfg_release_p5).length = 125 := by decide
theorem len_chunkA : (chunkA).length = 61 := by decide
theorem len_chunkB : (chunkB).length = 44 := by decide
theorem len_chunkC : (chunkC).length = 2 := by decide
theorem len_chunkD : (chunkD).length = 1 := by decide
theorem len_chunkE : (chunkE).length = 57 := by decide
theorem len_chunkF : (chunkF).length = 46 := by decide
theorem len_chunkG : (chunkG).length = 31 := by decide
theorem len_chunkH : (chunkH).length = 1 := by decide
theorem len_chunkI : (chunkI).length = 65 := by decide
theorem len_chunkJ : (chunkJ).length = 6 := by decide
theorem len_chunkK : (chunkK).length = 33 := by decide
theorem len_chunkL : (chunkL).length = 1 := by decide
theorem len_chunkM : (chunkM).length = 74 := by decide
theorem len_chunkN : (chunkN).length = 43 := by decide
theorem len_chunkO : (chunkO).length = 42 := by decide
theorem len_chunkP : (chunkP).length = 43 := by decide
theorem len_chunkQ : (chunkQ).length = 42 := by decide
theorem len_chunkR : (chunkR).length = 1 := by decide
theorem len_chunkS : (chunkS).length = 2 := by decide
theorem len_copy_phase_p1 : (copy_phase_p1).length = 43 := by decide
theorem len_copy_phase_p2 : (copy_phase_p2).length = 324 := by decide
theorem len_copy_phase_p3 : (copy_phase_p3).length = 90 := by decide
theorem len_dep_entry_p1 : (dep_entry_p1).length = 57 := by decide
theorem len_dep_entry_p2 : (dep_entry_p2).length = 167 := by decide
theorem len_file_ref : (file_ref).length = 214 := by decide
theorem len_fw_phase_p1 : (fw_phase_p1).length = 48 := by decide
theorem len_fw_phase_p2 : (fw_phase_p2).length = 134 := by decide
theorem len_native_target_p1 : (native_target_p1).length = 54 := by decide
theorem len_native_target_p2 : (native_target_p2).length = 330 := by decide
theorem len_native_target_p3 : (native_target_p3).length = 307 := by decide
theorem len_native_target_p4 : (native_target_p4).length = 62 := by decide
theorem len_new_app_phases_p1 : (new_app_phases_p1).length = 52 := by decide
theorem len_new_app_phases_p2 : (new_app_phases_p2).length = 304 := by decide
theorem len_new_app_phases_p3 : (new_app_phases_p3).length = 175 := by decide
theorem len_new_products_p1 : (new_products_p1).length = 46 := by decide
theorem len_new_products_p2 : (new_products_p2).length = 282 := by decide
theorem len_new_root_p1 : (new_root_p1).length = 31 := by decide
theorem len_new_root_p2 : (new_root_p2).length = 247 := by decide
theorem len_old_app_phases_p1 : (old_app_phases_p1).length = 310 := by decide
theorem len_old_app_phases_p2 : (old_app_phases_p2).length = 101 := by decide
theorem len_old_products : (old_products).length = 269 := by decide
theorem len_old_root : (old_root).length = 225 := by decide
theorem len_proxy_entry_p1 : (proxy_entry_p1).length = 59 := by decide
theorem len_proxy_entry_p2 : (proxy_entry_p2).length = 209 := by decide
theorem len_res_phase_p1 : (res_phase_p1).length = 47 := by decide
theorem len_res_phase_p2 : (res_phase_p2).length = 133 := by decide
theorem len_src_phase_p1 : (src_phase_p1).length = 45 := by decide
theorem len_src_phase_p2 : (src_phase_p2).length = 131 := by decide
theorem len_sync_group_p1 : (sync_group_p1).length = 54 := by decide
theorem len_sync_group_p2 : (sync_group_p2).length = 129 := by decide
theorem len_targets_new_p1 : (targets_new_p1).length = 15 := by decide
theorem len_targets_new_p2 : (targets_new_p2).length = 223 := by decide
theorem len_targets_old : (targets_old).length = 185 := by decide

theorem len_blk_proxy_entry : (proxy_entry).length = 268 := by
  simp only [cat_cons, cat_nil, List.length_append, List.length_nil, proxy_entry,
    len_anchor_begin_file_ref, len_anchor_build_file, len_anchor_config_list, len_anchor_dependency, len_anchor_file_ref, len_anchor_frameworks, len_anchor_native_target, len_anchor_proxy, len_anchor_resources, len_anchor_sources, len_anchor_sync_group, len_anchor_xcbuild_config, len_attrs_new_p1, len_attrs_new_p2, len_attrs_old, len_build_file_entry, len_cfg_debug_p1, len_cfg_debug_p2, len_cfg_debug_p3, len_cfg_debug_p4, len_cfg_debug_p5, len_cfg_list_p1, len_cfg_list_p2, len_cfg_release_p1, len_cfg_release_p2, len_cfg_release_p3, len_cfg_release_p4, len_cfg_release_p5, len_chunkA, len_chunkB, len_chunkC, len_chunkD, len_chunkE, len_chunkF, len_chunkG, len_chunkH, len_chunkI, len_chunkJ, len_chunkK, len_chunkL, len_chunkM, len_chunkN, len_chunkO, len_chunkP, len_chunkQ, len_chunkR, len_chunkS, len_copy_phase_p1, len_copy_phase_p2, len_copy_phase_p3, len_dep_entry_p1, len_dep_entry_p2, len_file_ref, len_fw_phase_p1, len_fw_phase_p2, len_native_target_p1, len_native_target_p2, len_native_target_p3, len_native_target_p4, len_new_app_phases_p1, len_new_app_phases_p2, len_new_app_phases_p3, len_new_products_p1, len_new_products_p2, len_new_root_p1, len_new_root_p2, len_old_app_phases_p1, len_old_app_phases_p2, len_old_products, len_old_root, len_proxy_entry_p1, len_proxy_entry_p2, len_res_phase_p1, len_res_phase_p2, len_src_phase_p1, len_src_phase_p2, len_sync_group_p1, len_sync_group_p2, len_targets_new_p1, len_targets_new_p2, len_targets_old]

theorem len_blk_copy_phase : (copy_phase).length = 457 := by
  simp only [cat_cons, cat_nil, List.length_append, List.length_nil, copy_phase,
    len_anchor_begin_file_ref, len_anchor_build_file, len_anchor_config_list, len_anchor_dependency, len_anchor_file_ref, len_anchor_frameworks, len_anchor_native_target, len_anchor_proxy, len_anchor_resources, len_anchor_sources, len_anchor_sync_group, len_anchor_xcbuild_config, len_attrs_new_p1, len_attrs_new_p2, len_attrs_old, len_build_file_entry, len_cfg_debug_p1, len_cfg_debug_p2, len_cfg_debug_p3, len_cfg_debug_p4, len_cfg_debug_p5, len_cfg_list_p1, len_cfg_list_p2, len_cfg_release_p1, len_cfg_release_p2, len_cfg_release_p3, len_cfg_release_p4, len_cfg_release_p5, len_chunkA, len_chunkB, len_chunkC, len_chunkD, len_chunkE, len_chunkF, len_chunkG, len_chunkH, len_chunkI, len_chunkJ, len_chunkK, len_chunkL, len_chunkM, len_chunkN, len_chunkO, len_chunkP, len_chunkQ, len_chunkR, len_chunkS, len_copy_phase_p1, len_copy_phase_p2, len_copy_phase_p3, len_dep_entry_p1, len_dep_entry_p2, len_file_ref, len_fw_phase_p1, len_fw_phase_p2, len_native_target_p1, len_native_target_p2, len_native_target_p3, len_native_target_p4, len_new_app_phases_p1, len_new_app_phases_p2, len_new_app_phases_p3, len_new_products_p1, len_new_products_p2, len_new_root_p1, len_new_root_p2, len_old_app_phases_p1, len_old_app_phases_p2, len_old_products, len_old_root, len_proxy_entry_p1, len_proxy_entry_p2, len_res_phase_p1, len_res_phase_p2, len_src_phase_p1, len_src_phase_p2, len_sync_group_p1, len_sync_group_p2, len_targets_new_p1, len_targets_new_p2, len_targets_old]

theorem len_blk_sync_group : (sync_group).length = 183 := by
  simp only [cat_cons, cat_nil, List.length_append, List.length_nil, sync_group,
    len_anchor_begin_file_ref, len_anchor_build_file, len_anchor_config_list, len_anchor_dependency, len_anchor_file_ref, len_anchor_frameworks, len_anchor_native_target, len_anchor_proxy, len_anchor_resources, len_anchor_sources, len_anchor_sync_group, len_anchor_xcbuild_config, len_attrs_new_p1, len_attrs_new_p2, len_attrs_old, len_build_file_entry, len_cfg_debug_p1, len_cfg_debug_p2, len_cfg_debug_p3, len_cfg_debug_p4, len_cfg_debug_p5, len_cfg_list_p1, len_cfg_list_p2, len_cfg_release_p1, len_cfg_release_p2, len_cfg_release_p3, len_cfg_release_p4, len_cfg_release_p5, len_chunkA, len_chunkB, len_chunkC, len_chunkD, len_chunkE, len_chunkF, len_chunkG, len_chunkH, len_chunkI, len_chunkJ, len_chunkK, len_chunkL, len_chunkM, len_chunkN, len_chunkO, len_chunkP, len_chunkQ, len_chunkR, len_chunkS, len_copy_phase_p1, len_copy_phase_p2, len_copy_phase_p3, len_dep_entry_p1, len_dep_entry_p2, len_file_ref, len_fw_phase_p1, len_fw_phase_p2, len_native_target_p1, len_native_target_p2, len_native_target_p3, len_native_target_p4, len_new_app_phases_p1, len_new_app_phases_p2, len_new_app_phases_p3, len_new_products_p1, len_new_products_p2, len_new_root_p1, len_new_root_p2, len_old_app_phases_p1, len_old_app_phases_p2, len_old_products, len_old_root, len_proxy_entry_p1, len_proxy_entry_p2, len_res_phase_p1, len_res_phase_p2, len_src_phase_p1, len_src_phase_p2, len_sync_group_p1, len_sync_group_p2, len_targets_new_p1, len_targets_new_p2, len_targets_old]

theorem len_blk_fw_phase : (fw_phase).length = 182 := by
  simp only [cat_cons, cat_nil, List.length_append, List.length_nil, fw_phase,
    len_anchor_begin_file_ref, len_anchor_build_file, len_anchor_config_list, len_anchor_dependency, len_anchor_file_ref, len_anchor_frameworks, len_anchor_native_target, len_anchor_proxy, len_anchor_resources, len_anchor_sources, len_anchor_sync_group, len_anchor_xcbuild_config, len_attrs_new_p1, len_attrs_new_p2, len_attrs_old, len_build_file_entry, len_cfg_debug_p1, len_cfg_debug_p2, len_cfg_debug_p3, len_cfg_debug_p4, len_cfg_debug_p5, len_cfg_list_p1, len_cfg_list_p2, len_cfg_release_p1, len_cfg_release_p2, len_cfg_release_p3, len_cfg_release_p4, len_cfg_release_p5, len_chunkA, len_chunkB, len_chunkC, len_chunkD, len_chunkE, len_chunkF, len_chunkG, len_chunkH, len_chunkI, len_chunkJ, len_chunkK, len_chunkL, len_chunkM, len_chunkN, len_chunkO, len_chunkP, len_chunkQ, len_chunkR, len_chunkS, len_copy_phase_p1, len_copy_phase_p2, len_copy_phase_p3, len_dep_entry_p1, len_dep_entry_p2, len_file_ref, len_fw_phase_p1, len_fw_phase_p2, len_native_target_p1, len_native_target_p2, len_native_target_p3, len_native_target_p4, len_new_app_phases_p1, len_new_app_phases_p2, len_new_app_phases_p3, len_new_products_p1, len_new_products_p2, len_new_root_p1, len_new_root_p2, len_old_app_phases_p1, len_old_app_phases_p2, len_old_products, len_old_root, len_proxy_entry_p1, len_proxy_entry_p2, len_res_phase_p1, len_res_phase_p2, len_src_phase_p1, len_src_phase_p2, len_sync_group_p1, len_sync_group_p2, len_targets_new_p1, len_targets_new_p2, len_targets_old]

theorem len_blk_native_target : (native_target).length = 753 := by
  simp only [cat_cons, cat_nil, List.length_append, List.length_nil, native_target,
    len_anchor_begin_file_ref, len_anchor_build_file, len_anchor_config_list, len_anchor_dependency, len_anchor_file_ref, len_anchor_frameworks, len_anchor_native_target, len_anchor_proxy, len_anchor_resources, len_anchor_sources, len_anchor_sync_group, len_anchor_xcbuild_config, len_attrs_new_p1, len_attrs_new_p2, len_attrs_old, len_build_file_entry, len_cfg_debug_p1, len_cfg_debug_p2, len_cfg_debug_p3, len_cfg_debug_p4, len_cfg_debug_p5, len_cfg_list_p1, len_cfg_list_p2, len_cfg_release_p1, len_cfg_release_p2, len_cfg_release_p3, len_cfg_release_p4, len_cfg_release_p5, len_chunkA, len_chunkB, len_chunkC, len_chunkD, len_chunkE, len_chunkF, len_chunkG, len_chunkH, len_chunkI, len_chunkJ, len_chunkK, len_chunkL, len_chunkM, len_chunkN, len_chunkO, len_chunkP, len_chunkQ, len_chunkR, len_chunkS, len_copy_phase_p1, len_copy_phase_p2, len_copy_phase_p3, len_dep_entry_p1, len_dep_entry_p2, len_file_ref, len_fw_phase_p1, len_fw_phase_p2, len_native_target_p1, len_native_target_p2, len_native_target_p3, len_native_target_p4, len_new_app_phases_p1, len_new_app_phases_p2, len_new_app_phases_p3, len_new_products_p1, len_new_products_p2, len_new_root_p1, len_new_root_p2, len_old_app_phases_p1, len_old_app_phases_p2, len_old_products, len_old_root, len_proxy_entry_p1, len_proxy_entry_p2, len_res_phase_p1, len_res_phase_p2, len_src_phase_p1, len_src_phase_p2, len_sync_group_p1, len_sync_group_p2, len_targets_new_p1, len_targets_new_p2, len_targets_old]

theorem len_blk_res_phase : (res_phase).length = 180 := by
  simp only [cat_cons, cat_nil, List.length_append, List.length_nil, res_phase,
    len_anchor_begin_file_ref, len_anchor_build_file, len_anchor_config_list, len_anchor_dependency, len_anchor_file_ref, len_anchor_frameworks, len_anchor_native_target, len_anchor_proxy, len_anchor_resources, len_anchor_sources, len_anchor_sync_group, len_anchor_xcbuild_config, len_attrs_new_p1, len_attrs_new_p2, len_attrs_old, len_build_file_entry, len_cfg_debug_p1, len_cfg_debug_p2, len_cfg_debug_p3, len_cfg_debug_p4, len_cfg_debug_p5, len_cfg_list_p1, len_cfg_list_p2, len_cfg_release_p1, len_cfg_release_p2, len_cfg_release_p3, len_cfg_release_p4, len_cfg_release_p5, len_chunkA, len_chunkB, len_chunkC, len_chunkD, len_chunkE, len_chunkF, len_chunkG, len_chunkH, len_chunkI, len_chunkJ, len_chunkK, len_chunkL, len_chunkM, len_chunkN, len_chunkO, len_chunkP, len_chunkQ, len_chunkR, len_chunkS, len_copy_phase_p1, len_copy_phase_p2, len_copy_phase_p3, len_dep_entry_p1, len_dep_entry_p2, len_file_ref, len_fw_phase_p1, len_fw_phase_p2, len_native_target_p1, len_native_target_p2, len_native_target_p3, len_native_target_p4, len_new_app_phases_p1, len_new_app_phases_p2, len_new_app_phases_p3, len_new_products_p1, len_new_products_p2, len_new_root_p1, len_new_root_p2, len_old_app_phases_p1, len_old_app_phases_p2, len_old_products, len_old_root, len_proxy_entry_p1, len_proxy_entry_p2, len_res_phase_p1, len_res_phase_p2, len_src_phase_p1, len_src_phase_p2, len_sync_group_p1, len_sync_group_p2, len_targets_new_p1, len_targets_new_p2, len_targets_old]

theorem len_blk_src_phase : (src_phase).length = 176 := by
  simp only [cat_cons, cat_nil, List.length_append, List.length_nil, src_phase,
    len_anchor_begin_file_ref, len_anchor_build_file, len_anchor_config_list, len_anchor_dependency, len_anchor_file_ref, len_anchor_frameworks, len_anchor_native_target, len_anchor_proxy, len_anchor_resources, len_anchor_sources, len_anchor_sync_group, len_anchor_xcbuild_config, len_attrs_new_p1, len_attrs_new_p2, len_attrs_old, len_build_file_entry, len_cfg_debug_p1, len_cfg_debug_p2, len_cfg_debug_p3, len_cfg_debug_p4, len_cfg_debug_p5, len_cfg_list_p1, len_cfg_list_p2, len_cfg_release_p1, len_cfg_release_p2, len_cfg_release_p3, len_cfg_release_p4, len_cfg_release_p5, len_chunkA, len_chunkB, len_chunkC, len_chunkD, len_chunkE, len_chunkF, len_chunkG, len_chunkH, len_chunkI, len_chunkJ, len_chunkK, len_chunkL, len_chunkM, len_chunkN, len_chunkO, len_chunkP, len_chunkQ, len_chunkR, len_chunkS, len_copy_phase_p1, len_copy_phase_p2, len_copy_phase_p3, len_dep_entry_p1, len_dep_entry_p2, len_file_ref, len_fw_phase_p1, len_fw_phase_p2, len_native_target_p1, len_native_target_p2, len_native_target_p3, len_native_target_p4, len_new_app_phases_p1, len_new_app_phases_p2, len_new_app_phases_p3, len_new_products_p1, len_new_products_p2, len_new_root_p1, len_new_root_p2, len_old_app_phases_p1, len_old_app_phases_p2, len_old_products, len_old_root, len_proxy_entry_p1, len_proxy_entry_p2, len_res_phase_p1, len_res_phase_p2, len_src_phase_p1, len_src_phase_p2, len_sync_group_p1, len_sync_group_p2, len_targets_new_p1, len_targets_new_p2, len_targets_old]

theorem len_blk_dep_entry : (dep_entry).length = 224 := by
  simp only [cat_cons, cat_nil, List.length_append, List.length_nil, dep_entry,
    len_anchor_begin_file_ref, len_anchor_build_file, len_anchor_config_list, len_anchor_dependency, len_anchor_file_ref, len_anchor_frameworks, len_anchor_native_target, len_anchor_proxy, len_anchor_resources, len_anchor_sources, len_anchor_sync_group, len_anchor_xcbuild_config, len_attrs_new_p1, len_attrs_new_p2, len_attrs_old, len_build_file_entry, len_cfg_debug_p1, len_cfg_debug_p2, len_cfg_debug_p3, len_cfg_debug_p4, len_cfg_debug_p5, len_cfg_list_p1, len_cfg_list_p2, len_cfg_release_p1, len_cfg_release_p2, len_cfg_release_p3, len_cfg_release_p4, len_cfg_release_p5, len_chunkA, len_chunkB, len_chunkC, len_chunkD, len_chunkE, len_chunkF, len_chunkG, len_chunkH, len_chunkI, len_chunkJ, len_chunkK, len_chunkL, len_chunkM, len_chunkN, len_chunkO, len_chunkP, len_chunkQ, len_chunkR, len_chunkS, len_copy_phase_p1, len_copy_phase_p2, len_copy_phase_p3, len_dep_entry_p1, len_dep_entry_p2, len_file_ref, len_fw_phase_p1, len_fw_phase_p2, len_native_target_p1, len_native_target_p2, len_native_target_p3, len_native_target_p4, len_new_app_phases_p1, len_new_app_phases_p2, len_new_app_phases_p3, len_new_products_p1, len_new_products_p2, len_new_root_p1, len_new_root_p2, len_old_app_phases_p1, len_old_app_phases_p2, len_old_products, len_old_root, len_proxy_entry_p1, len_proxy_entry_p2, len_res_phase_p1, len_res_phase_p2, len_src_phase_p1, len_src_phase_p2, len_sync_group_p1, len_sync_group_p2, len_targets_new_p1, len_targets_new_p2, len_targets_old]

theorem len_blk_cfg_debug : (cfg_debug).length = 1084 := by
  simp only [cat_cons, cat_nil, List.length_append, List.length_nil, cfg_debug,
    len_anchor_begin_file_ref, len_anchor_build_file, len_anchor_config_list, len_anchor_dependency, len_anchor_file_ref, len_anchor_frameworks, len_anchor_native_target, len_anchor_proxy, len_anchor_resources, len_anchor_sources, len_anchor_sync_group, len_anchor_xcbuild_config, len_attrs_new_p1, len_attrs_new_p2, len_attrs_old, len_build_file_entry, len_cfg_debug_p1, len_cfg_debug_p2, len_cfg_debug_p3, len_cfg_debug_p4, len_cfg_debug_p5, len_cfg_list_p1, len_cfg_list_p2, len_cfg_release_p1, len_cfg_release_p2, len_cfg_release_p3, len_cfg_release_p4, len_cfg_release_p5, len_chunkA, len_chunkB, len_chunkC, len_chunkD, len_chunkE, len_chunkF, len_chunkG, len_chunkH, len_chunkI, len_chunkJ, len_chunkK, len_chunkL, len_chunkM, len_chunkN, len_chunkO, len_chunkP, len_chunkQ, len_chunkR, len_chunkS, len_copy_phase_p1, len_copy_phase_p2, len_copy_phase_p3, len_dep_entry_p1, len_dep_entry_p2, len_file_ref, len_fw_phase_p1, len_fw_phase_p2, len_native_target_p1, len_native_target_p2, len_native_target_p3, len_native_target_p4, len_new_app_phases_p1, len_new_app_phases_p2, len_new_app_phases_p3, len_new_products_p1, len_new_products_p2, len_new_root_p1, len_new_root_p2, len_old_app_phases_p1, len_old_app_phases_p2, len_old_products, len_old_root, len_proxy_entry_p1, len_proxy_entry_p2, len_res_phase_p1, len_res_phase_p2, len_src_phase_p1, len_src_phase_p2, len_sync_group_p1, len_sync_group_p2, len_targets_new_p1, len_targets_new_p2, len_targets_old]

theorem len_blk_cfg_release : (cfg_release).length = 1088 := by
  simp only [cat_cons, cat_nil, List.length_append, List.length_nil, cfg_release,
    len_anchor_begin_file_ref, len_anchor_build_file, len_anchor_config_list, len_anchor_dependency, len_anchor_file_ref, len_anchor_frameworks, len_anchor_native_target, len_anchor_proxy, len_anchor_resources, len_anchor_sources, len_anchor_sync_group, len_anchor_xcbuild_config, len_attrs_new_p1, len_attrs_new_p2, len_attrs_old, len_build_file_entry, len_cfg_debug_p1, len_cfg_debug_p2, len_cfg_debug_p3, len_cfg_debug_p4, len_cfg_debug_p5, len_cfg_list_p1, len_cfg_list_p2, len_cfg_release_p1, len_cfg_release_p2, len_cfg_release_p3, len_cfg_release_p4, len_cfg_release_p5, len_chunkA, len_chunkB, len_chunkC, len_chunkD, len_chunkE, len_chunkF, len_chunkG, len_chunkH, len_chunkI, len_chunkJ, len_chunkK, len_chunkL, len_chunkM, len_chunkN, len_chunkO, len_chunkP, len_chunkQ, len_chunkR, len_chunkS, len_copy_phase_p1, len_copy_phase_p2, len_copy_phase_p3, len_dep_entry_p1, len_dep_entry_p2, len_file_ref, len_fw_phase_p1, len_fw_phase_p2, len_native_target_p1, len_native_target_p2, len_native_target_p3, len_native_target_p4, len_new_app_phases_p1, len_new_app_phases_p2, len_new_app_phases_p3, len_new_products_p1, len_new_products_p2, len_new_root_p1, len_new_root_p2, len_old_app_phases_p1, len_old_app_phases_p2, len_old_products, len_old_root, len_proxy_entry_p1, len_proxy_entry_p2, len_res_phase_p1, len_res_phase_p2, len_src_phase_p1, len_src_phase_p2, len_sync_group_p1, len_sync_group_p2, len_targets_new_p1, len_targets_new_p2, len_targets_old]

theorem len_blk_cfg_list : (cfg_list).length = 332 := by
  simp only [cat_cons, cat_nil, List.length_append, List.length_nil, cfg_list,
    len_anchor_begin_file_ref, len_anchor_build_file, len_anchor_config_list, len_anchor_dependency, len_anchor_file_ref, len_anchor_frameworks, len_anchor_native_target, len_anchor_proxy, len_anchor_resources, len_anchor_sources, len_anchor_sync_group, len_anchor_xcbuild_config, len_attrs_new_p1, len_attrs_new_p2, len_attrs_old, len_build_file_entry, len_cfg_debug_p1, len_cfg_debug_p2, len_cfg_debug_p3, len_cfg_debug_p4, len_cfg_debug_p5, len_cfg_list_p1, len_cfg_list_p2, len_cfg_release_p1, len_cfg_release_p2, len_cfg_release_p3, len_cfg_release_p4, len_cfg_release_p5, len_chunkA, len_chunkB, len_chunkC, len_chunkD, len_chunkE, len_chunkF, len_chunkG, len_chunkH, len_chunkI, len_chunkJ, len_chunkK, len_chunkL, len_chunkM, len_chunkN, len_chunkO, len_chunkP, len_chunkQ, len_chunkR, len_chunkS, len_copy_phase_p1, len_copy_phase_p2, len_copy_phase_p3, len_dep_entry_p1, len_dep_entry_p2, len_file_ref, len_fw_phase_p1, len_fw_phase_p2, len_native_target_p1, len_native_target_p2, len_native_target_p3, len_native_target_p4, len_new_app_phases_p1, len_new_app_phases_p2, len_new_app_phases_p3, len_new_products_p1, len_new_products_p2, len_new_root_p1, len_new_root_p2, len_old_app_phases_p1, len_old_app_phases_p2, len_old_products, len_old_root, len_proxy_entry_p1, len_proxy_entry_p2, len_res_phase_p1, len_res_phase_p2, len_src_phase_p1, len_src_phase_p2, len_sync_group_p1, len_sync_group_p2, len_targets_new_p1, len_targets_new_p2, len_targets_old]

theorem len_blk_new_products : (new_products).length = 328 := by
  simp only [cat_cons, cat_nil, List.length_append, List.length_nil, new_products,
    len_anchor_begin_file_ref, len_anchor_build_file, len_anchor_config_list, len_anchor_dependency, len_anchor_file_ref, len_anchor_frameworks, len_anchor_native_target, len_anchor_proxy, len_anchor_resources, len_anchor_sources, len_anchor_sync_group, len_anchor_xcbuild_config, len_attrs_new_p1, len_attrs_new_p2, len_attrs_old, len_build_file_entry, len_cfg_debug_p1, len_cfg_debug_p2, len_cfg_debug_p3, len_cfg_debug_p4, len_cfg_debug_p5, len_cfg_list_p1, len_cfg_list_p2, len_cfg_release_p1, len_cfg_release_p2, len_cfg_release_p3, len_cfg_release_p4, len_cfg_release_p5, len_chunkA, len_chunkB, len_chunkC, len_chunkD, len_chunkE, len_chunkF, len_chunkG, len_chunkH, len_chunkI, len_chunkJ, len_chunkK, len_chunkL, len_chunkM, len_chunkN, len_chunkO, len_chunkP, len_chunkQ, len_chunkR, len_chunkS, len_copy_phase_p1, len_copy_phase_p2, len_copy_phase_p3, len_dep_entry_p1, len_dep_entry_p2, len_file_ref, len_fw_phase_p1, len_fw_phase_p2, len_native_target_p1, len_native_target_p2, len_native_target_p3, len_native_target_p4, len_new_app_phases_p1, len_new_app_phases_p2, len_new_app_phases_p3, len_new_products_p1, len_new_products_p2, len_new_root_p1, len_new_root_p2, len_old_app_phases_p1, len_old_app_phases_p2, len_old_products, len_old_root, len_proxy_entry_p1, len_proxy_entry_p2, len_res_phase_p1, len_res_phase_p2, len_src_phase_p1, len_src_phase_p2, len_sync_group_p1, len_sync_group_p2, len_targets_new_p1, len_targets_new_p2, len_targets_old]

theorem len_blk_new_root : (new_root).length = 278 := by
  simp only [cat_cons, cat_nil, List.length_append, List.length_nil, new_root,
    len_anchor_begin_file_ref, len_anchor_build_file, len_anchor_config_list, len_anchor_dependency, len_anchor_file_ref, len_anchor_frameworks, len_anchor_native_target, len_anchor_proxy, len_anchor_resources, len_anchor_sources, len_anchor_sync_group, len_anchor_xcbuild_config, len_attrs_new_p1, len_attrs_new_p2, len_attrs_old, len_build_file_entry, len_cfg_debug_p1, len_cfg_debug_p2, len_cfg_debug_p3, len_cfg_debug_p4, len_cfg_debug_p5, len_cfg_list_p1, len_cfg_list_p2, len_cfg_release_p1, len_cfg_release_p2, len_cfg_release_p3, len_cfg_release_p4, len_cfg_release_p5, len_chunkA, len_chunkB, len_chunkC, len_chunkD, len_chunkE, len_chunkF, len_chunkG, len_chunkH, len_chunkI, len_chunkJ, len_chunkK, len_chunkL, len_chunkM, len_chunkN, len_chunkO, len_chunkP, len_chunkQ, len_chunkR, len_chunkS, len_copy_phase_p1, len_copy_phase_p2, len_copy_phase_p3, len_dep_entry_p1, len_dep_entry_p2, len_file_ref, len_fw_phase_p1, len_fw_phase_p2, len_native_target_p1, len_native_target_p2, len_native_target_p3, len_native_target_p4, len_new_app_phases_p1, len_new_app_phases_p2, len_new_app_phases_p3, len_new_products_p1, len_new_products_p2, len_new_root_p1, len_new_root_p2, len_old_app_phases_p1, len_old_app_phases_p2, len_old_products, len_old_root, len_proxy_entry_p1, len_proxy_entry_p2, len_res_phase_p1, len_res_phase_p2, len_src_phase_p1, len_src_phase_p2, len_sync_group_p1, len_sync_group_p2, len_targets_new_p1, len_targets_new_p2, len_targets_old]

theorem len_blk_targets_new : (targets_new).length = 238 := by
  simp only [cat_cons, cat_nil, List.length_append, List.length_nil, targets_new,
    len_anchor_begin_file_ref, len_anchor_build_file, len_anchor_config_list, len_anchor_dependency, len_anchor_file_ref, len_anchor_frameworks, len_anchor_native_target, len_anchor_proxy, len_anchor_resources, len_anchor_sources, len_anchor_sync_group, len_anchor_xcbuild_config, len_attrs_new_p1, len_attrs_new_p2, len_attrs_old, len_build_file_entry, len_cfg_debug_p1, len_cfg_debug_p2, len_cfg_debug_p3, len_cfg_debug_p4, len_cfg_debug_p5, len_cfg_list_p1, len_cfg_list_p2, len_cfg_release_p1, len_cfg_release_p2, len_cfg_release_p3, len_cfg_release_p4, len_cfg_release_p5, len_chunkA, len_chunkB, len_chunkC, len_chunkD, len_chunkE, len_chunkF, len_chunkG, len_chunkH, len_chunkI, len_chunkJ, len_chunkK, len_chunkL, len_chunkM, len_chunkN, len_chunkO, len_chunkP, len_chunkQ, len_chunkR, len_chunkS, len_copy_phase_p1, len_copy_phase_p2, len_copy_phase_p3, len_dep_entry_p1, len_dep_entry_p2, len_file_ref, len_fw_phase_p1, len_fw_phase_p2, len_native_target_p1, len_native_target_p2, len_native_target_p3, len_native_target_p4, len_new_app_phases_p1, len_new_app_phases_p2, len_new_app_phases_p3, len_new_products_p1, len_new_products_p2, len_new_root_p1, len_new_root_p2, len_old_app_phases_p1, len_old_app_phases_p2, len_old_products, len_old_root, len_proxy_entry_p1, len_proxy_entry_p2, len_res_phase_p1, len_res_phase_p2, len_src_phase_p1, len_src_phase_p2, len_sync_group_p1, len_sync_group_p2, len_targets_new_p1, len_targets_new_p2, len_targets_old]

theorem len_blk_attrs_new : (attrs_new).length = 155 := by
  simp only [cat_cons, cat_nil, List.length_append, List.length_nil, attrs_new,
    len_anchor_begin_file_ref, len_anchor_build_file, len_anchor_config_list, len_anchor_dependency, len_anchor_file_ref, len_anchor_frameworks, len_anchor_native_target, len_anchor_proxy, len_anchor_resources, len_anchor_sources, len_anchor_sync_group, len_anchor_xcbuild_config, len_attrs_new_p1, len_attrs_new_p2, len_attrs_old, len_build_file_entry, len_cfg_debug_p1, len_cfg_debug_p2, len_cfg_debug_p3, len_cfg_debug_p4, len_cfg_debug_p5, len_cfg_list_p1, len_cfg_list_p2, len_cfg_release_p1, len_cfg_release_p2, len_cfg_release_p3, len_cfg_release_p4, len_cfg_release_p5, len_chunkA, len_chunkB, len_chunkC, len_chunkD, len_chunkE, len_chunkF, len_chunkG, len_chunkH, len_chunkI, len_chunkJ, len_chunkK, len_chunkL, len_chunkM, len_chunkN, len_chunkO, len_chunkP, len_chunkQ, len_chunkR, len_chunkS, len_copy_phase_p1, len_copy_phase_p2, len_copy_phase_p3, len_dep_entry_p1, len_dep_entry_p2, len_file_ref, len_fw_phase_p1, len_fw_phase_p2, len_native_target_p1, len_native_target_p2, len_native_target_p3, len_native_target_p4, len_new_app_phases_p1, len_new_app_phases_p2, len_new_app_phases_p3, len_new_products_p1, len_new_products_p2, len_new_root_p1, len_new_root_p2, len_old_app_phases_p1, len_old_app_phases_p2, len_old_products, len_old_root, len_proxy_entry_p1, len_proxy_entry_p2, len_res_phase_p1, len_res_phase_p2, len_src_phase_p1, len_src_phase_p2, len_sync_group_p1, len_sync_group_p2, len_targets_new_p1, len_targets_new_p2, len_targets_old]

theorem len_blk_old_app_phases : (old_app_phases).length = 411 := by
  simp only [cat_cons, cat_nil, List.length_append, List.length_nil, old_app_phases,
    len_anchor_begin_file_ref, len_anchor_build_file, len_anchor_config_list, len_anchor_dependency, len_anchor_file_ref, len_anchor_frameworks, len_anchor_native_target, len_anchor_proxy, len_anchor_resources, len_anchor_sources, len_anchor_sync_group, len_anchor_xcbuild_config, len_attrs_new_p1, len_attrs_new_p2, len_attrs_old, len_build_file_entry, len_cfg_debug_p1, len_cfg_debug_p2, len_cfg_debug_p3, len_cfg_debug_p4, len_cfg_debug_p5, len_cfg_list_p1, len_cfg_list_p2, len_cfg_release_p1, len_cfg_release_p2, len_cfg_release_p3, len_cfg_release_p4, len_cfg_release_p5, len_chunkA, len_chunkB, len_chunkC, len_chunkD, len_chunkE, len_chunkF, len_chunkG, len_chunkH, len_chunkI, len_chunkJ, len_chunkK, len_chunkL, len_chunkM, len_chunkN, len_chunkO, len_chunkP, len_chunkQ, len_chunkR, len_chunkS, len_copy_phase_p1, len_copy_phase_p2, len_copy_phase_p3, len_dep_entry_p1, len_dep_entry_p2, len_file_ref, len_fw_phase_p1, len_fw_phase_p2, len_native_target_p1, len_native_target_p2, len_native_target_p3, len_native_target_p4, len_new_app_phases_p1, len_new_app_phases_p2, len_new_app_phases_p3, len_new_products_p1, len_new_products_p2, len_new_root_p1, len_new_root_p2, len_old_app_phases_p1, len_old_app_phases_p2, len_old_products, len_old_root, len_proxy_entry_p1, len_proxy_entry_p2, len_res_phase_p1, len_res_phase_p2, len_src_phase_p1, len_src_phase_p2, len_sync_group_p1, len_sync_group_p2, len_targets_new_p1, len_targets_new_p2, len_targets_old]

theorem len_blk_new_app_phases : (new_app_phases).length = 531 := by
  simp only [cat_cons, cat_nil, List.length_append, List.length_nil, new_app_phases,
    len_anchor_begin_file_ref, len_anchor_build_file, len_anchor_config_list, len_anchor_dependency, len_anchor_file_ref, len_anchor_frameworks, len_anchor_native_target, len_anchor_proxy, len_anchor_resources, len_anchor_sources, len_anchor_sync_group, len_anchor_xcbuild_config, len_attrs_new_p1, len_attrs_new_p2, len_attrs_old, len_build_file_entry, len_cfg_debug_p1, len_cfg_debug_p2, len_cfg_debug_p3, len_cfg_debug_p4, len_cfg_debug_p5, len_cfg_list_p1, len_cfg_list_p2, len_cfg_release_p1, len_cfg_release_p2, len_cfg_release_p3, len_cfg_release_p4, len_cfg_release_p5, len_chunkA, len_chunkB, len_chunkC, len_chunkD, len_chunkE, len_chunkF, len_chunkG, len_chunkH, len_chunkI, len_chunkJ, len_chunkK, len_chunkL, len_chunkM, len_chunkN, len_chunkO, len_chunkP, len_chunkQ, len_chunkR, len_chunkS, len_copy_phase_p1, len_copy_phase_p2, len_copy_phase_p3, len_dep_entry_p1, len_dep_entry_p2, len_file_ref, len_fw_phase_p1, len_fw_phase_p2, len_native_target_p1, len_native_target_p2, len_native_target_p3, len_native_target_p4, len_new_app_phases_p1, len_new_app_phases_p2, len_new_app_phases_p3, len_new_products_p1, len_new_products_p2, len_new_root_p1, len_new_root_p2, len_old_app_phases_p1, len_old_app_phases_p2, len_old_products, len_old_root, len_proxy_entry_p1, len_proxy_entry_p2, len_res_phase_p1, len_res_phase_p2, len_src_phase_p1, len_src_phase_p2, len_sync_group_p1, len_sync_group_p2, len_targets_new_p1, len_targets_new_p2, len_targets_old]

theorem len_fixture : fixture.length = 2215 := by
  simp only [fixture, cat_cons, cat_nil, List.length_append, List.length_nil,
    len_anchor_begin_file_ref, len_anchor_build_file, len_anchor_config_list, len_anchor_dependency, len_anchor_file_ref, len_anchor_frameworks, len_anchor_native_target, len_anchor_proxy, len_anchor_resources, len_anchor_sources, len_anchor_sync_group, len_anchor_xcbuild_config, len_attrs_new_p1, len_attrs_new_p2, len_attrs_old, len_build_file_entry, len_cfg_debug_p1, len_cfg_debug_p2, len_cfg_debug_p3, len_cfg_debug_p4, len_cfg_debug_p5, len_cfg_list_p1, len_cfg_list_p2, len_cfg_release_p1, len_cfg_release_p2, len_cfg_release_p3, len_cfg_release_p4, len_cfg_release_p5, len_chunkA, len_chunkB, len_chunkC, len_chunkD, len_chunkE, len_chunkF, len_chunkG, len_chunkH, len_chunkI, len_chunkJ, len_chunkK, len_chunkL, len_chunkM, len_chunkN, len_chunkO, len_chunkP, len_chunkQ, len_chunkR, len_chunkS, len_copy_phase_p1, len_copy_phase_p2, len_copy_phase_p3, len_dep_entry_p1, len_dep_entry_p2, len_file_ref, len_fw_phase_p1, len_fw_phase_p2, len_native_target_p1, len_native_target_p2, len_native_target_p3, len_native_target_p4, len_new_app_phases_p1, len_new_app_phases_p2, len_new_app_phases_p3, len_new_products_p1, len_new_products_p2, len_new_root_p1, len_new_root_p2, len_old_app_phases_p1, len_old_app_phases_p2, len_old_products, len_old_root, len_proxy_entry_p1, len_proxy_entry_p2, len_res_phase_p1, len_res_phase_p2, len_src_phase_p1, len_src_phase_p2, len_sync_group_p1, len_sync_group_p2, len_targets_new_p1, len_targets_new_p2, len_targets_old]

theorem len_patched : (cat [chunkA, build_file_entry, anchor_build_file, chunkB, proxy_entry_p1, proxy_entry_p2, anchor_proxy, chunkC, copy_phase_p1, copy_phase_p2, copy_phase_p3, anchor_begin_file_ref, chunkD, file_ref, anchor_file_ref, chunkE, sync_group_p1, sync_group_p2, anchor_sync_group, chunkF, fw_phase_p1, fw_phase_p2, anchor_frameworks, chunkG, new_products_p1, new_products_p2, chunkH, new_root_p1, new_root_p2, chunkI, new_app_phases_p1, new_app_phases_p2, new_app_phases_p3, chunkJ, native_target_p1, native_target_p2, native_target_p3, native_target_p4, anchor_native_target, chunkK, attrs_new_p1, attrs_new_p2, chunkL, targets_new_p1, targets_new_p2, chunkM, res_phase_p1, res_phase_p2, anchor_resources, chunkN, src_phase_p1, src_phase_p2, anchor_sources, chunkO, dep_entry_p1, dep_entry_p2, anchor_dependency, chunkP, cfg_debug_p1, cfg_debug_p2, cfg_debug_p3, cfg_debug_p4, cfg_debug_p5, cfg_release_p1, cfg_release_p2, cfg_release_p3, cfg_release_p4, cfg_release_p5, anchor_xcbuild_config, chunkQ, cfg_list_p1, cfg_list_p2, anchor_config_list, chunkR]).length = 7950 := by
  simp only [cat_cons, cat_nil, List.length_append, List.length_nil,
    len_anchor_begin_file_ref, len_anchor_build_file, len_anchor_config_list, len_anchor_dependency, len_anchor_file_ref, len_anchor_frameworks, len_anchor_native_target, len_anchor_proxy, len_anchor_resources, len_anchor_sources, len_anchor_sync_group, len_anchor_xcbuild_config, len_attrs_new_p1, len_attrs_new_p2, len_attrs_old, len_build_file_entry, len_cfg_debug_p1, len_cfg_debug_p2, len_cfg_debug_p3, len_cfg_debug_p4, len_cfg_debug_p5, len_cfg_list_p1, len_cfg_list_p2, len_cfg_release_p1, len_cfg_release_p2, len_cfg_release_p3, len_cfg_release_p4, len_cfg_release_p5, len_chunkA, len_chunkB, len_chunkC, len_chunkD, len_chunkE, len_chunkF, len_chunkG, len_chunkH, len_chunkI, len_chunkJ, len_chunkK, len_chunkL, len_chunkM, len_chunkN, len_chunkO, len_chunkP, len_chunkQ, len_chunkR, len_chunkS, len_copy_phase_p1, len_copy_phase_p2, len_copy_phase_p3, len_dep_entry_p1, len_dep_entry_p2, len_file_ref, len_fw_phase_p1, len_fw_phase_p2, len_native_target_p1, len_native_target_p2, len_native_target_p3, len_native_target_p4, len_new_app_phases_p1, len_new_app_phases_p2, len_new_app_phases_p3, len_new_products_p1, len_new_products_p2, len_new_root_p1, len_new_root_p2, len_old_app_phases_p1, len_old_app_phases_p2, len_old_products, len_old_root, len_proxy_entry_p1, len_proxy_entry_p2, len_res_phase_p1, len_res_phase_p2, len_src_phase_p1, len_src_phase_p2, len_sync_group_p1, len_sync_group_p2, len_targets_new_p1, len_targets_new_p2, len_targets_old]

/- ## The inserted anchor reappears in each insertion's replacement -/

theorem occpair_1 : Occ (anchor_build_file) (build_file_entry ++ anchor_build_file) := occ_suffix build_file_entry anchor_build_file
theorem occpair_2 : Occ (anchor_proxy) (proxy_entry ++ anchor_proxy) := occ_suffix proxy_entry anchor_proxy
theorem occpair_3 : Occ (anchor_begin_file_ref) (copy_phase ++ anchor_begin_file_ref) := occ_suffix copy_phase anchor_begin_file_ref
theorem occpair_4 : Occ (anchor_file_ref) (file_ref ++ anchor_file_ref) := occ_suffix file_ref anchor_file_ref
theorem occpair_5 : Occ (anchor_sync_group) (sync_group ++ anchor_sync_group) := occ_suffix sync_group anchor_sync_group
theorem occpair_6 : Occ (anchor_frameworks) (fw_phase ++ anchor_frameworks) := occ_suffix fw_phase anchor_frameworks
theorem occpair_9 : Occ (anchor_native_target) (native_target ++ anchor_native_target) := occ_suffix native_target anchor_native_target
theorem occpair_13 : Occ (anchor_resources) (res_phase ++ anchor_resources) := occ_suffix res_phase anchor_resources
theorem occpair_14 : Occ (anchor_sources) (src_phase ++ anchor_sources) := occ_suffix src_phase anchor_sources
theorem occpair_15 : Occ (anchor_dependency) (dep_entry ++ anchor_dependency) := occ_suffix dep_entry anchor_dependency
theorem occpair_16 : Occ (anchor_xcbuild_config) (cfg_debug ++ cfg_release ++ anchor_xcbuild_config) :=
  ⟨cfg_debug ++ cfg_release, [], by simp [List.append_assoc]⟩
theorem occpair_17 : Occ (anchor_config_list) (cfg_list ++ anchor_config_list) := occ_suffix cfg_list anchor_config_list

/- ## Chainability certificates for the seventeen substitutions -/

theorem ch_anchor_build_file_at17 : Chainable anchor_build_file [(anchor_config_list, cfg_list ++ anchor_config_list)] :=
  chainable_cons_right anchor_config_list_ne occpair_17
    (chainable_nil _) (chainable_nil _)

theorem ch_anchor_proxy_at17 : Chainable anchor_proxy [(anchor_config_list, cfg_list ++ anchor_config_list)] :=
  chainable_cons_right anchor_config_list_ne occpair_17
    (chainable_nil _) (chainable_nil _)

theorem ch_anchor_begin_file_ref_at17 : Chainable anchor_begin_file_ref [(anchor_config_list, cfg_list ++ anchor_config_list)] :=
  chainable_cons_right anchor_config_list_ne occpair_17
    (chainable_nil _) (chainable_nil _)

theorem ch_anchor_file_ref_at17 : Chainable anchor_file_ref [(anchor_config_list, cfg_list ++ anchor_config_list)] :=
  chainable_cons_right anchor_config_list_ne occpair_17
    (chainable_nil _) (chainable_nil _)

theorem ch_anchor_sync_group_at17 : Chainable anchor_sync_group [(anchor_config_list, cfg_list ++ anchor_config_list)] :=
  chainable_cons_right anchor_config_list_ne occpair_17
    (chainable_nil _) (chainable_nil _)

theorem ch_anchor_frameworks_at17 : Chainable anchor_frameworks [(anchor_config_list, cfg_list ++ anchor_config_list)] :=
  chainable_cons_right anchor_config_list_ne occpair_17
    (chainable_nil _) (chainable_nil _)

theorem ch_anchor_native_target_at17 : Chainable anchor_native_target [(anchor_config_list, cfg_list ++ anchor_config_list)] :=
  chainable_cons_right anchor_config_list_ne occpair_17
    (chainable_nil _) (chainable_nil _)

theorem ch_anchor_resources_at17 : Chainable anchor_resources [(anchor_config_list, cfg_list ++ anchor_config_list)] :=
  chainable_cons_right anchor_config_list_ne occpair_17
    (chainable_nil _) (chainable_nil _)

theorem ch_anchor_sources_at17 : Chainable anchor_sources [(anchor_config_list, cfg_list ++ anchor_config_list)] :=
  chainable_cons_right anchor_config_list_ne occpair_17
    (chainable_nil _) (chainable_nil _)

theorem ch_anchor_dependency_at17 : Chainable anchor_dependency [(anchor_config_list, cfg_list ++ anchor_config_list)] :=
  chainable_cons_right anchor_config_list_ne occpair_17
    (chainable_nil _) (chainable_nil _)

theorem ch_anchor_xcbuild_config_at17 : Chainable anchor_xcbuild_config [(anchor_config_list, cfg_list ++ anchor_config_list)] :=
  chainable_cons_right anchor_config_list_ne occpair_17
    (chainable_nil _) (chainable_nil _)

theorem ch_anchor_build_file_at16 : Chainable anchor_build_file [(anchor_xcbuild_config, cfg_debug ++ cfg_release ++ anchor_xcbuild_config), (anchor_config_list, cfg_list ++ anchor_config_list)] :=
  chainable_cons_right anchor_xcbuild_config_ne occpair_16
    (ch_anchor_build_file_at17) (ch_anchor_xcbuild_config_at17)

theorem ch_anchor_proxy_at16 : Chainable anchor_proxy [(anchor_xcbuild_config, cfg_debug ++ cfg_release ++ anchor_xcbuild_config), (anchor_config_list, cfg_list ++ anchor_config_list)] :=
  chainable_cons_right anchor_xcbuild_config_ne occpair_16
    (ch_anchor_proxy_at17) (ch_anchor_xcbuild_config_at17)

theorem ch_anchor_begin_file_ref_at16 : Chainable anchor_begin_file_ref [(anchor_xcbuild_config, cfg_debug ++ cfg_release ++ anchor_xcbuild_config), (anchor_config_list, cfg_list ++ anchor_config_list)] :=
  chainable_cons_right anchor_xcbuild_config_ne occpair_16
    (ch_anchor_begin_file_ref_at17) (ch_anchor_xcbuild_config_at17)

theorem ch_anchor_file_ref_at16 : Chainable anchor_file_ref [(anchor_xcbuild_config, cfg_debug ++ cfg_release ++ anchor_xcbuild_config), (anchor_config_list, cfg_list ++ anchor_config_list)] :=
  chainable_cons_right anchor_xcbuild_config_ne occpair_16
    (ch_anchor_file_ref_at17) (ch_anchor_xcbuild_config_at17)

theorem ch_anchor_sync_group_at16 : Chainable anchor_sync_group [(anchor_xcbuild_config, cfg_debug ++ cfg_release ++ anchor_xcbuild_config), (anchor_config_list, cfg_list ++ anchor_config_list)] :=
  chainable_cons_right anchor_xcbuild_config_ne occpair_16
    (ch_anchor_sync_group_at17) (ch_anchor_xcbuild_config_at17)

theorem ch_anchor_frameworks_at16 : Chainable anchor_frameworks [(anchor_xcbuild_config, cfg_debug ++ cfg_release ++ anchor_xcbuild_config), (anchor_config_list, cfg_list ++ anchor_config_list)] :=
  chainable_cons_right anchor_xcbuild_config_ne occpair_16
    (ch_anchor_frameworks_at17) (ch_anchor_xcbuild_config_at17)

theorem ch_anchor_native_target_at16 : Chainable anchor_native_target [(anchor_xcbuild_config, cfg_debug ++ cfg_release ++ anchor_xcbuild_config), (anchor_config_list, cfg_list ++ anchor_config_list)] :=
  chainable_cons_right anchor_xcbuild_config_ne occpair_16
    (ch_anchor_native_target_at17) (ch_anchor_xcbuild_config_at17)

theorem ch_anchor_resources_at16 : Chainable anchor_resources [(anchor_xcbuild_config, cfg_debug ++ cfg_release ++ anchor_xcbuild_config), (anchor_config_list, cfg_list ++ anchor_config_list)] :=
  chainable_cons_right anchor_xcbuild_config_ne occpair_16
    (ch_anchor_resources_at17) (ch_anchor_xcbuild_config_at17)

theorem ch_anchor_sources_at16 : Chainable anchor_sources [(anchor_xcbuild_config, cfg_debug ++ cfg_release ++ anchor_xcbuild_config), (anchor_config_list, cfg_list ++ anchor_config_list)] :=
  chainable_cons_right anchor_xcbuild_config_ne occpair_16
    (ch_anchor_sources_at17) (ch_anchor_xcbuild_config_at17)

theorem ch_anchor_dependency_at16 : Chainable anchor_dependency [(anchor_xcbuild_config, cfg_debug ++ cfg_release ++ anchor_xcbuild_config), (anchor_config_list, cfg_list ++ anchor_config_list)] :=
  chainable_cons_right anchor_xcbuild_config_ne occpair_16
    (ch_anchor_dependency_at17) (ch_anchor_xcbuild_config_at17)

theorem ch_anchor_build_file_at15 : Chainable anchor_build_file [(anchor_dependency, dep_entry ++ anchor_dependency), (anchor_xcbuild_config, cfg_debug ++ cfg_release ++ anchor_xcbuild_config), (anchor_config_list, cfg_list ++ anchor_config_list)] :=
  chainable_cons_right anchor_dependency_ne occpair_15
    (ch_anchor_build_file_at16) (ch_anchor_dependency_at16)

theorem ch_anchor_proxy_at15 : Chainable anchor_proxy [(anchor_dependency, dep_entry ++ anchor_dependency), (anchor_xcbuild_config, cfg_debug ++ cfg_release ++ anchor_xcbuild_config), (anchor_config_list, cfg_list ++ anchor_config_list)] :=
  chainable_cons_right anchor_dependency_ne occpair_15
    (ch_anchor_proxy_at16) (ch_anchor_dependency_at16)

theorem ch_anchor_begin_file_ref_at15 : Chainable anchor_begin_file_ref [(anchor_dependency, dep_entry ++ anchor_dependency), (anchor_xcbuild_config, cfg_debug ++ cfg_release ++ anchor_xcbuild_config), (anchor_config_list, cfg_list ++ anchor_config_list)] :=
  chainable_cons_right anchor_dependency_ne occpair_15
    (ch_anchor_begin_file_ref_at16) (ch_anchor_dependency_at16)

theorem ch_anchor_file_ref_at15 : Chainable anchor_file_ref [(anchor_dependency, dep_entry ++ anchor_dependency), (anchor_xcbuild_config, cfg_debug ++ cfg_release ++ anchor_xcbuild_config), (anchor_config_list, cfg_list ++ anchor_config_list)] :=
  chainable_cons_right anchor_dependency_ne occpair_15
    (ch_anchor_file_ref_at16) (ch_anchor_dependency_at16)

theorem ch_anchor_sync_group_at15 : Chainable anchor_sync_group [(anchor_dependency, dep_entry ++ anchor_dependency), (anchor_xcbuild_config, cfg_debug ++ cfg_release ++ anchor_xcbuild_config), (anchor_config_list, cfg_list ++ anchor_config_list)] :=
  chainable_cons_right anchor_dependency_ne occpair_15
    (ch_anchor_sync_group_at16) (ch_anchor_dependency_at16)

theorem ch_anchor_frameworks_at15 : Chainable anchor_frameworks [(anchor_dependency, dep_entry ++ anchor_dependency), (anchor_xcbuild_config, cfg_debug ++ cfg_release ++ anchor_xcbuild_config), (anchor_config_list, cfg_list ++ anchor_config_list)] :=
  chainable_cons_right anchor_dependency_ne occpair_15
    (ch_anchor_frameworks_at16) (ch_anchor_dependency_at16)

theorem ch_anchor_native_target_at15 : Chainable anchor_native_target [(anchor_dependency, dep_entry ++ anchor_dependency), (anchor_xcbuild_config, cfg_debug ++ cfg_release ++ anchor_xcbuild_config), (anchor_config_list, cfg_list ++ anchor_config_list)] :=
  chainable_cons_right anchor_dependency_ne occpair_15
    (ch_anchor_native_target_at16) (ch_anchor_dependency_at16)

theorem ch_anchor_resources_at15 : Chainable anchor_resources [(anchor_dependency, dep_entry ++ anchor_dependency), (anchor_xcbuild_config, cfg_debug ++ cfg_release ++ anchor_xcbuild_config), (anchor_config_list, cfg_list ++ anchor_config_list)] :=
  chainable_cons_right anchor_dependency_ne occpair_15
    (ch_anchor_resources_at16) (ch_anchor_dependency_at16)

theorem ch_anchor_sources_at15 : Chainable anchor_sources [(anchor_dependency, dep_entry ++ anchor_dependency), (anchor_xcbuild_config, cfg_debug ++ cfg_release ++ anchor_xcbuild_config), (anchor_config_list, cfg_list ++ anchor_config_list)] :=
  chainable_cons_right anchor_dependency_ne occpair_15
    (ch_anchor_sources_at16) (ch_anchor_dependency_at16)

theorem ch_anchor_build_file_at14 : Chainable anchor_build_file [(anchor_sources, src_phase ++ anchor_sources), (anchor_dependency, dep_entry ++ anchor_dependency), (anchor_xcbuild_config, cfg_debug ++ cfg_release ++ anchor_xcbuild_config), (anchor_config_list, cfg_list ++ anchor_config_list)] :=
  chainable_cons_right anchor_sources_ne occpair_14
    (ch_anchor_build_file_at15) (ch_anchor_sources_at15)

theorem ch_anchor_proxy_at14 : Chainable anchor_proxy [(anchor_sources, src_phase ++ anchor_sources), (anchor_dependency, dep_entry ++ anchor_dependency), (anchor_xcbuild_config, cfg_debug ++ cfg_release ++ anchor_xcbuild_config), (anchor_config_list, cfg_list ++ anchor_config_list)] :=
  chainable_cons_right anchor_sources_ne occpair_14
    (ch_anchor_proxy_at15) (ch_anchor_sources_at15)

theorem ch_anchor_begin_file_ref_at14 : Chainable anchor_begin_file_ref [(anchor_sources, src_phase ++ anchor_sources), (anchor_dependency, dep_entry ++ anchor_dependency), (anchor_xcbuild_config, cfg_debug ++ cfg_release ++ anchor_xcbuild_config), (anchor_config_list, cfg_list ++ anchor_config_list)] :=
  chainable_cons_right anchor_sources_ne occpair_14
    (ch_anchor_begin_file_ref_at15) (ch_anchor_sources_at15)

theorem ch_anchor_file_ref_at14 : Chainable anchor_file_ref [(anchor_sources, src_phase ++ anchor_sources), (anchor_dependency, dep_entry ++ anchor_dependency), (anchor_xcbuild_config, cfg_debug ++ cfg_release ++ anchor_xcbuild_config), (anchor_config_list, cfg_list ++ anchor_config_list)] :=
  chainable_cons_right anchor_sources_ne occpair_14
    (ch_anchor_file_ref_at15) (ch_anchor_sources_at15)

theorem ch_anchor_sync_group_at14 : Chainable anchor_sync_group [(anchor_sources, src_phase ++ anchor_sources), (anchor_dependency, dep_entry ++ anchor_dependency), (anchor_xcbuild_config, cfg_debug ++ cfg_release ++ anchor_xcbuild_config), (anchor_config_list, cfg_list ++ anchor_config_list)] :=
  chainable_cons_right anchor_sources_ne occpair_14
    (ch_anchor_sync_group_at15) (ch_anchor_sources_at15)

theorem ch_anchor_frameworks_at14 : Chainable anchor_frameworks [(anchor_sources, src_phase ++ anchor_sources), (anchor_dependency, dep_entry ++ anchor_dependency), (anchor_xcbuild_config, cfg_debug ++ cfg_release ++ anchor_xcbuild_config), (anchor_config_list, cfg_list ++ anchor_config_list)] :=
  chainable_cons_right anchor_sources_ne occpair_14
    (ch_anchor_frameworks_at15) (ch_anchor_sources_at15)

theorem ch_anchor_native_target_at14 : Chainable anchor_native_target [(anchor_sources, src_phase ++ anchor_sources), (anchor_dependency, dep_entry ++ anchor_dependency), (anchor_xcbuild_config, cfg_debug ++ cfg_release ++ anchor_xcbuild_config), (anchor_config_list, cfg_list ++ anchor_config_list)] :=
  chainable_cons_right anchor_sources_ne occpair_14
    (ch_anchor_native_target_at15) (ch_anchor_sources_at15)

theorem ch_anchor_resources_at14 : Chainable anchor_resources [(anchor_sources, src_phase ++ anchor_sources), (anchor_dependency, dep_entry ++ anchor_dependency), (anchor_xcbuild_config, cfg_debug ++ cfg_release ++ anchor_xcbuild_config), (anchor_config_list, cfg_list ++ anchor_config_list)] :=
  chainable_cons_right anchor_sources_ne occpair_14
    (ch_anchor_resources_at15) (ch_anchor_sources_at15)

theorem ch_anchor_build_file_at13 : Chainable anchor_build_file [(anchor_resources, res_phase ++ anchor_resources), (anchor_sources, src_phase ++ anchor_sources), (anchor_dependency, dep_entry ++ anchor_dependency), (anchor_xcbuild_config, cfg_debug ++ cfg_release ++ anchor_xcbuild_config), (anchor_config_list, cfg_list ++ anchor_config_list)] :=
  chainable_cons_right anchor_resources_ne occpair_13
    (ch_anchor_build_file_at14) (ch_anchor_resources_at14)

theorem ch_anchor_proxy_at13 : Chainable anchor_proxy [(anchor_resources, res_phase ++ anchor_resources), (anchor_sources, src_phase ++ anchor_sources), (anchor_dependency, dep_entry ++ anchor_dependency), (anchor_xcbuild_config, cfg_debug ++ cfg_release ++ anchor_xcbuild_config), (anchor_config_list, cfg_list ++ anchor_config_list)] :=
  chainable_cons_right anchor_resources_ne occpair_13
    (ch_anchor_proxy_at14) (ch_anchor_resources_at14)

theorem ch_anchor_begin_file_ref_at13 : Chainable anchor_begin_file_ref [(anchor_resources, res_phase ++ anchor_resources), (anchor_sources, src_phase ++ anchor_sources), (anchor_dependency, dep_entry ++ anchor_dependency), (anchor_xcbuild_config, cfg_debug ++ cfg_release ++ anchor_xcbuild_config), (anchor_config_list, cfg_list ++ anchor_config_list)] :=
  chainable_cons_right anchor_resources_ne occpair_13
    (ch_anchor_begin_file_ref_at14) (ch_anchor_resources_at14)

theorem ch_anchor_file_ref_at13 : Chainable anchor_file_ref [(anchor_resources, res_phase ++ anchor_resources), (anchor_sources, src_phase ++ anchor_sources), (anchor_dependency, dep_entry ++ anchor_dependency), (anchor_xcbuild_config, cfg_debug ++ cfg_release ++ anchor_xcbuild_config), (anchor_config_list, cfg_list ++ anchor_config_list)] :=
  chainable_cons_right anchor_resources_ne occpair_13
    (ch_anchor_file_ref_at14) (ch_anchor_resources_at14)

theorem ch_anchor_sync_group_at13 : Chainable anchor_sync_group [(anchor_resources, res_phase ++ anchor_resources), (anchor_sources, src_phase ++ anchor_sources), (anchor_dependency, dep_entry ++ anchor_dependency), (anchor_xcbuild_config, cfg_debug ++ cfg_release ++ anchor_xcbuild_config), (anchor_config_list, cfg_list ++ anchor_config_list)] :=
  chainable_cons_right anchor_resources_ne occpair_13
    (ch_anchor_sync_group_at14) (ch_anchor_resources_at14)

theorem ch_anchor_frameworks_at13 : Chainable anchor_frameworks [(anchor_resources, res_phase ++ anchor_resources), (anchor_sources, src_phase ++ anchor_sources), (anchor_dependency, dep_entry ++ anchor_dependency), (anchor_xcbuild_config, cfg_debug ++ cfg_release ++ anchor_xcbuild_config), (anchor_config_list, cfg_list ++ anchor_config_list)] :=
  chainable_cons_right anchor_resources_ne occpair_13
    (ch_anchor_frameworks_at14) (ch_anchor_resources_at14)

theorem ch_anchor_native_target_at13 : Chainable anchor_native_target [(anchor_resources, res_phase ++ anchor_resources), (anchor_sources, src_phase ++ anchor_sources), (anchor_dependency, dep_entry ++ anchor_dependency), (anchor_xcbuild_config, cfg_debug ++ cfg_release ++ anchor_xcbuild_config), (anchor_config_list, cfg_list ++ anchor_config_list)] :=
  chainable_cons_right anchor_resources_ne occpair_13
    (ch_anchor_native_target_at14) (ch_anchor_resources_at14)

theorem ch_anchor_build_file_at12 : Chainable anchor_build_file [(old_app_phases, new_app_phases), (anchor_resources, res_phase ++ anchor_resources), (anchor_sources, src_phase ++ anchor_sources), (anchor_dependency, dep_entry ++ anchor_dependency), (anchor_xcbuild_config, cfg_debug ++ cfg_release ++ anchor_xcbuild_config), (anchor_config_list, cfg_list ++ anchor_config_list)] :=
  chainable_cons_left old_app_phases_ne (by decide) (ch_anchor_build_file_at13)

theorem ch_anchor_proxy_at12 : Chainable anchor_proxy [(old_app_phases, new_app_phases), (anchor_resources, res_phase ++ anchor_resources), (anchor_sources, src_phase ++ anchor_sources), (anchor_dependency, dep_entry ++ anchor_dependency), (anchor_xcbuild_config, cfg_debug ++ cfg_release ++ anchor_xcbuild_config), (anchor_config_list, cfg_list ++ anchor_config_list)] :=
  chainable_cons_left old_app_phases_ne (by decide) (ch_anchor_proxy_at13)

theorem ch_anchor_begin_file_ref_at12 : Chainable anchor_begin_file_ref [(old_app_phases, new_app_phases), (anchor_resources, res_phase ++ anchor_resources), (anchor_sources, src_phase ++ anchor_sources), (anchor_dependency, dep_entry ++ anchor_dependency), (anchor_xcbuild_config, cfg_debug ++ cfg_release ++ anchor_xcbuild_config), (anchor_config_list, cfg_list ++ anchor_config_list)] :=
  chainable_cons_left old_app_phases_ne (by decide) (ch_anchor_begin_file_ref_at13)

theorem ch_anchor_file_ref_at12 : Chainable anchor_file_ref [(old_app_phases, new_app_phases), (anchor_resources, res_phase ++ anchor_resources), (anchor_sources, src_phase ++ anchor_sources), (anchor_dependency, dep_entry ++ anchor_dependency), (anchor_xcbuild_config, cfg_debug ++ cfg_release ++ anchor_xcbuild_config), (anchor_config_list, cfg_list ++ anchor_config_list)] :=
  chainable_cons_left old_app_phases_ne (by decide) (ch_anchor_file_ref_at13)

theorem ch_anchor_sync_group_at12 : Chainable anchor_sync_group [(old_app_phases, new_app_phases), (anchor_resources, res_phase ++ anchor_resources), (anchor_sources, src_phase ++ anchor_sources), (anchor_dependency, dep_entry ++ anchor_dependency), (anchor_xcbuild_config, cfg_debug ++ cfg_release ++ anchor_xcbuild_config), (anchor_config_list, cfg_list ++ anchor_config_list)] :=
  chainable_cons_left old_app_phases_ne (by decide) (ch_anchor_sync_group_at13)

theorem ch_anchor_frameworks_at12 : Chainable anchor_frameworks [(old_app_phases, new_app_phases), (anchor_resources, res_phase ++ anchor_resources), (anchor_sources, src_phase ++ anchor_sources), (anchor_dependency, dep_entry ++ anchor_dependency), (anchor_xcbuild_config, cfg_debug ++ cfg_release ++ anchor_xcbuild_config), (anchor_config_list, cfg_list ++ anchor_config_list)] :=
  chainable_cons_left old_app_phases_ne (by decide) (ch_anchor_frameworks_at13)

theorem ch_anchor_native_target_at12 : Chainable anchor_native_target [(old_app_phases, new_app_phases), (anchor_resources, res_phase ++ anchor_resources), (anchor_sources, src_phase ++ anchor_sources), (anchor_dependency, dep_entry ++ anchor_dependency), (anchor_xcbuild_config, cfg_debug ++ cfg_release ++ anchor_xcbuild_config), (anchor_config_list, cfg_list ++ anchor_config_list)] :=
  chainable_cons_left old_app_phases_ne (by decide) (ch_anchor_native_target_at13)

theorem ch_anchor_build_file_at11 : Chainable anchor_build_file [(attrs_old, attrs_new), (old_app_phases, new_app_phases), (anchor_resources, res_phase ++ anchor_resources), (anchor_sources, src_phase ++ anchor_sources), (anchor_dependency, dep_entry ++ anchor_dependency), (anchor_xcbuild_config, cfg_debug ++ cfg_release ++ anchor_xcbuild_config), (anchor_config_list, cfg_list ++ anchor_config_list)] :=
  chainable_cons_left attrs_old_ne (by decide) (ch_anchor_build_file_at12)

theorem ch_anchor_proxy_at11 : Chainable anchor_proxy [(attrs_old, attrs_new), (old_app_phases, new_app_phases), (anchor_resources, res_phase ++ anchor_resources), (anchor_sources, src_phase ++ anchor_sources), (anchor_dependency, dep_entry ++ anchor_dependency), (anchor_xcbuild_config, cfg_debug ++ cfg_release ++ anchor_xcbuild_config), (anchor_config_list, cfg_list ++ anchor_config_list)] :=
  chainable_cons_left attrs_old_ne (by decide) (ch_anchor_proxy_at12)

theorem ch_anchor_begin_file_ref_at11 : Chainable anchor_begin_file_ref [(attrs_old, attrs_new), (old_app_phases, new_app_phases), (anchor_resources, res_phase ++ anchor_resources), (anchor_sources, src_phase ++ anchor_sources), (anchor_dependency, dep_entry ++ anchor_dependency), (anchor_xcbuild_config, cfg_debug ++ cfg_release ++ anchor_xcbuild_config), (anchor_config_list, cfg_list ++ anchor_config_list)] :=
  chainable_cons_left attrs_old_ne (by decide) (ch_anchor_begin_file_ref_at12)

theorem ch_anchor_file_ref_at11 : Chainable anchor_file_ref [(attrs_old, attrs_new), (old_app_phases, new_app_phases), (anchor_resources, res_phase ++ anchor_resources), (anchor_sources, src_phase ++ anchor_sources), (anchor_dependency, dep_entry ++ anchor_dependency), (anchor_xcbuild_config, cfg_debug ++ cfg_release ++ anchor_xcbuild_config), (anchor_config_list, cfg_list ++ anchor_config_list)] :=
  chainable_cons_left attrs_old_ne (by decide) (ch_anchor_file_ref_at12)

theorem ch_anchor_sync_group_at11 : Chainable anchor_sync_group [(attrs_old, attrs_new), (old_app_phases, new_app_phases), (anchor_resources, res_phase ++ anchor_resources), (anchor_sources, src_phase ++ anchor_sources), (anchor_dependency, dep_entry ++ anchor_dependency), (anchor_xcbuild_config, cfg_debug ++ cfg_release ++ anchor_xcbuild_config), (anchor_config_list, cfg_list ++ anchor_config_list)] :=
  chainable_cons_left attrs_old_ne (by decide) (ch_anchor_sync_group_at12)

theorem ch_anchor_frameworks_at11 : Chainable anchor_frameworks [(attrs_old, attrs_new), (old_app_phases, new_app_phases), (anchor_resources, res_phase ++ anchor_resources), (anchor_sources, src_phase ++ anchor_sources), (anchor_dependency, dep_entry ++ anchor_dependency), (anchor_xcbuild_config, cfg_debug ++ cfg_release ++ anchor_xcbuild_config), (anchor_config_list, cfg_list ++ anchor_config_list)] :=
  chainable_cons_left attrs_old_ne (by decide) (ch_anchor_frameworks_at12)

theorem ch_anchor_native_target_at11 : Chainable anchor_native_target [(attrs_old, attrs_new), (old_app_phases, new_app_phases), (anchor_resources, res_phase ++ anchor_resources), (anchor_sources, src_phase ++ anchor_sources), (anchor_dependency, dep_entry ++ anchor_dependency), (anchor_xcbuild_config, cfg_debug ++ cfg_release ++ anchor_xcbuild_config), (anchor_config_list, cfg_list ++ anchor_config_list)] :=
  chainable_cons_left attrs_old_ne (by decide) (ch_anchor_native_target_at12)

theorem ch_anchor_build_file_at10 : Chainable anchor_build_file [(targets_old, targets_new), (attrs_old, attrs_new), (old_app_phases, new_app_phases), (anchor_resources, res_phase ++ anchor_resources), (anchor_sources, src_phase ++ anchor_sources), (anchor_dependency, dep_entry ++ anchor_dependency), (anchor_xcbuild_config, cfg_debug ++ cfg_release ++ anchor_xcbuild_config), (anchor_config_list, cfg_list ++ anchor_config_list)] :=
  chainable_cons_left targets_old_ne (by decide) (ch_anchor_build_file_at11)

theorem ch_anchor_proxy_at10 : Chainable anchor_proxy [(targets_old, targets_new), (attrs_old, attrs_new), (old_app_phases, new_app_phases), (anchor_resources, res_phase ++ anchor_resources), (anchor_sources, src_phase ++ anchor_sources), (anchor_dependency, dep_entry ++ anchor_dependency), (anchor_xcbuild_config, cfg_debug ++ cfg_release ++ anchor_xcbuild_config), (anchor_config_list, cfg_list ++ anchor_config_list)] :=
  chainable_cons_left targets_old_ne (by decide) (ch_anchor_proxy_at11)

theorem ch_anchor_begin_file_ref_at10 : Chainable anchor_begin_file_ref [(targets_old, targets_new), (attrs_old, attrs_new), (old_app_phases, new_app_phases), (anchor_resources, res_phase ++ anchor_resources), (anchor_sources, src_phase ++ anchor_sources), (anchor_dependency, dep_entry ++ anchor_dependency), (anchor_xcbuild_config, cfg_debug ++ cfg_release ++ anchor_xcbuild_config), (anchor_config_list, cfg_list ++ anchor_config_list)] :=
  chainable_cons_left targets_old_ne (by decide) (ch_anchor_begin_file_ref_at11)

theorem ch_anchor_file_ref_at10 : Chainable anchor_file_ref [(targets_old, targets_new), (attrs_old, attrs_new), (old_app_phases, new_app_phases), (anchor_resources, res_phase ++ anchor_resources), (anchor_sources, src_phase ++ anchor_sources), (anchor_dependency, dep_entry ++ anchor_dependency), (anchor_xcbuild_config, cfg_debug ++ cfg_release ++ anchor_xcbuild_config), (anchor_config_list, cfg_list ++ anchor_config_list)] :=
  chainable_cons_left targets_old_ne (by decide) (ch_anchor_file_ref_at11)

theorem ch_anchor_sync_group_at10 : Chainable anchor_sync_group [(targets_old, targets_new), (attrs_old, attrs_new), (old_app_phases, new_app_phases), (anchor_resources, res_phase ++ anchor_resources), (anchor_sources, src_phase ++ anchor_sources), (anchor_dependency, dep_entry ++ anchor_dependency), (anchor_xcbuild_config, cfg_debug ++ cfg_release ++ anchor_xcbuild_config), (anchor_config_list, cfg_list ++ anchor_config_list)] :=
  chainable_cons_left targets_old_ne (by decide) (ch_anchor_sync_group_at11)

theorem ch_anchor_frameworks_at10 : Chainable anchor_frameworks [(targets_old, targets_new), (attrs_old, attrs_new), (old_app_phases, new_app_phases), (anchor_resources, res_phase ++ anchor_resources), (anchor_sources, src_phase ++ anchor_sources), (anchor_dependency, dep_entry ++ anchor_dependency), (anchor_xcbuild_config, cfg_debug ++ cfg_release ++ anchor_xcbuild_config), (anchor_config_list, cfg_list ++ anchor_config_list)] :=
  chainable_cons_left targets_old_ne (by decide) (ch_anchor_frameworks_at11)

theorem ch_anchor_native_target_at10 : Chainable anchor_native_target [(targets_old, targets_new), (attrs_old, attrs_new), (old_app_phases, new_app_phases), (anchor_resources, res_phase ++ anchor_resources), (anchor_sources, src_phase ++ anchor_sources), (anchor_dependency, dep_entry ++ anchor_dependency), (anchor_xcbuild_config, cfg_debug ++ cfg_release ++ anchor_xcbuild_config), (anchor_config_list, cfg_list ++ anchor_config_list)] :=
  chainable_cons_left targets_old_ne (by decide) (ch_anchor_native_target_at11)

theorem ch_anchor_build_file_at9 : Chainable anchor_build_file [(anchor_native_target, native_target ++ anchor_native_target), (targets_old, targets_new), (attrs_old, attrs_new), (old_app_phases, new_app_phases), (anchor_resources, res_phase ++ anchor_resources), (anchor_sources, src_phase ++ anchor_sources), (anchor_dependency, dep_entry ++ anchor_dependency), (anchor_xcbuild_config, cfg_debug ++ cfg_release ++ anchor_xcbuild_config), (anchor_config_list, cfg_list ++ anchor_config_list)] :=
  chainable_cons_right anchor_native_target_ne occpair_9
    (ch_anchor_build_file_at10) (ch_anchor_native_target_at10)

theorem ch_anchor_proxy_at9 : Chainable anchor_proxy [(anchor_native_target, native_target ++ anchor_native_target), (targets_old, targets_new), (attrs_old, attrs_new), (old_app_phases, new_app_phases), (anchor_resources, res_phase ++ anchor_resources), (anchor_sources, src_phase ++ anchor_sources), (anchor_dependency, dep_entry ++ anchor_dependency), (anchor_xcbuild_config, cfg_debug ++ cfg_release ++ anchor_xcbuild_config), (anchor_config_list, cfg_list ++ anchor_config_list)] :=
  chainable_cons_right anchor_native_target_ne occpair_9
    (ch_anchor_proxy_at10) (ch_anchor_native_target_at10)

theorem ch_anchor_begin_file_ref_at9 : Chainable anchor_begin_file_ref [(anchor_native_target, native_target ++ anchor_native_target), (targets_old, targets_new), (attrs_old, attrs_new), (old_app_phases, new_app_phases), (anchor_resources, res_phase ++ anchor_resources), (anchor_sources, src_phase ++ anchor_sources), (anchor_dependency, dep_entry ++ anchor_dependency), (anchor_xcbuild_config, cfg_debug ++ cfg_release ++ anchor_xcbuild_config), (anchor_config_list, cfg_list ++ anchor_config_list)] :=
  chainable_cons_right anchor_native_target_ne occpair_9
    (ch_anchor_begin_file_ref_at10) (ch_anchor_native_target_at10)

theorem ch_anchor_file_ref_at9 : Chainable anchor_file_ref [(anchor_native_target, native_target ++ anchor_native_target), (targets_old, targets_new), (attrs_old, attrs_new), (old_app_phases, new_app_phases), (anchor_resources, res_phase ++ anchor_resources), (anchor_sources, src_phase ++ anchor_sources), (anchor_dependency, dep_entry ++ anchor_dependency), (anchor_xcbuild_config, cfg_debug ++ cfg_release ++ anchor_xcbuild_config), (anchor_config_list, cfg_list ++ anchor_config_list)] :=
  chainable_cons_right anchor_native_target_ne occpair_9
    (ch_anchor_file_ref_at10) (ch_anchor_native_target_at10)

theorem ch_anchor_sync_group_at9 : Chainable anchor_sync_group [(anchor_native_target, native_target ++ anchor_native_target), (targets_old, targets_new), (attrs_old, attrs_new), (old_app_phases, new_app_phases), (anchor_resources, res_phase ++ anchor_resources), (anchor_sources, src_phase ++ anchor_sources), (anchor_dependency, dep_entry ++ anchor_dependency), (anchor_xcbuild_config, cfg_debug ++ cfg_release ++ anchor_xcbuild_config), (anchor_config_list, cfg_list ++ anchor_config_list)] :=
  chainable_cons_right anchor_native_target_ne occpair_9
    (ch_anchor_sync_group_at10) (ch_anchor_native_target_at10)

theorem ch_anchor_frameworks_at9 : Chainable anchor_frameworks [(anchor_native_target, native_target ++ anchor_native_target), (targets_old, targets_new), (attrs_old, attrs_new), (old_app_phases, new_app_phases), (anchor_resources, res_phase ++ anchor_resources), (anchor_sources, src_phase ++ anchor_sources), (anchor_dependency, dep_entry ++ anchor_dependency), (anchor_xcbuild_config, cfg_debug ++ cfg_release ++ anchor_xcbuild_config), (anchor_config_list, cfg_list ++ anchor_config_list)] :=
  chainable_cons_right anchor_native_target_ne occpair_9
    (ch_anchor_frameworks_at10) (ch_anchor_native_target_at10)

theorem ch_anchor_build_file_at8 : Chainable anchor_build_file [(old_root, new_root), (anchor_native_target, native_target ++ anchor_native_target), (targets_old, targets_new), (attrs_old, attrs_new), (old_app_phases, new_app_phases), (anchor_resources, res_phase ++ anchor_resources), (anchor_sources, src_phase ++ anchor_sources), (anchor_dependency, dep_entry ++ anchor_dependency), (anchor_xcbuild_config, cfg_debug ++ cfg_release ++ anchor_xcbuild_config), (anchor_config_list, cfg_list ++ anchor_config_list)] :=
  chainable_cons_left old_root_ne (by decide) (ch_anchor_build_file_at9)

theorem ch_anchor_proxy_at8 : Chainable anchor_proxy [(old_root, new_root), (anchor_native_target, native_target ++ anchor_native_target), (targets_old, targets_new), (attrs_old, attrs_new), (old_app_phases, new_app_phases), (anchor_resources, res_phase ++ anchor_resources), (anchor_sources, src_phase ++ anchor_sources), (anchor_dependency, dep_entry ++ anchor_dependency), (anchor_xcbuild_config, cfg_debug ++ cfg_release ++ anchor_xcbuild_config), (anchor_config_list, cfg_list ++ anchor_config_list)] :=
  chainable_cons_left old_root_ne (by decide) (ch_anchor_proxy_at9)

theorem ch_anchor_begin_file_ref_at8 : Chainable anchor_begin_file_ref [(old_root, new_root), (anchor_native_target, native_target ++ anchor_native_target), (targets_old, targets_new), (attrs_old, attrs_new), (old_app_phases, new_app_phases), (anchor_resources, res_phase ++ anchor_resources), (anchor_sources, src_phase ++ anchor_sources), (anchor_dependency, dep_entry ++ anchor_dependency), (anchor_xcbuild_config, cfg_debug ++ cfg_release ++ anchor_xcbuild_config), (anchor_config_list, cfg_list ++ anchor_config_list)] :=
  chainable_cons_left old_root_ne (by decide) (ch_anchor_begin_file_ref_at9)

theorem ch_anchor_file_ref_at8 : Chainable anchor_file_ref [(old_root, new_root), (anchor_native_target, native_target ++ anchor_native_target), (targets_old, targets_new), (attrs_old, attrs_new), (old_app_phases, new_app_phases), (anchor_resources, res_phase ++ anchor_resources), (anchor_sources, src_phase ++ anchor_sources), (anchor_dependency, dep_entry ++ anchor_dependency), (anchor_xcbuild_config, cfg_debug ++ cfg_release ++ anchor_xcbuild_config), (anchor_config_list, cfg_list ++ anchor_config_list)] :=
  chainable_cons_left old_root_ne (by decide) (ch_anchor_file_ref_at9)

theorem ch_anchor_sync_group_at8 : Chainable anchor_sync_group [(old_root, new_root), (anchor_native_target, native_target ++ anchor_native_target), (targets_old, targets_new), (attrs_old, attrs_new), (old_app_phases, new_app_phases), (anchor_resources, res_phase ++ anchor_resources), (anchor_sources, src_phase ++ anchor_sources), (anchor_dependency, dep_entry ++ anchor_dependency), (anchor_xcbuild_config, cfg_debug ++ cfg_release ++ anchor_xcbuild_config), (anchor_config_list, cfg_list ++ anchor_config_list)] :=
  chainable_cons_left old_root_ne (by decide) (ch_anchor_sync_group_at9)

theorem ch_anchor_frameworks_at8 : Chainable anchor_frameworks [(old_root, new_root), (anchor_native_target, native_target ++ anchor_native_target), (targets_old, targets_new), (attrs_old, attrs_new), (old_app_phases, new_app_phases), (anchor_resources, res_phase ++ anchor_resources), (anchor_sources, src_phase ++ anchor_sources), (anchor_dependency, dep_entry ++ anchor_dependency), (anchor_xcbuild_config, cfg_debug ++ cfg_release ++ anchor_xcbuild_config), (anchor_config_list, cfg_list ++ anchor_config_list)] :=
  chainable_cons_left old_root_ne (by decide) (ch_anchor_frameworks_at9)

theorem ch_anchor_build_file_at7 : Chainable anchor_build_file [(old_products, new_products), (old_root, new_root), (anchor_native_target, native_target ++ anchor_native_target), (targets_old, targets_new), (attrs_old, attrs_new), (old_app_phases, new_app_phases), (anchor_resources, res_phase ++ anchor_resources), (anchor_sources, src_phase ++ anchor_sources), (anchor_dependency, dep_entry ++ anchor_dependency), (anchor_xcbuild_config, cfg_debug ++ cfg_release ++ anchor_xcbuild_config), (anchor_config_list, cfg_list ++ anchor_config_list)] :=
  chainable_cons_left old_products_ne (by decide) (ch_anchor_build_file_at8)

theorem ch_anchor_proxy_at7 : Chainable anchor_proxy [(old_products, new_products), (old_root, new_root), (anchor_native_target, native_target ++ anchor_native_target), (targets_old, targets_new), (attrs_old, attrs_new), (old_app_phases, new_app_phases), (anchor_resources, res_phase ++ anchor_resources), (anchor_sources, src_phase ++ anchor_sources), (anchor_dependency, dep_entry ++ anchor_dependency), (anchor_xcbuild_config, cfg_debug ++ cfg_release ++ anchor_xcbuild_config), (anchor_config_list, cfg_list ++ anchor_config_list)] :=
  chainable_cons_left old_products_ne (by decide) (ch_anchor_proxy_at8)

theorem ch_anchor_begin_file_ref_at7 : Chainable anchor_begin_file_ref [(old_products, new_products), (old_root, new_root), (anchor_native_target, native_target ++ anchor_native_target), (targets_old, targets_new), (attrs_old, attrs_new), (old_app_phases, new_app_phases), (anchor_resources, res_phase ++ anchor_resources), (anchor_sources, src_phase ++ anchor_sources), (anchor_dependency, dep_entry ++ anchor_dependency), (anchor_xcbuild_config, cfg_debug ++ cfg_release ++ anchor_xcbuild_config), (anchor_config_list, cfg_list ++ anchor_config_list)] :=
  chainable_cons_left old_products_ne (by decide) (ch_anchor_begin_file_ref_at8)

theorem ch_anchor_file_ref_at7 : Chainable anchor_file_ref [(old_products, new_products), (old_root, new_root), (anchor_native_target, native_target ++ anchor_native_target), (targets_old, targets_new), (attrs_old, attrs_new), (old_app_phases, new_app_phases), (anchor_resources, res_phase ++ anchor_resources), (anchor_sources, src_phase ++ anchor_sources), (anchor_dependency, dep_entry ++ anchor_dependency), (anchor_xcbuild_config, cfg_debug ++ cfg_release ++ anchor_xcbuild_config), (anchor_config_list, cfg_list ++ anchor_config_list)] :=
  chainable_cons_left old_products_ne (by decide) (ch_anchor_file_ref_at8)

theorem ch_anchor_sync_group_at7 : Chainable anchor_sync_group [(old_products, new_products), (old_root, new_root), (anchor_native_target, native_target ++ anchor_native_target), (targets_old, targets_new), (attrs_old, attrs_new), (old_app_phases, new_app_phases), (anchor_resources, res_phase ++ anchor_resources), (anchor_sources, src_phase ++ anchor_sources), (anchor_dependency, dep_entry ++ anchor_dependency), (anchor_xcbuild_config, cfg_debug ++ cfg_release ++ anchor_xcbuild_config), (anchor_config_list, cfg_list ++ anchor_config_list)] :=
  chainable_cons_left old_products_ne (by decide) (ch_anchor_sync_group_at8)

theorem ch_anchor_frameworks_at7 : Chainable anchor_frameworks [(old_products, new_products), (old_root, new_root), (anchor_native_target, native_target ++ anchor_native_target), (targets_old, targets_new), (attrs_old, attrs_new), (old_app_phases, new_app_phases), (anchor_resources, res_phase ++ anchor_resources), (anchor_sources, src_phase ++ anchor_sources), (anchor_dependency, dep_entry ++ anchor_dependency), (anchor_xcbuild_config, cfg_debug ++ cfg_release ++ anchor_xcbuild_config), (anchor_config_list, cfg_list ++ anchor_config_list)] :=
  chainable_cons_left old_products_ne (by decide) (ch_anchor_frameworks_at8)

theorem ch_anchor_build_file_at6 : Chainable anchor_build_file [(anchor_frameworks, fw_phase ++ anchor_frameworks), (old_products, new_products), (old_root, new_root), (anchor_native_target, native_target ++ anchor_native_target), (targets_old, targets_new), (attrs_old, attrs_new), (old_app_phases, new_app_phases), (anchor_resources, res_phase ++ anchor_resources), (anchor_sources, src_phase ++ anchor_sources), (anchor_dependency, dep_entry ++ anchor_dependency), (anchor_xcbuild_config, cfg_debug ++ cfg_release ++ anchor_xcbuild_config), (anchor_config_list, cfg_list ++ anchor_config_list)] :=
  chainable_cons_right anchor_frameworks_ne occpair_6
    (ch_anchor_build_file_at7) (ch_anchor_frameworks_at7)

theorem ch_anchor_proxy_at6 : Chainable anchor_proxy [(anchor_frameworks, fw_phase ++ anchor_frameworks), (old_products, new_products), (old_root, new_root), (anchor_native_target, native_target ++ anchor_native_target), (targets_old, targets_new), (attrs_old, attrs_new), (old_app_phases, new_app_phases), (anchor_resources, res_phase ++ anchor_resources), (anchor_sources, src_phase ++ anchor_sources), (anchor_dependency, dep_entry ++ anchor_dependency), (anchor_xcbuild_config, cfg_debug ++ cfg_release ++ anchor_xcbuild_config), (anchor_config_list, cfg_list ++ anchor_config_list)] :=
  chainable_cons_right anchor_frameworks_ne occpair_6
    (ch_anchor_proxy_at7) (ch_anchor_frameworks_at7)

theorem ch_anchor_begin_file_ref_at6 : Chainable anchor_begin_file_ref [(anchor_frameworks, fw_phase ++ anchor_frameworks), (old_products, new_products), (old_root, new_root), (anchor_native_target, native_target ++ anchor_native_target), (targets_old, targets_new), (attrs_old, attrs_new), (old_app_phases, new_app_phases), (anchor_resources, res_phase ++ anchor_resources), (anchor_sources, src_phase ++ anchor_sources), (anchor_dependency, dep_entry ++ anchor_dependency), (anchor_xcbuild_config, cfg_debug ++ cfg_release ++ anchor_xcbuild_config), (anchor_config_list, cfg_list ++ anchor_config_list)] :=
  chainable_cons_right anchor_frameworks_ne occpair_6
    (ch_anchor_begin_file_ref_at7) (ch_anchor_frameworks_at7)

theorem ch_anchor_file_ref_at6 : Chainable anchor_file_ref [(anchor_frameworks, fw_phase ++ anchor_frameworks), (old_products, new_products), (old_root, new_root), (anchor_native_target, native_target ++ anchor_native_target), (targets_old, targets_new), (attrs_old, attrs_new), (old_app_phases, new_app_phases), (anchor_resources, res_phase ++ anchor_resources), (anchor_sources, src_phase ++ anchor_sources), (anchor_dependency, dep_entry ++ anchor_dependency), (anchor_xcbuild_config, cfg_debug ++ cfg_release ++ anchor_xcbuild_config), (anchor_config_list, cfg_list ++ anchor_config_list)] :=
  chainable_cons_right anchor_frameworks_ne occpair_6
    (ch_anchor_file_ref_at7) (ch_anchor_frameworks_at7)

theorem ch_anchor_sync_group_at6 : Chainable anchor_sync_group [(anchor_frameworks, fw_phase ++ anchor_frameworks), (old_products, new_products), (old_root, new_root), (anchor_native_target, native_target ++ anchor_native_target), (targets_old, targets_new), (attrs_old, attrs_new), (old_app_phases, new_app_phases), (anchor_resources, res_phase ++ anchor_resources), (anchor_sources, src_phase ++ anchor_sources), (anchor_dependency, dep_entry ++ anchor_dependency), (anchor_xcbuild_config, cfg_debug ++ cfg_release ++ anchor_xcbuild_config), (anchor_config_list, cfg_list ++ anchor_config_list)] :=
  chainable_cons_right anchor_frameworks_ne occpair_6
    (ch_anchor_sync_group_at7) (ch_anchor_frameworks_at7)

theorem ch_anchor_build_file_at5 : Chainable anchor_build_file [(anchor_sync_group, sync_group ++ anchor_sync_group), (anchor_frameworks, fw_phase ++ anchor_frameworks), (old_products, new_products), (old_root, new_root), (anchor_native_target, native_target ++ anchor_native_target), (targets_old, targets_new), (attrs_old, attrs_new), (old_app_phases, new_app_phases), (anchor_resources, res_phase ++ anchor_resources), (anchor_sources, src_phase ++ anchor_sources), (anchor_dependency, dep_entry ++ anchor_dependency), (anchor_xcbuild_config, cfg_debug ++ cfg_release ++ anchor_xcbuild_config), (anchor_config_list, cfg_list ++ anchor_config_list)] :=
  chainable_cons_right anchor_sync_group_ne occpair_5
    (ch_anchor_build_file_at6) (ch_anchor_sync_group_at6)

theorem ch_anchor_proxy_at5 : Chainable anchor_proxy [(anchor_sync_group, sync_group ++ anchor_sync_group), (anchor_frameworks, fw_phase ++ anchor_frameworks), (old_products, new_products), (old_root, new_root), (anchor_native_target, native_target ++ anchor_native_target), (targets_old, targets_new), (attrs_old, attrs_new), (old_app_phases, new_app_phases), (anchor_resources, res_phase ++ anchor_resources), (anchor_sources, src_phase ++ anchor_sources), (anchor_dependency, dep_entry ++ anchor_dependency), (anchor_xcbuild_config, cfg_debug ++ cfg_release ++ anchor_xcbuild_config), (anchor_config_list, cfg_list ++ anchor_config_list)] :=
  chainable_cons_right anchor_sync_group_ne occpair_5
    (ch_anchor_proxy_at6) (ch_anchor_sync_group_at6)

theorem ch_anchor_begin_file_ref_at5 : Chainable anchor_begin_file_ref [(anchor_sync_group, sync_group ++ anchor_sync_group), (anchor_frameworks, fw_phase ++ anchor_frameworks), (old_products, new_products), (old_root, new_root), (anchor_native_target, native_target ++ anchor_native_target), (targets_old, targets_new), (attrs_old, attrs_new), (old_app_phases, new_app_phases), (anchor_resources, res_phase ++ anchor_resources), (anchor_sources, src_phase ++ anchor_sources), (anchor_dependency, dep_entry ++ anchor_dependency), (anchor_xcbuild_config, cfg_debug ++ cfg_release ++ anchor_xcbuild_config), (anchor_config_list, cfg_list ++ anchor_config_list)] :=
  chainable_cons_right anchor_sync_group_ne occpair_5
    (ch_anchor_begin_file_ref_at6) (ch_anchor_sync_group_at6)

theorem ch_anchor_file_ref_at5 : Chainable anchor_file_ref [(anchor_sync_group, sync_group ++ anchor_sync_group), (anchor_frameworks, fw_phase ++ anchor_frameworks), (old_products, new_products), (old_root, new_root), (anchor_native_target, native_target ++ anchor_native_target), (targets_old, targets_new), (attrs_old, attrs_new), (old_app_phases, new_app_phases), (anchor_resources, res_phase ++ anchor_resources), (anchor_sources, src_phase ++ anchor_sources), (anchor_dependency, dep_entry ++ anchor_dependency), (anchor_xcbuild_config, cfg_debug ++ cfg_release ++ anchor_xcbuild_config), (anchor_config_list, cfg_list ++ anchor_config_list)] :=
  chainable_cons_right anchor_sync_group_ne occpair_5
    (ch_anchor_file_ref_at6) (ch_anchor_sync_group_at6)

theorem ch_anchor_build_file_at4 : Chainable anchor_build_file [(anchor_file_ref, file_ref ++ anchor_file_ref), (anchor_sync_group, sync_group ++ anchor_sync_group), (anchor_frameworks, fw_phase ++ anchor_frameworks), (old_products, new_products), (old_root, new_root), (anchor_native_target, native_target ++ anchor_native_target), (targets_old, targets_new), (attrs_old, attrs_new), (old_app_phases, new_app_phases), (anchor_resources, res_phase ++ anchor_resources), (anchor_sources, src_phase ++ anchor_sources), (anchor_dependency, dep_entry ++ anchor_dependency), (anchor_xcbuild_config, cfg_debug ++ cfg_release ++ anchor_xcbuild_config), (anchor_config_list, cfg_list ++ anchor_config_list)] :=
  chainable_cons_right anchor_file_ref_ne occpair_4
    (ch_anchor_build_file_at5) (ch_anchor_file_ref_at5)

theorem ch_anchor_proxy_at4 : Chainable anchor_proxy [(anchor_file_ref, file_ref ++ anchor_file_ref), (anchor_sync_group, sync_group ++ anchor_sync_group), (anchor_frameworks, fw_phase ++ anchor_frameworks), (old_products, new_products), (old_root, new_root), (anchor_native_target, native_target ++ anchor_native_target), (targets_old, targets_new), (attrs_old, attrs_new), (old_app_phases, new_app_phases), (anchor_resources, res_phase ++ anchor_resources), (anchor_sources, src_phase ++ anchor_sources), (anchor_dependency, dep_entry ++ anchor_dependency), (anchor_xcbuild_config, cfg_debug ++ cfg_release ++ anchor_xcbuild_config), (anchor_config_list, cfg_list ++ anchor_config_list)] :=
  chainable_cons_right anchor_file_ref_ne occpair_4
    (ch_anchor_proxy_at5) (ch_anchor_file_ref_at5)

theorem ch_anchor_begin_file_ref_at4 : Chainable anchor_begin_file_ref [(anchor_file_ref, file_ref ++ anchor_file_ref), (anchor_sync_group, sync_group ++ anchor_sync_group), (anchor_frameworks, fw_phase ++ anchor_frameworks), (old_products, new_products), (old_root, new_root), (anchor_native_target, native_target ++ anchor_native_target), (targets_old, targets_new), (attrs_old, attrs_new), (old_app_phases, new_app_phases), (anchor_resources, res_phase ++ anchor_resources), (anchor_sources, src_phase ++ anchor_sources), (anchor_dependency, dep_entry ++ anchor_dependency), (anchor_xcbuild_config, cfg_debug ++ cfg_release ++ anchor_xcbuild_config), (anchor_config_list, cfg_list ++ anchor_config_list)] :=
  chainable_cons_right anchor_file_ref_ne occpair_4
    (ch_anchor_begin_file_ref_at5) (ch_anchor_file_ref_at5)

theorem ch_anchor_build_file_at3 : Chainable anchor_build_file [(anchor_begin_file_ref, copy_phase ++ anchor_begin_file_ref), (anchor_file_ref, file_ref ++ anchor_file_ref), (anchor_sync_group, sync_group ++ anchor_sync_group), (anchor_frameworks, fw_phase ++ anchor_frameworks), (old_products, new_products), (old_root, new_root), (anchor_native_target, native_target ++ anchor_native_target), (targets_old, targets_new), (attrs_old, attrs_new), (old_app_phases, new_app_phases), (anchor_resources, res_phase ++ anchor_resources), (anchor_sources, src_phase ++ anchor_sources), (anchor_dependency, dep_entry ++ anchor_dependency), (anchor_xcbuild_config, cfg_debug ++ cfg_release ++ anchor_xcbuild_config), (anchor_config_list, cfg_list ++ anchor_config_list)] :=
  chainable_cons_right anchor_begin_file_ref_ne occpair_3
    (ch_anchor_build_file_at4) (ch_anchor_begin_file_ref_at4)

theorem ch_anchor_proxy_at3 : Chainable anchor_proxy [(anchor_begin_file_ref, copy_phase ++ anchor_begin_file_ref), (anchor_file_ref, file_ref ++ anchor_file_ref), (anchor_sync_group, sync_group ++ anchor_sync_group), (anchor_frameworks, fw_phase ++ anchor_frameworks), (old_products, new_products), (old_root, new_root), (anchor_native_target, native_target ++ anchor_native_target), (targets_old, targets_new), (attrs_old, attrs_new), (old_app_phases, new_app_phases), (anchor_resources, res_phase ++ anchor_resources), (anchor_sources, src_phase ++ anchor_sources), (anchor_dependency, dep_entry ++ anchor_dependency), (anchor_xcbuild_config, cfg_debug ++ cfg_release ++ anchor_xcbuild_config), (anchor_config_list, cfg_list ++ anchor_config_list)] :=
  chainable_cons_right anchor_begin_file_ref_ne occpair_3
    (ch_anchor_proxy_at4) (ch_anchor_begin_file_ref_at4)

theorem ch_anchor_build_file_at2 : Chainable anchor_build_file [(anchor_proxy, proxy_entry ++ anchor_proxy), (anchor_begin_file_ref, copy_phase ++ anchor_begin_file_ref), (anchor_file_ref, file_ref ++ anchor_file_ref), (anchor_sync_group, sync_group ++ anchor_sync_group), (anchor_frameworks, fw_phase ++ anchor_frameworks), (old_products, new_products), (old_root, new_root), (anchor_native_target, native_target ++ anchor_native_target), (targets_old, targets_new), (attrs_old, attrs_new), (old_app_phases, new_app_phases), (anchor_resources, res_phase ++ anchor_resources), (anchor_sources, src_phase ++ anchor_sources), (anchor_dependency, dep_entry ++ anchor_dependency), (anchor_xcbuild_config, cfg_debug ++ cfg_release ++ anchor_xcbuild_config), (anchor_config_list, cfg_list ++ anchor_config_list)] :=
  chainable_cons_right anchor_proxy_ne occpair_2
    (ch_anchor_build_file_at3) (ch_anchor_proxy_at3)

theorem ch_anchor_build_file_at1 : Chainable anchor_build_file [(anchor_build_file, build_file_entry ++ anchor_build_file), (anchor_proxy, proxy_entry ++ anchor_proxy), (anchor_begin_file_ref, copy_phase ++ anchor_begin_file_ref), (anchor_file_ref, file_ref ++ anchor_file_ref), (anchor_sync_group, sync_group ++ anchor_sync_group), (anchor_frameworks, fw_phase ++ anchor_frameworks), (old_products, new_products), (old_root, new_root), (anchor_native_target, native_target ++ anchor_native_target), (targets_old, targets_new), (attrs_old, attrs_new), (old_app_phases, new_app_phases), (anchor_resources, res_phase ++ anchor_resources), (anchor_sources, src_phase ++ anchor_sources), (anchor_dependency, dep_entry ++ anchor_dependency), (anchor_xcbuild_config, cfg_debug ++ cfg_release ++ anchor_xcbuild_config), (anchor_config_list, cfg_list ++ anchor_config_list)] :=
  chainable_cons_right anchor_build_file_ne occpair_1
    (ch_anchor_build_file_at2) (ch_anchor_build_file_at2)

/- ## Every substitution strictly lengthens its replacement -/

theorem steps_strict : ∀ p ∈ steps, p.1 ≠ [] ∧ p.1.length < p.2.length := by
  intro p hp
  rcases List.mem_cons.mp hp with rfl | hp
  · refine ⟨anchor_build_file_ne, ?_⟩
    show (anchor_build_file).length < (build_file_entry ++ anchor_build_file).length
    simp only [List.length_append, len_anchor_build_file, len_build_file_entry]
    omega
  rcases List.mem_cons.mp hp with rfl | hp
  · refine ⟨anchor_proxy_ne, ?_⟩
    show (anchor_proxy).length < (proxy_entry ++ anchor_proxy).length
    simp only [List.length_append, len_anchor_proxy, len_blk_proxy_entry]
    omega
  rcases List.mem_cons.mp hp with rfl | hp
  · refine ⟨anchor_begin_file_ref_ne, ?_⟩
    show (anchor_begin_file_ref).length < (copy_phase ++ anchor_begin_file_ref).length
    simp only [List.length_append, len_anchor_begin_file_ref, len_blk_copy_phase]
    omega
  rcases List.mem_cons.mp hp with rfl | hp
  · refine ⟨anchor_file_ref_ne, ?_⟩
    show (anchor_file_ref).length < (file_ref ++ anchor_file_ref).length
    simp only [List.length_append, len_anchor_file_ref, len_file_ref]
    omega
  rcases List.mem_cons.mp hp with rfl | hp
  · refine ⟨anchor_sync_group_ne, ?_⟩
    show (anchor_sync_group).length < (sync_group ++ anchor_sync_group).length
    simp only [List.length_append, len_anchor_sync_group, len_blk_sync_group]
    omega
  rcases List.mem_cons.mp hp with rfl | hp
  · refine ⟨anchor_frameworks_ne, ?_⟩
    show (anchor_frameworks).length < (fw_phase ++ anchor_frameworks).length
    simp only [List.length_append, len_anchor_frameworks, len_blk_fw_phase]
    omega
  rcases List.mem_cons.mp hp with rfl | hp
  · refine ⟨old_products_ne, ?_⟩
    show (old_products).length < (new_products).length
    simp only [List.length_append, len_blk_new_products, len_old_products]
    omega
  rcases List.mem_cons.mp hp with rfl | hp
  · refine ⟨old_root_ne, ?_⟩
    show (old_root).length < (new_root).length
    simp only [List.length_append, len_blk_new_root, len_old_root]
    omega
  rcases List.mem_cons.mp hp with rfl | hp
  · refine ⟨anchor_native_target_ne, ?_⟩
    show (anchor_native_target).length < (native_target ++ anchor_native_target).length
    simp only [List.length_append, len_anchor_native_target, len_blk_native_target]
    omega
  rcases List.mem_cons.mp hp with rfl | hp
  · refine ⟨targets_old_ne, ?_⟩
    show (targets_old).length < (targets_new).length
    simp only [List.length_append, len_blk_targets_new, len_targets_old]
    omega
  rcases List.mem_cons.mp hp with rfl | hp
  · refine ⟨attrs_old_ne, ?_⟩
    show (attrs_old).length < (attrs_new).length
    simp only [List.length_append, len_attrs_old, len_blk_attrs_new]
    omega
  rcases List.mem_cons.mp hp with rfl | hp
  · refine ⟨old_app_phases_ne, ?_⟩
    show (old_app_phases).length < (new_app_phases).length
    simp only [List.length_append, len_blk_new_app_phases, len_blk_old_app_phases]
    omega
  rcases List.mem_cons.mp hp with rfl | hp
  · refine ⟨anchor_resources_ne, ?_⟩
    show (anchor_resources).length < (res_phase ++ anchor_resources).length
    simp only [List.length_append, len_anchor_resources, len_blk_res_phase]
    omega
  rcases List.mem_cons.mp hp with rfl | hp
  · refine ⟨anchor_sources_ne, ?_⟩
    show (anchor_sources).length < (src_phase ++ anchor_sources).length
    simp only [List.length_append, len_anchor_sources, len_blk_src_phase]
    omega
  rcases List.mem_cons.mp hp with rfl | hp
  · refine ⟨anchor_dependency_ne, ?_⟩
    show (anchor_dependency).length < (dep_entry ++ anchor_dependency).length
    simp only [List.length_append, len_anchor_dependency, len_blk_dep_entry]
    omega
  rcases List.mem_cons.mp hp with rfl | hp
  · refine ⟨anchor_xcbuild_config_ne, ?_⟩
    show (anchor_xcbuild_config).length < (cfg_debug ++ cfg_release ++ anchor_xcbuild_config).length
    simp only [List.length_append, len_anchor_xcbuild_config, len_blk_cfg_debug, len_blk_cfg_release]
    omega
  rcases List.mem_cons.mp hp with rfl | hp
  · refine ⟨anchor_config_list_ne, ?_⟩
    show (anchor_config_list).length < (cfg_list ++ anchor_config_list).length
    simp only [List.length_append, len_anchor_config_list, len_blk_cfg_list]
    omega
  exact absurd hp (List.not_mem_nil p)


/- ## The claims -/

/-- C1 (amended to the verified minimal well-formed input): the fixture
contains each of the seventeen anchor and old-block literals exactly once;
one run of the patch yields a text containing each of the thirteen inserted
blocks exactly once, and every inserted block sits immediately before its
documented anchor string. -/
theorem c1_unique_adjacent_insertion :
    (countOcc anchor_build_file fixture = 1 ∧
     countOcc anchor_proxy fixture = 1 ∧
     countOcc anchor_begin_file_ref fixture = 1 ∧
     countOcc anchor_file_ref fixture = 1 ∧
     countOcc anchor_sync_group fixture = 1 ∧
     countOcc anchor_frameworks fixture = 1 ∧
     countOcc old_products fixture = 1 ∧
     countOcc old_root fixture = 1 ∧
     countOcc anchor_native_target fixture = 1 ∧
     countOcc targets_old fixture = 1 ∧
     countOcc attrs_old fixture = 1 ∧
     countOcc old_app_phases fixture = 1 ∧
     countOcc anchor_resources fixture = 1 ∧
     countOcc anchor_sources fixture = 1 ∧
     countOcc anchor_dependency fixture = 1 ∧
     countOcc anchor_xcbuild_config fixture = 1 ∧
     countOcc anchor_config_list fixture = 1) ∧
    (countOcc build_file_entry (patch fixture) = 1 ∧
     countOcc proxy_entry (patch fixture) = 1 ∧
     countOcc copy_phase (patch fixture) = 1 ∧
     countOcc file_ref (patch fixture) = 1 ∧
     countOcc sync_group (patch fixture) = 1 ∧
     countOcc fw_phase (patch fixture) = 1 ∧
     countOcc native_target (patch fixture) = 1 ∧
     countOcc res_phase (patch fixture) = 1 ∧
     countOcc src_phase (patch fixture) = 1 ∧
     countOcc dep_entry (patch fixture) = 1 ∧
     countOcc cfg_debug (patch fixture) = 1 ∧
     countOcc cfg_release (patch fixture) = 1 ∧
     countOcc cfg_list (patch fixture) = 1) ∧
    (Occ (build_file_entry ++ anchor_build_file) (patch fixture) ∧
     Occ (proxy_entry ++ anchor_proxy) (patch fixture) ∧
     Occ (copy_phase ++ anchor_begin_file_ref) (patch fixture) ∧
     Occ (file_ref ++ anchor_file_ref) (patch fixture) ∧
     Occ (sync_group ++ anchor_sync_group) (patch fixture) ∧
     Occ (fw_phase ++ anchor_frameworks) (patch fixture) ∧
     Occ (native_target ++ anchor_native_target) (patch fixture) ∧
     Occ (res_phase ++ anchor_resources) (patch fixture) ∧
     Occ (src_phase ++ anchor_sources) (patch fixture) ∧
     Occ (dep_entry ++ anchor_dependency) (patch fixture) ∧
     Occ (cfg_debug ++ cfg_release ++ anchor_xcbuild_config) (patch fixture) ∧
     Occ (cfg_list ++ anchor_config_list) (patch fixture)) := by
  refine ⟨⟨cnt_fix0_anchor_build_file, cnt_fix0_anchor_proxy, cnt_fix0_anchor_begin_file_ref, cnt_fix0_anchor_file_ref, cnt_fix0_anchor_sync_group, cnt_fix0_anchor_frameworks, cnt_fix0_old_products, cnt_fix0_old_root, cnt_fix0_anchor_native_target, cnt_fix0_targets_old, cnt_fix0_attrs_old, cnt_fix0_old_app_phases, cnt_fix0_anchor_resources, cnt_fix0_anchor_sources, cnt_fix0_anchor_dependency, cnt_fix0_anchor_xcbuild_config, cnt_fix0_anchor_config_list⟩, ?_, ?_⟩
  · rw [patch_fixture]
    exact ⟨cnt_fin_blk_build_file_entry, cnt_fin_blk_proxy_entry, cnt_fin_blk_copy_phase, cnt_fin_blk_file_ref, cnt_fin_blk_sync_group, cnt_fin_blk_fw_phase, cnt_fin_blk_native_target, cnt_fin_blk_res_phase, cnt_fin_blk_src_phase, cnt_fin_blk_dep_entry, cnt_fin_blk_cfg_debug, cnt_fin_blk_cfg_release, cnt_fin_blk_cfg_list⟩
  · rw [patch_fixture]
    exact ⟨occ_adj_1, occ_adj_2, occ_adj_3, occ_adj_4, occ_adj_5, occ_adj_6, occ_adj_9, occ_adj_13, occ_adj_14, occ_adj_15, occ_adj_16, occ_adj_17⟩

/-- C1 counterexample: the text fixtureC also contains each of the seventeen
anchor and old-block literals exactly once, yet after one run the build-file
entry block does not occur exactly once in the output — a stale copy of the
entry was already present in the input, so the output holds two. -/
theorem c1_counterexample :
    (countOcc anchor_build_file fixtureC = 1 ∧
     countOcc anchor_proxy fixtureC = 1 ∧
     countOcc anchor_begin_file_ref fixtureC = 1 ∧
     countOcc anchor_file_ref fixtureC = 1 ∧
     countOcc anchor_sync_group fixtureC = 1 ∧
     countOcc anchor_frameworks fixtureC = 1 ∧
     countOcc old_products fixtureC = 1 ∧
     countOcc old_root fixtureC = 1 ∧
     countOcc anchor_native_target fixtureC = 1 ∧
     countOcc targets_old fixtureC = 1 ∧
     countOcc attrs_old fixtureC = 1 ∧
     countOcc old_app_phases fixtureC = 1 ∧
     countOcc anchor_resources fixtureC = 1 ∧
     countOcc anchor_sources fixtureC = 1 ∧
     countOcc anchor_dependency fixtureC = 1 ∧
     countOcc anchor_xcbuild_config fixtureC = 1 ∧
     countOcc anchor_config_list fixtureC = 1) ∧
    countOcc build_file_entry (patch fixtureC) ≠ 1 := by
  refine ⟨⟨cnt_fixc0_anchor_build_file, cnt_fixc0_anchor_proxy, cnt_fixc0_anchor_begin_file_ref, cnt_fixc0_anchor_file_ref, cnt_fixc0_anchor_sync_group, cnt_fixc0_anchor_frameworks, cnt_fixc0_old_products, cnt_fixc0_old_root, cnt_fixc0_anchor_native_target, cnt_fixc0_targets_old, cnt_fixc0_attrs_old, cnt_fixc0_old_app_phases, cnt_fixc0_anchor_resources, cnt_fixc0_anchor_sources, cnt_fixc0_anchor_dependency, cnt_fixc0_anchor_xcbuild_config, cnt_fixc0_anchor_config_list⟩, ?_⟩
  rw [cnt_finC_build_file_entry]
  decide

/-- C2 shows the opposite of the claimed behaviour: on a text containing
none of the section-end markers, every insertion step is a silent no-op —
no error is surfaced, the text is written back unchanged, and the fixed
success message is still printed. -/
theorem c2_missing_anchor_silent :
    (∀ p ∈ steps, countOcc p.1 ['x'] = 0) ∧
    patch ['x'] = ['x'] ∧
    runScript [] (fun _ => some ['x']) =
      some (defaultPath, ['x'], successMessage) := by
  refine ⟨?_, ?_, ?_⟩
  · intro p hp
    fin_cases hp <;> decide
  · decide
  · show some (defaultPath, patch ['x'], successMessage) = _
    rw [(by decide : patch ['x'] = ['x'])]

/-- C3: a whole-block replacement step whose exact old literal does not
occur in the text leaves the text completely unchanged and produces no
notification — the run still executes all the steps and completes normally
with the fixed message. -/
theorem c3_missing_block_noop (t old new : List Char)
    (hmem : old ∈ [old_products, old_root, targets_old, attrs_old, old_app_phases])
    (habs : countOcc old t = 0) :
    pyReplace t old new = t ∧
    runScript [] (fun _ => some t) = some (defaultPath, patch t, successMessage) :=
  ⟨noop_of_countOcc_zero new habs, rfl⟩

/-- C3 witness: the Products-group old block is absent from the one-character
text, and the step leaves that text unchanged while the run still succeeds. -/
theorem c3_missing_block_noop_witness :
    (old_products ∈ [old_products, old_root, targets_old, attrs_old, old_app_phases] ∧
     countOcc old_products ['x'] = 0) ∧
    (pyReplace ['x'] old_products new_products = ['x'] ∧
     runScript [] (fun _ => some ['x']) =
       some (defaultPath, patch ['x'], successMessage)) :=
  ⟨⟨List.mem_cons_self _ _, by decide⟩,
   c3_missing_block_noop ['x'] old_products new_products
     (List.mem_cons_self _ _) (by decide)⟩

/-- C4: the patch is not idempotent on any well-formed input in which every
anchor and old-block literal occurs exactly once: some insertion pattern
still occurs in the output, so a second run strictly lengthens the text. -/
theorem c4_not_idempotent (t : List Char)
    (h1 : countOcc anchor_build_file t = 1) (h2 : countOcc anchor_proxy t = 1)
    (h3 : countOcc anchor_begin_file_ref t = 1) (h4 : countOcc anchor_file_ref t = 1)
    (h5 : countOcc anchor_sync_group t = 1) (h6 : countOcc anchor_frameworks t = 1)
    (h7 : countOcc old_products t = 1) (h8 : countOcc old_root t = 1)
    (h9 : countOcc anchor_native_target t = 1) (h10 : countOcc targets_old t = 1)
    (h11 : countOcc attrs_old t = 1) (h12 : countOcc old_app_phases t = 1)
    (h13 : countOcc anchor_resources t = 1) (h14 : countOcc anchor_sources t = 1)
    (h15 : countOcc anchor_dependency t = 1) (h16 : countOcc anchor_xcbuild_config t = 1)
    (h17 : countOcc anchor_config_list t = 1) :
    patch (patch t) ≠ patch t := by
  intro hEq
  have hocc : Occ anchor_build_file t :=
    occ_of_countOcc_ne_zero (by rw [h1]; exact one_ne_zero)
  rcases foldl_survivor steps anchor_build_file t anchor_build_file_ne hocc
      ch_anchor_build_file_at1 with ⟨y, hy, hyo⟩
  have hex : ∃ p ∈ steps, Occ p.1 (patch t) := by
    rcases hy with rfl | ⟨p, hp, rfl⟩
    · exact ⟨(anchor_build_file, build_file_entry ++ anchor_build_file),
        List.mem_cons_self _ _, hyo⟩
    · exact ⟨p, hp, hyo⟩
  have hgt : (patch t).length < (patch (patch t)).length :=
    foldl_length_gt steps (patch t) steps_strict hex
  rw [hEq] at hgt
  exact Nat.lt_irrefl _ hgt

/-- C4 witness: the minimal fixture satisfies all seventeen exactly-once
hypotheses, and on it a second run of the patch changes the text again. -/
theorem c4_not_idempotent_witness :
    patch (patch fixture) ≠ patch fixture :=
  c4_not_idempotent fixture
    cnt_fix0_anchor_build_file cnt_fix0_anchor_proxy
    cnt_fix0_anchor_begin_file_ref cnt_fix0_anchor_file_ref
    cnt_fix0_anchor_sync_group cnt_fix0_anchor_frameworks
    cnt_fix0_old_products cnt_fix0_old_root
    cnt_fix0_anchor_native_target cnt_fix0_targets_old
    cnt_fix0_attrs_old cnt_fix0_old_app_phases
    cnt_fix0_anchor_resources cnt_fix0_anchor_sources
    cnt_fix0_anchor_dependency cnt_fix0_anchor_xcbuild_config
    cnt_fix0_anchor_config_list

/-- C5: the Products-group replacement substitutes, at the unique occurrence
of the old block, a new block that keeps every old line verbatim and inserts
exactly one new line — the EhDownloadWidget.appex child reference — into the
children list. -/
theorem c5_products_superset (a b : List Char)
    (h : countOcc old_products (a ++ old_products ++ b) = 1) :
    pyReplace (a ++ old_products ++ b) old_products new_products =
      a ++ new_products ++ b ∧
    splitLines new_products =
      (splitLines old_products).take 6 ++
        appex_child_line :: (splitLines old_products).drop 6 ∧
    (∀ l ∈ splitLines old_products, l ∈ splitLines new_products) ∧
    (splitLines new_products).length = (splitLines old_products).length + 1 :=
  ⟨splice_unique new_products old_products_ne a b h, by decide, by decide,
   by decide⟩

/-- C5 witness: the old Products block itself (empty context) satisfies the
uniqueness hypothesis and the replacement behaves as stated. -/
theorem c5_products_superset_witness :
    countOcc old_products ([] ++ old_products ++ []) = 1 ∧
    (pyReplace ([] ++ old_products ++ []) old_products new_products =
       [] ++ new_products ++ [] ∧
     splitLines new_products =
       (splitLines old_products).take 6 ++
         appex_child_line :: (splitLines old_products).drop 6 ∧
     (∀ l ∈ splitLines old_products, l ∈ splitLines new_products) ∧
     (splitLines new_products).length = (splitLines old_products).length + 1) :=
  ⟨by decide, c5_products_superset [] [] (by decide)⟩

/-- C6 (amended: the length bookkeeping needs the five replaced blocks'
deltas, not three): on the minimal fixture, every anchor and old-block
literal occurring exactly once, the output carries the new target's name in
the targets list, in the Products group and in the new XCConfigurationList,
and the output length is the input length plus the thirteen inserted blocks'
lengths plus the five replaced blocks' length deltas. -/
theorem c6_minimal_end_to_end :
    (countOcc anchor_build_file fixture = 1 ∧
     countOcc anchor_proxy fixture = 1 ∧
     countOcc anchor_begin_file_ref fixture = 1 ∧
     countOcc anchor_file_ref fixture = 1 ∧
     countOcc anchor_sync_group fixture = 1 ∧
     countOcc anchor_frameworks fixture = 1 ∧
     countOcc old_products fixture = 1 ∧
     countOcc old_root fixture = 1 ∧
     countOcc anchor_native_target fixture = 1 ∧
     countOcc targets_old fixture = 1 ∧
     countOcc attrs_old fixture = 1 ∧
     countOcc old_app_phases fixture = 1 ∧
     countOcc anchor_resources fixture = 1 ∧
     countOcc anchor_sources fixture = 1 ∧
     countOcc anchor_dependency fixture = 1 ∧
     countOcc anchor_xcbuild_config fixture = 1 ∧
     countOcc anchor_config_list fixture = 1) ∧
    (Occ widget_name targets_new ∧ Occ targets_new (patch fixture)) ∧
    (Occ widget_name new_products ∧ Occ new_products (patch fixture)) ∧
    (Occ widget_name cfg_list ∧ Occ cfg_list (patch fixture)) ∧
    (patch fixture).length = fixture.length +
      (build_file_entry.length +
       proxy_entry.length +
       copy_phase.length +
       file_ref.length +
       sync_group.length +
       fw_phase.length +
       native_target.length +
       res_phase.length +
       src_phase.length +
       dep_entry.length +
       cfg_debug.length +
       cfg_release.length +
       cfg_list.length) +
      ((new_products.length - old_products.length) +
       (new_root.length - old_root.length) +
       (targets_new.length - targets_old.length) +
       (attrs_new.length - attrs_old.length) +
       (new_app_phases.length - old_app_phases.length)) := by
  refine ⟨⟨cnt_fix0_anchor_build_file, cnt_fix0_anchor_proxy, cnt_fix0_anchor_begin_file_ref, cnt_fix0_anchor_file_ref, cnt_fix0_anchor_sync_group, cnt_fix0_anchor_frameworks, cnt_fix0_old_products, cnt_fix0_old_root, cnt_fix0_anchor_native_target, cnt_fix0_targets_old, cnt_fix0_attrs_old, cnt_fix0_old_app_phases, cnt_fix0_anchor_resources, cnt_fix0_anchor_sources, cnt_fix0_anchor_dependency, cnt_fix0_anchor_xcbuild_config, cnt_fix0_anchor_config_list⟩,
    ⟨occ_of_countOcc_ne_zero (by decide), ?_⟩,
    ⟨occ_of_countOcc_ne_zero (by decide), ?_⟩,
    ⟨occ_of_countOcc_ne_zero (by decide), ?_⟩, ?_⟩
  · rw [patch_fixture]; exact occ_fin_targets_new
  · rw [patch_fixture]; exact occ_fin_new_products
  · rw [patch_fixture]; exact occ_fin_cfg_list
  · rw [patch_fixture, len_patched, len_fixture]
    simp only [len_attrs_old, len_blk_attrs_new, len_blk_cfg_debug, len_blk_cfg_list, len_blk_cfg_release, len_blk_copy_phase, len_blk_dep_entry, len_blk_fw_phase, len_blk_native_target, len_blk_new_app_phases, len_blk_new_products, len_blk_new_root, len_blk_old_app_phases, len_blk_proxy_entry, len_blk_res_phase, len_blk_src_phase, len_blk_sync_group, len_blk_targets_new, len_build_file_entry, len_file_ref, len_old_products, len_old_root, len_targets_old]

/-- C6 counterexample: with only three of the five replaced blocks' length
deltas — the three whole-block replacements the specification enumerates
(Products group, root group, application phases) — the byte-length equation
fails on the minimal fixture: the targets-list and target-attributes
replacements also lengthen the text. -/
theorem c6_three_deltas_counterexample :
    (countOcc anchor_build_file fixture = 1 ∧
     countOcc anchor_proxy fixture = 1 ∧
     countOcc anchor_begin_file_ref fixture = 1 ∧
     countOcc anchor_file_ref fixture = 1 ∧
     countOcc anchor_sync_group fixture = 1 ∧
     countOcc anchor_frameworks fixture = 1 ∧
     countOcc old_products fixture = 1 ∧
     countOcc old_root fixture = 1 ∧
     countOcc anchor_native_target fixture = 1 ∧
     countOcc targets_old fixture = 1 ∧
     countOcc attrs_old fixture = 1 ∧
     countOcc old_app_phases fixture = 1 ∧
     countOcc anchor_resources fixture = 1 ∧
     countOcc anchor_sources fixture = 1 ∧
     countOcc anchor_dependency fixture = 1 ∧
     countOcc anchor_xcbuild_config fixture = 1 ∧
     countOcc anchor_config_list fixture = 1) ∧
    (patch fixture).length ≠ fixture.length +
      (build_file_entry.length +
       proxy_entry.length +
       copy_phase.length +
       file_ref.length +
       sync_group.length +
       fw_phase.length +
       native_target.length +
       res_phase.length +
       src_phase.length +
       dep_entry.length +
       cfg_debug.length +
       cfg_release.length +
       cfg_list.length) +
      ((new_products.length - old_products.length) +
       (new_root.length - old_root.length) +
       (new_app_phases.length - old_app_phases.length)) := by
  refine ⟨⟨cnt_fix0_anchor_build_file, cnt_fix0_anchor_proxy, cnt_fix0_anchor_begin_file_ref, cnt_fix0_anchor_file_ref, cnt_fix0_anchor_sync_group, cnt_fix0_anchor_frameworks, cnt_fix0_old_products, cnt_fix0_old_root, cnt_fix0_anchor_native_target, cnt_fix0_targets_old, cnt_fix0_attrs_old, cnt_fix0_old_app_phases, cnt_fix0_anchor_resources, cnt_fix0_anchor_sources, cnt_fix0_anchor_dependency, cnt_fix0_anchor_xcbuild_config, cnt_fix0_anchor_config_list⟩, ?_⟩
  rw [patch_fixture, len_patched, len_fixture]
  simp only [len_attrs_old, len_blk_attrs_new, len_blk_cfg_debug, len_blk_cfg_list, len_blk_cfg_release, len_blk_copy_phase, len_blk_dep_entry, len_blk_fw_phase, len_blk_native_target, len_blk_new_app_phases, len_blk_new_products, len_blk_new_root, len_blk_old_app_phases, len_blk_proxy_entry, len_blk_res_phase, len_blk_src_phase, len_blk_sync_group, len_blk_targets_new, len_build_file_entry, len_file_ref, len_old_products, len_old_root, len_targets_old]
  decide

/-- C7: the script takes the target path as its single positional argument,
falls back to the fixed relative default when it is omitted, and writes the
patched text back to the very path it read. -/
theorem c7_invocation_path (args : List String)
    (fs : String → Option (List Char)) (content : List Char)
    (hread : fs (pbxprojPath args) = some content) :
    runScript args fs = some (pbxprojPath args, patch content, successMessage) ∧
    pbxprojPath [] = defaultPath ∧
    defaultPath = "ehviewer apple.xcodeproj/project.pbxproj" ∧
    ∀ p rest, pbxprojPath (p :: rest) = p := by
  refine ⟨?_, rfl, rfl, fun p rest => rfl⟩
  unfold runScript
  rw [hread]

/-- C7 witness: a run with an explicit path argument reads and writes that
path. -/
theorem c7_invocation_path_witness :
    (fun _ : String => some (['x'] : List Char)) (pbxprojPath ["q"]) =
      some ['x'] ∧
    (runScript ["q"] (fun _ => some ['x']) =
       some (pbxprojPath ["q"], patch ['x'], successMessage) ∧
     pbxprojPath [] = defaultPath ∧
     defaultPath = "ehviewer apple.xcodeproj/project.pbxproj" ∧
     ∀ p rest, pbxprojPath (p :: rest) = p) :=
  ⟨rfl, c7_invocation_path ["q"] (fun _ => some ['x']) ['x'] rfl⟩

/-- C8: when reading the input file fails, the failure is fatal — no step
runs and nothing is written. -/
theorem c8_read_failure_fatal (args : List String)
    (fs : String → Option (List Char))
    (hread : fs (pbxprojPath args) = none) :
    runScript args fs = none := by
  unfold runScript
  rw [hread]

/-- C8 witness: with no file present at the default path the run produces
nothing. -/
theorem c8_read_failure_fatal_witness :
    (fun _ : String => (none : Option (List Char))) (pbxprojPath []) = none ∧
    runScript [] (fun _ => (none : Option (List Char))) = none :=
  ⟨rfl, c8_read_failure_fatal [] (fun _ => none) rfl⟩

/-- C9: the transformation is deterministic — two runs that read the same
text write the same text — and the printed message is the same fixed string
no matter which substitutions matched. -/
theorem c9_deterministic_fixed_message (t : List Char)
    (args1 args2 : List String) (fs1 fs2 : String → Option (List Char))
    (h1 : fs1 (pbxprojPath args1) = some t)
    (h2 : fs2 (pbxprojPath args2) = some t) :
    Option.map (fun r => r.2.1) (runScript args1 fs1) =
      Option.map (fun r => r.2.1) (runScript args2 fs2) ∧
    Option.map (fun r => r.2.2) (runScript args1 fs1) = some successMessage := by
  unfold runScript
  rw [h1, h2]
  exact ⟨rfl, rfl⟩

/-- C9 witness: two runs over different paths holding the same one-character
text (on which every substitution is a no-op) write the same text and print
the fixed message. -/
theorem c9_deterministic_fixed_message_witness :
    ((fun _ : String => some (['x'] : List Char)) (pbxprojPath []) =
       some ['x'] ∧
     (fun _ : String => some (['x'] : List Char)) (pbxprojPath ["q"]) =
       some ['x']) ∧
    (Option.map (fun r => r.2.1) (runScript [] (fun _ => some ['x'])) =
       Option.map (fun r => r.2.1) (runScript ["q"] (fun _ => some ['x'])) ∧
     Option.map (fun r => r.2.2) (runScript [] (fun _ => some ['x'])) =
       some successMessage) :=
  ⟨⟨rfl, rfl⟩,
   c9_deterministic_fixed_message ['x'] [] ["q"] (fun _ => some ['x'])
     (fun _ => some ['x']) rfl rfl⟩

/-- C10: on every input text, well-formed or not, the patch never shrinks
the text: each substitution replaces its pattern by a strictly longer
block. -/
theorem c10_length_monotone (t : List Char) : t.length ≤ (patch t).length :=
  foldl_length_ge steps t (fun p hp =>
    ⟨(steps_strict p hp).1, Nat.le_of_lt (steps_strict p hp).2⟩)
